import Mathlib

/-! # Ship simulation core (`src/trunk/Ship.cpp`): a shallow embedding

Modelling conventions.

* `double` is modelled by `ℚ` with exact arithmetic (no rounding, no NaN, no
  infinities). A quotient by zero is `0` in the model, whereas the source
  yields an infinity or NaN; no theorem below relies on such a quotient.
  The one place where a property turns on the rounding itself is the heat
  retention factor that `Load` computes: `loadHeatDissipationRounded` is that
  computation with every literal and every result rounded to 53 significant
  bits by `roundDouble`.
* `int` is modelled by `ℤ`; `static_cast<int>(double)` truncates toward zero
  and `/` on `int` is `Int.tdiv`.
* A pointer is an `Option`; systems, planets, governments and ships that are
  referred to by pointer are named by identifiers. A `weak_ptr<Ship>` is an
  `Option ShipId`, resolved through `World.ships`; a `shared_ptr<Ship>` held
  by a bay is the docked ship's value.
* Classes whose source is not part of `Ship.cpp` (`Point`, `Angle`, `Outfit`,
  `Planet`, `System`, `Government`, `Command`, `Random`) appear through the
  members that `Ship.cpp` calls, as structure fields or as parameters.
* The map `outfits` is a partial function from outfit identifiers to counts;
  the outfit objects behind the pointers and `Outfit::Add` are parameters
  (`Catalogue`). The armament and the cargo hold are not modelled; of `Fire`
  only the presence mark and the projectile of the death explosion are.
* The visual effect list written by `Move` is an output only and is left out;
  the random draws that decide the control flow are parameters.
-/

namespace EndlessSky

/-! ## Collaborator types -/

/-- Identifier standing for a `const System *` target. -/
abbrev SystemId := Nat
/-- Identifier standing for a `const Planet *` target. -/
abbrev PlanetId := Nat
/-- Identifier standing for a `const Government *` target. -/
abbrev GovId := Nat
/-- Identity of a `Ship` object, what a `weak_ptr<Ship>` refers to. -/
abbrev ShipId := Nat
/-- Identifier standing for a `const Outfit *` target. -/
abbrev OutfitId := Nat

/-- The class `Point`: a pair of `double` coordinates. -/
structure Point where
  x : ℚ := 0
  y : ℚ := 0
deriving DecidableEq

namespace Point
/-- Coordinate-wise sum, `operator+`. -/
def add (p q : Point) : Point := ⟨p.x + q.x, p.y + q.y⟩
/-- Coordinate-wise difference, `operator-`. -/
def sub (p q : Point) : Point := ⟨p.x - q.x, p.y - q.y⟩
/-- Product with a scalar, `operator*`. -/
def scale (p : Point) (k : ℚ) : Point := ⟨p.x * k, p.y * k⟩
end Point

/-- The class `Angle`, as a number of degrees. -/
abbrev Angle := ℚ

/-- The functions of `Point`, `Angle` and `<cmath>` that `Ship.cpp` calls and
whose code is outside it. -/
structure Geometry where
  sqrt : ℚ → ℚ
  length : Point → ℚ
  unit : Point → Point
  cross : Point → Point → ℚ
  angleUnit : Angle → Point
  rotate : Angle → Point → Point

/-- The class `Outfit` as `Ship.cpp` reads it: a category, two bags of
named numbers, `Get` and `WeaponGet`, that answer `0` for an unknown name,
`IsWeapon()` and the pointer `Ammo()`. -/
structure Outfit where
  category : String := ""
  get : String → ℚ := fun _ => 0
  weaponGet : String → ℚ := fun _ => 0
  isWeapon : Bool := false
  ammo : Option OutfitId := none

/-- The class `Personality` as `Ship.cpp` reads it. -/
structure Personality where
  isFleeing : Bool := false
  isDerelict : Bool := false
  isForbearing : Bool := false
deriving DecidableEq

/-- The class `Command` as `Ship.cpp` reads it: one flag per discrete command
and the turn amount. -/
structure Command where
  land : Bool := false
  jump : Bool := false
  cloak : Bool := false
  forward : Bool := false
  back : Bool := false
  afterburner : Bool := false
  board : Bool := false
  deploy : Bool := false
  scan : Bool := false
  turn : ℚ := 0
deriving DecidableEq

/-- The class `StellarObject` as `Ship.cpp` reads it. -/
structure StellarObject where
  planet : Option PlanetId := none
  position : Point := {}
  radius : ℚ := 0
deriving DecidableEq

/-- The class `Projectile` as `TakeDamage` reads it. -/
structure Projectile where
  weapon : Outfit := {}
  position : Point := {}
  government : Option GovId := none

/-- The member `Ship::Bay`: a hardpoint and the craft docked there, if any. -/
structure Bay (σ : Type) where
  point : Point := {}
  ship : Option σ := none

/-! ## The ship -/

/-- The data members of `Ship` other than the two bay vectors. -/
structure ShipCore where
  self : ShipId := 0
  government : Option GovId := none
  isSpecial : Bool := false
  personality : Personality := {}
  commands : Command := {}
  attributes : Outfit := {}
  cargoUsed : ℚ := 0
  heatDissipation : ℚ := 999 / 1000
  position : Point := {}
  velocity : Point := {}
  angle : Angle := 0
  zoom : ℚ := 1
  hull : ℚ := 0
  shields : ℚ := 0
  energy : ℚ := 0
  fuel : ℚ := 0
  heat : ℚ := 0
  crew : Int := 0
  cloak : ℚ := 0
  currentSystem : Option SystemId := none
  landingPlanet : Option PlanetId := none
  destination : Option PlanetId := none
  hyperspaceSystem : Option SystemId := none
  hyperspaceCount : Int := 0
  hyperspaceOffset : Point := {}
  targetSystem : Option SystemId := none
  targetPlanet : Option StellarObject := none
  targetShip : Option ShipId := none
  shipToAssist : Option ShipId := none
  parent : Option ShipId := none
  escorts : List ShipId := []
  forget : Int := 0
  isInSystem : Bool := true
  isOverheated : Bool := false
  isDisabled : Bool := false
  isBoarding : Bool := false
  hasBoarded : Bool := false
  pilotError : Int := 0
  pilotOkay : Int := 0
  explosionRate : Int := 0
  explosionCount : Int := 0
  explosionTotal : Int := 0
  outfits : OutfitId → Option Int := fun _ => none
  baseAttributes : Outfit := {}
  explosionWeapon : Option Outfit := none

/-- The class `Ship`: its data members and its fighter and drone bays, each
bay holding the docked ship itself. -/
inductive Ship where
  | mk (core : ShipCore) (fighterBays : List (Bay Ship)) (droneBays : List (Bay Ship))

namespace Ship

/-- The data members of a ship. -/
def core : Ship → ShipCore
  | mk c _ _ => c
/-- The member `fighterBays`. -/
def fighterBays : Ship → List (Bay Ship)
  | mk _ f _ => f
/-- The member `droneBays`. -/
def droneBays : Ship → List (Bay Ship)
  | mk _ _ d => d

end Ship

/-- What the rest of the game answers when `Ship.cpp` asks: planets, systems,
governments, and the ships that weak references resolve to. -/
structure World where
  planetIsWormhole : PlanetId → Bool := fun _ => false
  planetHasSpaceport : PlanetId → Bool := fun _ => false
  wormholeDestination : PlanetId → Option SystemId → Option SystemId := fun _ s => s
  planetCanLand : PlanetId → Ship → Bool := fun _ _ => true
  systemObjects : SystemId → List StellarObject := fun _ => []
  systemPosition : SystemId → Point := fun _ => {}
  isEnemy : GovId → Option GovId → Bool := fun _ _ => false
  ships : ShipId → Option Ship := fun _ => none

/-- The outfit objects that `const Outfit *` pointers refer to, and the member
`Outfit::Add(other, count)`, whose code is outside `Ship.cpp`. -/
structure Catalogue where
  outfit : OutfitId → Outfit := fun _ => {}
  add : Outfit → Outfit → Int → Outfit := fun a _ _ => a

/-- The `ShipEvent` bits that `TakeDamage` can return, one flag per bit. -/
structure DamageEvents where
  disable : Bool := false
  destroy : Bool := false
  provoke : Bool := false
deriving DecidableEq

/-- Conversion `static_cast<int>(double)`: truncation toward zero. -/
def truncInt (q : ℚ) : Int := Int.tdiv q.num q.den

/-! ## Accessors and small members -/

namespace Ship

/-- `Ship::IsDestroyed` (line 1243): `hull < 0.`. -/
def IsDestroyed (c : ShipCore) : Bool := decide (c.hull < 0)

/-- `Ship::RequiredCrew` (line 1308). -/
def RequiredCrew (c : ShipCore) : Int :=
  max (if c.attributes.category = "Drone" then 0 else 1)
    (truncInt (c.attributes.get "required crew"))

/-- `Ship::Crew` (line 1301). -/
def Crew (c : ShipCore) : Int := c.crew

/-- `Ship::AddCrew` (line 1317). -/
def AddCrew (c : ShipCore) (count : Int) : ShipCore := { c with crew := c.crew + count }

/-- `Ship::MinimumHull` (line 1723). -/
def MinimumHull (c : ShipCore) : ℚ :=
  have maximumHull := c.attributes.get "hull"
  max (20 / 100 * maximumHull) (min (50 / 100 * maximumHull) 400)

/-- `Ship::IsDisabled` (line 1037). -/
def IsDisabled (c : ShipCore) : Bool :=
  have minimumHull := MinimumHull c
  have needsCrew := decide (RequiredCrew c ≠ 0)
  decide (c.hull < minimumHull) || (decide (c.crew = 0) && needsCrew)

/-- `Ship::Shields` (line 1251). -/
def Shields (c : ShipCore) : ℚ :=
  have maximum := c.attributes.get "shields"
  if maximum ≠ 0 then min 1 (c.shields / maximum) else 0

/-- `Ship::Hull` (line 1259). -/
def Hull (c : ShipCore) : ℚ :=
  have maximum := c.attributes.get "hull"
  if maximum ≠ 0 then min 1 (c.hull / maximum) else 1

/-- `Ship::CannotAct` (line 1716). -/
def CannotAct (c : ShipCore) : Bool :=
  decide (c.zoom ≠ 1) || c.isDisabled || decide (c.hyperspaceCount ≠ 0)
    || decide (c.pilotError ≠ 0) || decide (c.cloak ≠ 0)

/-- `Ship::IsFighter` (line 1561). -/
def IsFighter (c : ShipCore) : Bool :=
  decide (c.attributes.category = "Fighter") || decide (c.attributes.category = "Drone")

/-- `Ship::MaxVelocity` (line 1415). -/
def MaxVelocity (c : ShipCore) : ℚ := c.attributes.get "thrust" / c.attributes.get "drag"

mutual
/-- `Ship::Mass` (line 1387): carried drones, carried fighters, cargo and the
`"mass"` attribute. -/
def Mass : Ship → ℚ
  | mk c f d => carriedMass d + carriedMass f + c.cargoUsed + c.attributes.get "mass"
/-- The loops of `Ship::Mass` over one bay vector. -/
def carriedMass : List (Bay Ship) → ℚ
  | [] => 0
  | b :: bs => bayMass b + carriedMass bs
/-- One step of the loops of `Ship::Mass`: an empty bay carries nothing. -/
def bayMass : Bay Ship → ℚ
  | ⟨_, none⟩ => 0
  | ⟨_, some s⟩ => Mass s
end

/-- `Ship::TurnRate` (line 1401). -/
def TurnRate (s : Ship) : ℚ := s.core.attributes.get "turn" / Mass s

/-- `Ship::Unit` (line 1202). -/
def Unit (g : Geometry) (c : ShipCore) : Point := (g.angleUnit c.angle).scale (c.zoom * (1 / 2))

/-- `Ship::ApplyForce` (line 1482), given the current `Mass()`. -/
def ApplyForce (g : Geometry) (currentMass : ℚ) (c : ShipCore) (force : Point) : ShipCore :=
  if currentMass = 0 then c
  else
    have c := { c with velocity := c.velocity.add (force.scale (1 / currentMass)) }
    have maxVelocity := MaxVelocity c
    have currentVelocity := g.length c.velocity
    if currentVelocity > maxVelocity then
      { c with velocity := c.velocity.scale (maxVelocity / currentVelocity) }
    else c

/-- `Ship::TransferFuel` (line 1332): returns the amount moved, the source and
the recipient. -/
def TransferFuel (c : ShipCore) (amount : ℚ) (recipient : Option ShipCore) :
    ℚ × ShipCore × Option ShipCore :=
  have amount := max (c.fuel - c.attributes.get "fuel capacity") amount
  match recipient with
  | some t =>
    have amount := min (t.attributes.get "fuel capacity" - t.fuel) amount
    (amount, { c with fuel := c.fuel - amount }, some { t with fuel := t.fuel + amount })
  | none => (amount, { c with fuel := c.fuel - amount }, none)

/-- `Ship::SetSystem` (line 321). -/
def SetSystem (c : ShipCore) (system : Option SystemId) : ShipCore :=
  { c with currentSystem := system }

/-- `Ship::SetPlanet` (line 328). -/
def SetPlanet (c : ShipCore) (planet : Option PlanetId) : ShipCore :=
  { c with zoom := 0, landingPlanet := planet, destination := none }

/-- `Ship::SetParent` (line 1844). -/
def SetParent (c : ShipCore) (ship : Option ShipId) : ShipCore :=
  { c with parent := ship, targetShip := none, targetPlanet := none, targetSystem := none }

/-- `Ship::AddEscort` (line 1837). -/
def AddEscort (c : ShipCore) (ship : ShipId) : ShipCore :=
  { c with escorts := c.escorts ++ [ship] }

/-- `Ship::Place` (line 295); the sprite swizzle is display state and is left
out. -/
def Place (c : ShipCore) (position velocity : Point) (angle : Angle) : ShipCore :=
  have c := { c with position := position, velocity := velocity, angle := angle }
  have c := if c.landingPlanet.isSome then { c with landingPlanet := none }
    else { c with zoom := 1 }
  { c with forget := 1 }

/-! ## TakeDamage -/

/-- `Ship::TakeDamage` (line 1427), given the current `Mass()`: the new state
and the event bits. -/
def TakeDamageCore (g : Geometry) (w : World) (mass : ℚ) (c : ShipCore)
    (projectile : Projectile) (isBlast : Bool) : ShipCore × DamageEvents :=
  have weapon := projectile.weapon
  have shieldDamage := weapon.weaponGet "shield damage"
  have hullDamage := weapon.weaponGet "hull damage"
  have hitForce := weapon.weaponGet "hit force"
  have heatDamage := weapon.weaponGet "heat damage"
  have wasDisabled := IsDisabled c
  have wasDestroyed := IsDestroyed c
  have c := { c with isBoarding := false }
  have c :=
    if c.shields > shieldDamage then
      { c with shields := c.shields - shieldDamage, heat := c.heat + 1 / 2 * heatDamage }
    else if c.shields = 0 ∨ shieldDamage ≠ 0 then
      have hullDamage :=
        if shieldDamage ≠ 0 then hullDamage * (1 - c.shields / shieldDamage) else hullDamage
      have c := if shieldDamage ≠ 0 then { c with shields := 0 } else c
      { c with hull := c.hull - hullDamage, heat := c.heat + heatDamage }
    else c
  have c :=
    if hitForce ≠ 0 then
      have d := c.position.sub projectile.position
      have distance := g.length d
      if distance ≠ 0 then ApplyForce g mass c (d.scale (hitForce / distance)) else c
    else c
  have disable := !wasDisabled && IsDisabled c
  have destroy := !wasDestroyed && IsDestroyed c
  have provoke :=
    !isBlast
      && (match projectile.government with
          | some gov => !w.isEnemy gov c.government
          | none => false)
      && (decide (Shields c < 9 / 10) || decide (Hull c < 9 / 10)
          || !c.personality.isForbearing)
  (c, ⟨disable, destroy, provoke⟩)

/-- `Ship::TakeDamage` on a ship: only data members change, the bays do not. -/
def TakeDamage (g : Geometry) (w : World) (s : Ship) (projectile : Projectile)
    (isBlast : Bool) : Ship × DamageEvents :=
  have r := TakeDamageCore g w (Mass s) s.core projectile isBlast
  (mk r.1 s.fighterBays s.droneBays, r.2)

/-! ## Move: the top of the tick -/

/-- The random draws and the sprite tests that decide the control flow of one
`Move` call: the result of `Random::Int(1024)` in the death sequence, whether
the `CreateExplosion` call of that tick places an explosion, which of the
closing `CreateExplosion` calls place one, and the raw draw behind
`Random::Int(requiredCrew)`. -/
structure MoveDraws where
  explosion : Nat := 0
  explosionPlaced : Bool := false
  finalPlaced : Nat → Bool := fun _ => false
  pilot : Nat := 0

/-- Replace the shield charge of a ship, as `bay.ship->shields = ...` does. -/
def setShields (s : Ship) (v : ℚ) : Ship :=
  mk { s.core with shields := v } s.fighterBays s.droneBays

/-- Lines 414-421 of `Ship::Move`: the forget counter, the early `return false`
(first component `false`) and the cancelling of a jump without fuel or
drive. -/
def movePresence (c : ShipCore) : Bool × ShipCore :=
  have c := { c with forget := c.forget + (if c.isInSystem then 0 else 1) }
  if (!c.isSpecial && decide (c.forget ≥ 1000)) || c.currentSystem.isNone then (false, c)
  else
    have c := { c with isInSystem := false }
    have c :=
      if c.fuel = 0 ∨ ¬ (c.attributes.get "hyperdrive" ≠ 0 ∨ c.attributes.get "jump drive" ≠ 0)
      then { c with hyperspaceSystem := none } else c
    (true, c)

/-- Lines 428-439 of `Ship::Move`: clamp energy, dissipate heat, update the
overheat flag, clamp shields and hull, recompute the disabled flag. -/
def moveClamp (mass : ℚ) (c : ShipCore) : ShipCore :=
  have c := { c with energy := min c.energy (c.attributes.get "energy capacity") }
  have c := { c with heat := c.heat * c.heatDissipation }
  have c :=
    if c.heat > mass * 100 then { c with isOverheated := true }
    else if c.heat < mass * 90 then { c with isOverheated := false }
    else c
  have c := { c with shields := min c.shields (c.attributes.get "shields") }
  have c := { c with hull := min c.hull (c.attributes.get "hull") }
  { c with isDisabled := c.isOverheated || IsDisabled c }

/-- One iteration of the loops at lines 470-499: a docked craft regenerates
its own shields and then takes what it can of the excess. Returns the excess
left and the bay. -/
def rechargeBay (excessShields : ℚ) (bay : Bay Ship) : ℚ × Bay Ship :=
  match bay.ship with
  | none => (excessShields, bay)
  | some ship =>
    have myGen := ship.core.attributes.get "shield generation"
    have myMax := ship.core.attributes.get "shields"
    have shields := min myMax (ship.core.shields + myGen)
    if excessShields > 0 ∧ shields < myMax then
      have extra := min (myMax - shields) excessShields
      (excessShields - extra, { bay with ship := some (setShields ship (shields + extra)) })
    else (excessShields, { bay with ship := some (setShields ship shields) })

/-- The loop at lines 470-484 (and again at 485-499) over one bay vector. -/
def rechargeBays (excessShields : ℚ) : List (Bay Ship) → ℚ × List (Bay Ship)
  | [] => (excessShields, [])
  | bay :: rest =>
    have r := rechargeBay excessShields bay
    have q := rechargeBays r.1 rest
    (q.1, r.2 :: q.2)

/-- Lines 441-509 of `Ship::Move`: hull repair, ramscoop, energy, heat and
shield regeneration, the hand-over of excess shields to docked craft and the
undoing of the recharge that energy cannot pay for. -/
def moveRegen (g : Geometry) (c : ShipCore) (fighterBays droneBays : List (Bay Ship)) :
    ShipCore × List (Bay Ship) × List (Bay Ship) :=
  have maxShields := c.attributes.get "shields"
  have c :=
    if !c.isOverheated then { c with hull := c.hull + c.attributes.get "hull repair rate" }
    else c
  if !c.isDisabled then
    have c :=
      if c.attributes.get "ramscoop" ≠ 0 then
        (TransferFuel c (-(3 / 100) * g.sqrt (c.attributes.get "ramscoop")) none).2.1
      else c
    have c := { c with energy := c.energy + c.attributes.get "energy generation" }
    have c := { c with heat := c.heat + c.attributes.get "heat generation" }
    have c := { c with heat := c.heat - c.attributes.get "cooling" }
    have c := { c with heat := max 0 c.heat }
    have c := { c with shields := c.shields + c.attributes.get "shield generation" }
    have c := { c with energy := c.energy - 1 * c.attributes.get "shield generation" }
    have excessShields := max 0 (c.shields - maxShields)
    have c := { c with shields := c.shields - excessShields }
    have rf := rechargeBays excessShields fighterBays
    have rd := rechargeBays rf.1 droneBays
    have excessShields := rd.1
    have c := { c with energy := c.energy + 1 * excessShields }
    have c :=
      if c.energy < 0 then { c with shields := c.shields + c.energy / 1, energy := 0 }
      else c
    (c, rf.2, rd.2)
  else (c, fighterBays, droneBays)

/-- `Ship::CreateExplosion` (line 1731) as far as the ship's state goes: the
explosion counter goes up when an explosion is placed. -/
def CreateExplosion (placed : Bool) (c : ShipCore) : ShipCore :=
  if placed then { c with explosionCount := c.explosionCount + 1 } else c

/-- The loop at lines 518-519: `explosionTotal` calls of `CreateExplosion`. -/
def finalExplosions (placed : Nat → Bool) : Nat → ShipCore → ShipCore
  | 0, c => c
  | n + 1, c => CreateExplosion (placed n) (finalExplosions placed n c)

/-- Lines 512-531 of `Ship::Move`: the death sequence of a destroyed ship.
The first component is the value `Move` returns when it returns here, `none`
when the function goes on to its last lines. -/
def moveDestroyed (d : MoveDraws) (c : ShipCore) : Option Bool × ShipCore :=
  if c.explosionCount = c.explosionTotal ∨ c.forget ≠ 0 then
    have c := if c.forget = 0 then finalExplosions d.finalPlaced c.explosionTotal.toNat c else c
    (some false, { c with energy := 0, heat := 0, fuel := 0 })
  else
    have c := { c with explosionRate := c.explosionRate + 1 }
    have c :=
      if ((d.explosion % 1024 : Nat) : Int) < c.explosionRate
      then CreateExplosion d.explosionPlaced c else c
    (none, c)

/-! ## Move: hyperspace and landing -/

/-- The stellar objects of a system pointer (`currentSystem->Objects()`). -/
def objectsOf (w : World) : Option SystemId → List StellarObject
  | some sys => w.systemObjects sys
  | none => []

/-- The position of a system pointer (`system->Position()`). -/
def positionOf (w : World) : Option SystemId → Point
  | some sys => w.systemPosition sys
  | none => {}

/-- Whether an object's planet has a spaceport (`object.GetPlanet() &&
object.GetPlanet()->HasSpaceport()`). -/
def objectHasSpaceport (w : World) (object : StellarObject) : Bool :=
  match object.planet with
  | some p => w.planetHasSpaceport p
  | none => false

/-- Lines 577-590: the point a conventional drive arrives at, the first
object with a spaceport or, if the ship has a destination in the system,
that planet. -/
def arrivalTarget (w : World) (c : ShipCore) : Point :=
  have target : Point :=
    match (objectsOf w c.currentSystem).find? (objectHasSpaceport w) with
    | some object => object.position
    | none => {}
  if c.destination.isSome then
    match (objectsOf w c.currentSystem).find? (fun object => object.planet == c.destination) with
    | some object => object.position
    | none => target
  else target

/-- Lines 602-620 of `Ship::Move`: acceleration of a conventional drive, the
end of the exit from hyperspace, the move and the offset from the parent. -/
def hyperspaceTail (g : Geometry) (w : World) (direction : Int) (hasJumpDrive : Bool)
    (c : ShipCore) : ShipCore :=
  have c :=
    if !hasJumpDrive then
      have c := { c with
        velocity := c.velocity.add ((g.angleUnit c.angle).scale (2 * (direction : ℚ))) }
      if g.length c.velocity ≤ MaxVelocity c ∧ c.hyperspaceSystem.isNone then
        { c with velocity := (g.angleUnit c.angle).scale (MaxVelocity c), hyperspaceCount := 0 }
      else c
    else c
  have c := { c with position := c.position.add c.velocity }
  match c.parent.bind w.ships with
  | some parent =>
    if parent.core.currentSystem = c.currentSystem then
      have c := { c with hyperspaceOffset := c.position.sub parent.core.position }
      have length := g.length c.hyperspaceOffset
      if length > 1000 then { c with hyperspaceOffset := c.hyperspaceOffset.scale (1000 / length) }
      else c
    else c
  | none => c

/-- Lines 532-621 of `Ship::Move`: one tick of entering or leaving hyperspace;
`Move` returns `true` after it. The jump-drive particles (lines 543-562) are
effects only. -/
def moveHyperspace (g : Geometry) (w : World) (c : ShipCore) : ShipCore :=
  have c := { c with fuel := c.fuel - (if c.hyperspaceSystem.isSome then 1 else 0) }
  have direction : Int := if c.hyperspaceSystem.isSome then 1 else -1
  have c := { c with hyperspaceCount := c.hyperspaceCount + direction }
  have hasJumpDrive := decide (c.attributes.get "jump drive" ≠ 0)
  if c.hyperspaceCount = 100 then
    have c := { c with currentSystem := c.hyperspaceSystem }
    have c := { c with fuel := c.fuel - (c.attributes.get "jump fuel" - 100) }
    have c := { c with hyperspaceSystem := none, targetSystem := none, targetPlanet := none }
    if hasJumpDrive then c
    else
      have target := arrivalTarget w c
      have distance : ℚ := (100 * 100) * (1 / 2) * 2 + 1000
      have c := { c with position := target.sub ((g.angleUnit c.angle).scale distance) }
      have c := { c with position := c.position.add c.hyperspaceOffset }
      have c := { c with velocity := (g.angleUnit c.angle).scale (g.length c.velocity) }
      hyperspaceTail g w (-1) hasJumpDrive c
  else hyperspaceTail g w direction hasJumpDrive c

/-- Lines 639-644 of `Ship::Move`: a wormhole moves the ship to its other
end. -/
def enterWormhole (w : World) (planet : PlanetId) (c : ShipCore) : ShipCore :=
  have c := { c with currentSystem := w.wormholeDestination planet c.currentSystem }
  have c := (objectsOf w c.currentSystem).foldl
    (fun c object => if object.planet = some planet then { c with position := object.position }
      else c) c
  { c with targetPlanet := none, landingPlanet := none }

/-- Lines 622-667 of `Ship::Move`: landing, refuelling and take-off. The first
component is the value `Move` returns. -/
def moveLanding (w : World) (c : ShipCore) : Bool × ShipCore :=
  have finish (c : ShipCore) : Bool × ShipCore :=
    (true, { c with position := c.position.add (c.velocity.scale c.zoom) })
  match c.landingPlanet with
  | some planet =>
    if c.zoom ≠ 0 then
      have c :=
        match c.targetPlanet with
        | some object =>
          { c with position := (c.position.scale (97 / 100)).add (object.position.scale (3 / 100)) }
        | none => c
      have c := { c with zoom := c.zoom - 2 / 100 }
      if c.zoom < 0 then
        if w.planetIsWormhole planet then
          finish { enterWormhole w planet c with zoom := 0 }
        else if !c.isSpecial || c.personality.isFleeing then (false, c)
        else finish { c with zoom := 0 }
      else finish c
    else if c.fuel = c.attributes.get "fuel capacity" ∨ ¬ w.planetHasSpaceport planet then
      finish { c with zoom := min 1 (c.zoom + 2 / 100), landingPlanet := none }
    else finish { c with fuel := min (c.fuel + 1) (c.attributes.get "fuel capacity") }
  | none => finish { c with zoom := min 1 (c.zoom + 2 / 100), landingPlanet := none }

/-! ## Move: the gates and normal flight -/

/-- Call `government->IsEnemy(other)` through the ship's government pointer. -/
def govIsEnemy (w : World) (government other : Option GovId) : Bool :=
  match government with
  | some gov => w.isEnemy gov other
  | none => false

/-- `Ship::CanLand` (line 1061). A target object without a planet, for which
the source goes through a null pointer, is refused. -/
def CanLand (g : Geometry) (w : World) (s : Ship) : Bool :=
  match s.core.targetPlanet with
  | none => false
  | some object =>
    if s.core.isDisabled || IsDestroyed s.core then false
    else if !(match object.planet with
              | some p => w.planetCanLand p s
              | none => false) then false
    else
      have distance := object.position.sub s.core.position
      have speed := g.length s.core.velocity
      decide (speed < 1) && decide (g.length distance < object.radius)

/-- `Ship::CanHyperspace` (line 1078). The position of a null current system,
which the source would read through a null pointer, is the origin (see
`positionOf`). -/
def CanHyperspace (g : Geometry) (w : World) (s : Ship) : Bool :=
  have c := s.core
  if IsDisabled c then false
  else if c.targetSystem.isNone then false
  else if c.fuel < c.attributes.get "jump fuel" then false
  else
    have direction := (positionOf w c.targetSystem).sub (positionOf w c.currentSystem)
    have tooFast : Bool :=
      if c.attributes.get "scram drive" ≠ 0 then
        decide (|g.cross (g.unit direction) c.velocity| > c.attributes.get "scram drive")
      else decide (g.length c.velocity > c.attributes.get "jump speed")
    if tooFast then false
    else if c.attributes.get "jump drive" ≠ 0 then true
    else if c.attributes.get "hyperdrive" = 0 then false
    else
      have left := decide (g.cross direction (g.angleUnit c.angle) < 0)
      have turned : Angle := c.angle + TurnRate s * (if left then 1 else -1)
      have stillLeft := decide (g.cross direction (g.angleUnit turned) < 0)
      left != stillLeft

/-- Lines 668-671 of `Ship::Move`: a LAND or JUMP command that passes its
gate starts the landing or the jump. -/
def flightCommands (g : Geometry) (w : World) (s : Ship) : ShipCore :=
  have c := s.core
  if c.commands.land && CanLand g w s then
    { c with landingPlanet := match c.targetPlanet with
                              | some object => object.planet
                              | none => none }
  else if c.commands.jump && CanHyperspace g w s then
    { c with hyperspaceSystem := c.targetSystem }
  else c

/-- Lines 673-686 of `Ship::Move`: cloaking. -/
def flightCloak (c : ShipCore) : ShipCore :=
  have cloakingSpeed := c.attributes.get "cloak"
  have canCloak : Bool :=
    decide (c.zoom = 1) && !c.isDisabled && decide (c.hyperspaceCount = 0)
      && decide (cloakingSpeed ≠ 0)
      && decide (c.fuel ≥ c.attributes.get "cloaking fuel")
      && decide (c.energy ≥ c.attributes.get "cloaking energy")
  if c.commands.cloak && canCloak then
    { c with
      cloak := min 1 (c.cloak + cloakingSpeed)
      fuel := c.fuel - c.attributes.get "cloaking fuel"
      energy := c.energy - c.attributes.get "cloaking energy" }
  else if cloakingSpeed ≠ 0 then { c with cloak := max 0 (c.cloak - cloakingSpeed) }
  else { c with cloak := 0 }

/-- Lines 688-699 of `Ship::Move`: the pilot error and pilot okay counters. -/
def flightPilot (d : MoveDraws) (c : ShipCore) : ShipCore :=
  have requiredCrew := RequiredCrew c
  if c.pilotError ≠ 0 then { c with pilotError := c.pilotError - 1 }
  else if c.pilotOkay ≠ 0 then { c with pilotOkay := c.pilotOkay - 1 }
  else if requiredCrew ≠ 0 ∧ ((d.pilot % requiredCrew.toNat : Nat) : Int) ≥ Crew c then
    { c with pilotError := 30 }
  else { c with pilotOkay := 30 }

/-- Lines 708-732 of `Ship::Move`: forward or reverse thrust. Returns the
state and the thrust command that was applied (`0` when none was). -/
def flightThrust (g : Geometry) (mass : ℚ) (c : ShipCore) : ShipCore × ℚ :=
  have thrustCommand : ℚ :=
    (if c.commands.forward then 1 else 0) - (if c.commands.back then 1 else 0)
  if thrustCommand ≠ 0 then
    have cost := c.attributes.get
      (if thrustCommand > 0 then "thrusting energy" else "reverse thrusting energy")
    if c.energy < cost then (c, 0)
    else
      have thrust := c.attributes.get (if thrustCommand > 0 then "thrust" else "reverse thrust")
      if thrust = 0 then (c, 0)
      else
        ({ c with
          energy := c.energy - cost
          heat := c.heat + c.attributes.get
            (if thrustCommand > 0 then "thrusting heat" else "reverse thrusting heat")
          velocity := c.velocity.add
            ((g.angleUnit c.angle).scale (thrustCommand * thrust / mass)) }, thrustCommand)
  else (c, thrustCommand)

/-- Lines 733-765 of `Ship::Move`: the afterburner. Returns the state and
whether the afterburner was applied. -/
def flightAfterburner (g : Geometry) (mass : ℚ) (c : ShipCore) : ShipCore × Bool :=
  have applyAfterburner := c.commands.afterburner && !CannotAct c
  if applyAfterburner then
    have thrust := c.attributes.get "afterburner thrust"
    have cost := c.attributes.get "afterburner fuel"
    have energyCost := c.attributes.get "afterburner energy"
    if thrust = 0 ∨ c.fuel < cost ∨ c.energy < energyCost then (c, false)
    else
      ({ c with
        heat := c.heat + c.attributes.get "afterburner heat"
        fuel := c.fuel - cost
        energy := c.energy - energyCost
        velocity := c.velocity.add (((g.angleUnit c.angle).scale thrust).scale (1 / mass)) },
        true)
  else (c, false)

/-- Lines 768-780 of `Ship::Move`: turning. -/
def flightTurn (turnRate : ℚ) (c : ShipCore) : ShipCore :=
  if c.commands.turn ≠ 0 then
    have cost := c.attributes.get "turning energy"
    if c.energy < cost then { c with commands := { c.commands with turn := 0 } }
    else
      { c with
        energy := c.energy - cost
        heat := c.heat + c.attributes.get "turning heat"
        angle := c.angle + c.commands.turn * turnRate }
  else c

/-- Lines 701-781 of `Ship::Move`: drag for a disabled ship, otherwise thrust,
afterburner, drag and turn unless the pilot is in error. -/
def flightSteer (g : Geometry) (mass turnRate : ℚ) (c : ShipCore) : ShipCore :=
  if c.isDisabled then
    { c with velocity := c.velocity.scale (1 - c.attributes.get "drag" / mass) }
  else if c.pilotError = 0 then
    have t := flightThrust g mass c
    have a := flightAfterburner g mass t.1
    have c := a.1
    have c :=
      if t.2 ≠ 0 ∨ a.2 = true then
        { c with velocity := c.velocity.scale (1 - c.attributes.get "drag" / mass) }
      else c
    flightTurn turnRate c
  else c

/-- Lines 783-824 of `Ship::Move`: boarding. `Has(FORWARD | BACK)` holds when
either command is set. -/
def flightBoard (g : Geometry) (w : World) (turnRate : ℚ) (c : ShipCore) : ShipCore :=
  have c :=
    if c.isBoarding ∧ (c.commands.forward ∨ c.commands.back ∨ c.commands.turn ≠ 0) then
      { c with isBoarding := false }
    else c
  match (if IsFighter c then c.parent else c.targetShip).bind w.ships with
  | none => c
  | some target =>
    if c.isDisabled then c
    else
      have dp := target.core.position.sub c.position
      have distance := g.length dp
      have dv := target.core.velocity.sub c.velocity
      have speed := g.length dv
      have c := { c with
        isBoarding := c.isBoarding
          || (decide (distance < 50) && decide (speed < 1) && c.commands.board) }
      have c :=
        if c.isBoarding ∧ ¬ IsFighter c then
          if !IsDisabled target.core && govIsEnemy w c.government target.core.government then
            { c with isBoarding := false }
          else if IsDestroyed target.core then { c with isBoarding := false }
          else c
        else c
      if c.isBoarding ∧ c.pilotError = 0 then
        have left := decide (g.cross (Unit g target.core) (g.angleUnit c.angle) < 0)
        have turn : ℚ := if left then 1 else -1
        have facing : Angle := c.angle + turnRate * turn
        have stillLeft := decide (g.cross (Unit g target.core) (g.angleUnit facing) < 0)
        have turn : ℚ := if left != stillLeft then 0 else turn
        have c := { c with angle := c.angle + turnRate * turn }
        have c := { c with velocity := c.velocity.add ((g.unit dv).scale (1 / 10)) }
        have c := { c with position := c.position.add ((g.unit dp).scale (1 / 2)) }
        if distance < 10 ∧ speed < 1 ∧ (IsFighter c ∨ turn = 0) then
          { c with isBoarding := false, hasBoarded := true }
        else c
      else c

/-- Lines 668-829 of `Ship::Move`: normal flight, for a ship with the given
data members and bays. -/
def moveFlight (g : Geometry) (w : World) (d : MoveDraws) (s : Ship) : ShipCore :=
  have mass := Mass s
  have turnRate := TurnRate s
  have c := flightCommands g w s
  have c := flightCloak c
  have c := flightPilot d c
  have c := flightSteer g mass turnRate c
  have c := flightBoard g w turnRate c
  { c with position := c.position.add c.velocity }

/-- `Ship::Move` (line 412): one tick of the ship. Returns the value of the
call (`false`: the ship is to be deleted) and the ship after it. `Mass()` and
`TurnRate()` read members that `Move` does not write, so they have one value
during the call. -/
def Move (g : Geometry) (w : World) (d : MoveDraws) (s : Ship) : Bool × Ship :=
  have p := movePresence s.core
  if !p.1 then (false, mk p.2 s.fighterBays s.droneBays)
  else
    have c := moveClamp (Mass s) p.2
    have r := moveRegen g c s.fighterBays s.droneBays
    have c := r.1
    have fighterBays := r.2.1
    have droneBays := r.2.2
    if IsDestroyed c then
      have q := moveDestroyed d c
      match q.1 with
      | some b => (b, mk q.2 fighterBays droneBays)
      | none => (true, mk (moveFlight g w d (mk q.2 fighterBays droneBays)) fighterBays droneBays)
    else if c.hyperspaceSystem.isSome ∨ c.hyperspaceCount ≠ 0 then
      (true, mk (moveHyperspace g w c) fighterBays droneBays)
    else if c.landingPlanet.isSome ∨ c.zoom < 1 then
      have q := moveLanding w c
      (q.1, mk q.2 fighterBays droneBays)
    else (true, mk (moveFlight g w d (mk c fighterBays droneBays)) fighterBays droneBays)

/-! ## Capture, bays and launch -/

/-- `Ship::WasCaptured` (line 1346): the captured ship and the capturer after
the call. The two are distinct objects. -/
def WasCaptured (c capturer : ShipCore) : ShipCore × ShipCore :=
  have c := { c with hull := max c.hull (MinimumHull c) }
  have c := { c with government := capturer.government }
  have totalRequired := RequiredCrew capturer + RequiredCrew c
  have transfer := RequiredCrew c
  have transfer :=
    if totalRequired > Crew capturer then
      max 1 (Int.tdiv (Crew capturer * RequiredCrew c) totalRequired)
    else transfer
  have capturer := AddCrew capturer (-transfer)
  have c := AddCrew c transfer
  have c := SetParent c (some capturer.self)
  have c := { c with targetShip := none, targetPlanet := none, targetSystem := none }
  have c := { c with commands := {}, isDisabled := false, hyperspaceSystem := none }
  have c := { c with isSpecial := capturer.isSpecial, personality := capturer.personality }
  (c, capturer)

/-- The craft as `AddFighter` leaves it (lines 1532-1533). -/
def dock (ship : Ship) : Ship :=
  mk (SetPlanet (SetSystem ship.core none) none) ship.fighterBays ship.droneBays

/-- The loop at lines 1528-1535 of `Ship::AddFighter`: put the craft in the
first empty bay; `none` when every bay is taken. -/
def addToBays (ship : Ship) : List (Bay Ship) → Option (List (Bay Ship))
  | [] => none
  | bay :: rest =>
    match bay.ship with
    | none => some ({ bay with ship := some (dock ship) } :: rest)
    | some _ => (addToBays ship rest).map (fun r => bay :: r)

/-- `Ship::AddFighter` (line 1517): the value returned, the ship, and the
craft that was passed in, as the call leaves them. -/
def AddFighter (s : Ship) (ship : Option Ship) : Bool × Ship × Option Ship :=
  match ship with
  | none => (false, s, ship)
  | some craft =>
    have isFighter := decide (craft.core.attributes.category = "Fighter")
    have isDrone := decide (craft.core.attributes.category = "Drone")
    if !(isFighter || isDrone) then (false, s, ship)
    else if isFighter then
      match addToBays craft s.fighterBays with
      | some bays => (true, mk s.core bays s.droneBays, some (dock craft))
      | none => (false, s, ship)
    else
      match addToBays craft s.droneBays with
      | some bays => (true, mk s.core s.fighterBays bays, some (dock craft))
      | none => (false, s, ship)

/-- The random draws of one `Launch` call, named by the bay they are made
for: the raw draw behind `Random::Int(60)` for a fighter bay and behind
`Random::Int(40)` for a drone bay, and the `Angle::Random()` of the launch
from that bay. A draw is made only for an occupied bay. -/
structure LaunchDraws where
  fighter : Nat → Nat := fun _ => 0
  drone : Nat → Nat := fun _ => 0
  fighterAngle : Nat → Angle := fun _ => 0
  droneAngle : Nat → Angle := fun _ => 0

/-- Lines 844-848 of `Ship::Launch`: the craft as it leaves the bay at
`point` of the ship with data members `c`. -/
def launchCraft (g : Geometry) (c : ShipCore) (point : Point) (random : Angle)
    (craft : Ship) : Ship :=
  have maxV := MaxVelocity craft.core
  have v := (c.velocity.add ((g.angleUnit c.angle).scale (3 / 10 * maxV))).add
    ((g.angleUnit random).scale (2 / 10 * maxV))
  have k := Place craft.core (c.position.add (g.rotate c.angle point)) v c.angle
  have k := SetSystem k c.currentSystem
  have k := SetParent k (some c.self)
  mk k craft.fighterBays craft.droneBays

/-- One loop of `Ship::Launch` (lines 840-851, and 852-863 with the other
modulus), from bay index `i` on: the ship's data members, the caller's ship
list and the bays after it. -/
def launchBays (g : Geometry) (modulus : Nat) (draw : Nat → Nat) (angle : Nat → Angle) :
    Nat → ShipCore → List Ship → List (Bay Ship) → ShipCore × List Ship × List (Bay Ship)
  | _, c, ships, [] => (c, ships, [])
  | i, c, ships, bay :: rest =>
    match bay.ship with
    | some craft =>
      if draw i % modulus = 0 then
        have ships := ships ++ [launchCraft g c bay.point (angle i) craft]
        have c := AddEscort c craft.core.self
        have r := launchBays g modulus draw angle (i + 1) c ships rest
        (r.1, r.2.1, { bay with ship := none } :: r.2.2)
      else
        have r := launchBays g modulus draw angle (i + 1) c ships rest
        (r.1, r.2.1, bay :: r.2.2)
    | none =>
      have r := launchBays g modulus draw angle (i + 1) c ships rest
      (r.1, r.2.1, bay :: r.2.2)

/-- `Ship::Launch` (line 835): the ship and the caller's ship list after the
call. -/
def Launch (g : Geometry) (d : LaunchDraws) (s : Ship) (ships : List Ship) :
    Ship × List Ship :=
  if !s.core.commands.deploy || CannotAct s.core then (s, ships)
  else
    have f := launchBays g 60 d.fighter d.fighterAngle 0 s.core ships s.fighterBays
    have r := launchBays g 40 d.drone d.droneAngle 0 f.1 f.2.1 s.droneBays
    (mk r.1 f.2.2 r.2.2, r.2.1)

/-- The ship after `n` successive `Move` calls, call number `k` (from `0`)
made in the world `w k` with the draws `d k`, and whether every one of the
calls returned `true`. -/
def moveN (g : Geometry) (w : Nat → World) (d : Nat → MoveDraws) : Nat → Ship → Bool × Ship
  | 0, s => (true, s)
  | n + 1, s =>
    have r := moveN g w d n s
    have q := Move g (w n) (d n) r.2
    (r.1 && q.1, q.2)

/-! ## Outfits and firing -/

/-- Lines 955-956 of `Ship::Fire`: the ship is marked as being in the player's
system and its forget counter is reset. -/
def firePresence (c : ShipCore) : ShipCore := { c with isInSystem := true, forget := 0 }

/-- `Ship::OutfitCount` (line 1613). The map `outfits` has no entry for the
null pointer. -/
def OutfitCount (c : ShipCore) (outfit : Option OutfitId) : Int :=
  match outfit with
  | some o =>
    match c.outfits o with
    | some n => n
    | none => 0
  | none => 0

/-- `Ship::AddOutfit` (line 1637). The armament and the size of the cargo
hold, which the call also updates, are not part of the model. -/
def AddOutfit (k : Catalogue) (c : ShipCore) (outfit : Option OutfitId) (count : Int) :
    ShipCore :=
  match outfit with
  | some o =>
    if count ≠ 0 then
      have c :=
        match c.outfits o with
        | none => { c with outfits := Function.update c.outfits o (some count) }
        | some n =>
          if n + count = 0 then { c with outfits := Function.update c.outfits o none }
          else { c with outfits := Function.update c.outfits o (some (n + count)) }
      { c with attributes := k.add c.attributes (k.outfit o) count }
    else c
  | none => c

/-- `Ship::CanFire` (line 1678). -/
def CanFire (k : Catalogue) (c : ShipCore) (outfit : Option OutfitId) : Bool :=
  match outfit with
  | none => false
  | some o =>
    have weapon := k.outfit o
    if !weapon.isWeapon then false
    else if (match weapon.ammo with
             | some a =>
               (match c.outfits a with
                | none => true
                | some n => decide (n ≤ 0))
             | none => false) then false
    else if c.energy < weapon.weaponGet "firing energy" then false
    else if c.fuel < weapon.weaponGet "firing fuel" then false
    else true

/-- `Ship::ExpendAmmo` (line 1702). -/
def ExpendAmmo (k : Catalogue) (c : ShipCore) (outfit : Option OutfitId) : ShipCore :=
  match outfit with
  | none => c
  | some o =>
    have weapon := k.outfit o
    have c := if weapon.ammo.isSome then AddOutfit k c weapon.ammo (-1) else c
    have c := { c with energy := c.energy - weapon.weaponGet "firing energy" }
    have c := { c with fuel := c.fuel - weapon.weaponGet "firing fuel" }
    { c with heat := c.heat + weapon.weaponGet "firing heat" }

/-- The ship after a sequence of `AddOutfit` calls, made in the order of the
list. -/
def addOutfits (k : Catalogue) (c : ShipCore) : List (Option OutfitId × Int) → ShipCore
  | [] => c
  | call :: rest => addOutfits k (AddOutfit k c call.1 call.2) rest

/-! ## Loading, recharge, the gauges and plunder -/

/-- `Ship::Fuel` (line 1267). -/
def Fuel (c : ShipCore) : ℚ :=
  have maximum := c.attributes.get "fuel capacity"
  if maximum ≠ 0 then min 1 (c.fuel / maximum) else 0

/-- `Ship::Energy` (line 1285). -/
def Energy (c : ShipCore) : ℚ :=
  have maximum := c.attributes.get "energy capacity"
  if maximum ≠ 0 then min 1 (c.energy / maximum) else if c.hull > 0 then 1 else 0

/-- `Ship::Heat` (line 1293). -/
def Heat (s : Ship) : ℚ :=
  have maximum := Mass s * 100
  if maximum ≠ 0 then min 1 (s.core.heat / maximum) else 1

/-- Lines 123-127 of `Ship::Load`: the heat retention factor of the ship, in
exact arithmetic. -/
def loadHeatDissipation (c : ShipCore) : ShipCore :=
  have heatDissipation := c.baseAttributes.get "heat dissipation"
  if heatDissipation = 0 then { c with heatDissipation := 999 / 1000 }
  else { c with heatDissipation := 1 - 1 / 1000 * heatDissipation }

/-- Rounding of an exact value to the nearest number with 53 significant bits,
which is what a `double` literal or the result of one `double` operation
keeps of it. The exponent is unbounded (no overflow, no subnormal numbers) and
a tie goes upward rather than to the even neighbour. -/
def roundDouble (x : ℚ) : ℚ :=
  if x = 0 then 0
  else
    have quantum : ℚ := 2 ^ (Int.log 2 |x| - 52)
    (round (x / quantum) : ℚ) * quantum

/-- Lines 123-127 of `Ship::Load` in `double` arithmetic: the literals `.999`
and `.001`, the product and the difference are each rounded by
`roundDouble`. -/
def loadHeatDissipationRounded (c : ShipCore) : ShipCore :=
  have heatDissipation := c.baseAttributes.get "heat dissipation"
  if heatDissipation = 0 then { c with heatDissipation := roundDouble (999 / 1000) }
  else
    { c with
      heatDissipation := roundDouble (1 - roundDouble (roundDouble (1 / 1000) * heatDissipation)) }

/-- `Ship::Recharge` (line 1210). -/
def Recharge (c : ShipCore) (atSpaceport : Bool) : ShipCore :=
  if IsDestroyed c then c
  else
    have c :=
      if atSpaceport then
        { c with crew := max c.crew (RequiredCrew c), fuel := c.attributes.get "fuel capacity" }
      else c
    have c := { c with pilotError := 0, pilotOkay := 0 }
    have c :=
      if !c.personality.isDerelict then
        { c with
          shields := c.attributes.get "shields"
          hull := c.attributes.get "hull"
          energy := c.attributes.get "energy capacity" }
      else c
    { c with
      heat := max 0 (c.attributes.get "heat generation" - c.attributes.get "cooling")
        / (1 - c.heatDissipation) }

/-- `Ship::FinishLoading` (line 141). `order` lists the keys of the map
`outfits` in the order in which the loop at line 146 visits them. The armament
and the cargo hold, which the call also sets up, are not part of the model. -/
def FinishLoading (k : Catalogue) (w : World) (order : List OutfitId) (c : ShipCore) :
    ShipCore :=
  have c := { c with
    attributes :=
      order.foldl (fun a o => k.add a (k.outfit o) (OutfitCount c (some o))) c.baseAttributes }
  if c.hull = 0 then
    have atSpaceport :=
      match c.parent.bind w.ships with
      | none => true
      | some parent => decide (c.currentSystem = parent.core.currentSystem)
    Recharge c atSpaceport
  else c

/-- `Ship::SetTargetSystem` (line 1821). -/
def SetTargetSystem (c : ShipCore) (system : Option SystemId) : ShipCore :=
  { c with targetSystem := system }

/-- The loop `while(it.second && cargo.Transfer(it.first, -1)) --it.second;`
(line 911) on one entry of the victim's map: `fits` is the number of
`Transfer` calls that the boarder's cargo hold still accepts. -/
def plunderLoop : Nat → Int → Int
  | 0, n => n
  | fits + 1, n => if n ≠ 0 then plunderLoop fits (n - 1) else n

/-- Lines 904-919 of `Ship::Board`: the boarder takes the victim's fuel and,
with `autoPlunder`, the victim's outfits that fit. `fits o` is the number of
`cargo.Transfer(o, -1)` calls that succeed for outfit `o`; the cargo hold and
the commodities moved by `TransferAll` are not part of the model. Returns the
boarder and the victim. -/
def boardPlunder (fits : OutfitId → Nat) (autoPlunder : Bool) (c victim : ShipCore) :
    ShipCore × ShipCore :=
  have r := TransferFuel victim victim.fuel (some c)
  have victim := r.2.1
  have c :=
    match r.2.2 with
    | some boarder => boarder
    | none => c
  if autoPlunder then
    have victim := { victim with
      outfits := fun o => (victim.outfits o).map (plunderLoop (fits o)) }
    have c := { c with targetShip := none, pilotError := 120 }
    (c, victim)
  else (c, victim)

/-- Modelled from the spec: `Outfit::Add(other, count)`, whose code
(`Outfit.cpp`) is not part of the source. Every stat of `other`, scaled by
`count`, is added to the stat of the same name (the aggregate sums "all
installed equipment's contributions, scaled by installed quantity"). -/
def addScaled (a other : Outfit) (count : Int) : Outfit :=
  { a with get := fun key => a.get key + other.get key * count }

/-- The aggregate invariant over the outfits listed in `ids`: every stat of
`attributes` is the base value plus, for each listed outfit, its installed
count times its value. -/
def Aggregated (k : Catalogue) (ids : List OutfitId) (c : ShipCore) : Prop :=
  ∀ key, c.attributes.get key
    = c.baseAttributes.get key
      + (ids.map (fun o => (OutfitCount c (some o) : ℚ) * (k.outfit o).get key)).sum

/-! ## Concrete ships and worlds used by the witnesses -/

/-- A ship with the given shields, hull and heat and nothing else. -/
def damageShip (shields hull heat : ℚ) : Ship :=
  mk { shields := shields, hull := hull, heat := heat } [] []

/-- A projectile whose weapon has the given shield, hull and heat damage. -/
def damageShot (shieldDamage hullDamage heatDamage : ℚ) : Projectile :=
  { weapon := { weaponGet := fun k =>
      if k = "shield damage" then shieldDamage
      else if k = "hull damage" then hullDamage
      else if k = "heat damage" then heatDamage
      else 0 } }

/-- A geometry in which every length is `1` and every direction is the
x axis. -/
def flatGeometry : Geometry where
  sqrt := fun _ => 0
  length := fun _ => 1
  unit := fun _ => ⟨1, 0⟩
  cross := fun _ _ => 0
  angleUnit := fun _ => ⟨1, 0⟩
  rotate := fun _ p => p

/-- A ship of the given category with the given hull, crew, `"hull"`
attribute and `"required crew"` attribute. -/
def crewShip (category : String) (hull : ℚ) (crew : Int) (maxHull requiredCrew : ℚ) :
    ShipCore :=
  { hull := hull, crew := crew,
    attributes := { category := category, get := fun k =>
      if k = "hull" then maxHull else if k = "required crew" then requiredCrew else 0 } }

/-- The crew that `WasCaptured` moves from the capturer to the captured ship,
read off the capturer's crew before and after. -/
def crewMoved (c capturer : ShipCore) : Int :=
  capturer.crew - (WasCaptured c capturer).2.crew

/-- A craft of the given category and identity that is flying in system 3 and
has landing planet 2 recorded. -/
def smallCraft (category : String) (self : ShipId) : Ship :=
  mk { self := self, attributes := { category := category },
       currentSystem := some 3, landingPlanet := some 2, zoom := 1 } [] []

/-- A carrier in system 5 with three fighter bays, the first one taken, and
one empty drone bay; DEPLOY is commanded. -/
def carrier : Ship :=
  mk { self := 1, currentSystem := some 5, zoom := 1, commands := { deploy := true } }
    [{ ship := some (dock (smallCraft "Fighter" 10)) }, {}, {}] [{}]

/-- The excess shield charge that `Move` has left after the two bay loops
(lines 467-499): what the ship generated above its capacity, less what the
docked craft took. -/
def regenExcess (c : ShipCore) (fighterBays droneBays : List (Bay Ship)) : ℚ :=
  (rechargeBays
    (rechargeBays
      (max 0 (c.shields + c.attributes.get "shield generation" - c.attributes.get "shields"))
      fighterBays).1
    droneBays).1

/-- The energy of the ship at line 503 of `Move`, before the test for a
negative value: generation added, the shield recharge paid, the unused excess
credited back. -/
def regenEnergy (c : ShipCore) (fighterBays droneBays : List (Bay Ship)) : ℚ :=
  c.energy + c.attributes.get "energy generation" - c.attributes.get "shield generation"
    + regenExcess c fighterBays droneBays

/-- A carrier with full shields (10 of 10), no energy and a shield generation
of 30 per tick, neither disabled nor overheated. -/
def drainedCarrier : ShipCore :=
  { self := 1, crew := 1, shields := 10, energy := 0, currentSystem := some 0,
    attributes := { get := fun k =>
      if k = "shields" then 10 else if k = "shield generation" then 30 else 0 } }

/-- A docked fighter with empty shields and a shield capacity of 50. -/
def emptyFighter : Ship :=
  mk { self := 2, zoom := 0, attributes := { category := "Fighter", get := fun k =>
      if k = "shields" then 50 else 0 } } [] []

/-- The ship's data members and bays at line 512 of `Move`, after the forget
counter, the clamps and the regeneration, for a call that got past the early
return. -/
def moveTop (g : Geometry) (s : Ship) : ShipCore × List (Bay Ship) × List (Bay Ship) :=
  moveRegen g (moveClamp (Mass s) (movePresence s.core).2) s.fighterBays s.droneBays

/-- A manned ship in system 0 in normal flight with full energy (10 of 10)
and an energy generation of 5 per tick; every other attribute is 0. -/
def chargedShip : Ship :=
  mk { self := 1, crew := 1, currentSystem := some 0, energy := 10,
       attributes := { get := fun k =>
         if k = "energy capacity" then 10 else if k = "energy generation" then 5 else 0 } }
    [] []

/-- A special ship (never forgotten) with a hyperdrive, hull 100 of 100, the
given fuel and `"jump fuel"` attribute and no ramscoop, in system 0 at the
start of a jump to system 7. -/
def jumpingShip (fuel jumpFuel : ℚ) : Ship :=
  mk { self := 1, crew := 1, isSpecial := true, hull := 100, fuel := fuel,
       currentSystem := some 0, hyperspaceSystem := some 7,
       attributes := { get := fun k =>
         if k = "hull" then 100 else if k = "hyperdrive" then 1
         else if k = "jump fuel" then jumpFuel else if k = "fuel capacity" then 1000 else 0 } }
    [] []

/-- A special ship landed on planet 2 of system 0 (zoom 0) with a full tank
(100 of 100), hull 100 of 100, mass 10 and one crew member. It has a cloaking
device that costs one unit of fuel per tick, and CLOAK is commanded. -/
def refuelledShip : Ship :=
  mk { self := 1, crew := 1, isSpecial := true, hull := 100, fuel := 100, zoom := 0,
       currentSystem := some 0, landingPlanet := some 2,
       commands := { cloak := true },
       attributes := { get := fun a =>
         if a = "hull" then 100 else if a = "fuel capacity" then 100
         else if a = "cloak" then 1 else if a = "cloaking fuel" then 1
         else if a = "mass" then 10 else 0 } }
    [] []

/-- A world in which every planet has a spaceport. -/
def spaceportWorld : World := { planetHasSpaceport := fun _ => true }

/-- A manned ship at rest in system 0 that targets the object of planet 2 (at
the ship's own position, radius 10), with LAND commanded or not. -/
def landingApproach (land : Bool) : Ship :=
  mk { self := 1, crew := 1, hull := 100, currentSystem := some 0,
       targetPlanet := some { planet := some 2, radius := 10 },
       commands := { land := land },
       attributes := { get := fun a => if a = "hull" then 100 else 0 } }
    [] []

/-- A geometry in which every vector has length 0. -/
def stillGeometry : Geometry where
  sqrt := fun _ => 0
  length := fun _ => 0
  unit := fun _ => ⟨1, 0⟩
  cross := fun _ _ => 0
  angleUnit := fun _ => ⟨1, 0⟩
  rotate := fun _ p => p

/-- A manned ship at rest in system 0 with hull 100 of 100 and fuel 100 that
targets system 7 and has the given `"jump drive"` and `"hyperdrive"`
attributes and a `"jump fuel"` of 100. -/
def driveShip (jumpDrive hyperdrive : ℚ) : Ship :=
  mk { self := 1, crew := 1, hull := 100, fuel := 100, currentSystem := some 0,
       targetSystem := some 7,
       attributes := { get := fun a =>
         if a = "hull" then 100 else if a = "jump fuel" then 100
         else if a = "jump drive" then jumpDrive
         else if a = "hyperdrive" then hyperdrive else 0 } }
    [] []

/-- A ship with the given shields and hull, both of capacity 100, the given
crew and disposition. -/
def hitShip (shields hull : ℚ) (crew : Int) (forbearing : Bool) : Ship :=
  mk { self := 1, crew := crew, shields := shields, hull := hull, government := some 1,
       personality := { isForbearing := forbearing },
       attributes := { get := fun a =>
         if a = "hull" then 100 else if a = "shields" then 100 else 0 } }
    [] []

/-- A projectile of government 2 with the given shield and hull damage. -/
def govShot (shieldDamage hullDamage : ℚ) : Projectile :=
  { government := some 2,
    weapon := { weaponGet := fun a =>
      if a = "shield damage" then shieldDamage
      else if a = "hull damage" then hullDamage else 0 } }

/-- A catalogue in which outfit 1 is a launcher (a weapon that fires outfit 2
as ammunition, for 3 units of energy, 1 of fuel and 4 of heat) and outfit 2
is its ammunition. -/
def launcherCatalogue : Catalogue :=
  { outfit := fun o =>
      if o = 1 then
        { isWeapon := true, ammo := some 2,
          weaponGet := fun a =>
            if a = "firing energy" then 3 else if a = "firing fuel" then 1
            else if a = "firing heat" then 4 else 0 }
      else {} }

/-- A ship with energy 10, fuel 5, no heat and the given number of rounds of
outfit 2 installed (no entry when the number is 0). -/
def armedShip (rounds : Int) : ShipCore :=
  { self := 1, energy := 10, fuel := 5,
    outfits := fun o => if o = 2 ∧ rounds ≠ 0 then some rounds else none }

/-- Whether no call of the sequence removes more than is installed at the
time it is made: `OutfitCount(outfit) + count ≥ 0` for each call. -/
def removalsCovered (k : Catalogue) (c : ShipCore) : List (Option OutfitId × Int) → Bool
  | [] => true
  | call :: rest =>
    decide (0 ≤ OutfitCount c call.1 + call.2)
      && removalsCovered k (AddOutfit k c call.1 call.2) rest

/-- A manned ship of mass 10 in system 0 with the given heat and overheat
flag. -/
def hotShip (heat : ℚ) (overheated : Bool) : Ship :=
  mk { self := 1, crew := 1, currentSystem := some 0, heat := heat,
       isOverheated := overheated,
       attributes := { get := fun a => if a = "mass" then 10 else 0 } }
    [] []

/-- A ship in system 0 that was not marked as in the player's system, with
the given forget counter, special or not. -/
def strayShip (forget : Int) (special : Bool) : Ship :=
  mk { self := 1, crew := 1, isSpecial := special, currentSystem := some 0,
       isInSystem := false, forget := forget, energy := 3, fuel := 4 }
    [] []

/-- A destroyed ship (hull -10 of 100) in the player's system with the given
shields (of 100), energy 7, fuel 3 and heat 2, that has placed `count` of its
`total` explosions. -/
def wreck (shields : ℚ) (count total : Int) : Ship :=
  mk { self := 1, crew := 1, hull := -10, shields := shields, energy := 7, fuel := 3,
       heat := 2, currentSystem := some 0, explosionCount := count,
       explosionTotal := total,
       attributes := { get := fun a =>
         if a = "hull" then 100 else if a = "shields" then 100 else 0 } }
    [] []

/-- A ship with hull 100 of 100 that is landing on planet 2 of system 0 at
the given zoom, special or not, fleeing or not. -/
def descendingShip (zoom : ℚ) (special fleeing : Bool) : Ship :=
  mk { self := 1, crew := 1, isSpecial := special, hull := 100, zoom := zoom,
       currentSystem := some 0, landingPlanet := some 2,
       targetPlanet := some { planet := some 2 },
       personality := { isFleeing := fleeing },
       attributes := { get := fun a => if a = "hull" then 100 else 0 } }
    [] []

/-- A world in which planet 2 is a wormhole from any system to system 9. -/
def wormholeWorld : World :=
  { planetIsWormhole := fun p => decide (p = 2),
    wormholeDestination := fun _ _ => some 9 }

/-- A ship whose map `outfits` has one entry, for outfit 2, with count 0: the
state that the plunder loop of `Board` leaves behind. -/
def strippedShip : ShipCore :=
  { self := 1, outfits := fun o => if o = 2 then some 0 else none }

/-- A ship with the given fuel and a fuel capacity of 100. -/
def tanker (fuel : ℚ) : ShipCore :=
  { self := 1, fuel := fuel,
    attributes := { get := fun a => if a = "fuel capacity" then 100 else 0 } }

/-- A ship whose base hull has the given `"heat dissipation"` stat, with a
heat generation of 3 and a cooling of 1. -/
def loadedShip (dissipation : ℚ) : ShipCore :=
  { self := 1, hull := 10,
    baseAttributes := { get := fun a => if a = "heat dissipation" then dissipation else 0 },
    attributes := { get := fun a =>
      if a = "heat dissipation" then dissipation else if a = "heat generation" then 3
      else if a = "cooling" then 1 else 0 } }

/-- A catalogue in which outfit 2 is a shield generator worth 50 points of
`"shields"`, with `Outfit::Add` as modelled by `addScaled`. -/
def shieldCatalogue : Catalogue :=
  { outfit := fun o =>
      if o = 2 then { get := fun a => if a = "shields" then 50 else 0 } else {},
    add := addScaled }

/-- A disabled ship (crew 0) whose base hull has 100 points of `"shields"`
and that has one shield generator (outfit 2) installed, so that its aggregate
`"shields"` is 150; fuel 0 of 0. -/
def shieldedVictim : ShipCore :=
  { self := 2, hull := 100,
    baseAttributes := { get := fun a => if a = "shields" then 100 else 0 },
    attributes := { get := fun a => if a = "shields" then 150 else 0 },
    outfits := fun o => if o = 2 then some 1 else none }

/-- The state at line 703 of `Ship::Move`, where the steering starts: after
the commands, the cloaking and the pilot counters. -/
def flightTop (g : Geometry) (w : World) (d : MoveDraws) (s : Ship) : ShipCore :=
  flightPilot d (flightCloak (flightCommands g w s))

/-- A manned ship in system 0 that moves at velocity (3, 4) and is commanded
to turn, with energy 10; mass 10, drag 1, turn 20, turning energy 1. -/
def turningShip : Ship :=
  mk { self := 1, crew := 1, hull := 100, energy := 10, currentSystem := some 0,
       velocity := ⟨3, 4⟩, commands := { turn := 1 }, pilotOkay := 5,
       attributes := { get := fun a =>
         if a = "hull" then 100 else if a = "mass" then 10 else if a = "drag" then 1
         else if a = "turn" then 20 else if a = "turning energy" then 1 else 0 } }
    [] []

/-- A special ship with a jump drive in system 0, in the ninety-ninth tick of
a jump to system 7, which is also still its target; hull 100 of 100, fuel 10,
`"jump fuel"` 100. -/
def departingShip : Ship :=
  mk { self := 1, crew := 1, isSpecial := true, hull := 100, fuel := 10,
       currentSystem := some 0, hyperspaceSystem := some 7, targetSystem := some 7,
       hyperspaceCount := 99,
       attributes := { get := fun a =>
         if a = "hull" then 100 else if a = "jump drive" then 1
         else if a = "jump fuel" then 100 else 0 } }
    [] []

/-- A manned ship of mass 10 at rest in system 0, hull 100 of 100 and fuel 100,
with a jump drive and a `"jump fuel"` of 100, that targets system 7 and is
commanded to jump while its heat is 2000, twice what overheats it. -/
def hotJumper : Ship :=
  mk { self := 1, crew := 1, hull := 100, fuel := 100, heat := 2000,
       currentSystem := some 0, targetSystem := some 7, commands := { jump := true },
       attributes := { get := fun a =>
         if a = "hull" then 100 else if a = "mass" then 10 else if a = "jump fuel" then 100
         else if a = "jump drive" then 1 else 0 } }
    [] []

/-- The hand-over of excess shields as the specification words it: the
occupied bays are served in bay order; each docked craft first gains its own
shield generation, capped at its own capacity, and then takes the smaller of
its remaining room and the remaining excess. Returns the excess left and the
bays. -/
def shareExcess : ℚ → List (Bay Ship) → ℚ × List (Bay Ship)
  | excess, [] => (excess, [])
  | excess, bay :: rest =>
    match bay.ship with
    | none =>
      have r := shareExcess excess rest
      (r.1, bay :: r.2)
    | some ship =>
      have capacity := ship.core.attributes.get "shields"
      have own := min capacity (ship.core.shields + ship.core.attributes.get "shield generation")
      have taken := min (capacity - own) excess
      have r := shareExcess (excess - taken) rest
      (r.1, { bay with ship := some (setShields ship (own + taken)) } :: r.2)

/-- The sum of the shields of the craft docked in a bay vector. -/
def craftShields : List (Bay Ship) → ℚ
  | [] => 0
  | bay :: rest =>
    (match bay.ship with
     | none => 0
     | some ship => ship.core.shields) + craftShields rest

/-- The sum, over the craft docked in a bay vector, of the shields that each
has after its own generation: `min(myMax, shields + myGen)`. -/
def craftOwn : List (Bay Ship) → ℚ
  | [] => 0
  | bay :: rest =>
    (match bay.ship with
     | none => 0
     | some ship =>
       min (ship.core.attributes.get "shields")
         (ship.core.shields + ship.core.attributes.get "shield generation"))
    + craftOwn rest

/-- A craft of the given category and identity with shields 0 and the given
shield capacity, which generates no shields itself. -/
def shieldCraft (category : String) (self : ShipId) (capacity : ℚ) : Ship :=
  mk { self := self,
       attributes := { category := category,
                       get := fun k => if k = "shields" then capacity else 0 } }
    [] []

/-- A carrier that is neither disabled nor overheated, with shields 10 of 10,
energy 100 and a shield generation of 30 per tick, whose fighter bays hold a
fighter with shields 0 of 20 and whose drone bay holds a drone with shields 0
of 50. -/
def sharingCarrier : Ship :=
  mk { self := 1, crew := 1, shields := 10, energy := 100, currentSystem := some 0,
       attributes := { get := fun k =>
         if k = "shields" then 10 else if k = "shield generation" then 30 else 0 } }
    [{ ship := some (shieldCraft "Fighter" 2 20) }, {}]
    [{ ship := some (shieldCraft "Drone" 3 50) }]

/-- The loop at lines 1543-1549 of `Ship::UnloadFighters` (and again at
1550-1556) over one bay vector of a ship with data members `c`: every docked
craft is put in the ship's system and on its landing planet, and its bay is
emptied. Returns the bays and the craft, in bay order, as the loop leaves
them. -/
def unloadBays (c : ShipCore) : List (Bay Ship) → List (Bay Ship) × List Ship
  | [] => ([], [])
  | bay :: rest =>
    have r := unloadBays c rest
    match bay.ship with
    | some craft =>
      ({ bay with ship := none } :: r.1,
        mk (SetPlanet (SetSystem craft.core c.currentSystem) c.landingPlanet)
          craft.fighterBays craft.droneBays :: r.2)
    | none => (bay :: r.1, r.2)

/-- `Ship::UnloadFighters` (line 1541): the ship, and the craft that were
docked in it, fighters first, as the call leaves them. -/
def UnloadFighters (s : Ship) : Ship × List Ship :=
  have f := unloadBays s.core s.fighterBays
  have d := unloadBays s.core s.droneBays
  (mk s.core f.1 d.1, f.2 ++ d.2)

/-- Lines 955-961 of `Ship::Fire`: the ship is marked as present, and the
single-turn projectile of the death explosion is appended to the list when the
explosion counter equals the explosion total and the explosion weapon is set
(`Load`, line 134, sets it for every ship). The projectile is built from the
position of the ship and the weapon. The weapons fired by the rest of `Fire`
go through the armament, which is not part of the model. -/
def fireExplosion (c : ShipCore) (projectiles : List Projectile) :
    ShipCore × List Projectile :=
  have c := firePresence c
  if c.explosionCount = c.explosionTotal then
    match c.explosionWeapon with
    | some weapon => (c, projectiles ++ [{ weapon := weapon, position := c.position }])
    | none => (c, projectiles)
  else (c, projectiles)

/-- A healthy ship (hull 100 of 100, crew 1) as `Load` leaves a model that is
defined without any `explode` line: explosion total 0, explosion counter 0,
and the explosion weapon set, here with a blast of 500 hull damage. -/
def plainShip : ShipCore :=
  { self := 1, crew := 1, hull := 100, currentSystem := some 0, position := ⟨5, 7⟩,
    attributes := { get := fun a => if a = "hull" then 100 else 0 },
    explosionWeapon :=
      some { isWeapon := true, weaponGet := fun a => if a = "hull damage" then 500 else 0 } }

/-- A geometry whose length is `|x| + |y|`, which is the Euclidean length on
the points of the two axes, and in which every facing is the direction of the
x axis. It is used with ships and forces that stay on the x axis. -/
def axisGeometry : Geometry where
  sqrt := fun x => x
  length := fun p => |p.x| + |p.y|
  unit := fun p => p.scale (1 / (|p.x| + |p.y|))
  cross := fun p q => p.x * q.y - p.y * q.x
  angleUnit := fun _ => ⟨1, 0⟩
  rotate := fun _ p => p

/-- A ship of mass 2 at rest at the point `(x, 0)`, with shields 100 of 100,
thrust 100 and drag 1, so that its `MaxVelocity()` is 100. -/
def pushedShip (x : ℚ) : Ship :=
  mk { self := 1, crew := 1, shields := 100, hull := 100, position := ⟨x, 0⟩,
       attributes := { get := fun a =>
         if a = "hull" then 100 else if a = "shields" then 100 else if a = "mass" then 2
         else if a = "thrust" then 100 else if a = "drag" then 1 else 0 } }
    [] []

/-- A projectile at the origin whose weapon has a hit force of 6 and does no
damage. -/
def forceShot : Projectile :=
  { weapon := { weaponGet := fun a => if a = "hit force" then 6 else 0 } }

/-- A manned ship of mass 10 that flies along the x axis at the given speed
and is commanded to thrust forward, with energy 10; thrust 20 and drag 2, so
that its `MaxVelocity()` is 10. -/
def thrustingShip (speed : ℚ) : ShipCore :=
  { self := 1, crew := 1, hull := 100, energy := 10, currentSystem := some 0,
    velocity := ⟨speed, 0⟩, commands := { forward := true },
    attributes := { get := fun a =>
      if a = "hull" then 100 else if a = "mass" then 10 else if a = "thrust" then 20
      else if a = "drag" then 2 else 0 } }

/-- The jump counter invariant: the counter lies within `[0, 100]`, and a
jump target is set only while the counter is below 100. -/
def jumpCounterOk (c : ShipCore) : Prop :=
  0 ≤ c.hyperspaceCount ∧ c.hyperspaceCount ≤ 100
    ∧ (c.hyperspaceSystem ≠ none → c.hyperspaceCount < 100)

/-- A call made on a ship: `Move`, in a world and with its random draws, or
`WasCaptured`, with the capturer. -/
inductive ShipCall where
  | move (w : World) (d : MoveDraws)
  | captured (capturer : ShipCore)

/-- The ship after a sequence of calls, made in the order of the list. -/
def runCalls (g : Geometry) : List ShipCall → Ship → Ship
  | [], s => s
  | ShipCall.move w d :: rest, s => runCalls g rest (Move g w d s).2
  | ShipCall.captured capturer :: rest, s =>
    runCalls g rest (mk (WasCaptured s.core capturer).1 s.fighterBays s.droneBays)

/-- A special ship with a conventional hyperdrive that flies along the x axis
at speed 198, as after 99 ticks of a jump started from rest, in the
ninety-ninth tick of its jump from system 0 to system 7; thrust 1000 and drag
1, so that its `MaxVelocity()` is 1000. -/
def fastJumper : Ship :=
  mk { self := 1, crew := 1, isSpecial := true, hull := 100, fuel := 200,
       currentSystem := some 0, hyperspaceSystem := some 7, hyperspaceCount := 99,
       velocity := ⟨198, 0⟩,
       attributes := { get := fun a =>
         if a = "hull" then 100 else if a = "hyperdrive" then 1
         else if a = "jump fuel" then 100 else if a = "thrust" then 1000
         else if a = "drag" then 1 else 0 } }
    [] []

/-- A Drone with no crew whose `"required crew"` stat is 5, flying in system 0
with hull 100 of 100 and neither pilot counter running. -/
def strandedDrone : Ship :=
  mk { self := 1, hull := 100, crew := 0, isSpecial := true, zoom := 1,
       currentSystem := some 0,
       attributes := { category := "Drone", get := fun k =>
         if k = "hull" then 100 else if k = "required crew" then 5 else 0 } }
    [] []

/-! ## Basic facts about the embedding -/

@[simp] theorem core_mk (c : ShipCore) (f d : List (Bay Ship)) : (mk c f d).core = c := by
  cases c
  rfl

@[simp] theorem fighterBays_mk (c : ShipCore) (f d : List (Bay Ship)) :
    (mk c f d).fighterBays = f := by
  cases f <;> rfl

@[simp] theorem droneBays_mk (c : ShipCore) (f d : List (Bay Ship)) :
    (mk c f d).droneBays = d := by
  cases d <;> rfl

theorem eta (s : Ship) : mk s.core s.fighterBays s.droneBays = s := by
  cases s; rfl

theorem ApplyForce_frame (g : Geometry) (m : ℚ) (c : ShipCore) (f : Point) :
    (ApplyForce g m c f).hull = c.hull ∧ (ApplyForce g m c f).shields = c.shields
      ∧ (ApplyForce g m c f).heat = c.heat := by
  unfold ApplyForce
  split
  · exact ⟨rfl, rfl, rfl⟩
  · dsimp only
    split <;> exact ⟨rfl, rfl, rfl⟩

/-! ## C1, C2: the damage model -/

/-- C1. `TakeDamage` on a partially shielded ship: when the weapon's shield
damage `d` is positive, its hull damage `h` is non-negative and the shields
`s` satisfy `0 ≤ s ≤ d`, the shields become exactly `0`, the hull goes down
by exactly `h * (1 - s / d)`, a value between `0` and `h`, and the heat goes
up by the whole heat damage. -/
theorem C1_TakeDamage_partial (g : Geometry) (w : World) (s : Ship) (p : Projectile)
    (isBlast : Bool)
    (hd : 0 < p.weapon.weaponGet "shield damage")
    (hh : 0 ≤ p.weapon.weaponGet "hull damage")
    (hs : 0 ≤ s.core.shields)
    (hsd : s.core.shields ≤ p.weapon.weaponGet "shield damage") :
    (TakeDamage g w s p isBlast).1.core.shields = 0
    ∧ (TakeDamage g w s p isBlast).1.core.hull
        = s.core.hull - p.weapon.weaponGet "hull damage"
            * (1 - s.core.shields / p.weapon.weaponGet "shield damage")
    ∧ 0 ≤ p.weapon.weaponGet "hull damage"
            * (1 - s.core.shields / p.weapon.weaponGet "shield damage")
    ∧ p.weapon.weaponGet "hull damage"
            * (1 - s.core.shields / p.weapon.weaponGet "shield damage")
        ≤ p.weapon.weaponGet "hull damage"
    ∧ (TakeDamage g w s p isBlast).1.core.heat
        = s.core.heat + p.weapon.weaponGet "heat damage" := by
  have hne : p.weapon.weaponGet "shield damage" ≠ 0 := ne_of_gt hd
  have hnot : ¬ s.core.shields > p.weapon.weaponGet "shield damage" := not_lt.mpr hsd
  have hq0 : 0 ≤ s.core.shields / p.weapon.weaponGet "shield damage" :=
    div_nonneg hs hd.le
  have hq1 : s.core.shields / p.weapon.weaponGet "shield damage" ≤ 1 :=
    (div_le_one hd).mpr hsd
  refine ⟨?_, ?_, ?_, ?_, ?_⟩
  · simp only [TakeDamage, TakeDamageCore, core_mk]
    simp only [hnot, hne, if_false, if_true, ne_eq, not_false_eq_true, or_true]
    split
    · split
      · exact (ApplyForce_frame _ _ _ _).2.1
      · rfl
    · rfl
  · simp only [TakeDamage, TakeDamageCore, core_mk]
    simp only [hnot, hne, if_false, if_true, ne_eq, not_false_eq_true, or_true]
    split
    · split
      · exact (ApplyForce_frame _ _ _ _).1
      · rfl
    · rfl
  · exact mul_nonneg hh (by linarith)
  · exact mul_le_of_le_one_right hh (by linarith)
  · simp only [TakeDamage, TakeDamageCore, core_mk]
    simp only [hnot, hne, if_false, if_true, ne_eq, not_false_eq_true, or_true]
    split
    · split
      · exact (ApplyForce_frame _ _ _ _).2.2
      · rfl
    · rfl

/-- Witness of C1 with shields 50, shield damage 80 and hull damage 40: the
hull goes from 100 to 85, a debit of 15. -/
theorem C1_TakeDamage_partial_witness :
    (TakeDamage flatGeometry {} (damageShip 50 100 0) (damageShot 80 40 6) false).1.core.shields
        = 0
    ∧ (TakeDamage flatGeometry {} (damageShip 50 100 0) (damageShot 80 40 6) false).1.core.hull
        = 100 - 15
    ∧ (TakeDamage flatGeometry {} (damageShip 50 100 0) (damageShot 80 40 6) false).1.core.heat
        = 6 := by
  have h := C1_TakeDamage_partial flatGeometry {} (damageShip 50 100 0) (damageShot 80 40 6)
    false (by simp [damageShot]) (by simp [damageShot])
    (by simp [damageShip]) (by simp [damageShip, damageShot] <;> norm_num)
  refine ⟨h.1, ?_, ?_⟩
  · rw [h.2.1]; simp [damageShip, damageShot] <;> norm_num
  · rw [h.2.2.2.2]; simp [damageShip, damageShot]

/-- C2. `TakeDamage` on a ship whose shields `s` exceed the weapon's shield
damage `d`: the shields become `s - d`, the hull does not change whatever the
hull damage is, and the heat goes up by exactly half the heat damage. -/
theorem C2_TakeDamage_absorbed (g : Geometry) (w : World) (s : Ship) (p : Projectile)
    (isBlast : Bool)
    (hsd : s.core.shields > p.weapon.weaponGet "shield damage") :
    (TakeDamage g w s p isBlast).1.core.shields
        = s.core.shields - p.weapon.weaponGet "shield damage"
    ∧ (TakeDamage g w s p isBlast).1.core.hull = s.core.hull
    ∧ (TakeDamage g w s p isBlast).1.core.heat
        = s.core.heat + 1 / 2 * p.weapon.weaponGet "heat damage" := by
  refine ⟨?_, ?_, ?_⟩
  · simp only [TakeDamage, TakeDamageCore, core_mk]
    simp only [hsd, if_true]
    split
    · split
      · exact (ApplyForce_frame _ _ _ _).2.1
      · rfl
    · rfl
  · simp only [TakeDamage, TakeDamageCore, core_mk]
    simp only [hsd, if_true]
    split
    · split
      · exact (ApplyForce_frame _ _ _ _).1
      · rfl
    · rfl
  · simp only [TakeDamage, TakeDamageCore, core_mk]
    simp only [hsd, if_true]
    split
    · split
      · exact (ApplyForce_frame _ _ _ _).2.2
      · rfl
    · rfl

/-- Witness of C2 with shields 100 and shield damage 30: the shields become
70, the hull stays at 100 and the heat rises by half of 6. -/
theorem C2_TakeDamage_absorbed_witness :
    (TakeDamage flatGeometry {} (damageShip 100 100 0) (damageShot 30 40 6) false).1.core.shields
        = 70
    ∧ (TakeDamage flatGeometry {} (damageShip 100 100 0) (damageShot 30 40 6) false).1.core.hull
        = 100
    ∧ (TakeDamage flatGeometry {} (damageShip 100 100 0) (damageShot 30 40 6) false).1.core.heat
        = 3 := by
  have h := C2_TakeDamage_absorbed flatGeometry {} (damageShip 100 100 0) (damageShot 30 40 6)
    false (by simp [damageShip, damageShot] <;> norm_num)
  refine ⟨?_, ?_, ?_⟩
  · rw [h.1]; simp [damageShip, damageShot] <;> norm_num
  · rw [h.2.1]; simp [damageShip]
  · rw [h.2.2]; simp [damageShip, damageShot] <;> norm_num

/-! ## C3: the disabled test -/

theorem truncInt_natCast (n : Nat) : truncInt (n : ℚ) = n := by
  simp [truncInt]

theorem RequiredCrew_nonneg (c : ShipCore) : 0 ≤ RequiredCrew c := by
  unfold RequiredCrew
  split
  · exact le_max_left _ _
  · exact le_trans (by decide) (le_max_left _ _)

theorem RequiredCrew_pos (c : ShipCore) (h : c.attributes.category ≠ "Drone") :
    1 ≤ RequiredCrew c := by
  unfold RequiredCrew
  rw [if_neg h]
  exact le_max_left _ _

/-- C3. `IsDisabled()` is true exactly when `hull < MinimumHull()` or the crew
is zero while `RequiredCrew()` is not, with `MinimumHull() = max(0.20 *
maxHull, min(0.50 * maxHull, 400))` for `maxHull` the `"hull"` attribute.
Hence a ship whose hull is below that threshold is disabled whatever its crew
is, a ship with no crew and a non-zero required crew is disabled whatever its
hull is, and that covers every ship that is not a Drone, whose required crew
is at least 1. -/
theorem C3_IsDisabled (c : ShipCore) :
    (IsDisabled c = true ↔ c.hull < MinimumHull c ∨ (c.crew = 0 ∧ RequiredCrew c ≠ 0))
    ∧ MinimumHull c
        = max (20 / 100 * c.attributes.get "hull") (min (50 / 100 * c.attributes.get "hull") 400)
    ∧ (c.hull < MinimumHull c → ∀ n : Int, IsDisabled { c with crew := n } = true)
    ∧ (RequiredCrew c ≠ 0 → ∀ h : ℚ, IsDisabled { c with crew := 0, hull := h } = true)
    ∧ (c.attributes.category ≠ "Drone" →
        1 ≤ RequiredCrew c ∧ ∀ h : ℚ, IsDisabled { c with crew := 0, hull := h } = true) := by
  have key : ∀ k : ShipCore,
      (IsDisabled k = true ↔ k.hull < MinimumHull k ∨ (k.crew = 0 ∧ RequiredCrew k ≠ 0)) := by
    intro k
    simp [IsDisabled]
  refine ⟨key c, rfl, ?_, ?_, ?_⟩
  · intro h n
    exact (key _).2 (Or.inl h)
  · intro h x
    exact (key _).2 (Or.inr ⟨rfl, h⟩)
  · intro h
    have h1 := RequiredCrew_pos c h
    refine ⟨h1, fun x => (key _).2 (Or.inr ⟨rfl, ?_⟩)⟩
    have : RequiredCrew c ≠ 0 := by omega
    exact this

/-- Witness of C3: with a `"hull"` attribute of 100 the threshold is 50, so a
Fighter with hull 10 is disabled with a crew of 7, and with hull 90 and no
crew it is disabled because it requires a crew of 1. -/
theorem C3_IsDisabled_witness :
    MinimumHull (crewShip "Fighter" 10 7 100 0) = 50
    ∧ IsDisabled (crewShip "Fighter" 10 7 100 0) = true
    ∧ IsDisabled { crewShip "Fighter" 90 7 100 0 with crew := 0, hull := 90 } = true := by
  have h := C3_IsDisabled (crewShip "Fighter" 10 7 100 0)
  have h90 := C3_IsDisabled (crewShip "Fighter" 90 7 100 0)
  have hm : MinimumHull (crewShip "Fighter" 10 7 100 0) = 50 := by
    rw [h.2.1]; simp [crewShip] <;> norm_num
  refine ⟨hm, ?_, ?_⟩
  · exact h.1.2 (Or.inl (by rw [hm]; simp [crewShip] <;> norm_num))
  · exact (h90.2.2.2.2 (by simp [crewShip])).2 90

/-! ## C8: capture -/

theorem max_one_tdiv_eq_floor (n t : Int) (ht : 0 ≤ t) :
    max 1 (Int.tdiv n t) = max 1 ⌊(n : ℚ) / (t : ℚ)⌋ := by
  rcases le_or_lt 0 n with hn | hn
  · rw [Int.tdiv_eq_ediv hn ht]
    obtain ⟨d, rfl⟩ := Int.eq_ofNat_of_zero_le ht
    rw [← Rat.floor_intCast_div_natCast]
    simp
  · have h1 : Int.tdiv n t ≤ 0 := by
      have h := Int.tdiv_nonneg (a := -n) (b := t) (by omega) ht
      rw [Int.neg_tdiv] at h
      omega
    have h2 : ⌊(n : ℚ) / (t : ℚ)⌋ ≤ 0 := by
      apply Int.floor_nonpos
      apply div_nonpos_of_nonpos_of_nonneg
      · exact_mod_cast hn.le
      · exact_mod_cast ht
    rw [max_eq_left (by omega), max_eq_left (by omega)]

/-- C8. After `WasCaptured` the captured ship has the capturer's government,
its hull is `max(old hull, MinimumHull())` and so at least the threshold
below which a ship is disabled, the crew moved from the capturer to the
captured ship is the captured ship's `RequiredCrew()` when the capturer's
crew is at least the two required crews together and otherwise `max(1,
floor(capturerCrew * RequiredCrew() / (capturer.RequiredCrew() +
RequiredCrew())))`, the captured ship gains what the capturer loses, and the
sum of the two crews does not change. -/
theorem C8_WasCaptured (c capturer : ShipCore) :
    (WasCaptured c capturer).1.government = capturer.government
    ∧ (WasCaptured c capturer).1.hull = max c.hull (MinimumHull c)
    ∧ MinimumHull (WasCaptured c capturer).1 ≤ (WasCaptured c capturer).1.hull
    ∧ (WasCaptured c capturer).1.crew = c.crew + crewMoved c capturer
    ∧ crewMoved c capturer
        = (if RequiredCrew capturer + RequiredCrew c ≤ capturer.crew then RequiredCrew c
           else max 1 ⌊((capturer.crew * RequiredCrew c : Int) : ℚ)
                        / ((RequiredCrew capturer + RequiredCrew c : Int) : ℚ)⌋)
    ∧ (WasCaptured c capturer).1.crew + (WasCaptured c capturer).2.crew
        = c.crew + capturer.crew := by
  have hreq : ∀ (h : ℚ) (gv : Option GovId),
      RequiredCrew { c with hull := h, government := gv } = RequiredCrew c := fun _ _ => rfl
  have ht : 0 ≤ RequiredCrew capturer + RequiredCrew c :=
    add_nonneg (RequiredCrew_nonneg _) (RequiredCrew_nonneg _)
  have hmoved : crewMoved c capturer
      = (if RequiredCrew capturer + RequiredCrew c ≤ capturer.crew then RequiredCrew c
         else max 1 ⌊((capturer.crew * RequiredCrew c : Int) : ℚ)
                      / ((RequiredCrew capturer + RequiredCrew c : Int) : ℚ)⌋) := by
    rw [← max_one_tdiv_eq_floor _ _ ht]
    simp only [crewMoved, WasCaptured, AddCrew, Crew, hreq]
    by_cases h : RequiredCrew capturer + RequiredCrew c ≤ capturer.crew
    · rw [if_neg (not_lt.mpr h), if_pos h]; ring
    · rw [if_pos (not_le.mp h), if_neg h]; ring
  have hcrew : (WasCaptured c capturer).1.crew = c.crew + crewMoved c capturer := by
    simp only [crewMoved, WasCaptured, AddCrew, Crew, hreq, SetParent]
    ring
  refine ⟨rfl, rfl, ?_, hcrew, hmoved, ?_⟩
  · exact le_max_right c.hull (MinimumHull c)
  · rw [hcrew]
    simp only [crewMoved]
    ring

/-! ## C9: docking a craft -/

theorem addToBays_eq_none (craft : Ship) (bays : List (Bay Ship)) :
    addToBays craft bays = none ↔ ∀ b ∈ bays, b.ship ≠ none := by
  induction bays with
  | nil => simp [addToBays]
  | cons bay rest ih =>
    unfold addToBays
    cases hb : bay.ship with
    | none => simp [hb]
    | some k => simp [hb, ih]

theorem addToBays_eq_some (craft : Ship) (bays r : List (Bay Ship))
    (h : addToBays craft bays = some r) :
    ∃ i b, bays[i]? = some b ∧ b.ship = none
      ∧ (∀ j b', j < i → bays[j]? = some b' → b'.ship ≠ none)
      ∧ r = bays.set i { b with ship := some (dock craft) } := by
  induction bays generalizing r with
  | nil => simp [addToBays] at h
  | cons bay rest ih =>
    unfold addToBays at h
    cases hb : bay.ship with
    | none =>
      rw [hb] at h
      simp only [Option.some.injEq] at h
      refine ⟨0, bay, by simp, hb, ?_, ?_⟩
      · intro j b' hj
        exact absurd hj (Nat.not_lt_zero j)
      · simp [← h]
    | some k =>
      rw [hb] at h
      simp only [Option.map_eq_some'] at h
      obtain ⟨r', hr', rfl⟩ := h
      obtain ⟨i, b, hi, hbn, hlow, hset⟩ := ih r' hr'
      refine ⟨i + 1, b, by simpa using hi, hbn, ?_, ?_⟩
      · intro j b' hj hjb
        cases j with
        | zero =>
          simp only [List.getElem?_cons_zero, Option.some.injEq] at hjb
          rw [← hjb, hb]
          exact Option.some_ne_none k
        | succ j =>
          simp only [List.getElem?_cons_succ] at hjb
          exact hlow j b' (by omega) hjb
      · simp [hset]

/-- C9. `AddFighter` returns true exactly when the craft pointer is not null,
the craft's category is "Fighter" and a fighter bay is empty, or its category
is "Drone" and a drone bay is empty. Then the craft sits in the lowest-index
empty bay of the list of its category, every other bay of the two lists and
the ship's own data are as before. What the bay holds is the craft that was
passed in, with its own bays and with every field of its own data as it was
except the four that `SetSystem(nullptr)` and `SetPlanet(nullptr)` write: it
has no current system, no landing planet, no destination and zoom 0. When
`AddFighter` returns false nothing has changed. A Fighter leaves the drone
bays as they were and a Drone the fighter bays. -/
theorem C9_AddFighter (s : Ship) (ship : Option Ship) :
    ((AddFighter s ship).1 = true ↔
        ∃ craft, ship = some craft
          ∧ ((craft.core.attributes.category = "Fighter" ∧ ∃ b ∈ s.fighterBays, b.ship = none)
            ∨ (craft.core.attributes.category = "Drone" ∧ ∃ b ∈ s.droneBays, b.ship = none)))
    ∧ ((AddFighter s ship).1 = false → AddFighter s ship = (false, s, ship))
    ∧ (∀ craft, ship = some craft → (AddFighter s ship).1 = true →
        ∃ docked, (AddFighter s ship).2.2 = some docked
          ∧ docked.core.currentSystem = none ∧ docked.core.landingPlanet = none
          ∧ docked.core.zoom = 0
          ∧ docked.core
              = { craft.core with
                  currentSystem := none, zoom := 0, landingPlanet := none, destination := none }
          ∧ docked.fighterBays = craft.fighterBays ∧ docked.droneBays = craft.droneBays
          ∧ (AddFighter s ship).2.1.core = s.core
          ∧ (craft.core.attributes.category = "Fighter" →
              (AddFighter s ship).2.1.droneBays = s.droneBays
              ∧ ∃ i b, s.fighterBays[i]? = some b ∧ b.ship = none
                  ∧ (∀ j b', j < i → s.fighterBays[j]? = some b' → b'.ship ≠ none)
                  ∧ (AddFighter s ship).2.1.fighterBays
                      = s.fighterBays.set i { b with ship := some docked })
          ∧ (craft.core.attributes.category = "Drone" →
              (AddFighter s ship).2.1.fighterBays = s.fighterBays
              ∧ ∃ i b, s.droneBays[i]? = some b ∧ b.ship = none
                  ∧ (∀ j b', j < i → s.droneBays[j]? = some b' → b'.ship ≠ none)
                  ∧ (AddFighter s ship).2.1.droneBays
                      = s.droneBays.set i { b with ship := some docked })) := by
  have hFD : ("Fighter" : String) ≠ "Drone" := by decide
  cases ship with
  | none => simp [AddFighter]
  | some craft =>
    by_cases hF : craft.core.attributes.category = "Fighter"
    · have hD : craft.core.attributes.category ≠ "Drone" := by rw [hF]; exact hFD
      cases hb : addToBays craft s.fighterBays with
      | none =>
        have hfull := (addToBays_eq_none craft s.fighterBays).1 hb
        have hno : ¬ ∃ b ∈ s.fighterBays, b.ship = none := fun ⟨b, hm, hn⟩ => hfull b hm hn
        simp [AddFighter, hF, hb, hno, hFD]
      | some r =>
        obtain ⟨i, b, hi, hbn, hlow, hset⟩ := addToBays_eq_some craft s.fighterBays r hb
        have hex : ∃ b ∈ s.fighterBays, b.ship = none :=
          ⟨b, List.getElem?_mem hi, hbn⟩
        refine ⟨?_, ?_, ?_⟩
        · simp [AddFighter, hF, hb, hex]
        · simp [AddFighter, hF, hb]
        · intro k hk _
          simp only [Option.some.injEq] at hk
          subst hk
          refine ⟨dock craft, by simp [AddFighter, hF, hb], rfl, rfl, rfl,
            by simp [dock, SetPlanet, SetSystem], by simp [dock], by simp [dock],
            by simp [AddFighter, hF, hb], ?_, fun h => absurd h hD⟩
          intro _
          exact ⟨by simp [AddFighter, hF, hb], i, b, hi, hbn, hlow,
            by simp [AddFighter, hF, hb, hset]⟩
    · by_cases hD : craft.core.attributes.category = "Drone"
      · cases hb : addToBays craft s.droneBays with
        | none =>
          have hfull := (addToBays_eq_none craft s.droneBays).1 hb
          have hno : ¬ ∃ b ∈ s.droneBays, b.ship = none := fun ⟨b, hm, hn⟩ => hfull b hm hn
          simp [AddFighter, hD, hb, hno, hFD.symm]
        | some r =>
          obtain ⟨i, b, hi, hbn, hlow, hset⟩ := addToBays_eq_some craft s.droneBays r hb
          have hex : ∃ b ∈ s.droneBays, b.ship = none :=
            ⟨b, List.getElem?_mem hi, hbn⟩
          refine ⟨?_, ?_, ?_⟩
          · simp [AddFighter, hD, hb, hex, hFD.symm]
          · simp [AddFighter, hD, hb, hFD.symm]
          · intro k hk _
            simp only [Option.some.injEq] at hk
            subst hk
            refine ⟨dock craft, by simp [AddFighter, hD, hb, hFD.symm], rfl, rfl, rfl,
              by simp [dock, SetPlanet, SetSystem], by simp [dock], by simp [dock],
              by simp [AddFighter, hD, hb, hFD.symm], fun h => absurd h hF, ?_⟩
            intro _
            exact ⟨by simp [AddFighter, hD, hb, hFD.symm], i, b, hi, hbn, hlow,
              by simp [AddFighter, hD, hb, hset, hFD.symm]⟩
      · simp [AddFighter, hF, hD]

/-- Witness of C9: a Fighter offered to the carrier, whose first fighter bay
is taken and whose second is empty, is accepted; it is stored in the second
bay, still with its identity 11 and its category, and ends without system or
landing planet and with zoom 0, while an Interceptor is refused and nothing
changes. -/
theorem C9_AddFighter_witness :
    (AddFighter carrier (some (smallCraft "Fighter" 11))).1 = true
    ∧ (∃ docked, (AddFighter carrier (some (smallCraft "Fighter" 11))).2.2 = some docked
        ∧ docked.core.currentSystem = none ∧ docked.core.landingPlanet = none
        ∧ docked.core.zoom = 0
        ∧ docked.core.self = 11 ∧ docked.core.attributes.category = "Fighter"
        ∧ ((AddFighter carrier (some (smallCraft "Fighter" 11))).2.1.fighterBays[1]?).map
            (fun b => b.ship) = some (some docked))
    ∧ AddFighter carrier (some (smallCraft "Interceptor" 13))
        = (false, carrier, some (smallCraft "Interceptor" 13)) := by
  have h := C9_AddFighter carrier (some (smallCraft "Fighter" 11))
  have h' := C9_AddFighter carrier (some (smallCraft "Interceptor" 13))
  have ht : (AddFighter carrier (some (smallCraft "Fighter" 11))).1 = true :=
    h.1.2 ⟨smallCraft "Fighter" 11, rfl, Or.inl ⟨rfl, {}, by simp [carrier], rfl⟩⟩
  have hf : (AddFighter carrier (some (smallCraft "Interceptor" 13))).1 = false := by
    rw [← Bool.not_eq_true]
    intro hc
    obtain ⟨k, hk, hcat⟩ := h'.1.1 hc
    simp only [Option.some.injEq] at hk
    subst hk
    rcases hcat with ⟨hcat, _⟩ | ⟨hcat, _⟩
    · exact absurd hcat (by simp [smallCraft])
    · exact absurd hcat (by simp [smallCraft])
  obtain ⟨docked, hd, h1, h2, h3, h4, _, _, _, h8, _⟩ := h.2.2 _ rfl ht
  obtain ⟨_, i, b, hi, hbn, hlow, hset⟩ := h8 rfl
  have hi1 : i = 1 := by
    rcases i with _ | _ | i
    · simp only [carrier, fighterBays_mk, List.getElem?_cons_zero, Option.some.injEq] at hi
      rw [← hi] at hbn
      simp at hbn
    · rfl
    · have h0 := hlow 1 {} (by omega) (by simp [carrier])
      exact absurd rfl h0
  subst hi1
  refine ⟨ht, ⟨docked, hd, h1, h2, h3, ?_, ?_, ?_⟩, h'.2.1 hf⟩
  · rw [h4]
    simp [smallCraft]
  · rw [h4]
    simp [smallCraft]
  · rw [hset]
    simp [carrier]

theorem AddFighter_carrier_bays :
    (AddFighter carrier (some (smallCraft "Fighter" 11))).2.1.fighterBays
    = [{ ship := some (dock (smallCraft "Fighter" 10)) },
       { ship := some (dock (smallCraft "Fighter" 11)) }, {}] := by
  simp [AddFighter, carrier, smallCraft, addToBays]

/-! ## C10: launching a craft -/

theorem launchCraft_fields (g : Geometry) (c : ShipCore) (point : Point) (random : Angle)
    (craft : Ship) (h : craft.core.landingPlanet = none) :
    (launchCraft g c point random craft).core.self = craft.core.self
    ∧ (launchCraft g c point random craft).core.currentSystem = c.currentSystem
    ∧ (launchCraft g c point random craft).core.parent = some c.self
    ∧ (launchCraft g c point random craft).core.zoom = 1 := by
  simp [launchCraft, Place, SetSystem, SetParent, h]

theorem launchBays_spec (g : Geometry) (m : Nat) (draw : Nat → Nat) (angle : Nat → Angle)
    (bays : List (Bay Ship)) :
    ∀ (i0 : Nat) (c : ShipCore) (ships : List Ship),
    ∃ (E : List ShipId) (new : List Ship),
      (launchBays g m draw angle i0 c ships bays).1 = { c with escorts := c.escorts ++ E }
      ∧ (launchBays g m draw angle i0 c ships bays).2.1 = ships ++ new
      ∧ ∀ j b craft, bays[j]? = some b → b.ship = some craft →
          craft.core.landingPlanet = none → draw (i0 + j) % m = 0 →
          (∃ b', (launchBays g m draw angle i0 c ships bays).2.2[j]? = some b' ∧ b'.ship = none)
          ∧ craft.core.self ∈ E
          ∧ ∃ k ∈ new, k.core.self = craft.core.self
              ∧ k.core.currentSystem = c.currentSystem
              ∧ k.core.parent = some c.self ∧ k.core.zoom = 1 := by
  induction bays with
  | nil =>
    intro i0 c ships
    exact ⟨[], [], by simp [launchBays], by simp [launchBays], by simp⟩
  | cons bay rest ih =>
    intro i0 c ships
    cases hb : bay.ship with
    | none =>
      obtain ⟨E, new, h1, h2, h3⟩ := ih (i0 + 1) c ships
      refine ⟨E, new, by simp [launchBays, hb, h1], by simp [launchBays, hb, h2], ?_⟩
      intro j b craft hj hbs hlp hdraw
      cases j with
      | zero =>
        simp only [List.getElem?_cons_zero, Option.some.injEq] at hj
        rw [← hj, hb] at hbs
        exact absurd hbs (by simp)
      | succ j =>
        simp only [List.getElem?_cons_succ] at hj
        have := h3 j b craft hj hbs hlp (by rw [← hdraw]; congr 2; omega)
        simpa [launchBays, hb] using this
    | some docked =>
      by_cases hd : draw i0 % m = 0
      · obtain ⟨E, new, h1, h2, h3⟩ := ih (i0 + 1) (AddEscort c docked.core.self)
          (ships ++ [launchCraft g c bay.point (angle i0) docked])
        refine ⟨docked.core.self :: E,
          launchCraft g c bay.point (angle i0) docked :: new, ?_, ?_, ?_⟩
        · have e : (launchBays g m draw angle i0 c ships (bay :: rest)).1
              = (launchBays g m draw angle (i0 + 1) (AddEscort c docked.core.self)
                  (ships ++ [launchCraft g c bay.point (angle i0) docked]) rest).1 := by
            simp only [launchBays, hb, hd, if_true]
          rw [e, h1]
          simp [AddEscort]
        · have e : (launchBays g m draw angle i0 c ships (bay :: rest)).2.1
              = (launchBays g m draw angle (i0 + 1) (AddEscort c docked.core.self)
                  (ships ++ [launchCraft g c bay.point (angle i0) docked]) rest).2.1 := by
            simp only [launchBays, hb, hd, if_true]
          rw [e, h2]
          simp
        · intro j b craft hj hbs hlp hdraw
          cases j with
          | zero =>
            simp only [List.getElem?_cons_zero, Option.some.injEq] at hj
            rw [← hj, hb] at hbs
            simp only [Option.some.injEq] at hbs
            subst hbs
            have e : (launchBays g m draw angle i0 c ships (bay :: rest)).2.2
                = { bay with ship := none }
                  :: (launchBays g m draw angle (i0 + 1) (AddEscort c docked.core.self)
                    (ships ++ [launchCraft g c bay.point (angle i0) docked]) rest).2.2 := by
              simp only [launchBays, hb, hd, if_true]
            refine ⟨by rw [e]; simp, by simp, ?_⟩
            exact ⟨_, List.mem_cons_self _ _,
              launchCraft_fields g c bay.point (angle i0) docked hlp⟩
          | succ j =>
            simp only [List.getElem?_cons_succ] at hj
            obtain ⟨hbay, hmem, k, hk, hk1, hk2, hk3, hk4⟩ :=
              h3 j b craft hj hbs hlp (by rw [← hdraw]; congr 2; omega)
            have e : (launchBays g m draw angle i0 c ships (bay :: rest)).2.2
                = { bay with ship := none }
                  :: (launchBays g m draw angle (i0 + 1) (AddEscort c docked.core.self)
                    (ships ++ [launchCraft g c bay.point (angle i0) docked]) rest).2.2 := by
              simp only [launchBays, hb, hd, if_true]
            refine ⟨by rw [e]; simpa using hbay, List.mem_cons_of_mem _ hmem,
              k, List.mem_cons_of_mem _ hk, hk1, ?_, ?_, hk4⟩
            · simpa [AddEscort] using hk2
            · simpa [AddEscort] using hk3
      · obtain ⟨E, new, h1, h2, h3⟩ := ih (i0 + 1) c ships
        refine ⟨E, new, by simp [launchBays, hb, hd, h1], by simp [launchBays, hb, hd, h2], ?_⟩
        intro j b craft hj hbs hlp hdraw
        cases j with
        | zero => exact absurd hdraw hd
        | succ j =>
          simp only [List.getElem?_cons_succ] at hj
          have := h3 j b craft hj hbs hlp (by rw [← hdraw]; congr 2; omega)
          simpa [launchBays, hb, hd] using this

/-- C10. When DEPLOY is not commanded or `CannotAct()` holds, `Launch` changes
neither the ship nor the caller's list. Otherwise the caller's list and the
ship's escort list only grow at the end, and for every occupied fighter bay
whose draw of `Random::Int(60)` is 0, and every occupied drone bay whose draw
of `Random::Int(40)` is 0, holding a craft without landing planet (as
`AddFighter` leaves it): the bay is empty afterwards, the craft is among the
ships appended to the caller's list, its current system is the launching
ship's, its parent is the launching ship, its zoom is 1, and it is among the
escorts the launching ship gained. -/
theorem C10_Launch (g : Geometry) (d : LaunchDraws) (s : Ship) (ships : List Ship) :
    ((s.core.commands.deploy = false ∨ CannotAct s.core = true) →
        Launch g d s ships = (s, ships))
    ∧ (s.core.commands.deploy = true → CannotAct s.core = false →
        ∃ (E : List ShipId) (new : List Ship),
          (Launch g d s ships).1.core.escorts = s.core.escorts ++ E
          ∧ (Launch g d s ships).2 = ships ++ new
          ∧ (∀ i b craft, s.fighterBays[i]? = some b → b.ship = some craft →
              craft.core.landingPlanet = none → d.fighter i % 60 = 0 →
              (∃ b', (Launch g d s ships).1.fighterBays[i]? = some b' ∧ b'.ship = none)
              ∧ craft.core.self ∈ E
              ∧ ∃ k ∈ new, k.core.self = craft.core.self
                  ∧ k.core.currentSystem = s.core.currentSystem
                  ∧ k.core.parent = some s.core.self ∧ k.core.zoom = 1)
          ∧ (∀ i b craft, s.droneBays[i]? = some b → b.ship = some craft →
              craft.core.landingPlanet = none → d.drone i % 40 = 0 →
              (∃ b', (Launch g d s ships).1.droneBays[i]? = some b' ∧ b'.ship = none)
              ∧ craft.core.self ∈ E
              ∧ ∃ k ∈ new, k.core.self = craft.core.self
                  ∧ k.core.currentSystem = s.core.currentSystem
                  ∧ k.core.parent = some s.core.self ∧ k.core.zoom = 1)) := by
  constructor
  · intro h
    rcases h with h | h <;> simp [Launch, h]
  · intro hdep hact
    obtain ⟨Ef, newf, f1, f2, f3⟩ :=
      launchBays_spec g 60 d.fighter d.fighterAngle s.fighterBays 0 s.core ships
    obtain ⟨Ed, newd, d1, d2, d3⟩ :=
      launchBays_spec g 40 d.drone d.droneAngle s.droneBays 0
        (launchBays g 60 d.fighter d.fighterAngle 0 s.core ships s.fighterBays).1
        (launchBays g 60 d.fighter d.fighterAngle 0 s.core ships s.fighterBays).2.1
    have hL : Launch g d s ships
        = (mk (launchBays g 40 d.drone d.droneAngle 0
                (launchBays g 60 d.fighter d.fighterAngle 0 s.core ships s.fighterBays).1
                (launchBays g 60 d.fighter d.fighterAngle 0 s.core ships s.fighterBays).2.1
                s.droneBays).1
              (launchBays g 60 d.fighter d.fighterAngle 0 s.core ships s.fighterBays).2.2
              (launchBays g 40 d.drone d.droneAngle 0
                (launchBays g 60 d.fighter d.fighterAngle 0 s.core ships s.fighterBays).1
                (launchBays g 60 d.fighter d.fighterAngle 0 s.core ships s.fighterBays).2.1
                s.droneBays).2.2,
           (launchBays g 40 d.drone d.droneAngle 0
                (launchBays g 60 d.fighter d.fighterAngle 0 s.core ships s.fighterBays).1
                (launchBays g 60 d.fighter d.fighterAngle 0 s.core ships s.fighterBays).2.1
                s.droneBays).2.1) := by
      simp [Launch, hdep, hact]
    rw [hL]
    refine ⟨Ef ++ Ed, newf ++ newd, ?_, ?_, ?_, ?_⟩
    · simp only [core_mk]
      rw [d1, f1]
      simp
    · simp only []
      rw [d2, f2]
      simp
    · intro i b craft hi hb hlp hdraw
      obtain ⟨hbay, hmem, k, hk, hks⟩ := f3 i b craft hi hb hlp (by simpa using hdraw)
      exact ⟨hbay, List.mem_append_left _ hmem, k, List.mem_append_left _ hk, hks⟩
    · intro i b craft hi hb hlp hdraw
      obtain ⟨hbay, hmem, k, hk, hk1, hk2, hk3, hk4⟩ :=
        d3 i b craft hi hb hlp (by simpa using hdraw)
      refine ⟨hbay, List.mem_append_right _ hmem, k, List.mem_append_right _ hk, hk1, ?_, ?_,
        hk4⟩
      · rw [hk2, f1]
      · rw [hk3, f1]

/-- Witness of C10: the carrier has DEPLOY commanded and can act, its first
fighter bay holds craft 10 docked by `AddFighter`, and the draw is 0: the bay
is emptied, craft 10 joins the caller's list in the carrier's system 5 with
the carrier (ship 1) as parent and zoom 1, and the carrier gains it as an
escort. -/
theorem C10_Launch_witness :
    ∃ (E : List ShipId) (new : List Ship),
      (Launch flatGeometry {} carrier []).1.core.escorts = carrier.core.escorts ++ E
      ∧ (Launch flatGeometry {} carrier []).2 = [] ++ new
      ∧ (∃ b', (Launch flatGeometry {} carrier []).1.fighterBays[0]? = some b' ∧ b'.ship = none)
      ∧ (10 : ShipId) ∈ E
      ∧ ∃ k ∈ new, k.core.self = 10 ∧ k.core.currentSystem = some 5
          ∧ k.core.parent = some 1 ∧ k.core.zoom = 1 := by
  obtain ⟨E, new, h1, h2, h3, _⟩ :=
    (C10_Launch flatGeometry {} carrier []).2 (by simp [carrier])
      (by simp [carrier, CannotAct])
  exact ⟨E, new, h1, h2,
    h3 0 { ship := some (dock (smallCraft "Fighter" 10)) } (dock (smallCraft "Fighter" 10))
      (by simp [carrier]) rfl rfl (by simp)⟩

/-! ## The regeneration step -/

theorem rechargeBay_excess (e : ℚ) (bay : Bay Ship) (he : 0 ≤ e) :
    0 ≤ (rechargeBay e bay).1 ∧ (rechargeBay e bay).1 ≤ e := by
  unfold rechargeBay
  cases bay.ship with
  | none => exact ⟨he, le_refl _⟩
  | some ship =>
    dsimp only
    split
    · rename_i h
      dsimp only
      constructor
      · have := min_le_right
          (ship.core.attributes.get "shields"
            - min (ship.core.attributes.get "shields")
                (ship.core.shields + ship.core.attributes.get "shield generation")) e
        linarith
      · have : 0 ≤ min
          (ship.core.attributes.get "shields"
            - min (ship.core.attributes.get "shields")
                (ship.core.shields + ship.core.attributes.get "shield generation")) e :=
          le_min (by linarith [h.2]) he
        linarith
    · exact ⟨he, le_refl _⟩

theorem rechargeBays_excess (bays : List (Bay Ship)) :
    ∀ e : ℚ, 0 ≤ e → 0 ≤ (rechargeBays e bays).1 ∧ (rechargeBays e bays).1 ≤ e := by
  induction bays with
  | nil => intro e he; exact ⟨he, le_refl _⟩
  | cons bay rest ih =>
    intro e he
    have h1 := rechargeBay_excess e bay he
    have h2 := ih (rechargeBay e bay).1 h1.1
    simp only [rechargeBays]
    exact ⟨h2.1, le_trans h2.2 h1.2⟩

theorem rechargeBays_empty (bays : List (Bay Ship)) (h : ∀ b ∈ bays, b.ship = none) (e : ℚ) :
    rechargeBays e bays = (e, bays) := by
  induction bays with
  | nil => rfl
  | cons bay rest ih =>
    have hb : bay.ship = none := h bay (List.mem_cons_self _ _)
    have hr := ih (fun b hm => h b (List.mem_cons_of_mem _ hm))
    simp only [rechargeBays, rechargeBay, hb, hr]

/-! ## Reading a data member through a conditional -/

@[simp] theorem ite_self (p : Prop) [Decidable p] (a b : ShipCore) :
    (if p then a else b).self = if p then a.self else b.self := by
  split <;> rfl

@[simp] theorem ite_government (p : Prop) [Decidable p] (a b : ShipCore) :
    (if p then a else b).government = if p then a.government else b.government := by
  split <;> rfl

@[simp] theorem ite_isSpecial (p : Prop) [Decidable p] (a b : ShipCore) :
    (if p then a else b).isSpecial = if p then a.isSpecial else b.isSpecial := by
  split <;> rfl

@[simp] theorem ite_personality (p : Prop) [Decidable p] (a b : ShipCore) :
    (if p then a else b).personality = if p then a.personality else b.personality := by
  split <;> rfl

@[simp] theorem ite_commands (p : Prop) [Decidable p] (a b : ShipCore) :
    (if p then a else b).commands = if p then a.commands else b.commands := by
  split <;> rfl

@[simp] theorem ite_attributes (p : Prop) [Decidable p] (a b : ShipCore) :
    (if p then a else b).attributes = if p then a.attributes else b.attributes := by
  split <;> rfl

@[simp] theorem ite_cargoUsed (p : Prop) [Decidable p] (a b : ShipCore) :
    (if p then a else b).cargoUsed = if p then a.cargoUsed else b.cargoUsed := by
  split <;> rfl

@[simp] theorem ite_heatDissipation (p : Prop) [Decidable p] (a b : ShipCore) :
    (if p then a else b).heatDissipation = if p then a.heatDissipation else b.heatDissipation := by
  split <;> rfl

@[simp] theorem ite_position (p : Prop) [Decidable p] (a b : ShipCore) :
    (if p then a else b).position = if p then a.position else b.position := by
  split <;> rfl

@[simp] theorem ite_velocity (p : Prop) [Decidable p] (a b : ShipCore) :
    (if p then a else b).velocity = if p then a.velocity else b.velocity := by
  split <;> rfl

@[simp] theorem ite_angle (p : Prop) [Decidable p] (a b : ShipCore) :
    (if p then a else b).angle = if p then a.angle else b.angle := by
  split <;> rfl

@[simp] theorem ite_zoom (p : Prop) [Decidable p] (a b : ShipCore) :
    (if p then a else b).zoom = if p then a.zoom else b.zoom := by
  split <;> rfl

@[simp] theorem ite_hull (p : Prop) [Decidable p] (a b : ShipCore) :
    (if p then a else b).hull = if p then a.hull else b.hull := by
  split <;> rfl

@[simp] theorem ite_shields (p : Prop) [Decidable p] (a b : ShipCore) :
    (if p then a else b).shields = if p then a.shields else b.shields := by
  split <;> rfl

@[simp] theorem ite_energy (p : Prop) [Decidable p] (a b : ShipCore) :
    (if p then a else b).energy = if p then a.energy else b.energy := by
  split <;> rfl

@[simp] theorem ite_fuel (p : Prop) [Decidable p] (a b : ShipCore) :
    (if p then a else b).fuel = if p then a.fuel else b.fuel := by
  split <;> rfl

@[simp] theorem ite_heat (p : Prop) [Decidable p] (a b : ShipCore) :
    (if p then a else b).heat = if p then a.heat else b.heat := by
  split <;> rfl

@[simp] theorem ite_crew (p : Prop) [Decidable p] (a b : ShipCore) :
    (if p then a else b).crew = if p then a.crew else b.crew := by
  split <;> rfl

@[simp] theorem ite_cloak (p : Prop) [Decidable p] (a b : ShipCore) :
    (if p then a else b).cloak = if p then a.cloak else b.cloak := by
  split <;> rfl

@[simp] theorem ite_currentSystem (p : Prop) [Decidable p] (a b : ShipCore) :
    (if p then a else b).currentSystem = if p then a.currentSystem else b.currentSystem := by
  split <;> rfl

@[simp] theorem ite_landingPlanet (p : Prop) [Decidable p] (a b : ShipCore) :
    (if p then a else b).landingPlanet = if p then a.landingPlanet else b.landingPlanet := by
  split <;> rfl

@[simp] theorem ite_destination (p : Prop) [Decidable p] (a b : ShipCore) :
    (if p then a else b).destination = if p then a.destination else b.destination := by
  split <;> rfl

@[simp] theorem ite_hyperspaceSystem (p : Prop) [Decidable p] (a b : ShipCore) :
    (if p then a else b).hyperspaceSystem = if p then a.hyperspaceSystem else b.hyperspaceSystem := by
  split <;> rfl

@[simp] theorem ite_hyperspaceCount (p : Prop) [Decidable p] (a b : ShipCore) :
    (if p then a else b).hyperspaceCount = if p then a.hyperspaceCount else b.hyperspaceCount := by
  split <;> rfl

@[simp] theorem ite_hyperspaceOffset (p : Prop) [Decidable p] (a b : ShipCore) :
    (if p then a else b).hyperspaceOffset = if p then a.hyperspaceOffset else b.hyperspaceOffset := by
  split <;> rfl

@[simp] theorem ite_targetSystem (p : Prop) [Decidable p] (a b : ShipCore) :
    (if p then a else b).targetSystem = if p then a.targetSystem else b.targetSystem := by
  split <;> rfl

@[simp] theorem ite_targetPlanet (p : Prop) [Decidable p] (a b : ShipCore) :
    (if p then a else b).targetPlanet = if p then a.targetPlanet else b.targetPlanet := by
  split <;> rfl

@[simp] theorem ite_targetShip (p : Prop) [Decidable p] (a b : ShipCore) :
    (if p then a else b).targetShip = if p then a.targetShip else b.targetShip := by
  split <;> rfl

@[simp] theorem ite_shipToAssist (p : Prop) [Decidable p] (a b : ShipCore) :
    (if p then a else b).shipToAssist = if p then a.shipToAssist else b.shipToAssist := by
  split <;> rfl

@[simp] theorem ite_parent (p : Prop) [Decidable p] (a b : ShipCore) :
    (if p then a else b).parent = if p then a.parent else b.parent := by
  split <;> rfl

@[simp] theorem ite_escorts (p : Prop) [Decidable p] (a b : ShipCore) :
    (if p then a else b).escorts = if p then a.escorts else b.escorts := by
  split <;> rfl

@[simp] theorem ite_forget (p : Prop) [Decidable p] (a b : ShipCore) :
    (if p then a else b).forget = if p then a.forget else b.forget := by
  split <;> rfl

@[simp] theorem ite_isInSystem (p : Prop) [Decidable p] (a b : ShipCore) :
    (if p then a else b).isInSystem = if p then a.isInSystem else b.isInSystem := by
  split <;> rfl

@[simp] theorem ite_isOverheated (p : Prop) [Decidable p] (a b : ShipCore) :
    (if p then a else b).isOverheated = if p then a.isOverheated else b.isOverheated := by
  split <;> rfl

@[simp] theorem ite_isDisabled (p : Prop) [Decidable p] (a b : ShipCore) :
    (if p then a else b).isDisabled = if p then a.isDisabled else b.isDisabled := by
  split <;> rfl

@[simp] theorem ite_isBoarding (p : Prop) [Decidable p] (a b : ShipCore) :
    (if p then a else b).isBoarding = if p then a.isBoarding else b.isBoarding := by
  split <;> rfl

@[simp] theorem ite_hasBoarded (p : Prop) [Decidable p] (a b : ShipCore) :
    (if p then a else b).hasBoarded = if p then a.hasBoarded else b.hasBoarded := by
  split <;> rfl

@[simp] theorem ite_pilotError (p : Prop) [Decidable p] (a b : ShipCore) :
    (if p then a else b).pilotError = if p then a.pilotError else b.pilotError := by
  split <;> rfl

@[simp] theorem ite_pilotOkay (p : Prop) [Decidable p] (a b : ShipCore) :
    (if p then a else b).pilotOkay = if p then a.pilotOkay else b.pilotOkay := by
  split <;> rfl

@[simp] theorem ite_explosionRate (p : Prop) [Decidable p] (a b : ShipCore) :
    (if p then a else b).explosionRate = if p then a.explosionRate else b.explosionRate := by
  split <;> rfl

@[simp] theorem ite_explosionCount (p : Prop) [Decidable p] (a b : ShipCore) :
    (if p then a else b).explosionCount = if p then a.explosionCount else b.explosionCount := by
  split <;> rfl

@[simp] theorem ite_explosionTotal (p : Prop) [Decidable p] (a b : ShipCore) :
    (if p then a else b).explosionTotal = if p then a.explosionTotal else b.explosionTotal := by
  split <;> rfl

theorem moveRegen_hull (g : Geometry) (c : ShipCore) (fb db : List (Bay Ship)) :
    (moveRegen g c fb db).1.hull
      = if c.isOverheated then c.hull else c.hull + c.attributes.get "hull repair rate" := by
  cases ho : c.isOverheated <;> cases hd : c.isDisabled <;>
    simp [moveRegen, ho, hd, TransferFuel]

theorem moveRegen_of_disabled (g : Geometry) (c : ShipCore) (fb db : List (Bay Ship))
    (hd : c.isDisabled = true) :
    (moveRegen g c fb db).1.fuel = c.fuel ∧ (moveRegen g c fb db).1.energy = c.energy
    ∧ (moveRegen g c fb db).1.shields = c.shields ∧ (moveRegen g c fb db).1.heat = c.heat
    ∧ (moveRegen g c fb db).2 = (fb, db) := by
  cases ho : c.isOverheated <;> simp [moveRegen, ho, hd]

theorem moveRegen_of_enabled (g : Geometry) (c : ShipCore) (fb db : List (Bay Ship))
    (hd : c.isDisabled = false) :
    (moveRegen g c fb db).1.fuel
        = (if c.attributes.get "ramscoop" = 0 then c.fuel
           else c.fuel - max (c.fuel - c.attributes.get "fuel capacity")
                  (-(3 / 100 * g.sqrt (c.attributes.get "ramscoop"))))
    ∧ (moveRegen g c fb db).1.energy
        = (if regenEnergy c fb db < 0 then 0 else regenEnergy c fb db)
    ∧ (moveRegen g c fb db).1.shields
        = (c.shields + c.attributes.get "shield generation"
            - max 0 (c.shields + c.attributes.get "shield generation"
                      - c.attributes.get "shields"))
          + (if regenEnergy c fb db < 0 then regenEnergy c fb db else 0)
    ∧ (moveRegen g c fb db).1.heat
        = max 0 (c.heat + c.attributes.get "heat generation" - c.attributes.get "cooling") := by
  cases ho : c.isOverheated <;>
    simp [moveRegen, ho, hd, TransferFuel, regenEnergy, regenExcess] <;>
    split_ifs <;> ring

/-- The regeneration step keeps the pools of a ship with non-negative
attributes within these bounds, and leaves fuel alone without a ramscoop or
with a full tank. -/
theorem moveRegen_bounds (g : Geometry) (c : ShipCore) (fb db : List (Bay Ship))
    (hattr : ∀ k, 0 ≤ c.attributes.get k) (hsq : ∀ x, 0 ≤ g.sqrt x)
    (hh : 0 ≤ c.hull) (hs : c.shields ≤ c.attributes.get "shields") (he : 0 ≤ c.energy)
    (hf0 : 0 ≤ c.fuel) (hf1 : c.fuel ≤ c.attributes.get "fuel capacity") (hheat : 0 ≤ c.heat) :
    0 ≤ (moveRegen g c fb db).1.hull
    ∧ (moveRegen g c fb db).1.hull ≤ c.hull + c.attributes.get "hull repair rate"
    ∧ (moveRegen g c fb db).1.shields ≤ c.attributes.get "shields"
    ∧ 0 ≤ (moveRegen g c fb db).1.energy
    ∧ (moveRegen g c fb db).1.energy ≤ c.energy + c.attributes.get "energy generation"
    ∧ 0 ≤ (moveRegen g c fb db).1.fuel
    ∧ (moveRegen g c fb db).1.fuel ≤ c.attributes.get "fuel capacity"
    ∧ 0 ≤ (moveRegen g c fb db).1.heat
    ∧ (c.attributes.get "ramscoop" = 0 → (moveRegen g c fb db).1.fuel = c.fuel)
    ∧ (c.fuel = c.attributes.get "fuel capacity" → (moveRegen g c fb db).1.fuel = c.fuel) := by
  have hrep := hattr "hull repair rate"
  have hegen := hattr "energy generation"
  have hsgen := hattr "shield generation"
  have hram := hsq (c.attributes.get "ramscoop")
  have hE := rechargeBays_excess fb
    (max 0 (c.shields + c.attributes.get "shield generation" - c.attributes.get "shields"))
    (le_max_left _ _)
  have hE2 := rechargeBays_excess db _ hE.1
  have hx : max 0 (c.shields + c.attributes.get "shield generation" - c.attributes.get "shields")
      ≤ c.attributes.get "shield generation" := max_le hsgen (by linarith)
  have hx1 : c.shields + c.attributes.get "shield generation" - c.attributes.get "shields"
      ≤ max 0 (c.shields + c.attributes.get "shield generation" - c.attributes.get "shields") :=
    le_max_right _ _
  have hm1 : c.fuel - c.attributes.get "fuel capacity"
      ≤ max (c.fuel - c.attributes.get "fuel capacity")
          (-(3 / 100 * g.sqrt (c.attributes.get "ramscoop"))) := le_max_left _ _
  have hm2 : max (c.fuel - c.attributes.get "fuel capacity")
      (-(3 / 100 * g.sqrt (c.attributes.get "ramscoop"))) ≤ 0 :=
    max_le (by linarith) (by linarith)
  have hhull : 0 ≤ (moveRegen g c fb db).1.hull
      ∧ (moveRegen g c fb db).1.hull ≤ c.hull + c.attributes.get "hull repair rate" := by
    rw [moveRegen_hull]
    split_ifs <;> constructor <;> linarith
  cases hd : c.isDisabled with
  | true =>
    obtain ⟨e1, e2, e3, e4, _⟩ := moveRegen_of_disabled g c fb db hd
    rw [e1, e2, e3, e4]
    exact ⟨hhull.1, hhull.2, hs, he, by linarith, hf0, hf1, hheat, fun _ => rfl, fun _ => rfl⟩
  | false =>
    obtain ⟨e1, e2, e3, e4⟩ := moveRegen_of_enabled g c fb db hd
    have hexc : regenExcess c fb db
        ≤ max 0 (c.shields + c.attributes.get "shield generation" - c.attributes.get "shields") :=
      le_trans hE2.2 hE.2
    have hen : regenEnergy c fb db ≤ c.energy + c.attributes.get "energy generation" := by
      unfold regenEnergy
      linarith
    rw [e1, e2, e3, e4]
    refine ⟨hhull.1, hhull.2, ?_, ?_, ?_, ?_, ?_, le_max_left _ _, ?_, ?_⟩
    · split_ifs <;> linarith
    · split_ifs <;> linarith
    · split_ifs <;> linarith
    · split_ifs <;> linarith
    · split_ifs <;> linarith
    · intro h0
      rw [if_pos h0]
    · intro hfull
      split_ifs
      · rfl
      · have : max (c.fuel - c.attributes.get "fuel capacity")
            (-(3 / 100 * g.sqrt (c.attributes.get "ramscoop"))) = 0 :=
          le_antisymm hm2 (le_trans (by linarith) hm1)
        rw [this]
        ring

/-- Without docked craft the regeneration step never lowers the shields: an
energy shortfall takes back at most the charge gained in the tick. -/
theorem moveRegen_shields_no_craft (g : Geometry) (c : ShipCore) (fb db : List (Bay Ship))
    (hattr : ∀ k, 0 ≤ c.attributes.get k)
    (hs : c.shields ≤ c.attributes.get "shields") (he : 0 ≤ c.energy)
    (hfb : ∀ b ∈ fb, b.ship = none) (hdb : ∀ b ∈ db, b.ship = none) :
    c.shields ≤ (moveRegen g c fb db).1.shields := by
  have hegen := hattr "energy generation"
  cases hd : c.isDisabled with
  | true =>
    rw [(moveRegen_of_disabled g c fb db hd).2.2.1]
  | false =>
    rw [(moveRegen_of_enabled g c fb db hd).2.2.1]
    have hx : regenExcess c fb db
        = max 0 (c.shields + c.attributes.get "shield generation"
            - c.attributes.get "shields") := by
      unfold regenExcess
      rw [rechargeBays_empty fb hfb, rechargeBays_empty db hdb]
    have hx' : max 0 (c.shields + c.attributes.get "shield generation"
        - c.attributes.get "shields") ≤ c.attributes.get "shield generation" :=
      max_le (hattr _) (by linarith)
    split_ifs with hneg
    · unfold regenEnergy
      rw [hx]
      linarith
    · linarith

/-! ## What each part of `Move` leaves alone -/

@[simp] theorem ite_fst {α β : Type} (p : Prop) [Decidable p] (a b : α × β) :
    (if p then a else b).1 = if p then a.1 else b.1 := by
  split <;> rfl

@[simp] theorem ite_snd {α β : Type} (p : Prop) [Decidable p] (a b : α × β) :
    (if p then a else b).2 = if p then a.2 else b.2 := by
  split <;> rfl

theorem movePresence_frame (c : ShipCore) :
    ((movePresence c).2).hull = c.hull
    ∧ ((movePresence c).2).shields = c.shields
    ∧ ((movePresence c).2).energy = c.energy
    ∧ ((movePresence c).2).fuel = c.fuel
    ∧ ((movePresence c).2).heat = c.heat
    ∧ ((movePresence c).2).crew = c.crew
    ∧ ((movePresence c).2).attributes = c.attributes
    ∧ ((movePresence c).2).currentSystem = c.currentSystem
    ∧ ((movePresence c).2).hyperspaceCount = c.hyperspaceCount
    ∧ ((movePresence c).2).landingPlanet = c.landingPlanet
    ∧ ((movePresence c).2).zoom = c.zoom
    ∧ ((movePresence c).2).commands = c.commands
    ∧ ((movePresence c).2).isSpecial = c.isSpecial
    ∧ ((movePresence c).2).heatDissipation = c.heatDissipation
    ∧ ((movePresence c).2).isOverheated = c.isOverheated
    ∧ ((movePresence c).2).isDisabled = c.isDisabled
    ∧ ((movePresence c).2).pilotError = c.pilotError
    ∧ ((movePresence c).2).pilotOkay = c.pilotOkay
    ∧ ((movePresence c).2).cloak = c.cloak := by
  simp [movePresence]

@[simp] theorem movePresence_hull (c : ShipCore) :
    ((movePresence c).2).hull = c.hull :=
  (movePresence_frame c).1

@[simp] theorem movePresence_shields (c : ShipCore) :
    ((movePresence c).2).shields = c.shields :=
  (movePresence_frame c).2.1

@[simp] theorem movePresence_energy (c : ShipCore) :
    ((movePresence c).2).energy = c.energy :=
  (movePresence_frame c).2.2.1

@[simp] theorem movePresence_fuel (c : ShipCore) :
    ((movePresence c).2).fuel = c.fuel :=
  (movePresence_frame c).2.2.2.1

@[simp] theorem movePresence_heat (c : ShipCore) :
    ((movePresence c).2).heat = c.heat :=
  (movePresence_frame c).2.2.2.2.1

@[simp] theorem movePresence_crew (c : ShipCore) :
    ((movePresence c).2).crew = c.crew :=
  (movePresence_frame c).2.2.2.2.2.1

@[simp] theorem movePresence_attributes (c : ShipCore) :
    ((movePresence c).2).attributes = c.attributes :=
  (movePresence_frame c).2.2.2.2.2.2.1

@[simp] theorem movePresence_currentSystem (c : ShipCore) :
    ((movePresence c).2).currentSystem = c.currentSystem :=
  (movePresence_frame c).2.2.2.2.2.2.2.1

@[simp] theorem movePresence_hyperspaceCount (c : ShipCore) :
    ((movePresence c).2).hyperspaceCount = c.hyperspaceCount :=
  (movePresence_frame c).2.2.2.2.2.2.2.2.1

@[simp] theorem movePresence_landingPlanet (c : ShipCore) :
    ((movePresence c).2).landingPlanet = c.landingPlanet :=
  (movePresence_frame c).2.2.2.2.2.2.2.2.2.1

@[simp] theorem movePresence_zoom (c : ShipCore) :
    ((movePresence c).2).zoom = c.zoom :=
  (movePresence_frame c).2.2.2.2.2.2.2.2.2.2.1

@[simp] theorem movePresence_commands (c : ShipCore) :
    ((movePresence c).2).commands = c.commands :=
  (movePresence_frame c).2.2.2.2.2.2.2.2.2.2.2.1

@[simp] theorem movePresence_isSpecial (c : ShipCore) :
    ((movePresence c).2).isSpecial = c.isSpecial :=
  (movePresence_frame c).2.2.2.2.2.2.2.2.2.2.2.2.1

@[simp] theorem movePresence_heatDissipation (c : ShipCore) :
    ((movePresence c).2).heatDissipation = c.heatDissipation :=
  (movePresence_frame c).2.2.2.2.2.2.2.2.2.2.2.2.2.1

@[simp] theorem movePresence_isOverheated (c : ShipCore) :
    ((movePresence c).2).isOverheated = c.isOverheated :=
  (movePresence_frame c).2.2.2.2.2.2.2.2.2.2.2.2.2.2.1

@[simp] theorem movePresence_isDisabled (c : ShipCore) :
    ((movePresence c).2).isDisabled = c.isDisabled :=
  (movePresence_frame c).2.2.2.2.2.2.2.2.2.2.2.2.2.2.2.1

@[simp] theorem movePresence_pilotError (c : ShipCore) :
    ((movePresence c).2).pilotError = c.pilotError :=
  (movePresence_frame c).2.2.2.2.2.2.2.2.2.2.2.2.2.2.2.2.1

@[simp] theorem movePresence_pilotOkay (c : ShipCore) :
    ((movePresence c).2).pilotOkay = c.pilotOkay :=
  (movePresence_frame c).2.2.2.2.2.2.2.2.2.2.2.2.2.2.2.2.2.1

@[simp] theorem movePresence_cloak (c : ShipCore) :
    ((movePresence c).2).cloak = c.cloak :=
  (movePresence_frame c).2.2.2.2.2.2.2.2.2.2.2.2.2.2.2.2.2.2

theorem moveClamp_frame (mass : ℚ) (c : ShipCore) :
    (moveClamp mass c).fuel = c.fuel
    ∧ (moveClamp mass c).crew = c.crew
    ∧ (moveClamp mass c).attributes = c.attributes
    ∧ (moveClamp mass c).currentSystem = c.currentSystem
    ∧ (moveClamp mass c).hyperspaceSystem = c.hyperspaceSystem
    ∧ (moveClamp mass c).hyperspaceCount = c.hyperspaceCount
    ∧ (moveClamp mass c).landingPlanet = c.landingPlanet
    ∧ (moveClamp mass c).zoom = c.zoom
    ∧ (moveClamp mass c).commands = c.commands
    ∧ (moveClamp mass c).isSpecial = c.isSpecial
    ∧ (moveClamp mass c).forget = c.forget
    ∧ (moveClamp mass c).heatDissipation = c.heatDissipation
    ∧ (moveClamp mass c).pilotError = c.pilotError
    ∧ (moveClamp mass c).pilotOkay = c.pilotOkay
    ∧ (moveClamp mass c).cloak = c.cloak
    ∧ (moveClamp mass c).isInSystem = c.isInSystem := by
  simp [moveClamp]

@[simp] theorem moveClamp_fuel (mass : ℚ) (c : ShipCore) :
    (moveClamp mass c).fuel = c.fuel :=
  (moveClamp_frame mass c).1

@[simp] theorem moveClamp_crew (mass : ℚ) (c : ShipCore) :
    (moveClamp mass c).crew = c.crew :=
  (moveClamp_frame mass c).2.1

@[simp] theorem moveClamp_attributes (mass : ℚ) (c : ShipCore) :
    (moveClamp mass c).attributes = c.attributes :=
  (moveClamp_frame mass c).2.2.1

@[simp] theorem moveClamp_currentSystem (mass : ℚ) (c : ShipCore) :
    (moveClamp mass c).currentSystem = c.currentSystem :=
  (moveClamp_frame mass c).2.2.2.1

@[simp] theorem moveClamp_hyperspaceSystem (mass : ℚ) (c : ShipCore) :
    (moveClamp mass c).hyperspaceSystem = c.hyperspaceSystem :=
  (moveClamp_frame mass c).2.2.2.2.1

@[simp] theorem moveClamp_hyperspaceCount (mass : ℚ) (c : ShipCore) :
    (moveClamp mass c).hyperspaceCount = c.hyperspaceCount :=
  (moveClamp_frame mass c).2.2.2.2.2.1

@[simp] theorem moveClamp_landingPlanet (mass : ℚ) (c : ShipCore) :
    (moveClamp mass c).landingPlanet = c.landingPlanet :=
  (moveClamp_frame mass c).2.2.2.2.2.2.1

@[simp] theorem moveClamp_zoom (mass : ℚ) (c : ShipCore) :
    (moveClamp mass c).zoom = c.zoom :=
  (moveClamp_frame mass c).2.2.2.2.2.2.2.1

@[simp] theorem moveClamp_commands (mass : ℚ) (c : ShipCore) :
    (moveClamp mass c).commands = c.commands :=
  (moveClamp_frame mass c).2.2.2.2.2.2.2.2.1

@[simp] theorem moveClamp_isSpecial (mass : ℚ) (c : ShipCore) :
    (moveClamp mass c).isSpecial = c.isSpecial :=
  (moveClamp_frame mass c).2.2.2.2.2.2.2.2.2.1

@[simp] theorem moveClamp_forget (mass : ℚ) (c : ShipCore) :
    (moveClamp mass c).forget = c.forget :=
  (moveClamp_frame mass c).2.2.2.2.2.2.2.2.2.2.1

@[simp] theorem moveClamp_heatDissipation (mass : ℚ) (c : ShipCore) :
    (moveClamp mass c).heatDissipation = c.heatDissipation :=
  (moveClamp_frame mass c).2.2.2.2.2.2.2.2.2.2.2.1

@[simp] theorem moveClamp_pilotError (mass : ℚ) (c : ShipCore) :
    (moveClamp mass c).pilotError = c.pilotError :=
  (moveClamp_frame mass c).2.2.2.2.2.2.2.2.2.2.2.2.1

@[simp] theorem moveClamp_pilotOkay (mass : ℚ) (c : ShipCore) :
    (moveClamp mass c).pilotOkay = c.pilotOkay :=
  (moveClamp_frame mass c).2.2.2.2.2.2.2.2.2.2.2.2.2.1

@[simp] theorem moveClamp_cloak (mass : ℚ) (c : ShipCore) :
    (moveClamp mass c).cloak = c.cloak :=
  (moveClamp_frame mass c).2.2.2.2.2.2.2.2.2.2.2.2.2.2.1

@[simp] theorem moveClamp_isInSystem (mass : ℚ) (c : ShipCore) :
    (moveClamp mass c).isInSystem = c.isInSystem :=
  (moveClamp_frame mass c).2.2.2.2.2.2.2.2.2.2.2.2.2.2.2

theorem moveRegen_frame (g : Geometry) (c : ShipCore) (fb db : List (Bay Ship)) :
    ((moveRegen g c fb db).1).crew = c.crew
    ∧ ((moveRegen g c fb db).1).attributes = c.attributes
    ∧ ((moveRegen g c fb db).1).currentSystem = c.currentSystem
    ∧ ((moveRegen g c fb db).1).hyperspaceSystem = c.hyperspaceSystem
    ∧ ((moveRegen g c fb db).1).hyperspaceCount = c.hyperspaceCount
    ∧ ((moveRegen g c fb db).1).landingPlanet = c.landingPlanet
    ∧ ((moveRegen g c fb db).1).zoom = c.zoom
    ∧ ((moveRegen g c fb db).1).commands = c.commands
    ∧ ((moveRegen g c fb db).1).isSpecial = c.isSpecial
    ∧ ((moveRegen g c fb db).1).forget = c.forget
    ∧ ((moveRegen g c fb db).1).heatDissipation = c.heatDissipation
    ∧ ((moveRegen g c fb db).1).isOverheated = c.isOverheated
    ∧ ((moveRegen g c fb db).1).isDisabled = c.isDisabled
    ∧ ((moveRegen g c fb db).1).pilotError = c.pilotError
    ∧ ((moveRegen g c fb db).1).pilotOkay = c.pilotOkay
    ∧ ((moveRegen g c fb db).1).cloak = c.cloak
    ∧ ((moveRegen g c fb db).1).isInSystem = c.isInSystem := by
  cases ho : c.isOverheated <;> cases hd : c.isDisabled <;>
    simp [moveRegen, ho, hd, TransferFuel]

@[simp] theorem moveRegen_crew (g : Geometry) (c : ShipCore) (fb db : List (Bay Ship)) :
    ((moveRegen g c fb db).1).crew = c.crew :=
  (moveRegen_frame g c fb db).1

@[simp] theorem moveRegen_attributes (g : Geometry) (c : ShipCore) (fb db : List (Bay Ship)) :
    ((moveRegen g c fb db).1).attributes = c.attributes :=
  (moveRegen_frame g c fb db).2.1

@[simp] theorem moveRegen_currentSystem (g : Geometry) (c : ShipCore) (fb db : List (Bay Ship)) :
    ((moveRegen g c fb db).1).currentSystem = c.currentSystem :=
  (moveRegen_frame g c fb db).2.2.1

@[simp] theorem moveRegen_hyperspaceSystem (g : Geometry) (c : ShipCore) (fb db : List (Bay Ship)) :
    ((moveRegen g c fb db).1).hyperspaceSystem = c.hyperspaceSystem :=
  (moveRegen_frame g c fb db).2.2.2.1

@[simp] theorem moveRegen_hyperspaceCount (g : Geometry) (c : ShipCore) (fb db : List (Bay Ship)) :
    ((moveRegen g c fb db).1).hyperspaceCount = c.hyperspaceCount :=
  (moveRegen_frame g c fb db).2.2.2.2.1

@[simp] theorem moveRegen_landingPlanet (g : Geometry) (c : ShipCore) (fb db : List (Bay Ship)) :
    ((moveRegen g c fb db).1).landingPlanet = c.landingPlanet :=
  (moveRegen_frame g c fb db).2.2.2.2.2.1

@[simp] theorem moveRegen_zoom (g : Geometry) (c : ShipCore) (fb db : List (Bay Ship)) :
    ((moveRegen g c fb db).1).zoom = c.zoom :=
  (moveRegen_frame g c fb db).2.2.2.2.2.2.1

@[simp] theorem moveRegen_commands (g : Geometry) (c : ShipCore) (fb db : List (Bay Ship)) :
    ((moveRegen g c fb db).1).commands = c.commands :=
  (moveRegen_frame g c fb db).2.2.2.2.2.2.2.1

@[simp] theorem moveRegen_isSpecial (g : Geometry) (c : ShipCore) (fb db : List (Bay Ship)) :
    ((moveRegen g c fb db).1).isSpecial = c.isSpecial :=
  (moveRegen_frame g c fb db).2.2.2.2.2.2.2.2.1

@[simp] theorem moveRegen_forget (g : Geometry) (c : ShipCore) (fb db : List (Bay Ship)) :
    ((moveRegen g c fb db).1).forget = c.forget :=
  (moveRegen_frame g c fb db).2.2.2.2.2.2.2.2.2.1

@[simp] theorem moveRegen_heatDissipation (g : Geometry) (c : ShipCore) (fb db : List (Bay Ship)) :
    ((moveRegen g c fb db).1).heatDissipation = c.heatDissipation :=
  (moveRegen_frame g c fb db).2.2.2.2.2.2.2.2.2.2.1

@[simp] theorem moveRegen_isOverheated (g : Geometry) (c : ShipCore) (fb db : List (Bay Ship)) :
    ((moveRegen g c fb db).1).isOverheated = c.isOverheated :=
  (moveRegen_frame g c fb db).2.2.2.2.2.2.2.2.2.2.2.1

@[simp] theorem moveRegen_isDisabled (g : Geometry) (c : ShipCore) (fb db : List (Bay Ship)) :
    ((moveRegen g c fb db).1).isDisabled = c.isDisabled :=
  (moveRegen_frame g c fb db).2.2.2.2.2.2.2.2.2.2.2.2.1

@[simp] theorem moveRegen_pilotError (g : Geometry) (c : ShipCore) (fb db : List (Bay Ship)) :
    ((moveRegen g c fb db).1).pilotError = c.pilotError :=
  (moveRegen_frame g c fb db).2.2.2.2.2.2.2.2.2.2.2.2.2.1

@[simp] theorem moveRegen_pilotOkay (g : Geometry) (c : ShipCore) (fb db : List (Bay Ship)) :
    ((moveRegen g c fb db).1).pilotOkay = c.pilotOkay :=
  (moveRegen_frame g c fb db).2.2.2.2.2.2.2.2.2.2.2.2.2.2.1

@[simp] theorem moveRegen_cloak (g : Geometry) (c : ShipCore) (fb db : List (Bay Ship)) :
    ((moveRegen g c fb db).1).cloak = c.cloak :=
  (moveRegen_frame g c fb db).2.2.2.2.2.2.2.2.2.2.2.2.2.2.2.1

@[simp] theorem moveRegen_isInSystem (g : Geometry) (c : ShipCore) (fb db : List (Bay Ship)) :
    ((moveRegen g c fb db).1).isInSystem = c.isInSystem :=
  (moveRegen_frame g c fb db).2.2.2.2.2.2.2.2.2.2.2.2.2.2.2.2

theorem CreateExplosion_frame (placed : Bool) (c : ShipCore) :
    (CreateExplosion placed c).hull = c.hull
    ∧ (CreateExplosion placed c).shields = c.shields
    ∧ (CreateExplosion placed c).energy = c.energy
    ∧ (CreateExplosion placed c).fuel = c.fuel
    ∧ (CreateExplosion placed c).heat = c.heat
    ∧ (CreateExplosion placed c).crew = c.crew
    ∧ (CreateExplosion placed c).attributes = c.attributes
    ∧ (CreateExplosion placed c).currentSystem = c.currentSystem
    ∧ (CreateExplosion placed c).hyperspaceSystem = c.hyperspaceSystem
    ∧ (CreateExplosion placed c).hyperspaceCount = c.hyperspaceCount
    ∧ (CreateExplosion placed c).landingPlanet = c.landingPlanet
    ∧ (CreateExplosion placed c).zoom = c.zoom
    ∧ (CreateExplosion placed c).commands = c.commands
    ∧ (CreateExplosion placed c).isSpecial = c.isSpecial
    ∧ (CreateExplosion placed c).forget = c.forget
    ∧ (CreateExplosion placed c).heatDissipation = c.heatDissipation
    ∧ (CreateExplosion placed c).isOverheated = c.isOverheated
    ∧ (CreateExplosion placed c).isDisabled = c.isDisabled
    ∧ (CreateExplosion placed c).pilotError = c.pilotError
    ∧ (CreateExplosion placed c).pilotOkay = c.pilotOkay
    ∧ (CreateExplosion placed c).cloak = c.cloak := by
  cases placed <;> simp [CreateExplosion]

@[simp] theorem CreateExplosion_hull (placed : Bool) (c : ShipCore) :
    (CreateExplosion placed c).hull = c.hull :=
  (CreateExplosion_frame placed c).1

@[simp] theorem CreateExplosion_shields (placed : Bool) (c : ShipCore) :
    (CreateExplosion placed c).shields = c.shields :=
  (CreateExplosion_frame placed c).2.1

@[simp] theorem CreateExplosion_energy (placed : Bool) (c : ShipCore) :
    (CreateExplosion placed c).energy = c.energy :=
  (CreateExplosion_frame placed c).2.2.1

@[simp] theorem CreateExplosion_fuel (placed : Bool) (c : ShipCore) :
    (CreateExplosion placed c).fuel = c.fuel :=
  (CreateExplosion_frame placed c).2.2.2.1

@[simp] theorem CreateExplosion_heat (placed : Bool) (c : ShipCore) :
    (CreateExplosion placed c).heat = c.heat :=
  (CreateExplosion_frame placed c).2.2.2.2.1

@[simp] theorem CreateExplosion_crew (placed : Bool) (c : ShipCore) :
    (CreateExplosion placed c).crew = c.crew :=
  (CreateExplosion_frame placed c).2.2.2.2.2.1

@[simp] theorem CreateExplosion_attributes (placed : Bool) (c : ShipCore) :
    (CreateExplosion placed c).attributes = c.attributes :=
  (CreateExplosion_frame placed c).2.2.2.2.2.2.1

@[simp] theorem CreateExplosion_currentSystem (placed : Bool) (c : ShipCore) :
    (CreateExplosion placed c).currentSystem = c.currentSystem :=
  (CreateExplosion_frame placed c).2.2.2.2.2.2.2.1

@[simp] theorem CreateExplosion_hyperspaceSystem (placed : Bool) (c : ShipCore) :
    (CreateExplosion placed c).hyperspaceSystem = c.hyperspaceSystem :=
  (CreateExplosion_frame placed c).2.2.2.2.2.2.2.2.1

@[simp] theorem CreateExplosion_hyperspaceCount (placed : Bool) (c : ShipCore) :
    (CreateExplosion placed c).hyperspaceCount = c.hyperspaceCount :=
  (CreateExplosion_frame placed c).2.2.2.2.2.2.2.2.2.1

@[simp] theorem CreateExplosion_landingPlanet (placed : Bool) (c : ShipCore) :
    (CreateExplosion placed c).landingPlanet = c.landingPlanet :=
  (CreateExplosion_frame placed c).2.2.2.2.2.2.2.2.2.2.1

@[simp] theorem CreateExplosion_zoom (placed : Bool) (c : ShipCore) :
    (CreateExplosion placed c).zoom = c.zoom :=
  (CreateExplosion_frame placed c).2.2.2.2.2.2.2.2.2.2.2.1

@[simp] theorem CreateExplosion_commands (placed : Bool) (c : ShipCore) :
    (CreateExplosion placed c).commands = c.commands :=
  (CreateExplosion_frame placed c).2.2.2.2.2.2.2.2.2.2.2.2.1

@[simp] theorem CreateExplosion_isSpecial (placed : Bool) (c : ShipCore) :
    (CreateExplosion placed c).isSpecial = c.isSpecial :=
  (CreateExplosion_frame placed c).2.2.2.2.2.2.2.2.2.2.2.2.2.1

@[simp] theorem CreateExplosion_forget (placed : Bool) (c : ShipCore) :
    (CreateExplosion placed c).forget = c.forget :=
  (CreateExplosion_frame placed c).2.2.2.2.2.2.2.2.2.2.2.2.2.2.1

@[simp] theorem CreateExplosion_heatDissipation (placed : Bool) (c : ShipCore) :
    (CreateExplosion placed c).heatDissipation = c.heatDissipation :=
  (CreateExplosion_frame placed c).2.2.2.2.2.2.2.2.2.2.2.2.2.2.2.1

@[simp] theorem CreateExplosion_isOverheated (placed : Bool) (c : ShipCore) :
    (CreateExplosion placed c).isOverheated = c.isOverheated :=
  (CreateExplosion_frame placed c).2.2.2.2.2.2.2.2.2.2.2.2.2.2.2.2.1

@[simp] theorem CreateExplosion_isDisabled (placed : Bool) (c : ShipCore) :
    (CreateExplosion placed c).isDisabled = c.isDisabled :=
  (CreateExplosion_frame placed c).2.2.2.2.2.2.2.2.2.2.2.2.2.2.2.2.2.1

@[simp] theorem CreateExplosion_pilotError (placed : Bool) (c : ShipCore) :
    (CreateExplosion placed c).pilotError = c.pilotError :=
  (CreateExplosion_frame placed c).2.2.2.2.2.2.2.2.2.2.2.2.2.2.2.2.2.2.1

@[simp] theorem CreateExplosion_pilotOkay (placed : Bool) (c : ShipCore) :
    (CreateExplosion placed c).pilotOkay = c.pilotOkay :=
  (CreateExplosion_frame placed c).2.2.2.2.2.2.2.2.2.2.2.2.2.2.2.2.2.2.2.1

@[simp] theorem CreateExplosion_cloak (placed : Bool) (c : ShipCore) :
    (CreateExplosion placed c).cloak = c.cloak :=
  (CreateExplosion_frame placed c).2.2.2.2.2.2.2.2.2.2.2.2.2.2.2.2.2.2.2.2

theorem finalExplosions_frame (placed : Nat → Bool) (n : Nat) (c : ShipCore) :
    (finalExplosions placed n c).hull = c.hull
    ∧ (finalExplosions placed n c).shields = c.shields
    ∧ (finalExplosions placed n c).energy = c.energy
    ∧ (finalExplosions placed n c).fuel = c.fuel
    ∧ (finalExplosions placed n c).heat = c.heat
    ∧ (finalExplosions placed n c).crew = c.crew
    ∧ (finalExplosions placed n c).attributes = c.attributes
    ∧ (finalExplosions placed n c).currentSystem = c.currentSystem
    ∧ (finalExplosions placed n c).hyperspaceSystem = c.hyperspaceSystem
    ∧ (finalExplosions placed n c).hyperspaceCount = c.hyperspaceCount
    ∧ (finalExplosions placed n c).landingPlanet = c.landingPlanet
    ∧ (finalExplosions placed n c).zoom = c.zoom
    ∧ (finalExplosions placed n c).commands = c.commands
    ∧ (finalExplosions placed n c).isSpecial = c.isSpecial
    ∧ (finalExplosions placed n c).forget = c.forget
    ∧ (finalExplosions placed n c).heatDissipation = c.heatDissipation
    ∧ (finalExplosions placed n c).isOverheated = c.isOverheated
    ∧ (finalExplosions placed n c).isDisabled = c.isDisabled
    ∧ (finalExplosions placed n c).pilotError = c.pilotError
    ∧ (finalExplosions placed n c).pilotOkay = c.pilotOkay
    ∧ (finalExplosions placed n c).cloak = c.cloak := by
  induction n with
  | zero => simp [finalExplosions]
  | succ n ih => simp [finalExplosions, ih]

@[simp] theorem finalExplosions_hull (placed : Nat → Bool) (n : Nat) (c : ShipCore) :
    (finalExplosions placed n c).hull = c.hull :=
  (finalExplosions_frame placed n c).1

@[simp] theorem finalExplosions_shields (placed : Nat → Bool) (n : Nat) (c : ShipCore) :
    (finalExplosions placed n c).shields = c.shields :=
  (finalExplosions_frame placed n c).2.1

@[simp] theorem finalExplosions_energy (placed : Nat → Bool) (n : Nat) (c : ShipCore) :
    (finalExplosions placed n c).energy = c.energy :=
  (finalExplosions_frame placed n c).2.2.1

@[simp] theorem finalExplosions_fuel (placed : Nat → Bool) (n : Nat) (c : ShipCore) :
    (finalExplosions placed n c).fuel = c.fuel :=
  (finalExplosions_frame placed n c).2.2.2.1

@[simp] theorem finalExplosions_heat (placed : Nat → Bool) (n : Nat) (c : ShipCore) :
    (finalExplosions placed n c).heat = c.heat :=
  (finalExplosions_frame placed n c).2.2.2.2.1

@[simp] theorem finalExplosions_crew (placed : Nat → Bool) (n : Nat) (c : ShipCore) :
    (finalExplosions placed n c).crew = c.crew :=
  (finalExplosions_frame placed n c).2.2.2.2.2.1

@[simp] theorem finalExplosions_attributes (placed : Nat → Bool) (n : Nat) (c : ShipCore) :
    (finalExplosions placed n c).attributes = c.attributes :=
  (finalExplosions_frame placed n c).2.2.2.2.2.2.1

@[simp] theorem finalExplosions_currentSystem (placed : Nat → Bool) (n : Nat) (c : ShipCore) :
    (finalExplosions placed n c).currentSystem = c.currentSystem :=
  (finalExplosions_frame placed n c).2.2.2.2.2.2.2.1

@[simp] theorem finalExplosions_hyperspaceSystem (placed : Nat → Bool) (n : Nat) (c : ShipCore) :
    (finalExplosions placed n c).hyperspaceSystem = c.hyperspaceSystem :=
  (finalExplosions_frame placed n c).2.2.2.2.2.2.2.2.1

@[simp] theorem finalExplosions_hyperspaceCount (placed : Nat → Bool) (n : Nat) (c : ShipCore) :
    (finalExplosions placed n c).hyperspaceCount = c.hyperspaceCount :=
  (finalExplosions_frame placed n c).2.2.2.2.2.2.2.2.2.1

@[simp] theorem finalExplosions_landingPlanet (placed : Nat → Bool) (n : Nat) (c : ShipCore) :
    (finalExplosions placed n c).landingPlanet = c.landingPlanet :=
  (finalExplosions_frame placed n c).2.2.2.2.2.2.2.2.2.2.1

@[simp] theorem finalExplosions_zoom (placed : Nat → Bool) (n : Nat) (c : ShipCore) :
    (finalExplosions placed n c).zoom = c.zoom :=
  (finalExplosions_frame placed n c).2.2.2.2.2.2.2.2.2.2.2.1

@[simp] theorem finalExplosions_commands (placed : Nat → Bool) (n : Nat) (c : ShipCore) :
    (finalExplosions placed n c).commands = c.commands :=
  (finalExplosions_frame placed n c).2.2.2.2.2.2.2.2.2.2.2.2.1

@[simp] theorem finalExplosions_isSpecial (placed : Nat → Bool) (n : Nat) (c : ShipCore) :
    (finalExplosions placed n c).isSpecial = c.isSpecial :=
  (finalExplosions_frame placed n c).2.2.2.2.2.2.2.2.2.2.2.2.2.1

@[simp] theorem finalExplosions_forget (placed : Nat → Bool) (n : Nat) (c : ShipCore) :
    (finalExplosions placed n c).forget = c.forget :=
  (finalExplosions_frame placed n c).2.2.2.2.2.2.2.2.2.2.2.2.2.2.1

@[simp] theorem finalExplosions_heatDissipation (placed : Nat → Bool) (n : Nat) (c : ShipCore) :
    (finalExplosions placed n c).heatDissipation = c.heatDissipation :=
  (finalExplosions_frame placed n c).2.2.2.2.2.2.2.2.2.2.2.2.2.2.2.1

@[simp] theorem finalExplosions_isOverheated (placed : Nat → Bool) (n : Nat) (c : ShipCore) :
    (finalExplosions placed n c).isOverheated = c.isOverheated :=
  (finalExplosions_frame placed n c).2.2.2.2.2.2.2.2.2.2.2.2.2.2.2.2.1

@[simp] theorem finalExplosions_isDisabled (placed : Nat → Bool) (n : Nat) (c : ShipCore) :
    (finalExplosions placed n c).isDisabled = c.isDisabled :=
  (finalExplosions_frame placed n c).2.2.2.2.2.2.2.2.2.2.2.2.2.2.2.2.2.1

@[simp] theorem finalExplosions_pilotError (placed : Nat → Bool) (n : Nat) (c : ShipCore) :
    (finalExplosions placed n c).pilotError = c.pilotError :=
  (finalExplosions_frame placed n c).2.2.2.2.2.2.2.2.2.2.2.2.2.2.2.2.2.2.1

@[simp] theorem finalExplosions_pilotOkay (placed : Nat → Bool) (n : Nat) (c : ShipCore) :
    (finalExplosions placed n c).pilotOkay = c.pilotOkay :=
  (finalExplosions_frame placed n c).2.2.2.2.2.2.2.2.2.2.2.2.2.2.2.2.2.2.2.1

@[simp] theorem finalExplosions_cloak (placed : Nat → Bool) (n : Nat) (c : ShipCore) :
    (finalExplosions placed n c).cloak = c.cloak :=
  (finalExplosions_frame placed n c).2.2.2.2.2.2.2.2.2.2.2.2.2.2.2.2.2.2.2.2

theorem moveDestroyed_frame (d : MoveDraws) (c : ShipCore) :
    ((moveDestroyed d c).2).hull = c.hull
    ∧ ((moveDestroyed d c).2).shields = c.shields
    ∧ ((moveDestroyed d c).2).crew = c.crew
    ∧ ((moveDestroyed d c).2).attributes = c.attributes
    ∧ ((moveDestroyed d c).2).currentSystem = c.currentSystem
    ∧ ((moveDestroyed d c).2).hyperspaceSystem = c.hyperspaceSystem
    ∧ ((moveDestroyed d c).2).hyperspaceCount = c.hyperspaceCount
    ∧ ((moveDestroyed d c).2).landingPlanet = c.landingPlanet
    ∧ ((moveDestroyed d c).2).zoom = c.zoom
    ∧ ((moveDestroyed d c).2).commands = c.commands
    ∧ ((moveDestroyed d c).2).isSpecial = c.isSpecial
    ∧ ((moveDestroyed d c).2).forget = c.forget
    ∧ ((moveDestroyed d c).2).heatDissipation = c.heatDissipation
    ∧ ((moveDestroyed d c).2).isOverheated = c.isOverheated
    ∧ ((moveDestroyed d c).2).isDisabled = c.isDisabled
    ∧ ((moveDestroyed d c).2).pilotError = c.pilotError
    ∧ ((moveDestroyed d c).2).pilotOkay = c.pilotOkay
    ∧ ((moveDestroyed d c).2).cloak = c.cloak := by
  simp only [moveDestroyed]
  split_ifs <;> simp

@[simp] theorem moveDestroyed_hull (d : MoveDraws) (c : ShipCore) :
    ((moveDestroyed d c).2).hull = c.hull :=
  (moveDestroyed_frame d c).1

@[simp] theorem moveDestroyed_shields (d : MoveDraws) (c : ShipCore) :
    ((moveDestroyed d c).2).shields = c.shields :=
  (moveDestroyed_frame d c).2.1

@[simp] theorem moveDestroyed_crew (d : MoveDraws) (c : ShipCore) :
    ((moveDestroyed d c).2).crew = c.crew :=
  (moveDestroyed_frame d c).2.2.1

@[simp] theorem moveDestroyed_attributes (d : MoveDraws) (c : ShipCore) :
    ((moveDestroyed d c).2).attributes = c.attributes :=
  (moveDestroyed_frame d c).2.2.2.1

@[simp] theorem moveDestroyed_currentSystem (d : MoveDraws) (c : ShipCore) :
    ((moveDestroyed d c).2).currentSystem = c.currentSystem :=
  (moveDestroyed_frame d c).2.2.2.2.1

@[simp] theorem moveDestroyed_hyperspaceSystem (d : MoveDraws) (c : ShipCore) :
    ((moveDestroyed d c).2).hyperspaceSystem = c.hyperspaceSystem :=
  (moveDestroyed_frame d c).2.2.2.2.2.1

@[simp] theorem moveDestroyed_hyperspaceCount (d : MoveDraws) (c : ShipCore) :
    ((moveDestroyed d c).2).hyperspaceCount = c.hyperspaceCount :=
  (moveDestroyed_frame d c).2.2.2.2.2.2.1

@[simp] theorem moveDestroyed_landingPlanet (d : MoveDraws) (c : ShipCore) :
    ((moveDestroyed d c).2).landingPlanet = c.landingPlanet :=
  (moveDestroyed_frame d c).2.2.2.2.2.2.2.1

@[simp] theorem moveDestroyed_zoom (d : MoveDraws) (c : ShipCore) :
    ((moveDestroyed d c).2).zoom = c.zoom :=
  (moveDestroyed_frame d c).2.2.2.2.2.2.2.2.1

@[simp] theorem moveDestroyed_commands (d : MoveDraws) (c : ShipCore) :
    ((moveDestroyed d c).2).commands = c.commands :=
  (moveDestroyed_frame d c).2.2.2.2.2.2.2.2.2.1

@[simp] theorem moveDestroyed_isSpecial (d : MoveDraws) (c : ShipCore) :
    ((moveDestroyed d c).2).isSpecial = c.isSpecial :=
  (moveDestroyed_frame d c).2.2.2.2.2.2.2.2.2.2.1

@[simp] theorem moveDestroyed_forget (d : MoveDraws) (c : ShipCore) :
    ((moveDestroyed d c).2).forget = c.forget :=
  (moveDestroyed_frame d c).2.2.2.2.2.2.2.2.2.2.2.1

@[simp] theorem moveDestroyed_heatDissipation (d : MoveDraws) (c : ShipCore) :
    ((moveDestroyed d c).2).heatDissipation = c.heatDissipation :=
  (moveDestroyed_frame d c).2.2.2.2.2.2.2.2.2.2.2.2.1

@[simp] theorem moveDestroyed_isOverheated (d : MoveDraws) (c : ShipCore) :
    ((moveDestroyed d c).2).isOverheated = c.isOverheated :=
  (moveDestroyed_frame d c).2.2.2.2.2.2.2.2.2.2.2.2.2.1

@[simp] theorem moveDestroyed_isDisabled (d : MoveDraws) (c : ShipCore) :
    ((moveDestroyed d c).2).isDisabled = c.isDisabled :=
  (moveDestroyed_frame d c).2.2.2.2.2.2.2.2.2.2.2.2.2.2.1

@[simp] theorem moveDestroyed_pilotError (d : MoveDraws) (c : ShipCore) :
    ((moveDestroyed d c).2).pilotError = c.pilotError :=
  (moveDestroyed_frame d c).2.2.2.2.2.2.2.2.2.2.2.2.2.2.2.1

@[simp] theorem moveDestroyed_pilotOkay (d : MoveDraws) (c : ShipCore) :
    ((moveDestroyed d c).2).pilotOkay = c.pilotOkay :=
  (moveDestroyed_frame d c).2.2.2.2.2.2.2.2.2.2.2.2.2.2.2.2.1

@[simp] theorem moveDestroyed_cloak (d : MoveDraws) (c : ShipCore) :
    ((moveDestroyed d c).2).cloak = c.cloak :=
  (moveDestroyed_frame d c).2.2.2.2.2.2.2.2.2.2.2.2.2.2.2.2.2

theorem hyperspaceTail_frame (g : Geometry) (w : World) (direction : Int) (j : Bool) (c : ShipCore) :
    (hyperspaceTail g w direction j c).hull = c.hull
    ∧ (hyperspaceTail g w direction j c).shields = c.shields
    ∧ (hyperspaceTail g w direction j c).energy = c.energy
    ∧ (hyperspaceTail g w direction j c).fuel = c.fuel
    ∧ (hyperspaceTail g w direction j c).heat = c.heat
    ∧ (hyperspaceTail g w direction j c).crew = c.crew
    ∧ (hyperspaceTail g w direction j c).attributes = c.attributes
    ∧ (hyperspaceTail g w direction j c).currentSystem = c.currentSystem
    ∧ (hyperspaceTail g w direction j c).hyperspaceSystem = c.hyperspaceSystem
    ∧ (hyperspaceTail g w direction j c).landingPlanet = c.landingPlanet
    ∧ (hyperspaceTail g w direction j c).zoom = c.zoom
    ∧ (hyperspaceTail g w direction j c).commands = c.commands
    ∧ (hyperspaceTail g w direction j c).isSpecial = c.isSpecial
    ∧ (hyperspaceTail g w direction j c).forget = c.forget
    ∧ (hyperspaceTail g w direction j c).heatDissipation = c.heatDissipation
    ∧ (hyperspaceTail g w direction j c).isOverheated = c.isOverheated
    ∧ (hyperspaceTail g w direction j c).isDisabled = c.isDisabled
    ∧ (hyperspaceTail g w direction j c).pilotError = c.pilotError
    ∧ (hyperspaceTail g w direction j c).pilotOkay = c.pilotOkay
    ∧ (hyperspaceTail g w direction j c).cloak = c.cloak
    ∧ (hyperspaceTail g w direction j c).targetSystem = c.targetSystem
    ∧ (hyperspaceTail g w direction j c).targetPlanet = c.targetPlanet := by
  simp only [hyperspaceTail]
  split <;> cases j <;> simp

@[simp] theorem hyperspaceTail_hull (g : Geometry) (w : World) (direction : Int) (j : Bool) (c : ShipCore) :
    (hyperspaceTail g w direction j c).hull = c.hull :=
  (hyperspaceTail_frame g w direction j c).1

@[simp] theorem hyperspaceTail_shields (g : Geometry) (w : World) (direction : Int) (j : Bool) (c : ShipCore) :
    (hyperspaceTail g w direction j c).shields = c.shields :=
  (hyperspaceTail_frame g w direction j c).2.1

@[simp] theorem hyperspaceTail_energy (g : Geometry) (w : World) (direction : Int) (j : Bool) (c : ShipCore) :
    (hyperspaceTail g w direction j c).energy = c.energy :=
  (hyperspaceTail_frame g w direction j c).2.2.1

@[simp] theorem hyperspaceTail_fuel (g : Geometry) (w : World) (direction : Int) (j : Bool) (c : ShipCore) :
    (hyperspaceTail g w direction j c).fuel = c.fuel :=
  (hyperspaceTail_frame g w direction j c).2.2.2.1

@[simp] theorem hyperspaceTail_heat (g : Geometry) (w : World) (direction : Int) (j : Bool) (c : ShipCore) :
    (hyperspaceTail g w direction j c).heat = c.heat :=
  (hyperspaceTail_frame g w direction j c).2.2.2.2.1

@[simp] theorem hyperspaceTail_crew (g : Geometry) (w : World) (direction : Int) (j : Bool) (c : ShipCore) :
    (hyperspaceTail g w direction j c).crew = c.crew :=
  (hyperspaceTail_frame g w direction j c).2.2.2.2.2.1

@[simp] theorem hyperspaceTail_attributes (g : Geometry) (w : World) (direction : Int) (j : Bool) (c : ShipCore) :
    (hyperspaceTail g w direction j c).attributes = c.attributes :=
  (hyperspaceTail_frame g w direction j c).2.2.2.2.2.2.1

@[simp] theorem hyperspaceTail_currentSystem (g : Geometry) (w : World) (direction : Int) (j : Bool) (c : ShipCore) :
    (hyperspaceTail g w direction j c).currentSystem = c.currentSystem :=
  (hyperspaceTail_frame g w direction j c).2.2.2.2.2.2.2.1

@[simp] theorem hyperspaceTail_hyperspaceSystem (g : Geometry) (w : World) (direction : Int) (j : Bool) (c : ShipCore) :
    (hyperspaceTail g w direction j c).hyperspaceSystem = c.hyperspaceSystem :=
  (hyperspaceTail_frame g w direction j c).2.2.2.2.2.2.2.2.1

@[simp] theorem hyperspaceTail_landingPlanet (g : Geometry) (w : World) (direction : Int) (j : Bool) (c : ShipCore) :
    (hyperspaceTail g w direction j c).landingPlanet = c.landingPlanet :=
  (hyperspaceTail_frame g w direction j c).2.2.2.2.2.2.2.2.2.1

@[simp] theorem hyperspaceTail_zoom (g : Geometry) (w : World) (direction : Int) (j : Bool) (c : ShipCore) :
    (hyperspaceTail g w direction j c).zoom = c.zoom :=
  (hyperspaceTail_frame g w direction j c).2.2.2.2.2.2.2.2.2.2.1

@[simp] theorem hyperspaceTail_commands (g : Geometry) (w : World) (direction : Int) (j : Bool) (c : ShipCore) :
    (hyperspaceTail g w direction j c).commands = c.commands :=
  (hyperspaceTail_frame g w direction j c).2.2.2.2.2.2.2.2.2.2.2.1

@[simp] theorem hyperspaceTail_isSpecial (g : Geometry) (w : World) (direction : Int) (j : Bool) (c : ShipCore) :
    (hyperspaceTail g w direction j c).isSpecial = c.isSpecial :=
  (hyperspaceTail_frame g w direction j c).2.2.2.2.2.2.2.2.2.2.2.2.1

@[simp] theorem hyperspaceTail_forget (g : Geometry) (w : World) (direction : Int) (j : Bool) (c : ShipCore) :
    (hyperspaceTail g w direction j c).forget = c.forget :=
  (hyperspaceTail_frame g w direction j c).2.2.2.2.2.2.2.2.2.2.2.2.2.1

@[simp] theorem hyperspaceTail_heatDissipation (g : Geometry) (w : World) (direction : Int) (j : Bool) (c : ShipCore) :
    (hyperspaceTail g w direction j c).heatDissipation = c.heatDissipation :=
  (hyperspaceTail_frame g w direction j c).2.2.2.2.2.2.2.2.2.2.2.2.2.2.1

@[simp] theorem hyperspaceTail_isOverheated (g : Geometry) (w : World) (direction : Int) (j : Bool) (c : ShipCore) :
    (hyperspaceTail g w direction j c).isOverheated = c.isOverheated :=
  (hyperspaceTail_frame g w direction j c).2.2.2.2.2.2.2.2.2.2.2.2.2.2.2.1

@[simp] theorem hyperspaceTail_isDisabled (g : Geometry) (w : World) (direction : Int) (j : Bool) (c : ShipCore) :
    (hyperspaceTail g w direction j c).isDisabled = c.isDisabled :=
  (hyperspaceTail_frame g w direction j c).2.2.2.2.2.2.2.2.2.2.2.2.2.2.2.2.1

@[simp] theorem hyperspaceTail_pilotError (g : Geometry) (w : World) (direction : Int) (j : Bool) (c : ShipCore) :
    (hyperspaceTail g w direction j c).pilotError = c.pilotError :=
  (hyperspaceTail_frame g w direction j c).2.2.2.2.2.2.2.2.2.2.2.2.2.2.2.2.2.1

@[simp] theorem hyperspaceTail_pilotOkay (g : Geometry) (w : World) (direction : Int) (j : Bool) (c : ShipCore) :
    (hyperspaceTail g w direction j c).pilotOkay = c.pilotOkay :=
  (hyperspaceTail_frame g w direction j c).2.2.2.2.2.2.2.2.2.2.2.2.2.2.2.2.2.2.1

@[simp] theorem hyperspaceTail_cloak (g : Geometry) (w : World) (direction : Int) (j : Bool) (c : ShipCore) :
    (hyperspaceTail g w direction j c).cloak = c.cloak :=
  (hyperspaceTail_frame g w direction j c).2.2.2.2.2.2.2.2.2.2.2.2.2.2.2.2.2.2.2.1

@[simp] theorem hyperspaceTail_targetSystem (g : Geometry) (w : World) (direction : Int) (j : Bool) (c : ShipCore) :
    (hyperspaceTail g w direction j c).targetSystem = c.targetSystem :=
  (hyperspaceTail_frame g w direction j c).2.2.2.2.2.2.2.2.2.2.2.2.2.2.2.2.2.2.2.2.1

@[simp] theorem hyperspaceTail_targetPlanet (g : Geometry) (w : World) (direction : Int) (j : Bool) (c : ShipCore) :
    (hyperspaceTail g w direction j c).targetPlanet = c.targetPlanet :=
  (hyperspaceTail_frame g w direction j c).2.2.2.2.2.2.2.2.2.2.2.2.2.2.2.2.2.2.2.2.2

theorem movePresence_ret (c : ShipCore) :
    ((movePresence c).1 = true ↔
      (c.isSpecial = true ∨ c.forget + (if c.isInSystem then 0 else 1) < 1000)
        ∧ c.currentSystem ≠ none) := by
  simp [movePresence]

theorem movePresence_hyperspaceSystem (c : ShipCore) (h : (movePresence c).1 = true) :
    (movePresence c).2.hyperspaceSystem
      = (if c.fuel = 0
            ∨ ¬ (c.attributes.get "hyperdrive" ≠ 0 ∨ c.attributes.get "jump drive" ≠ 0)
         then none else c.hyperspaceSystem) := by
  simp [movePresence] at h ⊢
  intro hs
  exfalso
  rcases hs with ⟨hs, hf⟩ | hs
  · rcases h.1 with h1 | h1
    · rw [h1] at hs
      cases hs
    · exact absurd hf (not_le.mpr h1)
  · exact h.2 hs

theorem movePresence_hyperspaceSystem_none (c : ShipCore) (h : c.hyperspaceSystem = none) :
    (movePresence c).2.hyperspaceSystem = none := by
  simp [movePresence, h]

theorem moveClamp_pools (mass : ℚ) (c : ShipCore) :
    (moveClamp mass c).energy = min c.energy (c.attributes.get "energy capacity")
    ∧ (moveClamp mass c).heat = c.heat * c.heatDissipation
    ∧ (moveClamp mass c).shields = min c.shields (c.attributes.get "shields")
    ∧ (moveClamp mass c).hull = min c.hull (c.attributes.get "hull") := by
  simp [moveClamp]

theorem moveClamp_flags (mass : ℚ) (c : ShipCore) :
    (moveClamp mass c).isOverheated
        = (if c.heat * c.heatDissipation > mass * 100 then true
           else if c.heat * c.heatDissipation < mass * 90 then false else c.isOverheated)
    ∧ (moveClamp mass c).isDisabled
        = ((moveClamp mass c).isOverheated || IsDisabled (moveClamp mass c)) := by
  simp [moveClamp, IsDisabled, MinimumHull, RequiredCrew]

theorem movePresence_forget (c : ShipCore) :
    (movePresence c).2.forget = c.forget + (if c.isInSystem then 0 else 1) := by
  simp [movePresence]

theorem movePresence_isInSystem (c : ShipCore) (h : (movePresence c).1 = true) :
    (movePresence c).2.isInSystem = false := by
  simp [movePresence] at h ⊢
  intro hs
  exfalso
  rcases hs with ⟨hs, hf⟩ | hs
  · rcases h.1 with h1 | h1
    · rw [h1] at hs
      cases hs
    · exact absurd hf (not_le.mpr h1)
  · exact h.2 hs

theorem moveHyperspace_frame (g : Geometry) (w : World) (c : ShipCore) :
    (moveHyperspace g w c).hull = c.hull
    ∧ (moveHyperspace g w c).shields = c.shields
    ∧ (moveHyperspace g w c).energy = c.energy
    ∧ (moveHyperspace g w c).heat = c.heat
    ∧ (moveHyperspace g w c).crew = c.crew
    ∧ (moveHyperspace g w c).attributes = c.attributes
    ∧ (moveHyperspace g w c).landingPlanet = c.landingPlanet
    ∧ (moveHyperspace g w c).zoom = c.zoom
    ∧ (moveHyperspace g w c).commands = c.commands
    ∧ (moveHyperspace g w c).isSpecial = c.isSpecial
    ∧ (moveHyperspace g w c).forget = c.forget
    ∧ (moveHyperspace g w c).heatDissipation = c.heatDissipation
    ∧ (moveHyperspace g w c).isOverheated = c.isOverheated
    ∧ (moveHyperspace g w c).isDisabled = c.isDisabled
    ∧ (moveHyperspace g w c).pilotError = c.pilotError
    ∧ (moveHyperspace g w c).pilotOkay = c.pilotOkay
    ∧ (moveHyperspace g w c).cloak = c.cloak := by
  simp only [moveHyperspace]
  split_ifs <;> simp

@[simp] theorem moveHyperspace_hull (g : Geometry) (w : World) (c : ShipCore) :
    (moveHyperspace g w c).hull = c.hull :=
  (moveHyperspace_frame g w c).1

@[simp] theorem moveHyperspace_shields (g : Geometry) (w : World) (c : ShipCore) :
    (moveHyperspace g w c).shields = c.shields :=
  (moveHyperspace_frame g w c).2.1

@[simp] theorem moveHyperspace_energy (g : Geometry) (w : World) (c : ShipCore) :
    (moveHyperspace g w c).energy = c.energy :=
  (moveHyperspace_frame g w c).2.2.1

@[simp] theorem moveHyperspace_heat (g : Geometry) (w : World) (c : ShipCore) :
    (moveHyperspace g w c).heat = c.heat :=
  (moveHyperspace_frame g w c).2.2.2.1

@[simp] theorem moveHyperspace_crew (g : Geometry) (w : World) (c : ShipCore) :
    (moveHyperspace g w c).crew = c.crew :=
  (moveHyperspace_frame g w c).2.2.2.2.1

@[simp] theorem moveHyperspace_attributes (g : Geometry) (w : World) (c : ShipCore) :
    (moveHyperspace g w c).attributes = c.attributes :=
  (moveHyperspace_frame g w c).2.2.2.2.2.1

@[simp] theorem moveHyperspace_landingPlanet (g : Geometry) (w : World) (c : ShipCore) :
    (moveHyperspace g w c).landingPlanet = c.landingPlanet :=
  (moveHyperspace_frame g w c).2.2.2.2.2.2.1

@[simp] theorem moveHyperspace_zoom (g : Geometry) (w : World) (c : ShipCore) :
    (moveHyperspace g w c).zoom = c.zoom :=
  (moveHyperspace_frame g w c).2.2.2.2.2.2.2.1

@[simp] theorem moveHyperspace_commands (g : Geometry) (w : World) (c : ShipCore) :
    (moveHyperspace g w c).commands = c.commands :=
  (moveHyperspace_frame g w c).2.2.2.2.2.2.2.2.1

@[simp] theorem moveHyperspace_isSpecial (g : Geometry) (w : World) (c : ShipCore) :
    (moveHyperspace g w c).isSpecial = c.isSpecial :=
  (moveHyperspace_frame g w c).2.2.2.2.2.2.2.2.2.1

@[simp] theorem moveHyperspace_forget (g : Geometry) (w : World) (c : ShipCore) :
    (moveHyperspace g w c).forget = c.forget :=
  (moveHyperspace_frame g w c).2.2.2.2.2.2.2.2.2.2.1

@[simp] theorem moveHyperspace_heatDissipation (g : Geometry) (w : World) (c : ShipCore) :
    (moveHyperspace g w c).heatDissipation = c.heatDissipation :=
  (moveHyperspace_frame g w c).2.2.2.2.2.2.2.2.2.2.2.1

@[simp] theorem moveHyperspace_isOverheated (g : Geometry) (w : World) (c : ShipCore) :
    (moveHyperspace g w c).isOverheated = c.isOverheated :=
  (moveHyperspace_frame g w c).2.2.2.2.2.2.2.2.2.2.2.2.1

@[simp] theorem moveHyperspace_isDisabled (g : Geometry) (w : World) (c : ShipCore) :
    (moveHyperspace g w c).isDisabled = c.isDisabled :=
  (moveHyperspace_frame g w c).2.2.2.2.2.2.2.2.2.2.2.2.2.1

@[simp] theorem moveHyperspace_pilotError (g : Geometry) (w : World) (c : ShipCore) :
    (moveHyperspace g w c).pilotError = c.pilotError :=
  (moveHyperspace_frame g w c).2.2.2.2.2.2.2.2.2.2.2.2.2.2.1

@[simp] theorem moveHyperspace_pilotOkay (g : Geometry) (w : World) (c : ShipCore) :
    (moveHyperspace g w c).pilotOkay = c.pilotOkay :=
  (moveHyperspace_frame g w c).2.2.2.2.2.2.2.2.2.2.2.2.2.2.2.1

@[simp] theorem moveHyperspace_cloak (g : Geometry) (w : World) (c : ShipCore) :
    (moveHyperspace g w c).cloak = c.cloak :=
  (moveHyperspace_frame g w c).2.2.2.2.2.2.2.2.2.2.2.2.2.2.2.2

theorem enterWormhole_frame (w : World) (planet : PlanetId) (c : ShipCore) :
    (enterWormhole w planet c).hull = c.hull
    ∧ (enterWormhole w planet c).shields = c.shields
    ∧ (enterWormhole w planet c).energy = c.energy
    ∧ (enterWormhole w planet c).fuel = c.fuel
    ∧ (enterWormhole w planet c).heat = c.heat
    ∧ (enterWormhole w planet c).crew = c.crew
    ∧ (enterWormhole w planet c).attributes = c.attributes
    ∧ (enterWormhole w planet c).hyperspaceSystem = c.hyperspaceSystem
    ∧ (enterWormhole w planet c).hyperspaceCount = c.hyperspaceCount
    ∧ (enterWormhole w planet c).zoom = c.zoom
    ∧ (enterWormhole w planet c).commands = c.commands
    ∧ (enterWormhole w planet c).isSpecial = c.isSpecial
    ∧ (enterWormhole w planet c).forget = c.forget
    ∧ (enterWormhole w planet c).heatDissipation = c.heatDissipation
    ∧ (enterWormhole w planet c).isOverheated = c.isOverheated
    ∧ (enterWormhole w planet c).isDisabled = c.isDisabled
    ∧ (enterWormhole w planet c).pilotError = c.pilotError
    ∧ (enterWormhole w planet c).pilotOkay = c.pilotOkay
    ∧ (enterWormhole w planet c).cloak = c.cloak := by
  have key : ∀ (l : List StellarObject) (k : ShipCore),
      (l.foldl (fun c object => if object.planet = some planet
          then { c with position := object.position } else c) k)
        = { k with position := (l.foldl (fun c object => if object.planet = some planet
          then { c with position := object.position } else c) k).position } := by
    intro l
    induction l with
    | nil => intro k; rfl
    | cons o l ih =>
      intro k
      simp only [List.foldl_cons]
      rw [ih]
      split_ifs <;> rfl
  simp only [enterWormhole]
  rw [key]
  simp

@[simp] theorem enterWormhole_hull (w : World) (planet : PlanetId) (c : ShipCore) :
    (enterWormhole w planet c).hull = c.hull :=
  (enterWormhole_frame w planet c).1

@[simp] theorem enterWormhole_shields (w : World) (planet : PlanetId) (c : ShipCore) :
    (enterWormhole w planet c).shields = c.shields :=
  (enterWormhole_frame w planet c).2.1

@[simp] theorem enterWormhole_energy (w : World) (planet : PlanetId) (c : ShipCore) :
    (enterWormhole w planet c).energy = c.energy :=
  (enterWormhole_frame w planet c).2.2.1

@[simp] theorem enterWormhole_fuel (w : World) (planet : PlanetId) (c : ShipCore) :
    (enterWormhole w planet c).fuel = c.fuel :=
  (enterWormhole_frame w planet c).2.2.2.1

@[simp] theorem enterWormhole_heat (w : World) (planet : PlanetId) (c : ShipCore) :
    (enterWormhole w planet c).heat = c.heat :=
  (enterWormhole_frame w planet c).2.2.2.2.1

@[simp] theorem enterWormhole_crew (w : World) (planet : PlanetId) (c : ShipCore) :
    (enterWormhole w planet c).crew = c.crew :=
  (enterWormhole_frame w planet c).2.2.2.2.2.1

@[simp] theorem enterWormhole_attributes (w : World) (planet : PlanetId) (c : ShipCore) :
    (enterWormhole w planet c).attributes = c.attributes :=
  (enterWormhole_frame w planet c).2.2.2.2.2.2.1

@[simp] theorem enterWormhole_hyperspaceSystem (w : World) (planet : PlanetId) (c : ShipCore) :
    (enterWormhole w planet c).hyperspaceSystem = c.hyperspaceSystem :=
  (enterWormhole_frame w planet c).2.2.2.2.2.2.2.1

@[simp] theorem enterWormhole_hyperspaceCount (w : World) (planet : PlanetId) (c : ShipCore) :
    (enterWormhole w planet c).hyperspaceCount = c.hyperspaceCount :=
  (enterWormhole_frame w planet c).2.2.2.2.2.2.2.2.1

@[simp] theorem enterWormhole_zoom (w : World) (planet : PlanetId) (c : ShipCore) :
    (enterWormhole w planet c).zoom = c.zoom :=
  (enterWormhole_frame w planet c).2.2.2.2.2.2.2.2.2.1

@[simp] theorem enterWormhole_commands (w : World) (planet : PlanetId) (c : ShipCore) :
    (enterWormhole w planet c).commands = c.commands :=
  (enterWormhole_frame w planet c).2.2.2.2.2.2.2.2.2.2.1

@[simp] theorem enterWormhole_isSpecial (w : World) (planet : PlanetId) (c : ShipCore) :
    (enterWormhole w planet c).isSpecial = c.isSpecial :=
  (enterWormhole_frame w planet c).2.2.2.2.2.2.2.2.2.2.2.1

@[simp] theorem enterWormhole_forget (w : World) (planet : PlanetId) (c : ShipCore) :
    (enterWormhole w planet c).forget = c.forget :=
  (enterWormhole_frame w planet c).2.2.2.2.2.2.2.2.2.2.2.2.1

@[simp] theorem enterWormhole_heatDissipation (w : World) (planet : PlanetId) (c : ShipCore) :
    (enterWormhole w planet c).heatDissipation = c.heatDissipation :=
  (enterWormhole_frame w planet c).2.2.2.2.2.2.2.2.2.2.2.2.2.1

@[simp] theorem enterWormhole_isOverheated (w : World) (planet : PlanetId) (c : ShipCore) :
    (enterWormhole w planet c).isOverheated = c.isOverheated :=
  (enterWormhole_frame w planet c).2.2.2.2.2.2.2.2.2.2.2.2.2.2.1

@[simp] theorem enterWormhole_isDisabled (w : World) (planet : PlanetId) (c : ShipCore) :
    (enterWormhole w planet c).isDisabled = c.isDisabled :=
  (enterWormhole_frame w planet c).2.2.2.2.2.2.2.2.2.2.2.2.2.2.2.1

@[simp] theorem enterWormhole_pilotError (w : World) (planet : PlanetId) (c : ShipCore) :
    (enterWormhole w planet c).pilotError = c.pilotError :=
  (enterWormhole_frame w planet c).2.2.2.2.2.2.2.2.2.2.2.2.2.2.2.2.1

@[simp] theorem enterWormhole_pilotOkay (w : World) (planet : PlanetId) (c : ShipCore) :
    (enterWormhole w planet c).pilotOkay = c.pilotOkay :=
  (enterWormhole_frame w planet c).2.2.2.2.2.2.2.2.2.2.2.2.2.2.2.2.2.1

@[simp] theorem enterWormhole_cloak (w : World) (planet : PlanetId) (c : ShipCore) :
    (enterWormhole w planet c).cloak = c.cloak :=
  (enterWormhole_frame w planet c).2.2.2.2.2.2.2.2.2.2.2.2.2.2.2.2.2.2

theorem moveLanding_frame (w : World) (c : ShipCore) :
    ((moveLanding w c).2).hull = c.hull
    ∧ ((moveLanding w c).2).shields = c.shields
    ∧ ((moveLanding w c).2).energy = c.energy
    ∧ ((moveLanding w c).2).heat = c.heat
    ∧ ((moveLanding w c).2).crew = c.crew
    ∧ ((moveLanding w c).2).attributes = c.attributes
    ∧ ((moveLanding w c).2).hyperspaceSystem = c.hyperspaceSystem
    ∧ ((moveLanding w c).2).hyperspaceCount = c.hyperspaceCount
    ∧ ((moveLanding w c).2).commands = c.commands
    ∧ ((moveLanding w c).2).isSpecial = c.isSpecial
    ∧ ((moveLanding w c).2).forget = c.forget
    ∧ ((moveLanding w c).2).heatDissipation = c.heatDissipation
    ∧ ((moveLanding w c).2).isOverheated = c.isOverheated
    ∧ ((moveLanding w c).2).isDisabled = c.isDisabled
    ∧ ((moveLanding w c).2).pilotError = c.pilotError
    ∧ ((moveLanding w c).2).pilotOkay = c.pilotOkay
    ∧ ((moveLanding w c).2).cloak = c.cloak := by
  simp only [moveLanding]
  cases hl : c.landingPlanet with
  | none => simp
  | some planet =>
    cases ht : c.targetPlanet <;> simp

@[simp] theorem moveLanding_hull (w : World) (c : ShipCore) :
    ((moveLanding w c).2).hull = c.hull :=
  (moveLanding_frame w c).1

@[simp] theorem moveLanding_shields (w : World) (c : ShipCore) :
    ((moveLanding w c).2).shields = c.shields :=
  (moveLanding_frame w c).2.1

@[simp] theorem moveLanding_energy (w : World) (c : ShipCore) :
    ((moveLanding w c).2).energy = c.energy :=
  (moveLanding_frame w c).2.2.1

@[simp] theorem moveLanding_heat (w : World) (c : ShipCore) :
    ((moveLanding w c).2).heat = c.heat :=
  (moveLanding_frame w c).2.2.2.1

@[simp] theorem moveLanding_crew (w : World) (c : ShipCore) :
    ((moveLanding w c).2).crew = c.crew :=
  (moveLanding_frame w c).2.2.2.2.1

@[simp] theorem moveLanding_attributes (w : World) (c : ShipCore) :
    ((moveLanding w c).2).attributes = c.attributes :=
  (moveLanding_frame w c).2.2.2.2.2.1

@[simp] theorem moveLanding_hyperspaceSystem (w : World) (c : ShipCore) :
    ((moveLanding w c).2).hyperspaceSystem = c.hyperspaceSystem :=
  (moveLanding_frame w c).2.2.2.2.2.2.1

@[simp] theorem moveLanding_hyperspaceCount (w : World) (c : ShipCore) :
    ((moveLanding w c).2).hyperspaceCount = c.hyperspaceCount :=
  (moveLanding_frame w c).2.2.2.2.2.2.2.1

@[simp] theorem moveLanding_commands (w : World) (c : ShipCore) :
    ((moveLanding w c).2).commands = c.commands :=
  (moveLanding_frame w c).2.2.2.2.2.2.2.2.1

@[simp] theorem moveLanding_isSpecial (w : World) (c : ShipCore) :
    ((moveLanding w c).2).isSpecial = c.isSpecial :=
  (moveLanding_frame w c).2.2.2.2.2.2.2.2.2.1

@[simp] theorem moveLanding_forget (w : World) (c : ShipCore) :
    ((moveLanding w c).2).forget = c.forget :=
  (moveLanding_frame w c).2.2.2.2.2.2.2.2.2.2.1

@[simp] theorem moveLanding_heatDissipation (w : World) (c : ShipCore) :
    ((moveLanding w c).2).heatDissipation = c.heatDissipation :=
  (moveLanding_frame w c).2.2.2.2.2.2.2.2.2.2.2.1

@[simp] theorem moveLanding_isOverheated (w : World) (c : ShipCore) :
    ((moveLanding w c).2).isOverheated = c.isOverheated :=
  (moveLanding_frame w c).2.2.2.2.2.2.2.2.2.2.2.2.1

@[simp] theorem moveLanding_isDisabled (w : World) (c : ShipCore) :
    ((moveLanding w c).2).isDisabled = c.isDisabled :=
  (moveLanding_frame w c).2.2.2.2.2.2.2.2.2.2.2.2.2.1

@[simp] theorem moveLanding_pilotError (w : World) (c : ShipCore) :
    ((moveLanding w c).2).pilotError = c.pilotError :=
  (moveLanding_frame w c).2.2.2.2.2.2.2.2.2.2.2.2.2.2.1

@[simp] theorem moveLanding_pilotOkay (w : World) (c : ShipCore) :
    ((moveLanding w c).2).pilotOkay = c.pilotOkay :=
  (moveLanding_frame w c).2.2.2.2.2.2.2.2.2.2.2.2.2.2.2.1

@[simp] theorem moveLanding_cloak (w : World) (c : ShipCore) :
    ((moveLanding w c).2).cloak = c.cloak :=
  (moveLanding_frame w c).2.2.2.2.2.2.2.2.2.2.2.2.2.2.2.2

theorem hyperspaceTail_count (g : Geometry) (w : World) (direction : Int) (j : Bool)
    (c : ShipCore) (h : c.hyperspaceSystem ≠ none) :
    (hyperspaceTail g w direction j c).hyperspaceCount = c.hyperspaceCount := by
  simp only [hyperspaceTail]
  split <;> cases j <;> simp <;> intro _ h3 <;> exact absurd h3 h

theorem hyperspaceTail_count_jump (g : Geometry) (w : World) (direction : Int) (c : ShipCore) :
    (hyperspaceTail g w direction true c).hyperspaceCount = c.hyperspaceCount := by
  simp only [hyperspaceTail]
  split <;> simp

/-- One tick of a jump in progress that is not the hundredth: the ship stays
in its system, keeps its jump target, counts one up and pays one unit of
fuel. -/
theorem moveHyperspace_step (g : Geometry) (w : World) (c : ShipCore) (t : SystemId)
    (hs : c.hyperspaceSystem = some t) (hn : c.hyperspaceCount + 1 ≠ 100) :
    (moveHyperspace g w c).currentSystem = c.currentSystem
    ∧ (moveHyperspace g w c).hyperspaceSystem = some t
    ∧ (moveHyperspace g w c).hyperspaceCount = c.hyperspaceCount + 1
    ∧ (moveHyperspace g w c).fuel = c.fuel - 1 := by
  simp only [moveHyperspace, hs, Option.isSome_some, if_true]
  rw [if_neg hn]
  refine ⟨by simp, by simp, ?_, by simp⟩
  rw [hyperspaceTail_count _ _ _ _ _ (by simp)]

/-- The hundredth tick of a jump: the ship is in the target system, the jump
target is cleared, and the fuel paid in this tick is one unit plus the
`"jump fuel"` attribute less 100. -/
theorem moveHyperspace_arrive (g : Geometry) (w : World) (c : ShipCore) (t : SystemId)
    (hs : c.hyperspaceSystem = some t) (hn : c.hyperspaceCount + 1 = 100) :
    (moveHyperspace g w c).currentSystem = some t
    ∧ (moveHyperspace g w c).hyperspaceSystem = none
    ∧ (moveHyperspace g w c).fuel = c.fuel - 1 - (c.attributes.get "jump fuel" - 100)
    ∧ (c.attributes.get "jump drive" ≠ 0 → (moveHyperspace g w c).hyperspaceCount = 100) := by
  simp only [moveHyperspace, hs, Option.isSome_some, if_true]
  rw [if_pos hn]
  refine ⟨?_, ?_, ?_, ?_⟩
  · split_ifs <;> simp
  · split_ifs <;> simp
  · split_ifs <;> simp
  · intro hj
    simp [hj, hn]

/-- Take-off: a ship without landing planet that is not fully zoomed in grows
by 0.02, up to 1, and keeps its fuel and its system. -/
theorem moveLanding_takeoff (w : World) (c : ShipCore) (hl : c.landingPlanet = none) :
    (moveLanding w c).1 = true
    ∧ (moveLanding w c).2.zoom = min 1 (c.zoom + 2 / 100)
    ∧ (moveLanding w c).2.landingPlanet = none
    ∧ (moveLanding w c).2.fuel = c.fuel
    ∧ (moveLanding w c).2.currentSystem = c.currentSystem := by
  simp [moveLanding, hl]

/-- A landed ship (zoom 0) with a full tank starts its take-off: the landing
planet is cleared, zoom becomes 0.02, fuel stays. -/
theorem moveLanding_full (w : World) (c : ShipCore) (planet : PlanetId)
    (hl : c.landingPlanet = some planet) (hz : c.zoom = 0)
    (hf : c.fuel = c.attributes.get "fuel capacity") :
    (moveLanding w c).1 = true
    ∧ (moveLanding w c).2.zoom = 2 / 100
    ∧ (moveLanding w c).2.landingPlanet = none
    ∧ (moveLanding w c).2.fuel = c.fuel
    ∧ (moveLanding w c).2.currentSystem = c.currentSystem := by
  simp [moveLanding, hl, hz, hf]
  norm_num

/-- The landing phase keeps fuel within its bounds. -/
theorem moveLanding_fuel (w : World) (c : ShipCore)
    (h0 : 0 ≤ c.fuel) (h1 : c.fuel ≤ c.attributes.get "fuel capacity") :
    0 ≤ (moveLanding w c).2.fuel
    ∧ (moveLanding w c).2.fuel ≤ c.attributes.get "fuel capacity" := by
  simp only [moveLanding]
  cases hl : c.landingPlanet with
  | none => simp [h0, h1]
  | some planet =>
    cases ht : c.targetPlanet <;> simp <;> split_ifs <;> simp [h0, h1] <;>
      constructor <;> linarith

/-! ## What normal flight leaves alone -/

theorem flightCommands_frame (g : Geometry) (w : World) (s : Ship) :
    (flightCommands g w s).hull = s.core.hull
    ∧ (flightCommands g w s).shields = s.core.shields
    ∧ (flightCommands g w s).energy = s.core.energy
    ∧ (flightCommands g w s).fuel = s.core.fuel
    ∧ (flightCommands g w s).heat = s.core.heat
    ∧ (flightCommands g w s).crew = s.core.crew
    ∧ (flightCommands g w s).attributes = s.core.attributes
    ∧ (flightCommands g w s).currentSystem = s.core.currentSystem
    ∧ (flightCommands g w s).hyperspaceCount = s.core.hyperspaceCount
    ∧ (flightCommands g w s).zoom = s.core.zoom
    ∧ (flightCommands g w s).commands = s.core.commands
    ∧ (flightCommands g w s).isSpecial = s.core.isSpecial
    ∧ (flightCommands g w s).forget = s.core.forget
    ∧ (flightCommands g w s).heatDissipation = s.core.heatDissipation
    ∧ (flightCommands g w s).isOverheated = s.core.isOverheated
    ∧ (flightCommands g w s).isDisabled = s.core.isDisabled
    ∧ (flightCommands g w s).pilotError = s.core.pilotError
    ∧ (flightCommands g w s).pilotOkay = s.core.pilotOkay
    ∧ (flightCommands g w s).cloak = s.core.cloak := by
  simp only [flightCommands]
  split_ifs <;> simp

@[simp] theorem flightCommands_hull (g : Geometry) (w : World) (s : Ship) :
    (flightCommands g w s).hull = s.core.hull :=
  (flightCommands_frame g w s).1

@[simp] theorem flightCommands_shields (g : Geometry) (w : World) (s : Ship) :
    (flightCommands g w s).shields = s.core.shields :=
  (flightCommands_frame g w s).2.1

@[simp] theorem flightCommands_energy (g : Geometry) (w : World) (s : Ship) :
    (flightCommands g w s).energy = s.core.energy :=
  (flightCommands_frame g w s).2.2.1

@[simp] theorem flightCommands_fuel (g : Geometry) (w : World) (s : Ship) :
    (flightCommands g w s).fuel = s.core.fuel :=
  (flightCommands_frame g w s).2.2.2.1

@[simp] theorem flightCommands_heat (g : Geometry) (w : World) (s : Ship) :
    (flightCommands g w s).heat = s.core.heat :=
  (flightCommands_frame g w s).2.2.2.2.1

@[simp] theorem flightCommands_crew (g : Geometry) (w : World) (s : Ship) :
    (flightCommands g w s).crew = s.core.crew :=
  (flightCommands_frame g w s).2.2.2.2.2.1

@[simp] theorem flightCommands_attributes (g : Geometry) (w : World) (s : Ship) :
    (flightCommands g w s).attributes = s.core.attributes :=
  (flightCommands_frame g w s).2.2.2.2.2.2.1

@[simp] theorem flightCommands_currentSystem (g : Geometry) (w : World) (s : Ship) :
    (flightCommands g w s).currentSystem = s.core.currentSystem :=
  (flightCommands_frame g w s).2.2.2.2.2.2.2.1

@[simp] theorem flightCommands_hyperspaceCount (g : Geometry) (w : World) (s : Ship) :
    (flightCommands g w s).hyperspaceCount = s.core.hyperspaceCount :=
  (flightCommands_frame g w s).2.2.2.2.2.2.2.2.1

@[simp] theorem flightCommands_zoom (g : Geometry) (w : World) (s : Ship) :
    (flightCommands g w s).zoom = s.core.zoom :=
  (flightCommands_frame g w s).2.2.2.2.2.2.2.2.2.1

@[simp] theorem flightCommands_commands (g : Geometry) (w : World) (s : Ship) :
    (flightCommands g w s).commands = s.core.commands :=
  (flightCommands_frame g w s).2.2.2.2.2.2.2.2.2.2.1

@[simp] theorem flightCommands_isSpecial (g : Geometry) (w : World) (s : Ship) :
    (flightCommands g w s).isSpecial = s.core.isSpecial :=
  (flightCommands_frame g w s).2.2.2.2.2.2.2.2.2.2.2.1

@[simp] theorem flightCommands_forget (g : Geometry) (w : World) (s : Ship) :
    (flightCommands g w s).forget = s.core.forget :=
  (flightCommands_frame g w s).2.2.2.2.2.2.2.2.2.2.2.2.1

@[simp] theorem flightCommands_heatDissipation (g : Geometry) (w : World) (s : Ship) :
    (flightCommands g w s).heatDissipation = s.core.heatDissipation :=
  (flightCommands_frame g w s).2.2.2.2.2.2.2.2.2.2.2.2.2.1

@[simp] theorem flightCommands_isOverheated (g : Geometry) (w : World) (s : Ship) :
    (flightCommands g w s).isOverheated = s.core.isOverheated :=
  (flightCommands_frame g w s).2.2.2.2.2.2.2.2.2.2.2.2.2.2.1

@[simp] theorem flightCommands_isDisabled (g : Geometry) (w : World) (s : Ship) :
    (flightCommands g w s).isDisabled = s.core.isDisabled :=
  (flightCommands_frame g w s).2.2.2.2.2.2.2.2.2.2.2.2.2.2.2.1

@[simp] theorem flightCommands_pilotError (g : Geometry) (w : World) (s : Ship) :
    (flightCommands g w s).pilotError = s.core.pilotError :=
  (flightCommands_frame g w s).2.2.2.2.2.2.2.2.2.2.2.2.2.2.2.2.1

@[simp] theorem flightCommands_pilotOkay (g : Geometry) (w : World) (s : Ship) :
    (flightCommands g w s).pilotOkay = s.core.pilotOkay :=
  (flightCommands_frame g w s).2.2.2.2.2.2.2.2.2.2.2.2.2.2.2.2.2.1

@[simp] theorem flightCommands_cloak (g : Geometry) (w : World) (s : Ship) :
    (flightCommands g w s).cloak = s.core.cloak :=
  (flightCommands_frame g w s).2.2.2.2.2.2.2.2.2.2.2.2.2.2.2.2.2.2

theorem flightCloak_frame (c : ShipCore) :
    (flightCloak c).hull = c.hull
    ∧ (flightCloak c).shields = c.shields
    ∧ (flightCloak c).heat = c.heat
    ∧ (flightCloak c).crew = c.crew
    ∧ (flightCloak c).attributes = c.attributes
    ∧ (flightCloak c).currentSystem = c.currentSystem
    ∧ (flightCloak c).hyperspaceSystem = c.hyperspaceSystem
    ∧ (flightCloak c).hyperspaceCount = c.hyperspaceCount
    ∧ (flightCloak c).landingPlanet = c.landingPlanet
    ∧ (flightCloak c).zoom = c.zoom
    ∧ (flightCloak c).commands = c.commands
    ∧ (flightCloak c).isSpecial = c.isSpecial
    ∧ (flightCloak c).forget = c.forget
    ∧ (flightCloak c).heatDissipation = c.heatDissipation
    ∧ (flightCloak c).isOverheated = c.isOverheated
    ∧ (flightCloak c).isDisabled = c.isDisabled
    ∧ (flightCloak c).pilotError = c.pilotError
    ∧ (flightCloak c).pilotOkay = c.pilotOkay := by
  simp only [flightCloak]
  split_ifs <;> simp

@[simp] theorem flightCloak_hull (c : ShipCore) :
    (flightCloak c).hull = c.hull :=
  (flightCloak_frame c).1

@[simp] theorem flightCloak_shields (c : ShipCore) :
    (flightCloak c).shields = c.shields :=
  (flightCloak_frame c).2.1

@[simp] theorem flightCloak_heat (c : ShipCore) :
    (flightCloak c).heat = c.heat :=
  (flightCloak_frame c).2.2.1

@[simp] theorem flightCloak_crew (c : ShipCore) :
    (flightCloak c).crew = c.crew :=
  (flightCloak_frame c).2.2.2.1

@[simp] theorem flightCloak_attributes (c : ShipCore) :
    (flightCloak c).attributes = c.attributes :=
  (flightCloak_frame c).2.2.2.2.1

@[simp] theorem flightCloak_currentSystem (c : ShipCore) :
    (flightCloak c).currentSystem = c.currentSystem :=
  (flightCloak_frame c).2.2.2.2.2.1

@[simp] theorem flightCloak_hyperspaceSystem (c : ShipCore) :
    (flightCloak c).hyperspaceSystem = c.hyperspaceSystem :=
  (flightCloak_frame c).2.2.2.2.2.2.1

@[simp] theorem flightCloak_hyperspaceCount (c : ShipCore) :
    (flightCloak c).hyperspaceCount = c.hyperspaceCount :=
  (flightCloak_frame c).2.2.2.2.2.2.2.1

@[simp] theorem flightCloak_landingPlanet (c : ShipCore) :
    (flightCloak c).landingPlanet = c.landingPlanet :=
  (flightCloak_frame c).2.2.2.2.2.2.2.2.1

@[simp] theorem flightCloak_zoom (c : ShipCore) :
    (flightCloak c).zoom = c.zoom :=
  (flightCloak_frame c).2.2.2.2.2.2.2.2.2.1

@[simp] theorem flightCloak_commands (c : ShipCore) :
    (flightCloak c).commands = c.commands :=
  (flightCloak_frame c).2.2.2.2.2.2.2.2.2.2.1

@[simp] theorem flightCloak_isSpecial (c : ShipCore) :
    (flightCloak c).isSpecial = c.isSpecial :=
  (flightCloak_frame c).2.2.2.2.2.2.2.2.2.2.2.1

@[simp] theorem flightCloak_forget (c : ShipCore) :
    (flightCloak c).forget = c.forget :=
  (flightCloak_frame c).2.2.2.2.2.2.2.2.2.2.2.2.1

@[simp] theorem flightCloak_heatDissipation (c : ShipCore) :
    (flightCloak c).heatDissipation = c.heatDissipation :=
  (flightCloak_frame c).2.2.2.2.2.2.2.2.2.2.2.2.2.1

@[simp] theorem flightCloak_isOverheated (c : ShipCore) :
    (flightCloak c).isOverheated = c.isOverheated :=
  (flightCloak_frame c).2.2.2.2.2.2.2.2.2.2.2.2.2.2.1

@[simp] theorem flightCloak_isDisabled (c : ShipCore) :
    (flightCloak c).isDisabled = c.isDisabled :=
  (flightCloak_frame c).2.2.2.2.2.2.2.2.2.2.2.2.2.2.2.1

@[simp] theorem flightCloak_pilotError (c : ShipCore) :
    (flightCloak c).pilotError = c.pilotError :=
  (flightCloak_frame c).2.2.2.2.2.2.2.2.2.2.2.2.2.2.2.2.1

@[simp] theorem flightCloak_pilotOkay (c : ShipCore) :
    (flightCloak c).pilotOkay = c.pilotOkay :=
  (flightCloak_frame c).2.2.2.2.2.2.2.2.2.2.2.2.2.2.2.2.2

theorem flightPilot_frame (d : MoveDraws) (c : ShipCore) :
    (flightPilot d c).hull = c.hull
    ∧ (flightPilot d c).shields = c.shields
    ∧ (flightPilot d c).energy = c.energy
    ∧ (flightPilot d c).fuel = c.fuel
    ∧ (flightPilot d c).heat = c.heat
    ∧ (flightPilot d c).crew = c.crew
    ∧ (flightPilot d c).attributes = c.attributes
    ∧ (flightPilot d c).currentSystem = c.currentSystem
    ∧ (flightPilot d c).hyperspaceSystem = c.hyperspaceSystem
    ∧ (flightPilot d c).hyperspaceCount = c.hyperspaceCount
    ∧ (flightPilot d c).landingPlanet = c.landingPlanet
    ∧ (flightPilot d c).zoom = c.zoom
    ∧ (flightPilot d c).commands = c.commands
    ∧ (flightPilot d c).isSpecial = c.isSpecial
    ∧ (flightPilot d c).forget = c.forget
    ∧ (flightPilot d c).heatDissipation = c.heatDissipation
    ∧ (flightPilot d c).isOverheated = c.isOverheated
    ∧ (flightPilot d c).isDisabled = c.isDisabled
    ∧ (flightPilot d c).cloak = c.cloak := by
  simp only [flightPilot]
  split_ifs <;> simp

@[simp] theorem flightPilot_hull (d : MoveDraws) (c : ShipCore) :
    (flightPilot d c).hull = c.hull :=
  (flightPilot_frame d c).1

@[simp] theorem flightPilot_shields (d : MoveDraws) (c : ShipCore) :
    (flightPilot d c).shields = c.shields :=
  (flightPilot_frame d c).2.1

@[simp] theorem flightPilot_energy (d : MoveDraws) (c : ShipCore) :
    (flightPilot d c).energy = c.energy :=
  (flightPilot_frame d c).2.2.1

@[simp] theorem flightPilot_fuel (d : MoveDraws) (c : ShipCore) :
    (flightPilot d c).fuel = c.fuel :=
  (flightPilot_frame d c).2.2.2.1

@[simp] theorem flightPilot_heat (d : MoveDraws) (c : ShipCore) :
    (flightPilot d c).heat = c.heat :=
  (flightPilot_frame d c).2.2.2.2.1

@[simp] theorem flightPilot_crew (d : MoveDraws) (c : ShipCore) :
    (flightPilot d c).crew = c.crew :=
  (flightPilot_frame d c).2.2.2.2.2.1

@[simp] theorem flightPilot_attributes (d : MoveDraws) (c : ShipCore) :
    (flightPilot d c).attributes = c.attributes :=
  (flightPilot_frame d c).2.2.2.2.2.2.1

@[simp] theorem flightPilot_currentSystem (d : MoveDraws) (c : ShipCore) :
    (flightPilot d c).currentSystem = c.currentSystem :=
  (flightPilot_frame d c).2.2.2.2.2.2.2.1

@[simp] theorem flightPilot_hyperspaceSystem (d : MoveDraws) (c : ShipCore) :
    (flightPilot d c).hyperspaceSystem = c.hyperspaceSystem :=
  (flightPilot_frame d c).2.2.2.2.2.2.2.2.1

@[simp] theorem flightPilot_hyperspaceCount (d : MoveDraws) (c : ShipCore) :
    (flightPilot d c).hyperspaceCount = c.hyperspaceCount :=
  (flightPilot_frame d c).2.2.2.2.2.2.2.2.2.1

@[simp] theorem flightPilot_landingPlanet (d : MoveDraws) (c : ShipCore) :
    (flightPilot d c).landingPlanet = c.landingPlanet :=
  (flightPilot_frame d c).2.2.2.2.2.2.2.2.2.2.1

@[simp] theorem flightPilot_zoom (d : MoveDraws) (c : ShipCore) :
    (flightPilot d c).zoom = c.zoom :=
  (flightPilot_frame d c).2.2.2.2.2.2.2.2.2.2.2.1

@[simp] theorem flightPilot_commands (d : MoveDraws) (c : ShipCore) :
    (flightPilot d c).commands = c.commands :=
  (flightPilot_frame d c).2.2.2.2.2.2.2.2.2.2.2.2.1

@[simp] theorem flightPilot_isSpecial (d : MoveDraws) (c : ShipCore) :
    (flightPilot d c).isSpecial = c.isSpecial :=
  (flightPilot_frame d c).2.2.2.2.2.2.2.2.2.2.2.2.2.1

@[simp] theorem flightPilot_forget (d : MoveDraws) (c : ShipCore) :
    (flightPilot d c).forget = c.forget :=
  (flightPilot_frame d c).2.2.2.2.2.2.2.2.2.2.2.2.2.2.1

@[simp] theorem flightPilot_heatDissipation (d : MoveDraws) (c : ShipCore) :
    (flightPilot d c).heatDissipation = c.heatDissipation :=
  (flightPilot_frame d c).2.2.2.2.2.2.2.2.2.2.2.2.2.2.2.1

@[simp] theorem flightPilot_isOverheated (d : MoveDraws) (c : ShipCore) :
    (flightPilot d c).isOverheated = c.isOverheated :=
  (flightPilot_frame d c).2.2.2.2.2.2.2.2.2.2.2.2.2.2.2.2.1

@[simp] theorem flightPilot_isDisabled (d : MoveDraws) (c : ShipCore) :
    (flightPilot d c).isDisabled = c.isDisabled :=
  (flightPilot_frame d c).2.2.2.2.2.2.2.2.2.2.2.2.2.2.2.2.2.1

@[simp] theorem flightPilot_cloak (d : MoveDraws) (c : ShipCore) :
    (flightPilot d c).cloak = c.cloak :=
  (flightPilot_frame d c).2.2.2.2.2.2.2.2.2.2.2.2.2.2.2.2.2.2

theorem flightThrust_frame (g : Geometry) (mass : ℚ) (c : ShipCore) :
    ((flightThrust g mass c).1).hull = c.hull
    ∧ ((flightThrust g mass c).1).shields = c.shields
    ∧ ((flightThrust g mass c).1).fuel = c.fuel
    ∧ ((flightThrust g mass c).1).crew = c.crew
    ∧ ((flightThrust g mass c).1).attributes = c.attributes
    ∧ ((flightThrust g mass c).1).currentSystem = c.currentSystem
    ∧ ((flightThrust g mass c).1).hyperspaceSystem = c.hyperspaceSystem
    ∧ ((flightThrust g mass c).1).hyperspaceCount = c.hyperspaceCount
    ∧ ((flightThrust g mass c).1).landingPlanet = c.landingPlanet
    ∧ ((flightThrust g mass c).1).zoom = c.zoom
    ∧ ((flightThrust g mass c).1).commands = c.commands
    ∧ ((flightThrust g mass c).1).isSpecial = c.isSpecial
    ∧ ((flightThrust g mass c).1).forget = c.forget
    ∧ ((flightThrust g mass c).1).heatDissipation = c.heatDissipation
    ∧ ((flightThrust g mass c).1).isOverheated = c.isOverheated
    ∧ ((flightThrust g mass c).1).isDisabled = c.isDisabled
    ∧ ((flightThrust g mass c).1).pilotError = c.pilotError
    ∧ ((flightThrust g mass c).1).pilotOkay = c.pilotOkay
    ∧ ((flightThrust g mass c).1).cloak = c.cloak := by
  simp only [flightThrust]
  split_ifs <;> simp

@[simp] theorem flightThrust_hull (g : Geometry) (mass : ℚ) (c : ShipCore) :
    ((flightThrust g mass c).1).hull = c.hull :=
  (flightThrust_frame g mass c).1

@[simp] theorem flightThrust_shields (g : Geometry) (mass : ℚ) (c : ShipCore) :
    ((flightThrust g mass c).1).shields = c.shields :=
  (flightThrust_frame g mass c).2.1

@[simp] theorem flightThrust_fuel (g : Geometry) (mass : ℚ) (c : ShipCore) :
    ((flightThrust g mass c).1).fuel = c.fuel :=
  (flightThrust_frame g mass c).2.2.1

@[simp] theorem flightThrust_crew (g : Geometry) (mass : ℚ) (c : ShipCore) :
    ((flightThrust g mass c).1).crew = c.crew :=
  (flightThrust_frame g mass c).2.2.2.1

@[simp] theorem flightThrust_attributes (g : Geometry) (mass : ℚ) (c : ShipCore) :
    ((flightThrust g mass c).1).attributes = c.attributes :=
  (flightThrust_frame g mass c).2.2.2.2.1

@[simp] theorem flightThrust_currentSystem (g : Geometry) (mass : ℚ) (c : ShipCore) :
    ((flightThrust g mass c).1).currentSystem = c.currentSystem :=
  (flightThrust_frame g mass c).2.2.2.2.2.1

@[simp] theorem flightThrust_hyperspaceSystem (g : Geometry) (mass : ℚ) (c : ShipCore) :
    ((flightThrust g mass c).1).hyperspaceSystem = c.hyperspaceSystem :=
  (flightThrust_frame g mass c).2.2.2.2.2.2.1

@[simp] theorem flightThrust_hyperspaceCount (g : Geometry) (mass : ℚ) (c : ShipCore) :
    ((flightThrust g mass c).1).hyperspaceCount = c.hyperspaceCount :=
  (flightThrust_frame g mass c).2.2.2.2.2.2.2.1

@[simp] theorem flightThrust_landingPlanet (g : Geometry) (mass : ℚ) (c : ShipCore) :
    ((flightThrust g mass c).1).landingPlanet = c.landingPlanet :=
  (flightThrust_frame g mass c).2.2.2.2.2.2.2.2.1

@[simp] theorem flightThrust_zoom (g : Geometry) (mass : ℚ) (c : ShipCore) :
    ((flightThrust g mass c).1).zoom = c.zoom :=
  (flightThrust_frame g mass c).2.2.2.2.2.2.2.2.2.1

@[simp] theorem flightThrust_commands (g : Geometry) (mass : ℚ) (c : ShipCore) :
    ((flightThrust g mass c).1).commands = c.commands :=
  (flightThrust_frame g mass c).2.2.2.2.2.2.2.2.2.2.1

@[simp] theorem flightThrust_isSpecial (g : Geometry) (mass : ℚ) (c : ShipCore) :
    ((flightThrust g mass c).1).isSpecial = c.isSpecial :=
  (flightThrust_frame g mass c).2.2.2.2.2.2.2.2.2.2.2.1

@[simp] theorem flightThrust_forget (g : Geometry) (mass : ℚ) (c : ShipCore) :
    ((flightThrust g mass c).1).forget = c.forget :=
  (flightThrust_frame g mass c).2.2.2.2.2.2.2.2.2.2.2.2.1

@[simp] theorem flightThrust_heatDissipation (g : Geometry) (mass : ℚ) (c : ShipCore) :
    ((flightThrust g mass c).1).heatDissipation = c.heatDissipation :=
  (flightThrust_frame g mass c).2.2.2.2.2.2.2.2.2.2.2.2.2.1

@[simp] theorem flightThrust_isOverheated (g : Geometry) (mass : ℚ) (c : ShipCore) :
    ((flightThrust g mass c).1).isOverheated = c.isOverheated :=
  (flightThrust_frame g mass c).2.2.2.2.2.2.2.2.2.2.2.2.2.2.1

@[simp] theorem flightThrust_isDisabled (g : Geometry) (mass : ℚ) (c : ShipCore) :
    ((flightThrust g mass c).1).isDisabled = c.isDisabled :=
  (flightThrust_frame g mass c).2.2.2.2.2.2.2.2.2.2.2.2.2.2.2.1

@[simp] theorem flightThrust_pilotError (g : Geometry) (mass : ℚ) (c : ShipCore) :
    ((flightThrust g mass c).1).pilotError = c.pilotError :=
  (flightThrust_frame g mass c).2.2.2.2.2.2.2.2.2.2.2.2.2.2.2.2.1

@[simp] theorem flightThrust_pilotOkay (g : Geometry) (mass : ℚ) (c : ShipCore) :
    ((flightThrust g mass c).1).pilotOkay = c.pilotOkay :=
  (flightThrust_frame g mass c).2.2.2.2.2.2.2.2.2.2.2.2.2.2.2.2.2.1

@[simp] theorem flightThrust_cloak (g : Geometry) (mass : ℚ) (c : ShipCore) :
    ((flightThrust g mass c).1).cloak = c.cloak :=
  (flightThrust_frame g mass c).2.2.2.2.2.2.2.2.2.2.2.2.2.2.2.2.2.2

theorem flightAfterburner_frame (g : Geometry) (mass : ℚ) (c : ShipCore) :
    ((flightAfterburner g mass c).1).hull = c.hull
    ∧ ((flightAfterburner g mass c).1).shields = c.shields
    ∧ ((flightAfterburner g mass c).1).crew = c.crew
    ∧ ((flightAfterburner g mass c).1).attributes = c.attributes
    ∧ ((flightAfterburner g mass c).1).currentSystem = c.currentSystem
    ∧ ((flightAfterburner g mass c).1).hyperspaceSystem = c.hyperspaceSystem
    ∧ ((flightAfterburner g mass c).1).hyperspaceCount = c.hyperspaceCount
    ∧ ((flightAfterburner g mass c).1).landingPlanet = c.landingPlanet
    ∧ ((flightAfterburner g mass c).1).zoom = c.zoom
    ∧ ((flightAfterburner g mass c).1).commands = c.commands
    ∧ ((flightAfterburner g mass c).1).isSpecial = c.isSpecial
    ∧ ((flightAfterburner g mass c).1).forget = c.forget
    ∧ ((flightAfterburner g mass c).1).heatDissipation = c.heatDissipation
    ∧ ((flightAfterburner g mass c).1).isOverheated = c.isOverheated
    ∧ ((flightAfterburner g mass c).1).isDisabled = c.isDisabled
    ∧ ((flightAfterburner g mass c).1).pilotError = c.pilotError
    ∧ ((flightAfterburner g mass c).1).pilotOkay = c.pilotOkay
    ∧ ((flightAfterburner g mass c).1).cloak = c.cloak := by
  simp only [flightAfterburner]
  split_ifs <;> simp

@[simp] theorem flightAfterburner_hull (g : Geometry) (mass : ℚ) (c : ShipCore) :
    ((flightAfterburner g mass c).1).hull = c.hull :=
  (flightAfterburner_frame g mass c).1

@[simp] theorem flightAfterburner_shields (g : Geometry) (mass : ℚ) (c : ShipCore) :
    ((flightAfterburner g mass c).1).shields = c.shields :=
  (flightAfterburner_frame g mass c).2.1

@[simp] theorem flightAfterburner_crew (g : Geometry) (mass : ℚ) (c : ShipCore) :
    ((flightAfterburner g mass c).1).crew = c.crew :=
  (flightAfterburner_frame g mass c).2.2.1

@[simp] theorem flightAfterburner_attributes (g : Geometry) (mass : ℚ) (c : ShipCore) :
    ((flightAfterburner g mass c).1).attributes = c.attributes :=
  (flightAfterburner_frame g mass c).2.2.2.1

@[simp] theorem flightAfterburner_currentSystem (g : Geometry) (mass : ℚ) (c : ShipCore) :
    ((flightAfterburner g mass c).1).currentSystem = c.currentSystem :=
  (flightAfterburner_frame g mass c).2.2.2.2.1

@[simp] theorem flightAfterburner_hyperspaceSystem (g : Geometry) (mass : ℚ) (c : ShipCore) :
    ((flightAfterburner g mass c).1).hyperspaceSystem = c.hyperspaceSystem :=
  (flightAfterburner_frame g mass c).2.2.2.2.2.1

@[simp] theorem flightAfterburner_hyperspaceCount (g : Geometry) (mass : ℚ) (c : ShipCore) :
    ((flightAfterburner g mass c).1).hyperspaceCount = c.hyperspaceCount :=
  (flightAfterburner_frame g mass c).2.2.2.2.2.2.1

@[simp] theorem flightAfterburner_landingPlanet (g : Geometry) (mass : ℚ) (c : ShipCore) :
    ((flightAfterburner g mass c).1).landingPlanet = c.landingPlanet :=
  (flightAfterburner_frame g mass c).2.2.2.2.2.2.2.1

@[simp] theorem flightAfterburner_zoom (g : Geometry) (mass : ℚ) (c : ShipCore) :
    ((flightAfterburner g mass c).1).zoom = c.zoom :=
  (flightAfterburner_frame g mass c).2.2.2.2.2.2.2.2.1

@[simp] theorem flightAfterburner_commands (g : Geometry) (mass : ℚ) (c : ShipCore) :
    ((flightAfterburner g mass c).1).commands = c.commands :=
  (flightAfterburner_frame g mass c).2.2.2.2.2.2.2.2.2.1

@[simp] theorem flightAfterburner_isSpecial (g : Geometry) (mass : ℚ) (c : ShipCore) :
    ((flightAfterburner g mass c).1).isSpecial = c.isSpecial :=
  (flightAfterburner_frame g mass c).2.2.2.2.2.2.2.2.2.2.1

@[simp] theorem flightAfterburner_forget (g : Geometry) (mass : ℚ) (c : ShipCore) :
    ((flightAfterburner g mass c).1).forget = c.forget :=
  (flightAfterburner_frame g mass c).2.2.2.2.2.2.2.2.2.2.2.1

@[simp] theorem flightAfterburner_heatDissipation (g : Geometry) (mass : ℚ) (c : ShipCore) :
    ((flightAfterburner g mass c).1).heatDissipation = c.heatDissipation :=
  (flightAfterburner_frame g mass c).2.2.2.2.2.2.2.2.2.2.2.2.1

@[simp] theorem flightAfterburner_isOverheated (g : Geometry) (mass : ℚ) (c : ShipCore) :
    ((flightAfterburner g mass c).1).isOverheated = c.isOverheated :=
  (flightAfterburner_frame g mass c).2.2.2.2.2.2.2.2.2.2.2.2.2.1

@[simp] theorem flightAfterburner_isDisabled (g : Geometry) (mass : ℚ) (c : ShipCore) :
    ((flightAfterburner g mass c).1).isDisabled = c.isDisabled :=
  (flightAfterburner_frame g mass c).2.2.2.2.2.2.2.2.2.2.2.2.2.2.1

@[simp] theorem flightAfterburner_pilotError (g : Geometry) (mass : ℚ) (c : ShipCore) :
    ((flightAfterburner g mass c).1).pilotError = c.pilotError :=
  (flightAfterburner_frame g mass c).2.2.2.2.2.2.2.2.2.2.2.2.2.2.2.1

@[simp] theorem flightAfterburner_pilotOkay (g : Geometry) (mass : ℚ) (c : ShipCore) :
    ((flightAfterburner g mass c).1).pilotOkay = c.pilotOkay :=
  (flightAfterburner_frame g mass c).2.2.2.2.2.2.2.2.2.2.2.2.2.2.2.2.1

@[simp] theorem flightAfterburner_cloak (g : Geometry) (mass : ℚ) (c : ShipCore) :
    ((flightAfterburner g mass c).1).cloak = c.cloak :=
  (flightAfterburner_frame g mass c).2.2.2.2.2.2.2.2.2.2.2.2.2.2.2.2.2

theorem flightTurn_frame (turnRate : ℚ) (c : ShipCore) :
    (flightTurn turnRate c).hull = c.hull
    ∧ (flightTurn turnRate c).shields = c.shields
    ∧ (flightTurn turnRate c).fuel = c.fuel
    ∧ (flightTurn turnRate c).crew = c.crew
    ∧ (flightTurn turnRate c).attributes = c.attributes
    ∧ (flightTurn turnRate c).currentSystem = c.currentSystem
    ∧ (flightTurn turnRate c).hyperspaceSystem = c.hyperspaceSystem
    ∧ (flightTurn turnRate c).hyperspaceCount = c.hyperspaceCount
    ∧ (flightTurn turnRate c).landingPlanet = c.landingPlanet
    ∧ (flightTurn turnRate c).zoom = c.zoom
    ∧ (flightTurn turnRate c).isSpecial = c.isSpecial
    ∧ (flightTurn turnRate c).forget = c.forget
    ∧ (flightTurn turnRate c).heatDissipation = c.heatDissipation
    ∧ (flightTurn turnRate c).isOverheated = c.isOverheated
    ∧ (flightTurn turnRate c).isDisabled = c.isDisabled
    ∧ (flightTurn turnRate c).pilotError = c.pilotError
    ∧ (flightTurn turnRate c).pilotOkay = c.pilotOkay
    ∧ (flightTurn turnRate c).cloak = c.cloak := by
  simp only [flightTurn]
  split_ifs <;> simp

@[simp] theorem flightTurn_hull (turnRate : ℚ) (c : ShipCore) :
    (flightTurn turnRate c).hull = c.hull :=
  (flightTurn_frame turnRate c).1

@[simp] theorem flightTurn_shields (turnRate : ℚ) (c : ShipCore) :
    (flightTurn turnRate c).shields = c.shields :=
  (flightTurn_frame turnRate c).2.1

@[simp] theorem flightTurn_fuel (turnRate : ℚ) (c : ShipCore) :
    (flightTurn turnRate c).fuel = c.fuel :=
  (flightTurn_frame turnRate c).2.2.1

@[simp] theorem flightTurn_crew (turnRate : ℚ) (c : ShipCore) :
    (flightTurn turnRate c).crew = c.crew :=
  (flightTurn_frame turnRate c).2.2.2.1

@[simp] theorem flightTurn_attributes (turnRate : ℚ) (c : ShipCore) :
    (flightTurn turnRate c).attributes = c.attributes :=
  (flightTurn_frame turnRate c).2.2.2.2.1

@[simp] theorem flightTurn_currentSystem (turnRate : ℚ) (c : ShipCore) :
    (flightTurn turnRate c).currentSystem = c.currentSystem :=
  (flightTurn_frame turnRate c).2.2.2.2.2.1

@[simp] theorem flightTurn_hyperspaceSystem (turnRate : ℚ) (c : ShipCore) :
    (flightTurn turnRate c).hyperspaceSystem = c.hyperspaceSystem :=
  (flightTurn_frame turnRate c).2.2.2.2.2.2.1

@[simp] theorem flightTurn_hyperspaceCount (turnRate : ℚ) (c : ShipCore) :
    (flightTurn turnRate c).hyperspaceCount = c.hyperspaceCount :=
  (flightTurn_frame turnRate c).2.2.2.2.2.2.2.1

@[simp] theorem flightTurn_landingPlanet (turnRate : ℚ) (c : ShipCore) :
    (flightTurn turnRate c).landingPlanet = c.landingPlanet :=
  (flightTurn_frame turnRate c).2.2.2.2.2.2.2.2.1

@[simp] theorem flightTurn_zoom (turnRate : ℚ) (c : ShipCore) :
    (flightTurn turnRate c).zoom = c.zoom :=
  (flightTurn_frame turnRate c).2.2.2.2.2.2.2.2.2.1

@[simp] theorem flightTurn_isSpecial (turnRate : ℚ) (c : ShipCore) :
    (flightTurn turnRate c).isSpecial = c.isSpecial :=
  (flightTurn_frame turnRate c).2.2.2.2.2.2.2.2.2.2.1

@[simp] theorem flightTurn_forget (turnRate : ℚ) (c : ShipCore) :
    (flightTurn turnRate c).forget = c.forget :=
  (flightTurn_frame turnRate c).2.2.2.2.2.2.2.2.2.2.2.1

@[simp] theorem flightTurn_heatDissipation (turnRate : ℚ) (c : ShipCore) :
    (flightTurn turnRate c).heatDissipation = c.heatDissipation :=
  (flightTurn_frame turnRate c).2.2.2.2.2.2.2.2.2.2.2.2.1

@[simp] theorem flightTurn_isOverheated (turnRate : ℚ) (c : ShipCore) :
    (flightTurn turnRate c).isOverheated = c.isOverheated :=
  (flightTurn_frame turnRate c).2.2.2.2.2.2.2.2.2.2.2.2.2.1

@[simp] theorem flightTurn_isDisabled (turnRate : ℚ) (c : ShipCore) :
    (flightTurn turnRate c).isDisabled = c.isDisabled :=
  (flightTurn_frame turnRate c).2.2.2.2.2.2.2.2.2.2.2.2.2.2.1

@[simp] theorem flightTurn_pilotError (turnRate : ℚ) (c : ShipCore) :
    (flightTurn turnRate c).pilotError = c.pilotError :=
  (flightTurn_frame turnRate c).2.2.2.2.2.2.2.2.2.2.2.2.2.2.2.1

@[simp] theorem flightTurn_pilotOkay (turnRate : ℚ) (c : ShipCore) :
    (flightTurn turnRate c).pilotOkay = c.pilotOkay :=
  (flightTurn_frame turnRate c).2.2.2.2.2.2.2.2.2.2.2.2.2.2.2.2.1

@[simp] theorem flightTurn_cloak (turnRate : ℚ) (c : ShipCore) :
    (flightTurn turnRate c).cloak = c.cloak :=
  (flightTurn_frame turnRate c).2.2.2.2.2.2.2.2.2.2.2.2.2.2.2.2.2

theorem flightSteer_frame (g : Geometry) (mass turnRate : ℚ) (c : ShipCore) :
    (flightSteer g mass turnRate c).hull = c.hull
    ∧ (flightSteer g mass turnRate c).shields = c.shields
    ∧ (flightSteer g mass turnRate c).crew = c.crew
    ∧ (flightSteer g mass turnRate c).attributes = c.attributes
    ∧ (flightSteer g mass turnRate c).currentSystem = c.currentSystem
    ∧ (flightSteer g mass turnRate c).hyperspaceSystem = c.hyperspaceSystem
    ∧ (flightSteer g mass turnRate c).hyperspaceCount = c.hyperspaceCount
    ∧ (flightSteer g mass turnRate c).landingPlanet = c.landingPlanet
    ∧ (flightSteer g mass turnRate c).zoom = c.zoom
    ∧ (flightSteer g mass turnRate c).isSpecial = c.isSpecial
    ∧ (flightSteer g mass turnRate c).forget = c.forget
    ∧ (flightSteer g mass turnRate c).heatDissipation = c.heatDissipation
    ∧ (flightSteer g mass turnRate c).isOverheated = c.isOverheated
    ∧ (flightSteer g mass turnRate c).isDisabled = c.isDisabled
    ∧ (flightSteer g mass turnRate c).pilotError = c.pilotError
    ∧ (flightSteer g mass turnRate c).pilotOkay = c.pilotOkay
    ∧ (flightSteer g mass turnRate c).cloak = c.cloak := by
  simp only [flightSteer]
  split_ifs <;> simp

@[simp] theorem flightSteer_hull (g : Geometry) (mass turnRate : ℚ) (c : ShipCore) :
    (flightSteer g mass turnRate c).hull = c.hull :=
  (flightSteer_frame g mass turnRate c).1

@[simp] theorem flightSteer_shields (g : Geometry) (mass turnRate : ℚ) (c : ShipCore) :
    (flightSteer g mass turnRate c).shields = c.shields :=
  (flightSteer_frame g mass turnRate c).2.1

@[simp] theorem flightSteer_crew (g : Geometry) (mass turnRate : ℚ) (c : ShipCore) :
    (flightSteer g mass turnRate c).crew = c.crew :=
  (flightSteer_frame g mass turnRate c).2.2.1

@[simp] theorem flightSteer_attributes (g : Geometry) (mass turnRate : ℚ) (c : ShipCore) :
    (flightSteer g mass turnRate c).attributes = c.attributes :=
  (flightSteer_frame g mass turnRate c).2.2.2.1

@[simp] theorem flightSteer_currentSystem (g : Geometry) (mass turnRate : ℚ) (c : ShipCore) :
    (flightSteer g mass turnRate c).currentSystem = c.currentSystem :=
  (flightSteer_frame g mass turnRate c).2.2.2.2.1

@[simp] theorem flightSteer_hyperspaceSystem (g : Geometry) (mass turnRate : ℚ) (c : ShipCore) :
    (flightSteer g mass turnRate c).hyperspaceSystem = c.hyperspaceSystem :=
  (flightSteer_frame g mass turnRate c).2.2.2.2.2.1

@[simp] theorem flightSteer_hyperspaceCount (g : Geometry) (mass turnRate : ℚ) (c : ShipCore) :
    (flightSteer g mass turnRate c).hyperspaceCount = c.hyperspaceCount :=
  (flightSteer_frame g mass turnRate c).2.2.2.2.2.2.1

@[simp] theorem flightSteer_landingPlanet (g : Geometry) (mass turnRate : ℚ) (c : ShipCore) :
    (flightSteer g mass turnRate c).landingPlanet = c.landingPlanet :=
  (flightSteer_frame g mass turnRate c).2.2.2.2.2.2.2.1

@[simp] theorem flightSteer_zoom (g : Geometry) (mass turnRate : ℚ) (c : ShipCore) :
    (flightSteer g mass turnRate c).zoom = c.zoom :=
  (flightSteer_frame g mass turnRate c).2.2.2.2.2.2.2.2.1

@[simp] theorem flightSteer_isSpecial (g : Geometry) (mass turnRate : ℚ) (c : ShipCore) :
    (flightSteer g mass turnRate c).isSpecial = c.isSpecial :=
  (flightSteer_frame g mass turnRate c).2.2.2.2.2.2.2.2.2.1

@[simp] theorem flightSteer_forget (g : Geometry) (mass turnRate : ℚ) (c : ShipCore) :
    (flightSteer g mass turnRate c).forget = c.forget :=
  (flightSteer_frame g mass turnRate c).2.2.2.2.2.2.2.2.2.2.1

@[simp] theorem flightSteer_heatDissipation (g : Geometry) (mass turnRate : ℚ) (c : ShipCore) :
    (flightSteer g mass turnRate c).heatDissipation = c.heatDissipation :=
  (flightSteer_frame g mass turnRate c).2.2.2.2.2.2.2.2.2.2.2.1

@[simp] theorem flightSteer_isOverheated (g : Geometry) (mass turnRate : ℚ) (c : ShipCore) :
    (flightSteer g mass turnRate c).isOverheated = c.isOverheated :=
  (flightSteer_frame g mass turnRate c).2.2.2.2.2.2.2.2.2.2.2.2.1

@[simp] theorem flightSteer_isDisabled (g : Geometry) (mass turnRate : ℚ) (c : ShipCore) :
    (flightSteer g mass turnRate c).isDisabled = c.isDisabled :=
  (flightSteer_frame g mass turnRate c).2.2.2.2.2.2.2.2.2.2.2.2.2.1

@[simp] theorem flightSteer_pilotError (g : Geometry) (mass turnRate : ℚ) (c : ShipCore) :
    (flightSteer g mass turnRate c).pilotError = c.pilotError :=
  (flightSteer_frame g mass turnRate c).2.2.2.2.2.2.2.2.2.2.2.2.2.2.1

@[simp] theorem flightSteer_pilotOkay (g : Geometry) (mass turnRate : ℚ) (c : ShipCore) :
    (flightSteer g mass turnRate c).pilotOkay = c.pilotOkay :=
  (flightSteer_frame g mass turnRate c).2.2.2.2.2.2.2.2.2.2.2.2.2.2.2.1

@[simp] theorem flightSteer_cloak (g : Geometry) (mass turnRate : ℚ) (c : ShipCore) :
    (flightSteer g mass turnRate c).cloak = c.cloak :=
  (flightSteer_frame g mass turnRate c).2.2.2.2.2.2.2.2.2.2.2.2.2.2.2.2

theorem flightBoard_frame (g : Geometry) (w : World) (turnRate : ℚ) (c : ShipCore) :
    (flightBoard g w turnRate c).hull = c.hull
    ∧ (flightBoard g w turnRate c).shields = c.shields
    ∧ (flightBoard g w turnRate c).energy = c.energy
    ∧ (flightBoard g w turnRate c).fuel = c.fuel
    ∧ (flightBoard g w turnRate c).heat = c.heat
    ∧ (flightBoard g w turnRate c).crew = c.crew
    ∧ (flightBoard g w turnRate c).attributes = c.attributes
    ∧ (flightBoard g w turnRate c).currentSystem = c.currentSystem
    ∧ (flightBoard g w turnRate c).hyperspaceSystem = c.hyperspaceSystem
    ∧ (flightBoard g w turnRate c).hyperspaceCount = c.hyperspaceCount
    ∧ (flightBoard g w turnRate c).landingPlanet = c.landingPlanet
    ∧ (flightBoard g w turnRate c).zoom = c.zoom
    ∧ (flightBoard g w turnRate c).commands = c.commands
    ∧ (flightBoard g w turnRate c).isSpecial = c.isSpecial
    ∧ (flightBoard g w turnRate c).forget = c.forget
    ∧ (flightBoard g w turnRate c).heatDissipation = c.heatDissipation
    ∧ (flightBoard g w turnRate c).isOverheated = c.isOverheated
    ∧ (flightBoard g w turnRate c).isDisabled = c.isDisabled
    ∧ (flightBoard g w turnRate c).pilotError = c.pilotError
    ∧ (flightBoard g w turnRate c).pilotOkay = c.pilotOkay
    ∧ (flightBoard g w turnRate c).cloak = c.cloak := by
  simp only [flightBoard]
  split <;> simp

@[simp] theorem flightBoard_hull (g : Geometry) (w : World) (turnRate : ℚ) (c : ShipCore) :
    (flightBoard g w turnRate c).hull = c.hull :=
  (flightBoard_frame g w turnRate c).1

@[simp] theorem flightBoard_shields (g : Geometry) (w : World) (turnRate : ℚ) (c : ShipCore) :
    (flightBoard g w turnRate c).shields = c.shields :=
  (flightBoard_frame g w turnRate c).2.1

@[simp] theorem flightBoard_energy (g : Geometry) (w : World) (turnRate : ℚ) (c : ShipCore) :
    (flightBoard g w turnRate c).energy = c.energy :=
  (flightBoard_frame g w turnRate c).2.2.1

@[simp] theorem flightBoard_fuel (g : Geometry) (w : World) (turnRate : ℚ) (c : ShipCore) :
    (flightBoard g w turnRate c).fuel = c.fuel :=
  (flightBoard_frame g w turnRate c).2.2.2.1

@[simp] theorem flightBoard_heat (g : Geometry) (w : World) (turnRate : ℚ) (c : ShipCore) :
    (flightBoard g w turnRate c).heat = c.heat :=
  (flightBoard_frame g w turnRate c).2.2.2.2.1

@[simp] theorem flightBoard_crew (g : Geometry) (w : World) (turnRate : ℚ) (c : ShipCore) :
    (flightBoard g w turnRate c).crew = c.crew :=
  (flightBoard_frame g w turnRate c).2.2.2.2.2.1

@[simp] theorem flightBoard_attributes (g : Geometry) (w : World) (turnRate : ℚ) (c : ShipCore) :
    (flightBoard g w turnRate c).attributes = c.attributes :=
  (flightBoard_frame g w turnRate c).2.2.2.2.2.2.1

@[simp] theorem flightBoard_currentSystem (g : Geometry) (w : World) (turnRate : ℚ) (c : ShipCore) :
    (flightBoard g w turnRate c).currentSystem = c.currentSystem :=
  (flightBoard_frame g w turnRate c).2.2.2.2.2.2.2.1

@[simp] theorem flightBoard_hyperspaceSystem (g : Geometry) (w : World) (turnRate : ℚ) (c : ShipCore) :
    (flightBoard g w turnRate c).hyperspaceSystem = c.hyperspaceSystem :=
  (flightBoard_frame g w turnRate c).2.2.2.2.2.2.2.2.1

@[simp] theorem flightBoard_hyperspaceCount (g : Geometry) (w : World) (turnRate : ℚ) (c : ShipCore) :
    (flightBoard g w turnRate c).hyperspaceCount = c.hyperspaceCount :=
  (flightBoard_frame g w turnRate c).2.2.2.2.2.2.2.2.2.1

@[simp] theorem flightBoard_landingPlanet (g : Geometry) (w : World) (turnRate : ℚ) (c : ShipCore) :
    (flightBoard g w turnRate c).landingPlanet = c.landingPlanet :=
  (flightBoard_frame g w turnRate c).2.2.2.2.2.2.2.2.2.2.1

@[simp] theorem flightBoard_zoom (g : Geometry) (w : World) (turnRate : ℚ) (c : ShipCore) :
    (flightBoard g w turnRate c).zoom = c.zoom :=
  (flightBoard_frame g w turnRate c).2.2.2.2.2.2.2.2.2.2.2.1

@[simp] theorem flightBoard_commands (g : Geometry) (w : World) (turnRate : ℚ) (c : ShipCore) :
    (flightBoard g w turnRate c).commands = c.commands :=
  (flightBoard_frame g w turnRate c).2.2.2.2.2.2.2.2.2.2.2.2.1

@[simp] theorem flightBoard_isSpecial (g : Geometry) (w : World) (turnRate : ℚ) (c : ShipCore) :
    (flightBoard g w turnRate c).isSpecial = c.isSpecial :=
  (flightBoard_frame g w turnRate c).2.2.2.2.2.2.2.2.2.2.2.2.2.1

@[simp] theorem flightBoard_forget (g : Geometry) (w : World) (turnRate : ℚ) (c : ShipCore) :
    (flightBoard g w turnRate c).forget = c.forget :=
  (flightBoard_frame g w turnRate c).2.2.2.2.2.2.2.2.2.2.2.2.2.2.1

@[simp] theorem flightBoard_heatDissipation (g : Geometry) (w : World) (turnRate : ℚ) (c : ShipCore) :
    (flightBoard g w turnRate c).heatDissipation = c.heatDissipation :=
  (flightBoard_frame g w turnRate c).2.2.2.2.2.2.2.2.2.2.2.2.2.2.2.1

@[simp] theorem flightBoard_isOverheated (g : Geometry) (w : World) (turnRate : ℚ) (c : ShipCore) :
    (flightBoard g w turnRate c).isOverheated = c.isOverheated :=
  (flightBoard_frame g w turnRate c).2.2.2.2.2.2.2.2.2.2.2.2.2.2.2.2.1

@[simp] theorem flightBoard_isDisabled (g : Geometry) (w : World) (turnRate : ℚ) (c : ShipCore) :
    (flightBoard g w turnRate c).isDisabled = c.isDisabled :=
  (flightBoard_frame g w turnRate c).2.2.2.2.2.2.2.2.2.2.2.2.2.2.2.2.2.1

@[simp] theorem flightBoard_pilotError (g : Geometry) (w : World) (turnRate : ℚ) (c : ShipCore) :
    (flightBoard g w turnRate c).pilotError = c.pilotError :=
  (flightBoard_frame g w turnRate c).2.2.2.2.2.2.2.2.2.2.2.2.2.2.2.2.2.2.1

@[simp] theorem flightBoard_pilotOkay (g : Geometry) (w : World) (turnRate : ℚ) (c : ShipCore) :
    (flightBoard g w turnRate c).pilotOkay = c.pilotOkay :=
  (flightBoard_frame g w turnRate c).2.2.2.2.2.2.2.2.2.2.2.2.2.2.2.2.2.2.2.1

@[simp] theorem flightBoard_cloak (g : Geometry) (w : World) (turnRate : ℚ) (c : ShipCore) :
    (flightBoard g w turnRate c).cloak = c.cloak :=
  (flightBoard_frame g w turnRate c).2.2.2.2.2.2.2.2.2.2.2.2.2.2.2.2.2.2.2.2

theorem moveFlight_frame (g : Geometry) (w : World) (d : MoveDraws) (s : Ship) :
    (moveFlight g w d s).hull = s.core.hull
    ∧ (moveFlight g w d s).shields = s.core.shields
    ∧ (moveFlight g w d s).crew = s.core.crew
    ∧ (moveFlight g w d s).attributes = s.core.attributes
    ∧ (moveFlight g w d s).currentSystem = s.core.currentSystem
    ∧ (moveFlight g w d s).hyperspaceCount = s.core.hyperspaceCount
    ∧ (moveFlight g w d s).zoom = s.core.zoom
    ∧ (moveFlight g w d s).isSpecial = s.core.isSpecial
    ∧ (moveFlight g w d s).forget = s.core.forget
    ∧ (moveFlight g w d s).heatDissipation = s.core.heatDissipation
    ∧ (moveFlight g w d s).isOverheated = s.core.isOverheated
    ∧ (moveFlight g w d s).isDisabled = s.core.isDisabled := by
  simp [moveFlight]

@[simp] theorem moveFlight_hull (g : Geometry) (w : World) (d : MoveDraws) (s : Ship) :
    (moveFlight g w d s).hull = s.core.hull :=
  (moveFlight_frame g w d s).1

@[simp] theorem moveFlight_shields (g : Geometry) (w : World) (d : MoveDraws) (s : Ship) :
    (moveFlight g w d s).shields = s.core.shields :=
  (moveFlight_frame g w d s).2.1

@[simp] theorem moveFlight_crew (g : Geometry) (w : World) (d : MoveDraws) (s : Ship) :
    (moveFlight g w d s).crew = s.core.crew :=
  (moveFlight_frame g w d s).2.2.1

@[simp] theorem moveFlight_attributes (g : Geometry) (w : World) (d : MoveDraws) (s : Ship) :
    (moveFlight g w d s).attributes = s.core.attributes :=
  (moveFlight_frame g w d s).2.2.2.1

@[simp] theorem moveFlight_currentSystem (g : Geometry) (w : World) (d : MoveDraws) (s : Ship) :
    (moveFlight g w d s).currentSystem = s.core.currentSystem :=
  (moveFlight_frame g w d s).2.2.2.2.1

@[simp] theorem moveFlight_hyperspaceCount (g : Geometry) (w : World) (d : MoveDraws) (s : Ship) :
    (moveFlight g w d s).hyperspaceCount = s.core.hyperspaceCount :=
  (moveFlight_frame g w d s).2.2.2.2.2.1

@[simp] theorem moveFlight_zoom (g : Geometry) (w : World) (d : MoveDraws) (s : Ship) :
    (moveFlight g w d s).zoom = s.core.zoom :=
  (moveFlight_frame g w d s).2.2.2.2.2.2.1

@[simp] theorem moveFlight_isSpecial (g : Geometry) (w : World) (d : MoveDraws) (s : Ship) :
    (moveFlight g w d s).isSpecial = s.core.isSpecial :=
  (moveFlight_frame g w d s).2.2.2.2.2.2.2.1

@[simp] theorem moveFlight_forget (g : Geometry) (w : World) (d : MoveDraws) (s : Ship) :
    (moveFlight g w d s).forget = s.core.forget :=
  (moveFlight_frame g w d s).2.2.2.2.2.2.2.2.1

@[simp] theorem moveFlight_heatDissipation (g : Geometry) (w : World) (d : MoveDraws) (s : Ship) :
    (moveFlight g w d s).heatDissipation = s.core.heatDissipation :=
  (moveFlight_frame g w d s).2.2.2.2.2.2.2.2.2.1

@[simp] theorem moveFlight_isOverheated (g : Geometry) (w : World) (d : MoveDraws) (s : Ship) :
    (moveFlight g w d s).isOverheated = s.core.isOverheated :=
  (moveFlight_frame g w d s).2.2.2.2.2.2.2.2.2.2.1

@[simp] theorem moveFlight_isDisabled (g : Geometry) (w : World) (d : MoveDraws) (s : Ship) :
    (moveFlight g w d s).isDisabled = s.core.isDisabled :=
  (moveFlight_frame g w d s).2.2.2.2.2.2.2.2.2.2.2

theorem flightTurn_commands (turnRate : ℚ) (c : ShipCore) :
    (flightTurn turnRate c).commands.land = c.commands.land
    ∧ (flightTurn turnRate c).commands.jump = c.commands.jump
    ∧ (flightTurn turnRate c).commands.cloak = c.commands.cloak
    ∧ (flightTurn turnRate c).commands.deploy = c.commands.deploy := by
  simp only [flightTurn]
  split_ifs <;> simp

theorem flightSteer_commands (g : Geometry) (mass turnRate : ℚ) (c : ShipCore) :
    (flightSteer g mass turnRate c).commands.land = c.commands.land
    ∧ (flightSteer g mass turnRate c).commands.jump = c.commands.jump
    ∧ (flightSteer g mass turnRate c).commands.cloak = c.commands.cloak
    ∧ (flightSteer g mass turnRate c).commands.deploy = c.commands.deploy := by
  simp only [flightSteer]
  split_ifs <;> simp [flightTurn_commands]

theorem moveFlight_commands (g : Geometry) (w : World) (d : MoveDraws) (s : Ship) :
    (moveFlight g w d s).commands.land = s.core.commands.land
    ∧ (moveFlight g w d s).commands.jump = s.core.commands.jump
    ∧ (moveFlight g w d s).commands.cloak = s.core.commands.cloak
    ∧ (moveFlight g w d s).commands.deploy = s.core.commands.deploy := by
  simp [moveFlight, flightSteer_commands]

/-- Without a LAND or JUMP command normal flight starts neither a landing nor
a jump. -/
theorem moveFlight_idle (g : Geometry) (w : World) (d : MoveDraws) (s : Ship)
    (hl : s.core.commands.land = false) (hj : s.core.commands.jump = false) :
    (moveFlight g w d s).landingPlanet = s.core.landingPlanet
    ∧ (moveFlight g w d s).hyperspaceSystem = s.core.hyperspaceSystem := by
  simp [moveFlight, flightCommands, hl, hj]

/-! ## Normal flight spends only what the ship has -/

theorem flightCloak_bounds (c : ShipCore) (hattr : ∀ k, 0 ≤ c.attributes.get k) :
    (0 ≤ c.energy → 0 ≤ (flightCloak c).energy) ∧ (flightCloak c).energy ≤ c.energy
    ∧ (0 ≤ c.fuel → 0 ≤ (flightCloak c).fuel) ∧ (flightCloak c).fuel ≤ c.fuel := by
  have h1 := hattr "cloaking fuel"
  have h2 := hattr "cloaking energy"
  simp only [flightCloak]
  split_ifs with h
  · simp at h
    simp
    exact ⟨fun _ => h.2.2, h2, fun _ => h.2.1.2, h1⟩
  · simp
  · simp

theorem flightThrust_bounds (g : Geometry) (mass : ℚ) (c : ShipCore)
    (hattr : ∀ k, 0 ≤ c.attributes.get k) :
    (0 ≤ c.energy → 0 ≤ (flightThrust g mass c).1.energy)
    ∧ (flightThrust g mass c).1.energy ≤ c.energy
    ∧ c.heat ≤ (flightThrust g mass c).1.heat := by
  have h1 := hattr "thrusting energy"
  have h2 := hattr "reverse thrusting energy"
  have h3 := hattr "thrusting heat"
  have h4 := hattr "reverse thrusting heat"
  cases hf : c.commands.forward <;> cases hb : c.commands.back <;>
    simp [flightThrust, hf, hb] <;> split_ifs <;> simp <;>
    exact ⟨fun _ => by linarith, by linarith, by linarith⟩

theorem flightAfterburner_bounds (g : Geometry) (mass : ℚ) (c : ShipCore)
    (hattr : ∀ k, 0 ≤ c.attributes.get k) :
    (0 ≤ c.energy → 0 ≤ (flightAfterburner g mass c).1.energy)
    ∧ (flightAfterburner g mass c).1.energy ≤ c.energy
    ∧ (0 ≤ c.fuel → 0 ≤ (flightAfterburner g mass c).1.fuel)
    ∧ (flightAfterburner g mass c).1.fuel ≤ c.fuel
    ∧ c.heat ≤ (flightAfterburner g mass c).1.heat := by
  have h1 := hattr "afterburner fuel"
  have h2 := hattr "afterburner energy"
  have h3 := hattr "afterburner heat"
  simp only [flightAfterburner]
  split_ifs with ha hb
  · simp
  · simp only [not_or, not_lt] at hb
    simp
    exact ⟨fun _ => hb.2.2, h2, fun _ => hb.2.1, h1, h3⟩
  · simp

theorem flightTurn_bounds (turnRate : ℚ) (c : ShipCore)
    (hattr : ∀ k, 0 ≤ c.attributes.get k) :
    (0 ≤ c.energy → 0 ≤ (flightTurn turnRate c).energy)
    ∧ (flightTurn turnRate c).energy ≤ c.energy
    ∧ c.heat ≤ (flightTurn turnRate c).heat := by
  have h1 := hattr "turning energy"
  have h2 := hattr "turning heat"
  simp only [flightTurn]
  split_ifs with ha hb
  · simp
  · simp only [not_lt] at hb
    simp
    exact ⟨fun _ => hb, h1, h2⟩
  · simp

theorem flightSteer_bounds (g : Geometry) (mass turnRate : ℚ) (c : ShipCore)
    (hattr : ∀ k, 0 ≤ c.attributes.get k) :
    (0 ≤ c.energy → 0 ≤ (flightSteer g mass turnRate c).energy)
    ∧ (flightSteer g mass turnRate c).energy ≤ c.energy
    ∧ (0 ≤ c.fuel → 0 ≤ (flightSteer g mass turnRate c).fuel)
    ∧ (flightSteer g mass turnRate c).fuel ≤ c.fuel
    ∧ c.heat ≤ (flightSteer g mass turnRate c).heat := by
  obtain ⟨t1, t2, t3⟩ := flightThrust_bounds g mass c hattr
  obtain ⟨a1, a2, a3, a4, a5⟩ := flightAfterburner_bounds g mass (flightThrust g mass c).1
    (by simpa using hattr)
  have turn : ∀ k : ShipCore, k.attributes = c.attributes →
      (0 ≤ k.energy → 0 ≤ (flightTurn turnRate k).energy)
      ∧ (flightTurn turnRate k).energy ≤ k.energy
      ∧ k.heat ≤ (flightTurn turnRate k).heat := fun k hk =>
    flightTurn_bounds turnRate k (by rw [hk]; exact hattr)
  simp only [flightSteer]
  split_ifs with hd hp hdrag
  · simp
  · obtain ⟨u1, u2, u3⟩ := turn
      { (flightAfterburner g mass (flightThrust g mass c).1).1 with
        velocity := (flightAfterburner g mass (flightThrust g mass c).1).1.velocity.scale
          (1 - (flightAfterburner g mass (flightThrust g mass c).1).1.attributes.get "drag"
            / mass) } (by simp)
    simp only [flightAfterburner_attributes, flightThrust_attributes, flightThrust_fuel,
      flightTurn_fuel] at *
    refine ⟨fun h => u1 (a1 (t1 h)), by linarith, fun h => a3 h, a4, by linarith⟩
  · obtain ⟨u1, u2, u3⟩ := turn (flightAfterburner g mass (flightThrust g mass c).1).1 (by simp)
    simp only [flightAfterburner_attributes, flightThrust_attributes, flightThrust_fuel,
      flightTurn_fuel] at *
    refine ⟨fun h => u1 (a1 (t1 h)), by linarith, fun h => a3 h, a4, by linarith⟩
  · simp

/-- Normal flight spends no more energy and fuel than the ship has and never
lowers heat, for a ship with non-negative attributes. -/
theorem moveFlight_bounds (g : Geometry) (w : World) (d : MoveDraws) (s : Ship)
    (hattr : ∀ k, 0 ≤ s.core.attributes.get k) :
    (0 ≤ s.core.energy → 0 ≤ (moveFlight g w d s).energy)
    ∧ (moveFlight g w d s).energy ≤ s.core.energy
    ∧ (0 ≤ s.core.fuel → 0 ≤ (moveFlight g w d s).fuel)
    ∧ (moveFlight g w d s).fuel ≤ s.core.fuel
    ∧ s.core.heat ≤ (moveFlight g w d s).heat := by
  obtain ⟨c1, c2, c3, c4⟩ := flightCloak_bounds (flightCommands g w s) (by simpa using hattr)
  obtain ⟨s1, s2, s3, s4, s5⟩ := flightSteer_bounds g (Mass s) (TurnRate s)
    (flightPilot d (flightCloak (flightCommands g w s))) (by simpa using hattr)
  simp only [flightPilot_energy, flightPilot_fuel, flightPilot_heat, flightCloak_heat,
    flightCommands_energy, flightCommands_fuel, flightCommands_heat] at *
  simp only [moveFlight, flightBoard_energy, flightBoard_fuel, flightBoard_heat]
  exact ⟨fun h => s1 (c1 h), by linarith, fun h => s3 (c3 h), by linarith, s5⟩

/-! ## `Move` by phase -/

theorem Move_forgotten (g : Geometry) (w : World) (d : MoveDraws) (s : Ship)
    (h : (movePresence s.core).1 = false) :
    Move g w d s = (false, mk (movePresence s.core).2 s.fighterBays s.droneBays) := by
  simp [Move, h]

theorem Move_true_presence (g : Geometry) (w : World) (d : MoveDraws) (s : Ship)
    (h : (Move g w d s).1 = true) : (movePresence s.core).1 = true := by
  cases hp : (movePresence s.core).1 with
  | true => rfl
  | false =>
    rw [Move_forgotten g w d s hp] at h
    cases h

theorem Move_hyperspace (g : Geometry) (w : World) (d : MoveDraws) (s : Ship)
    (hp : (movePresence s.core).1 = true) (hd : IsDestroyed (moveTop g s).1 = false)
    (hh : (movePresence s.core).2.hyperspaceSystem ≠ none ∨ s.core.hyperspaceCount ≠ 0) :
    Move g w d s
      = (true, mk (moveHyperspace g w (moveTop g s).1) (moveTop g s).2.1 (moveTop g s).2.2) := by
  have hh' : (movePresence s.core).2.hyperspaceSystem.isSome = true
      ∨ ¬ s.core.hyperspaceCount = 0 := by
    rcases hh with h | h
    · left
      cases hx : (movePresence s.core).2.hyperspaceSystem with
      | none => exact absurd hx h
      | some t => rfl
    · right
      exact h
  simp only [moveTop] at hd
  simp only [Move, hp, moveTop, hd]
  simp [hh']

theorem Move_landing (g : Geometry) (w : World) (d : MoveDraws) (s : Ship)
    (hp : (movePresence s.core).1 = true) (hd : IsDestroyed (moveTop g s).1 = false)
    (hs : (movePresence s.core).2.hyperspaceSystem = none) (hc : s.core.hyperspaceCount = 0)
    (hl : s.core.landingPlanet ≠ none ∨ s.core.zoom < 1) :
    Move g w d s
      = ((moveLanding w (moveTop g s).1).1,
          mk (moveLanding w (moveTop g s).1).2 (moveTop g s).2.1 (moveTop g s).2.2) := by
  have hl' : s.core.landingPlanet.isSome = true ∨ s.core.zoom < 1 := by
    rcases hl with h | h
    · left
      cases hx : s.core.landingPlanet with
      | none => exact absurd hx h
      | some t => rfl
    · right
      exact h
  simp only [moveTop] at hd
  simp only [Move, hp, moveTop, hd]
  simp [hs, hc, hl']

theorem Move_flight (g : Geometry) (w : World) (d : MoveDraws) (s : Ship)
    (hp : (movePresence s.core).1 = true) (hd : IsDestroyed (moveTop g s).1 = false)
    (hs : (movePresence s.core).2.hyperspaceSystem = none) (hc : s.core.hyperspaceCount = 0)
    (hl : s.core.landingPlanet = none) (hz : ¬ s.core.zoom < 1) :
    Move g w d s
      = (true, mk (moveFlight g w d (mk (moveTop g s).1 (moveTop g s).2.1 (moveTop g s).2.2))
          (moveTop g s).2.1 (moveTop g s).2.2) := by
  simp only [moveTop] at hd
  simp only [Move, hp, moveTop, hd]
  simp [hs, hc, hl, hz]

theorem Move_destroyed (g : Geometry) (w : World) (d : MoveDraws) (s : Ship)
    (hp : (movePresence s.core).1 = true) (hd : IsDestroyed (moveTop g s).1 = true) :
    Move g w d s
      = (match (moveDestroyed d (moveTop g s).1).1 with
         | some b => (b, mk (moveDestroyed d (moveTop g s).1).2 (moveTop g s).2.1
              (moveTop g s).2.2)
         | none => (true, mk (moveFlight g w d (mk (moveDestroyed d (moveTop g s).1).2
              (moveTop g s).2.1 (moveTop g s).2.2)) (moveTop g s).2.1 (moveTop g s).2.2)) := by
  simp only [moveTop] at hd
  simp only [Move, hp, moveTop, hd]
  simp

/-- The pools at line 512 of `Move`, after clamp and regeneration, for a ship
with non-negative attributes whose pools started within their bounds. -/
theorem moveTop_bounds (g : Geometry) (s : Ship)
    (hsq : ∀ x, 0 ≤ g.sqrt x) (hattr : ∀ k, 0 ≤ s.core.attributes.get k)
    (hdiss : 0 ≤ s.core.heatDissipation)
    (hhull : 0 ≤ s.core.hull) (hsh : 0 ≤ s.core.shields) (hen : 0 ≤ s.core.energy)
    (hf0 : 0 ≤ s.core.fuel) (hf1 : s.core.fuel ≤ s.core.attributes.get "fuel capacity")
    (hheat : 0 ≤ s.core.heat) :
    0 ≤ (moveTop g s).1.hull
    ∧ (moveTop g s).1.hull
        ≤ s.core.attributes.get "hull" + s.core.attributes.get "hull repair rate"
    ∧ (moveTop g s).1.shields ≤ s.core.attributes.get "shields"
    ∧ 0 ≤ (moveTop g s).1.energy
    ∧ (moveTop g s).1.energy
        ≤ s.core.attributes.get "energy capacity" + s.core.attributes.get "energy generation"
    ∧ 0 ≤ (moveTop g s).1.fuel
    ∧ (moveTop g s).1.fuel ≤ s.core.attributes.get "fuel capacity"
    ∧ 0 ≤ (moveTop g s).1.heat
    ∧ ((∀ b ∈ s.fighterBays, b.ship = none) → (∀ b ∈ s.droneBays, b.ship = none) →
        0 ≤ (moveTop g s).1.shields)
    ∧ (s.core.attributes.get "ramscoop" = 0 → (moveTop g s).1.fuel = s.core.fuel)
    ∧ (s.core.fuel = s.core.attributes.get "fuel capacity" →
        (moveTop g s).1.fuel = s.core.fuel) := by
  obtain ⟨p1, p2, p3, p4⟩ := moveClamp_pools (Mass s) (movePresence s.core).2
  simp only [movePresence_energy, movePresence_attributes, movePresence_heat,
    movePresence_heatDissipation, movePresence_shields, movePresence_hull] at p1 p2 p3 p4
  have hH := hattr "hull"
  have hS := hattr "shields"
  have hC := hattr "energy capacity"
  have a0 : ∀ k, 0 ≤ (moveClamp (Mass s) (movePresence s.core).2).attributes.get k := by
    simpa using hattr
  have b := moveRegen_bounds g (moveClamp (Mass s) (movePresence s.core).2)
    s.fighterBays s.droneBays a0 hsq
    (by rw [p4]; exact le_min hhull hH)
    (by rw [p3]; simp)
    (by rw [p1]; exact le_min hen hC)
    (by simpa using hf0) (by simpa using hf1)
    (by rw [p2]; exact mul_nonneg hheat hdiss)
  simp only [moveClamp_attributes, movePresence_attributes, moveClamp_fuel,
    movePresence_fuel] at b
  obtain ⟨b1, b2, b3, b4, b5, b6, b7, b8, b9, b10⟩ := b
  rw [p4] at b2
  rw [p1] at b5
  refine ⟨b1, ?_, b3, b4, ?_, b6, b7, b8, ?_, b9, b10⟩
  · exact le_trans b2 (by linarith [min_le_right s.core.hull (s.core.attributes.get "hull")])
  · exact le_trans b5
      (by linarith [min_le_right s.core.energy (s.core.attributes.get "energy capacity")])
  · intro hfb hdb
    have h := moveRegen_shields_no_craft g (moveClamp (Mass s) (movePresence s.core).2)
      s.fighterBays s.droneBays a0 (by rw [p3]; simp) (by rw [p1]; exact le_min hen hC)
      hfb hdb
    rw [p3] at h
    exact le_trans (le_min hsh hS) h

/-! ## C4: the pools after a tick -/

/-- C4 as amended. For a ship that is not destroyed, whose attributes are all
non-negative, whose heat retention factor is non-negative and whose pools
start within `[0, capacity]`, after a `Move` call that returns true: hull,
energy, heat and crew are non-negative; shields are at most the shield
capacity, and non-negative when no craft is docked; hull is at most its
capacity plus the hull repair rate and energy at most its capacity plus the
energy generation; and when no jump is in progress fuel lies within
`[0, fuel capacity]`. The tick clamps hull, shields and energy before it uses
them, so their upper bounds at the start are not needed. -/
theorem C4_Move_bounds (g : Geometry) (w : World) (d : MoveDraws) (s : Ship)
    (hsq : ∀ x, 0 ≤ g.sqrt x) (hattr : ∀ k, 0 ≤ s.core.attributes.get k)
    (hdiss : 0 ≤ s.core.heatDissipation)
    (hhull : 0 ≤ s.core.hull) (hsh : 0 ≤ s.core.shields) (hen : 0 ≤ s.core.energy)
    (hf0 : 0 ≤ s.core.fuel) (hf1 : s.core.fuel ≤ s.core.attributes.get "fuel capacity")
    (hheat : 0 ≤ s.core.heat) (hcrew : 0 ≤ s.core.crew)
    (hret : (Move g w d s).1 = true) :
    0 ≤ (Move g w d s).2.core.hull
    ∧ (Move g w d s).2.core.hull
        ≤ s.core.attributes.get "hull" + s.core.attributes.get "hull repair rate"
    ∧ (Move g w d s).2.core.shields ≤ s.core.attributes.get "shields"
    ∧ ((∀ b ∈ s.fighterBays, b.ship = none) → (∀ b ∈ s.droneBays, b.ship = none) →
        0 ≤ (Move g w d s).2.core.shields)
    ∧ 0 ≤ (Move g w d s).2.core.energy
    ∧ (Move g w d s).2.core.energy
        ≤ s.core.attributes.get "energy capacity" + s.core.attributes.get "energy generation"
    ∧ 0 ≤ (Move g w d s).2.core.heat
    ∧ 0 ≤ (Move g w d s).2.core.crew
    ∧ (s.core.hyperspaceSystem = none → s.core.hyperspaceCount = 0 →
        0 ≤ (Move g w d s).2.core.fuel
        ∧ (Move g w d s).2.core.fuel ≤ s.core.attributes.get "fuel capacity") := by
  have hp := Move_true_presence g w d s hret
  obtain ⟨b1, b2, b3, b4, b5, b6, b7, b8, b9, _, _⟩ :=
    moveTop_bounds g s hsq hattr hdiss hhull hsh hen hf0 hf1 hheat
  have hd : IsDestroyed (moveTop g s).1 = false := by
    simp only [IsDestroyed, decide_eq_false_iff_not, not_lt]
    exact b1
  have hcr : (moveTop g s).1.crew = s.core.crew := by simp [moveTop]
  have hat : (moveTop g s).1.attributes = s.core.attributes := by simp [moveTop]
  by_cases hh : (movePresence s.core).2.hyperspaceSystem ≠ none ∨ s.core.hyperspaceCount ≠ 0
  · rw [Move_hyperspace g w d s hp hd hh]
    clear hd
    generalize moveTop g s = T at *
    simp only [core_mk, moveHyperspace_hull, moveHyperspace_shields, moveHyperspace_energy,
      moveHyperspace_heat, moveHyperspace_crew, hcr]
    refine ⟨b1, b2, b3, b9, b4, b5, b8, hcrew, ?_⟩
    intro hs hc
    exfalso
    rcases hh with h | h
    · exact h (movePresence_hyperspaceSystem_none s.core hs)
    · exact h hc
  · rw [not_or, not_not, not_not] at hh
    by_cases hl : s.core.landingPlanet ≠ none ∨ s.core.zoom < 1
    · rw [Move_landing g w d s hp hd hh.1 hh.2 hl]
      clear hd
      generalize moveTop g s = T at *
      simp only [core_mk, moveLanding_hull, moveLanding_shields, moveLanding_energy,
        moveLanding_heat, moveLanding_crew, hcr]
      refine ⟨b1, b2, b3, b9, b4, b5, b8, hcrew, ?_⟩
      intro _ _
      have := moveLanding_fuel w T.1 b6 (by rw [hat]; exact b7)
      rw [hat] at this
      exact this
    · rw [not_or, not_not] at hl
      rw [Move_flight g w d s hp hd hh.1 hh.2 hl.1 hl.2]
      clear hd
      generalize moveTop g s = T at *
      obtain ⟨f1, f2, f3, f4, f5⟩ := moveFlight_bounds g w d
        (mk T.1 T.2.1 T.2.2)
        (by simp only [core_mk, hat]; exact hattr)
      simp only [core_mk] at f1 f2 f3 f4 f5
      simp only [core_mk, moveFlight_hull, moveFlight_shields, moveFlight_crew, hcr]
      refine ⟨b1, b2, b3, b9, f1 b4, le_trans f2 b5, le_trans b8 f5, hcrew, ?_⟩
      intro _ _
      exact ⟨f3 b6, le_trans f4 b7⟩

theorem chargedShip_attr (k : String) : 0 ≤ chargedShip.core.attributes.get k := by
  simp only [chargedShip, core_mk]
  split_ifs <;> norm_num

theorem chargedShip_top :
    (movePresence chargedShip.core).1 = true
    ∧ (moveClamp (Mass chargedShip) (movePresence chargedShip.core).2).isDisabled = false
    ∧ (moveTop flatGeometry chargedShip).1.energy = 15 := by
  have hp : (movePresence chargedShip.core).1 = true := by
    simp [movePresence, chargedShip]
  have hdis : (moveClamp (Mass chargedShip) (movePresence chargedShip.core).2).isDisabled
      = false := by
    simp [moveClamp, movePresence, chargedShip, Mass, carriedMass, IsDisabled, MinimumHull,
      RequiredCrew, truncInt]
  refine ⟨hp, hdis, ?_⟩
  rw [moveTop, (moveRegen_of_enabled _ _ _ _ hdis).2.1]
  simp [regenEnergy, regenExcess, rechargeBays, moveClamp, movePresence, chargedShip]
  norm_num

theorem flightCloak_no_cloak (c : ShipCore) (h : c.commands.cloak = false) :
    (flightCloak c).energy = c.energy ∧ (flightCloak c).fuel = c.fuel := by
  simp only [flightCloak, h]
  split_ifs <;> simp_all

theorem flightSteer_no_commands (g : Geometry) (mass turnRate : ℚ) (c : ShipCore)
    (h2 : c.commands.forward = false) (h3 : c.commands.back = false)
    (h4 : c.commands.afterburner = false) (h5 : c.commands.turn = 0) :
    (flightSteer g mass turnRate c).energy = c.energy
    ∧ (flightSteer g mass turnRate c).fuel = c.fuel := by
  simp [flightSteer, flightThrust, flightAfterburner, flightTurn, h2, h3, h4, h5]

/-- With no command set, normal flight spends neither energy nor fuel. -/
theorem moveFlight_no_commands (g : Geometry) (w : World) (d : MoveDraws) (s : Ship)
    (h : s.core.commands = {}) :
    (moveFlight g w d s).energy = s.core.energy ∧ (moveFlight g w d s).fuel = s.core.fuel := by
  have h1 : s.core.commands.cloak = false := by rw [h]
  have h2 : s.core.commands.forward = false := by rw [h]
  have h3 : s.core.commands.back = false := by rw [h]
  have h4 : s.core.commands.afterburner = false := by rw [h]
  have h5 : s.core.commands.turn = 0 := by rw [h]
  obtain ⟨c1, c2⟩ := flightCloak_no_cloak (flightCommands g w s) (by simpa using h1)
  obtain ⟨s1, s2⟩ := flightSteer_no_commands g (Mass s) (TurnRate s)
    (flightPilot d (flightCloak (flightCommands g w s)))
    (by simpa using h2) (by simpa using h3) (by simpa using h4) (by simpa using h5)
  simp only [moveFlight, flightBoard_energy, flightBoard_fuel]
  rw [s1, s2]
  simp [c1, c2]

/-- C4 as stated fails: the ship starts with every pool within its bounds
(energy 10 of 10), `Move` returns true, and the energy after the call is 15,
above the capacity of 10: the generation of the tick is added after the clamp
and is only clamped at the top of the next tick. -/
theorem C4_counterexample :
    0 ≤ chargedShip.core.hull
    ∧ (∀ k, 0 ≤ chargedShip.core.attributes.get k)
    ∧ (0 ≤ chargedShip.core.hull ∧ chargedShip.core.hull ≤ chargedShip.core.attributes.get "hull")
    ∧ (0 ≤ chargedShip.core.shields
        ∧ chargedShip.core.shields ≤ chargedShip.core.attributes.get "shields")
    ∧ (0 ≤ chargedShip.core.energy
        ∧ chargedShip.core.energy ≤ chargedShip.core.attributes.get "energy capacity")
    ∧ (0 ≤ chargedShip.core.fuel
        ∧ chargedShip.core.fuel ≤ chargedShip.core.attributes.get "fuel capacity")
    ∧ 0 ≤ chargedShip.core.heat ∧ 0 ≤ chargedShip.core.crew
    ∧ (Move flatGeometry {} {} chargedShip).1 = true
    ∧ (Move flatGeometry {} {} chargedShip).2.core.energy = 15
    ∧ ¬ ((Move flatGeometry {} {} chargedShip).2.core.energy
          ≤ chargedShip.core.attributes.get "energy capacity") := by
  obtain ⟨hp, hdis, htop⟩ := chargedShip_top
  have hd : IsDestroyed (moveTop flatGeometry chargedShip).1 = false := by
    simp only [IsDestroyed, decide_eq_false_iff_not, not_lt, moveTop, moveRegen_hull]
    simp [moveClamp, movePresence, chargedShip]
  have hM := Move_flight flatGeometry {} {} chargedShip hp hd
    (movePresence_hyperspaceSystem_none _ rfl) rfl rfl (by simp [chargedShip])
  have hE : (Move flatGeometry {} {} chargedShip).2.core.energy = 15 := by
    rw [hM]
    simp only [core_mk]
    rw [(moveFlight_no_commands _ _ _ _ (by simp [moveTop, chargedShip])).1]
    simpa using htop
  refine ⟨by simp [chargedShip], chargedShip_attr, by simp [chargedShip],
    by simp [chargedShip], by simp [chargedShip], by simp [chargedShip], by simp [chargedShip],
    by simp [chargedShip], by rw [hM], hE, ?_⟩
  rw [hE]
  simp [chargedShip]
  norm_num

/-- Witness of the amended C4 at the ship of the counterexample: after the
call its energy is non-negative and at most capacity plus generation, its
shields are within their bounds (no craft is docked) and its fuel is within
`[0, fuel capacity]`. -/
theorem C4_Move_bounds_witness :
    0 ≤ (Move flatGeometry {} {} chargedShip).2.core.energy
    ∧ (Move flatGeometry {} {} chargedShip).2.core.energy
        ≤ chargedShip.core.attributes.get "energy capacity"
          + chargedShip.core.attributes.get "energy generation"
    ∧ 0 ≤ (Move flatGeometry {} {} chargedShip).2.core.shields
    ∧ (Move flatGeometry {} {} chargedShip).2.core.shields
        ≤ chargedShip.core.attributes.get "shields"
    ∧ 0 ≤ (Move flatGeometry {} {} chargedShip).2.core.fuel
    ∧ (Move flatGeometry {} {} chargedShip).2.core.fuel
        ≤ chargedShip.core.attributes.get "fuel capacity" := by
  obtain ⟨hp, _, _⟩ := chargedShip_top
  have hd : IsDestroyed (moveTop flatGeometry chargedShip).1 = false := by
    simp only [IsDestroyed, decide_eq_false_iff_not, not_lt, moveTop, moveRegen_hull]
    simp [moveClamp, movePresence, chargedShip]
  have hM := Move_flight flatGeometry {} {} chargedShip hp hd
    (movePresence_hyperspaceSystem_none _ rfl) rfl rfl (by simp [chargedShip])
  obtain ⟨_, _, h3, h4, h5, h6, _, _, h9⟩ :=
    C4_Move_bounds flatGeometry {} {} chargedShip (fun _ => le_refl _) chargedShip_attr
      (by simp [chargedShip] <;> norm_num) (by simp [chargedShip]) (by simp [chargedShip])
      (by simp [chargedShip]) (by simp [chargedShip]) (by simp [chargedShip])
      (by simp [chargedShip]) (by simp [chargedShip]) (by rw [hM])
  exact ⟨h5, h6, h4 (by simp [chargedShip]) (by simp [chargedShip]), h3,
    (h9 rfl rfl).1, (h9 rfl rfl).2⟩

/-! ## C5: the shield recharge that energy cannot pay for -/

/-- The carrier of the C5 input with one docked fighter in its only bay. -/
theorem drainedCarrier_top :
    (movePresence drainedCarrier).1 = true
    ∧ (moveClamp (Mass (mk drainedCarrier [{ ship := some emptyFighter }] []))
        (movePresence drainedCarrier).2).isDisabled = false
    ∧ (moveTop flatGeometry (mk drainedCarrier [{ ship := some emptyFighter }] [])).1.energy = 0
    ∧ (moveTop flatGeometry (mk drainedCarrier [{ ship := some emptyFighter }] [])).1.shields
        = -20
    ∧ IsDestroyed (moveTop flatGeometry
        (mk drainedCarrier [{ ship := some emptyFighter }] [])).1 = false := by
  have hp : (movePresence drainedCarrier).1 = true := by
    simp [movePresence, drainedCarrier]
  have hdis : (moveClamp (Mass (mk drainedCarrier [{ ship := some emptyFighter }] []))
      (movePresence drainedCarrier).2).isDisabled = false := by
    simp [moveClamp, movePresence, drainedCarrier, emptyFighter, Mass, carriedMass, bayMass,
      IsDisabled, MinimumHull, RequiredCrew, truncInt]
  have hE : regenEnergy (moveClamp (Mass (mk drainedCarrier [{ ship := some emptyFighter }] []))
      (movePresence drainedCarrier).2) [{ ship := some emptyFighter }] [] = -30 := by
    simp [regenEnergy, regenExcess, rechargeBays, rechargeBay, moveClamp, movePresence,
      drainedCarrier, emptyFighter, setShields]
    norm_num
  obtain ⟨_, e2, e3, _⟩ := moveRegen_of_enabled flatGeometry _
    [{ ship := some emptyFighter }] [] hdis
  refine ⟨hp, hdis, ?_, ?_, ?_⟩
  · simp only [moveTop, core_mk, fighterBays_mk, droneBays_mk]
    rw [e2, hE]
    norm_num
  · simp only [moveTop, core_mk, fighterBays_mk, droneBays_mk]
    rw [e3, hE]
    simp [moveClamp, movePresence, drainedCarrier]
    norm_num
  · simp only [IsDestroyed, decide_eq_false_iff_not, not_lt, moveTop, moveRegen_hull]
    simp [moveClamp, movePresence, drainedCarrier]

/-- C5, the code at the failing input. The carrier starts the tick within the
bounds the claim asks for (not disabled, energy 0, shields 10 of 10,
non-negative attributes) with a fighter docked. After the regeneration step
its energy is 0 and its shields are at -20, below zero and below the 10 they
were clamped to: the 30 points of recharge all went to the docked fighter and
the energy shortfall of 30 was then taken from the carrier's own shields.
`Move` returns true and leaves the shields at -20. -/
theorem C5_regen_shortfall_failing_input :
    drainedCarrier.isDisabled = false ∧ 0 ≤ drainedCarrier.energy
    ∧ 0 ≤ drainedCarrier.shields
    ∧ drainedCarrier.shields ≤ drainedCarrier.attributes.get "shields"
    ∧ (∀ k, 0 ≤ drainedCarrier.attributes.get k)
    ∧ (moveRegen flatGeometry drainedCarrier [{ ship := some emptyFighter }] []).1.energy = 0
    ∧ (moveRegen flatGeometry drainedCarrier [{ ship := some emptyFighter }] []).1.shields
        = -20
    ∧ (Move flatGeometry {} {} (mk drainedCarrier [{ ship := some emptyFighter }] [])).1 = true
    ∧ (Move flatGeometry {} {}
        (mk drainedCarrier [{ ship := some emptyFighter }] [])).2.core.shields = -20 := by
  have hE : regenExcess drainedCarrier [{ ship := some emptyFighter }] [] = 0 := by
    simp [regenExcess, rechargeBays, rechargeBay, drainedCarrier, emptyFighter, setShields]
    norm_num
  have hEn : regenEnergy drainedCarrier [{ ship := some emptyFighter }] [] = -30 := by
    rw [regenEnergy, hE]
    simp [drainedCarrier]
  obtain ⟨_, e2, e3, _⟩ :=
    moveRegen_of_enabled flatGeometry drainedCarrier [{ ship := some emptyFighter }] [] rfl
  obtain ⟨hp, _, _, hsh, hd⟩ := drainedCarrier_top
  have hM := Move_flight flatGeometry {} {} (mk drainedCarrier [{ ship := some emptyFighter }] [])
    (by simpa using hp) hd (by simp [movePresence, drainedCarrier]) (by simp [drainedCarrier])
    (by simp [drainedCarrier]) (by simp [drainedCarrier])
  refine ⟨rfl, le_refl _, by simp [drainedCarrier], by simp [drainedCarrier], ?_, ?_, ?_, ?_, ?_⟩
  · intro k
    simp only [drainedCarrier]
    split_ifs <;> norm_num
  · rw [e2, hEn]; norm_num
  · rw [e3, hEn]; simp [drainedCarrier]; norm_num
  · rw [hM]
  · rw [hM]
    simp only [core_mk, moveFlight_shields]
    exact hsh

/-! ## C6: the jump -/

theorem moveRegen_fuel_no_ramscoop (g : Geometry) (c : ShipCore) (fb db : List (Bay Ship))
    (h : c.attributes.get "ramscoop" = 0) : (moveRegen g c fb db).1.fuel = c.fuel := by
  cases hd : c.isDisabled with
  | true => exact (moveRegen_of_disabled g c fb db hd).1
  | false =>
    rw [(moveRegen_of_enabled g c fb db hd).1, if_pos h]

theorem moveTop_hull_nonneg (g : Geometry) (s : Ship) (hhull : 0 ≤ s.core.hull)
    (hH : 0 ≤ s.core.attributes.get "hull")
    (hrep : 0 ≤ s.core.attributes.get "hull repair rate") :
    0 ≤ (moveTop g s).1.hull := by
  obtain ⟨_, _, _, p4⟩ := moveClamp_pools (Mass s) (movePresence s.core).2
  simp only [movePresence_attributes, movePresence_hull] at p4
  have h0 : 0 ≤ min s.core.hull (s.core.attributes.get "hull") := le_min hhull hH
  simp only [moveTop, moveRegen_hull, p4, moveClamp_attributes, movePresence_attributes]
  split_ifs <;> linarith

/-- One tick of a ship whose jump is in progress and not cancelled: `Move`
returns true, and the tick is either one more step of the count (fuel down by
1) or, as the hundredth, the arrival in the target system (fuel down by 1 and
by the `"jump fuel"` attribute less 100). -/
theorem Move_jump_tick (g : Geometry) (w : World) (d : MoveDraws) (s : Ship) (t : SystemId)
    (hcur : s.core.currentSystem ≠ none)
    (hs : s.core.hyperspaceSystem = some t)
    (hhull : 0 ≤ s.core.hull) (hH : 0 ≤ s.core.attributes.get "hull")
    (hrep : 0 ≤ s.core.attributes.get "hull repair rate")
    (hdrive : s.core.attributes.get "hyperdrive" ≠ 0 ∨ s.core.attributes.get "jump drive" ≠ 0)
    (hram : s.core.attributes.get "ramscoop" = 0)
    (hfuel : s.core.fuel ≠ 0)
    (hforget : s.core.isSpecial = true ∨ s.core.forget + 1 < 1000) :
    (Move g w d s).1 = true
    ∧ (Move g w d s).2.core.attributes = s.core.attributes
    ∧ (Move g w d s).2.core.isSpecial = s.core.isSpecial
    ∧ (Move g w d s).2.core.forget ≤ s.core.forget + 1
    ∧ 0 ≤ (Move g w d s).2.core.hull
    ∧ (Move g w d s).2.core.landingPlanet = s.core.landingPlanet
    ∧ (s.core.hyperspaceCount + 1 ≠ 100 →
        (Move g w d s).2.core.currentSystem = s.core.currentSystem
        ∧ (Move g w d s).2.core.hyperspaceSystem = some t
        ∧ (Move g w d s).2.core.hyperspaceCount = s.core.hyperspaceCount + 1
        ∧ (Move g w d s).2.core.fuel = s.core.fuel - 1)
    ∧ (s.core.hyperspaceCount + 1 = 100 →
        (Move g w d s).2.core.currentSystem = some t
        ∧ (Move g w d s).2.core.hyperspaceSystem = none
        ∧ (Move g w d s).2.core.fuel
            = s.core.fuel - 1 - (s.core.attributes.get "jump fuel" - 100)
        ∧ (s.core.attributes.get "jump drive" ≠ 0 →
            (Move g w d s).2.core.hyperspaceCount = 100)) := by
  have hp : (movePresence s.core).1 = true := by
    rw [movePresence_ret]
    refine ⟨?_, hcur⟩
    rcases hforget with h | h
    · exact Or.inl h
    · right
      split_ifs <;> linarith
  have hps : (movePresence s.core).2.hyperspaceSystem = some t := by
    rw [movePresence_hyperspaceSystem s.core hp, if_neg, hs]
    rw [not_or, not_not]
    exact ⟨hfuel, hdrive⟩
  have hhn := moveTop_hull_nonneg g s hhull hH hrep
  have hd : IsDestroyed (moveTop g s).1 = false := by
    simp only [IsDestroyed, decide_eq_false_iff_not, not_lt]
    exact hhn
  have hf : (moveTop g s).1.forget ≤ s.core.forget + 1 := by
    simp only [moveTop, moveRegen_forget, moveClamp_forget, movePresence_forget]
    split_ifs <;> linarith
  have hfu : (moveTop g s).1.fuel = s.core.fuel := by
    simp only [moveTop]
    rw [moveRegen_fuel_no_ramscoop _ _ _ _ (by simpa using hram)]
    simp
  have hths : (moveTop g s).1.hyperspaceSystem = some t := by
    simp only [moveTop, moveRegen_hyperspaceSystem, moveClamp_hyperspaceSystem]
    exact hps
  have htc : (moveTop g s).1.hyperspaceCount = s.core.hyperspaceCount := by simp [moveTop]
  have htcur : (moveTop g s).1.currentSystem = s.core.currentSystem := by simp [moveTop]
  have hta : (moveTop g s).1.attributes = s.core.attributes := by simp [moveTop]
  have hti : (moveTop g s).1.isSpecial = s.core.isSpecial := by simp [moveTop]
  have htl : (moveTop g s).1.landingPlanet = s.core.landingPlanet := by simp [moveTop]
  rw [Move_hyperspace g w d s hp hd (Or.inl (by rw [hps]; simp))]
  clear hd
  generalize moveTop g s = T at *
  simp only [core_mk, moveHyperspace_attributes, moveHyperspace_isSpecial,
    moveHyperspace_forget, moveHyperspace_hull, moveHyperspace_landingPlanet]
  refine ⟨trivial, hta, hti, hf, hhn, htl, ?_, ?_⟩
  · intro hn
    obtain ⟨a1, a2, a3, a4⟩ := moveHyperspace_step g w T.1 t hths (by rw [htc]; exact hn)
    rw [a1, a2, a3, a4, htcur, htc, hfu]
    exact ⟨rfl, rfl, rfl, rfl⟩
  · intro hn
    obtain ⟨a1, a2, a3, a4⟩ := moveHyperspace_arrive g w T.1 t hths (by rw [htc]; exact hn)
    rw [a1, a2, a3, hfu, hta]
    refine ⟨rfl, rfl, rfl, ?_⟩
    intro hj
    exact a4 (by rw [hta]; exact hj)

theorem moveN_succ (g : Geometry) (w : Nat → World) (d : Nat → MoveDraws) (n : Nat) (s : Ship) :
    moveN g w d (n + 1) s
      = ((moveN g w d n s).1 && (Move g (w n) (d n) (moveN g w d n s).2).1,
          (Move g (w n) (d n) (moveN g w d n s).2).2) := by
  simp only [moveN]

/-- The first 99 ticks of a jump: every call returns true, the ship is still
in its system with its jump target set, the counter equals the number of
calls made and each call has cost one unit of fuel. -/
theorem jump_invariant (g : Geometry) (w : Nat → World) (d : Nat → MoveDraws) (s : Ship)
    (x t : SystemId)
    (hcur : s.core.currentSystem = some x)
    (hs : s.core.hyperspaceSystem = some t) (hc : s.core.hyperspaceCount = 0)
    (hhull : 0 ≤ s.core.hull) (hH : 0 ≤ s.core.attributes.get "hull")
    (hrep : 0 ≤ s.core.attributes.get "hull repair rate")
    (hdrive : s.core.attributes.get "hyperdrive" ≠ 0 ∨ s.core.attributes.get "jump drive" ≠ 0)
    (hram : s.core.attributes.get "ramscoop" = 0)
    (hnz : ∀ k : Nat, k < 100 → s.core.fuel ≠ k)
    (hforget : s.core.isSpecial = true ∨ s.core.forget < 900) :
    ∀ k : Nat, k ≤ 99 →
      (moveN g w d k s).1 = true
      ∧ (moveN g w d k s).2.core.currentSystem = some x
      ∧ (moveN g w d k s).2.core.hyperspaceSystem = some t
      ∧ (moveN g w d k s).2.core.hyperspaceCount = k
      ∧ (moveN g w d k s).2.core.fuel = s.core.fuel - k
      ∧ (moveN g w d k s).2.core.attributes = s.core.attributes
      ∧ (moveN g w d k s).2.core.isSpecial = s.core.isSpecial
      ∧ (moveN g w d k s).2.core.forget ≤ s.core.forget + k
      ∧ 0 ≤ (moveN g w d k s).2.core.hull := by
  intro k
  induction k with
  | zero =>
    intro _
    exact ⟨rfl, hcur, hs, by simpa [moveN] using hc, by simp [moveN], rfl, rfl,
      by simp [moveN], hhull⟩
  | succ n ih =>
    intro hk
    obtain ⟨i1, i2, i3, i4, i5, i6, i7, i8, i9⟩ := ih (by omega)
    have hfuel : (moveN g w d n s).2.core.fuel ≠ 0 := by
      rw [i5]
      intro h0
      exact hnz n (by omega) (by linarith)
    have hfg : (moveN g w d n s).2.core.isSpecial = true
        ∨ (moveN g w d n s).2.core.forget + 1 < 1000 := by
      rcases hforget with h | h
      · left
        rw [i7, h]
      · right
        have : (n : Int) ≤ 98 := by omega
        linarith
    obtain ⟨m1, m2, m3, m4, m5, _, m6, _⟩ := Move_jump_tick g (w n) (d n) (moveN g w d n s).2 t
      (by rw [i2]; simp) i3 i9 (by rw [i6]; exact hH) (by rw [i6]; exact hrep)
      (by rw [i6]; exact hdrive) (by rw [i6]; exact hram) hfuel hfg
    obtain ⟨q1, q2, q3, q4⟩ := m6 (by rw [i4]; omega)
    rw [moveN_succ]
    refine ⟨by rw [i1, m1]; rfl, by rw [q1, i2], q2, ?_, ?_, by rw [m2, i6], by rw [m3, i7],
      ?_, m5⟩
    · rw [q3, i4]
      push_cast
      ring
    · rw [q4, i5]
      push_cast
      ring
    · push_cast
      linarith

/-- What no `Move` call changes: the attributes, the special flag, the crew
and the LAND, JUMP, CLOAK and DEPLOY commands. -/
theorem Move_frame (g : Geometry) (w : World) (d : MoveDraws) (s : Ship) :
    (Move g w d s).2.core.attributes = s.core.attributes
    ∧ (Move g w d s).2.core.isSpecial = s.core.isSpecial
    ∧ (Move g w d s).2.core.crew = s.core.crew
    ∧ (Move g w d s).2.core.commands.land = s.core.commands.land
    ∧ (Move g w d s).2.core.commands.jump = s.core.commands.jump
    ∧ (Move g w d s).2.core.commands.cloak = s.core.commands.cloak
    ∧ (Move g w d s).2.core.commands.deploy = s.core.commands.deploy := by
  have hta : (moveTop g s).1.attributes = s.core.attributes := by simp [moveTop]
  have hti : (moveTop g s).1.isSpecial = s.core.isSpecial := by simp [moveTop]
  have htc : (moveTop g s).1.crew = s.core.crew := by simp [moveTop]
  have htm : (moveTop g s).1.commands = s.core.commands := by simp [moveTop]
  cases hp : (movePresence s.core).1 with
  | false =>
    rw [Move_forgotten g w d s hp]
    simp
  | true =>
    cases hd : IsDestroyed (moveTop g s).1 with
    | true =>
      rw [Move_destroyed g w d s hp hd]
      clear hd
      generalize moveTop g s = T at *
      cases hq : (moveDestroyed d T.1).1 with
      | some b => simp [hta, hti, htc, htm]
      | none =>
        obtain ⟨c1, c2, c3, c4⟩ := moveFlight_commands g w d
          (mk (moveDestroyed d T.1).2 T.2.1 T.2.2)
        simp only [core_mk, moveDestroyed_commands] at c1 c2 c3 c4
        simp [hta, hti, htc, htm, c1, c2, c3, c4]
    | false =>
      by_cases hh : (movePresence s.core).2.hyperspaceSystem ≠ none
          ∨ s.core.hyperspaceCount ≠ 0
      · rw [Move_hyperspace g w d s hp hd hh]
        clear hd
        generalize moveTop g s = T at *
        simp [hta, hti, htc, htm]
      · rw [not_or, not_not, not_not] at hh
        by_cases hl : s.core.landingPlanet ≠ none ∨ s.core.zoom < 1
        · rw [Move_landing g w d s hp hd hh.1 hh.2 hl]
          clear hd
          generalize moveTop g s = T at *
          simp [hta, hti, htc, htm]
        · rw [not_or, not_not] at hl
          rw [Move_flight g w d s hp hd hh.1 hh.2 hl.1 hl.2]
          clear hd
          generalize moveTop g s = T at *
          obtain ⟨c1, c2, c3, c4⟩ := moveFlight_commands g w d (mk T.1 T.2.1 T.2.2)
          simp only [core_mk] at c1 c2 c3 c4
          simp [hta, hti, htc, htm, c1, c2, c3, c4]

/-- A ship with no jump in progress, no landing planet and neither LAND nor
JUMP commanded stays so after a `Move` call, and stays in its system. -/
theorem Move_idle (g : Geometry) (w : World) (d : MoveDraws) (s : Ship)
    (hs : s.core.hyperspaceSystem = none) (hc : s.core.hyperspaceCount = 0)
    (hlp : s.core.landingPlanet = none)
    (hland : s.core.commands.land = false) (hjump : s.core.commands.jump = false) :
    (Move g w d s).2.core.currentSystem = s.core.currentSystem
    ∧ (Move g w d s).2.core.hyperspaceSystem = none
    ∧ (Move g w d s).2.core.hyperspaceCount = 0
    ∧ (Move g w d s).2.core.landingPlanet = none := by
  have hps := movePresence_hyperspaceSystem_none s.core hs
  have hts : (moveTop g s).1.hyperspaceSystem = none := by simp [moveTop, hps]
  have htc : (moveTop g s).1.hyperspaceCount = 0 := by simp [moveTop, hc]
  have htl : (moveTop g s).1.landingPlanet = none := by simp [moveTop, hlp]
  have htcur : (moveTop g s).1.currentSystem = s.core.currentSystem := by simp [moveTop]
  have htm : (moveTop g s).1.commands = s.core.commands := by simp [moveTop]
  cases hp : (movePresence s.core).1 with
  | false =>
    rw [Move_forgotten g w d s hp]
    simp [hps, hc, hlp]
  | true =>
    cases hd : IsDestroyed (moveTop g s).1 with
    | true =>
      rw [Move_destroyed g w d s hp hd]
      clear hd
      generalize moveTop g s = T at *
      cases hq : (moveDestroyed d T.1).1 with
      | some b => simp [hts, htc, htl, htcur]
      | none =>
        obtain ⟨c1, c2⟩ := moveFlight_idle g w d (mk (moveDestroyed d T.1).2 T.2.1 T.2.2)
          (by simp [htm, hland]) (by simp [htm, hjump])
        simp only [core_mk, moveDestroyed_landingPlanet, moveDestroyed_hyperspaceSystem]
          at c1 c2
        simp [hts, htc, htl, htcur, c1, c2]
    | false =>
      have hh : ¬ ((movePresence s.core).2.hyperspaceSystem ≠ none
          ∨ s.core.hyperspaceCount ≠ 0) := by
        rw [not_or, not_not, not_not]
        exact ⟨hps, hc⟩
      rw [not_or, not_not, not_not] at hh
      by_cases hl : s.core.landingPlanet ≠ none ∨ s.core.zoom < 1
      · rw [Move_landing g w d s hp hd hh.1 hh.2 hl]
        clear hd
        generalize moveTop g s = T at *
        obtain ⟨_, _, a3, _, a5⟩ := moveLanding_takeoff w T.1 htl
        simp [hts, htc, htcur, a3, a5]
      · rw [not_or, not_not] at hl
        rw [Move_flight g w d s hp hd hh.1 hh.2 hl.1 hl.2]
        clear hd
        generalize moveTop g s = T at *
        obtain ⟨c1, c2⟩ := moveFlight_idle g w d (mk T.1 T.2.1 T.2.2)
          (by simp [htm, hland]) (by simp [htm, hjump])
        simp only [core_mk] at c1 c2
        simp [hts, htc, htl, htcur, c1, c2]

/-- One tick of leaving hyperspace without a target: the ship stays in its
system and the counter goes down by one or is reset to 0. -/
theorem moveHyperspace_retreat (g : Geometry) (w : World) (c : ShipCore)
    (hs : c.hyperspaceSystem = none) (hn : c.hyperspaceCount - 1 ≠ 100) :
    (moveHyperspace g w c).currentSystem = c.currentSystem
    ∧ (moveHyperspace g w c).hyperspaceSystem = none
    ∧ ((moveHyperspace g w c).hyperspaceCount = c.hyperspaceCount - 1
        ∨ (moveHyperspace g w c).hyperspaceCount = 0)
    ∧ (moveHyperspace g w c).fuel = c.fuel := by
  have hn2 : ¬ c.hyperspaceCount + -1 = 100 := fun h => hn (by omega)
  simp only [moveHyperspace, hs, Option.isSome_none, Bool.false_eq_true, if_false]
  rw [if_neg hn2]
  refine ⟨by simp, by simp [hs], ?_, by simp⟩
  simp only [hyperspaceTail]
  split <;> split_ifs <;> simp <;> omega

/-- The tick that cancels a jump: a ship in mid-jump whose fuel is exactly 0
loses its jump target at line 420 and starts to leave hyperspace in the same
call. -/
theorem Move_jump_cancel (g : Geometry) (w : World) (d : MoveDraws) (s : Ship)
    (hcur : s.core.currentSystem ≠ none)
    (hhull : 0 ≤ s.core.hull) (hH : 0 ≤ s.core.attributes.get "hull")
    (hrep : 0 ≤ s.core.attributes.get "hull repair rate")
    (hfuel : s.core.fuel = 0)
    (hc : s.core.hyperspaceCount ≠ 0) (hn : s.core.hyperspaceCount - 1 ≠ 100)
    (hforget : s.core.isSpecial = true ∨ s.core.forget + 1 < 1000) :
    (Move g w d s).1 = true
    ∧ (Move g w d s).2.core.currentSystem = s.core.currentSystem
    ∧ (Move g w d s).2.core.hyperspaceSystem = none
    ∧ ((Move g w d s).2.core.hyperspaceCount = s.core.hyperspaceCount - 1
        ∨ (Move g w d s).2.core.hyperspaceCount = 0)
    ∧ (Move g w d s).2.core.landingPlanet = s.core.landingPlanet := by
  have hp : (movePresence s.core).1 = true := by
    rw [movePresence_ret]
    refine ⟨?_, hcur⟩
    rcases hforget with h | h
    · exact Or.inl h
    · right
      split_ifs <;> linarith
  have hps : (movePresence s.core).2.hyperspaceSystem = none := by
    rw [movePresence_hyperspaceSystem s.core hp, if_pos (Or.inl hfuel)]
  have hhn := moveTop_hull_nonneg g s hhull hH hrep
  have hd : IsDestroyed (moveTop g s).1 = false := by
    simp only [IsDestroyed, decide_eq_false_iff_not, not_lt]
    exact hhn
  have hths : (moveTop g s).1.hyperspaceSystem = none := by
    simp only [moveTop, moveRegen_hyperspaceSystem, moveClamp_hyperspaceSystem]
    exact hps
  have htc : (moveTop g s).1.hyperspaceCount = s.core.hyperspaceCount := by simp [moveTop]
  have htcur : (moveTop g s).1.currentSystem = s.core.currentSystem := by simp [moveTop]
  have htl : (moveTop g s).1.landingPlanet = s.core.landingPlanet := by simp [moveTop]
  rw [Move_hyperspace g w d s hp hd (Or.inr hc)]
  clear hd
  generalize moveTop g s = T at *
  obtain ⟨a1, a2, a3, _⟩ := moveHyperspace_retreat g w T.1 hths (by rw [htc]; exact hn)
  simp only [core_mk, moveHyperspace_landingPlanet]
  rw [a1, a2, htcur, ← htc]
  exact ⟨trivial, rfl, rfl, a3, htl⟩

/-- The state that `Move_idle` preserves holds after any number of calls. -/
theorem moveN_idle (g : Geometry) (w : Nat → World) (d : Nat → MoveDraws) (s : Ship)
    (hs : s.core.hyperspaceSystem = none) (hc : s.core.hyperspaceCount = 0)
    (hlp : s.core.landingPlanet = none)
    (hland : s.core.commands.land = false) (hjump : s.core.commands.jump = false) (n : Nat) :
    (moveN g w d n s).2.core.currentSystem = s.core.currentSystem
    ∧ (moveN g w d n s).2.core.hyperspaceSystem = none
    ∧ (moveN g w d n s).2.core.hyperspaceCount = 0
    ∧ (moveN g w d n s).2.core.landingPlanet = none
    ∧ (moveN g w d n s).2.core.commands.land = false
    ∧ (moveN g w d n s).2.core.commands.jump = false := by
  induction n with
  | zero => exact ⟨rfl, hs, hc, hlp, hland, hjump⟩
  | succ n ih =>
    obtain ⟨i1, i2, i3, i4, i5, i6⟩ := ih
    obtain ⟨m1, m2, m3, m4⟩ := Move_idle g (w n) (d n) (moveN g w d n s).2 i2 i3 i4 i5 i6
    obtain ⟨_, _, _, f4, f5, _⟩ := Move_frame g (w n) (d n) (moveN g w d n s).2
    rw [moveN_succ]
    exact ⟨by rw [m1, i1], m2, m3, m4, by rw [f4, i5], by rw [f5, i6]⟩

/-- Successive calls compose: `m + n` calls are `n` calls made after `m`
calls, in the worlds and with the draws that follow the first `m`. -/
theorem moveN_add (g : Geometry) (w : Nat → World) (d : Nat → MoveDraws) (s : Ship)
    (m n : Nat) :
    (moveN g w d (m + n) s).2
      = (moveN g (fun k => w (m + k)) (fun k => d (m + k)) n (moveN g w d m s).2).2 := by
  induction n with
  | zero => rfl
  | succ n ih =>
    rw [← Nat.add_assoc, moveN_succ, moveN_succ, ih]

theorem moveN_zero (g : Geometry) (w : Nat → World) (d : Nat → MoveDraws) (s : Ship) :
    moveN g w d 0 s = (true, s) := by
  simp only [moveN]

theorem moveN_one (g : Geometry) (w : Nat → World) (d : Nat → MoveDraws) (s : Ship) :
    (moveN g w d 1 s).2 = (Move g (w 0) (d 0) s).2 := by
  have h := moveN_succ g w d 0 s
  rw [moveN_zero] at h
  rw [h]

theorem moveN_two (g : Geometry) (w : Nat → World) (d : Nat → MoveDraws) (s : Ship) :
    (moveN g w d 2 s).2 = (Move g (w 1) (d 1) (Move g (w 0) (d 0) s).2).2 := by
  have h := moveN_succ g w d 1 s
  rw [moveN_one] at h
  rw [h]

/-- C6, amended. A ship starts a jump (in system `x`, target `t`, counter 0)
with a hyperdrive or jump drive, no ramscoop, a non-negative hull with
non-negative `"hull"` and `"hull repair rate"` attributes, fuel at least its
`"jump fuel"` attribute and not one of the whole numbers 0, ..., 99 (as is
the case whenever `"jump fuel"` is at least 100), and it is special or has been
out of the player's system for fewer than 900 ticks. Then each of the first 99
`Move` calls returns true and leaves it in `x` with the counter equal to the
number of calls and the fuel down by one per call; the 100th call returns true
and puts it into `t` with no jump target left, and the fuel spent by then is
exactly the `"jump fuel"` attribute, so the fuel left is not negative. With a
jump drive the counter is 100 after that call. -/
theorem C6_jump_round_trip (g : Geometry) (w : Nat → World) (d : Nat → MoveDraws) (s : Ship)
    (x t : SystemId)
    (hcur : s.core.currentSystem = some x)
    (hs : s.core.hyperspaceSystem = some t) (hc : s.core.hyperspaceCount = 0)
    (hhull : 0 ≤ s.core.hull) (hH : 0 ≤ s.core.attributes.get "hull")
    (hrep : 0 ≤ s.core.attributes.get "hull repair rate")
    (hdrive : s.core.attributes.get "hyperdrive" ≠ 0 ∨ s.core.attributes.get "jump drive" ≠ 0)
    (hram : s.core.attributes.get "ramscoop" = 0)
    (hfuel : s.core.attributes.get "jump fuel" ≤ s.core.fuel)
    (hnz : ∀ k : Nat, k < 100 → s.core.fuel ≠ k)
    (hforget : s.core.isSpecial = true ∨ s.core.forget < 900) :
    (∀ k : Nat, k ≤ 99 →
      (moveN g w d k s).1 = true
      ∧ (moveN g w d k s).2.core.currentSystem = some x
      ∧ (moveN g w d k s).2.core.hyperspaceSystem = some t
      ∧ (moveN g w d k s).2.core.hyperspaceCount = k
      ∧ (moveN g w d k s).2.core.fuel = s.core.fuel - k)
    ∧ (moveN g w d 100 s).1 = true
    ∧ (moveN g w d 100 s).2.core.currentSystem = some t
    ∧ (moveN g w d 100 s).2.core.hyperspaceSystem = none
    ∧ (moveN g w d 100 s).2.core.fuel = s.core.fuel - s.core.attributes.get "jump fuel"
    ∧ 0 ≤ (moveN g w d 100 s).2.core.fuel
    ∧ (s.core.attributes.get "jump drive" ≠ 0 →
        (moveN g w d 100 s).2.core.hyperspaceCount = 100) := by
  have J := jump_invariant g w d s x t hcur hs hc hhull hH hrep hdrive hram hnz hforget
  obtain ⟨i1, i2, i3, i4, i5, i6, i7, i8, i9⟩ := J 99 (le_refl _)
  have hf0 : (moveN g w d 99 s).2.core.fuel ≠ 0 := by
    rw [i5]
    intro h0
    exact hnz 99 (by omega) (by linarith)
  have hfg : (moveN g w d 99 s).2.core.isSpecial = true
      ∨ (moveN g w d 99 s).2.core.forget + 1 < 1000 := by
    rcases hforget with h | h
    · left
      rw [i7, h]
    · right
      push_cast at i8
      linarith
  obtain ⟨m1, _, _, _, _, _, _, m7⟩ := Move_jump_tick g (w 99) (d 99) (moveN g w d 99 s).2 t
    (by rw [i2]; simp) i3 i9 (by rw [i6]; exact hH) (by rw [i6]; exact hrep)
    (by rw [i6]; exact hdrive) (by rw [i6]; exact hram) hf0 hfg
  obtain ⟨q1, q2, q3, q4⟩ := m7 (by rw [i4]; rfl)
  have e100 : moveN g w d 100 s
      = ((moveN g w d 99 s).1 && (Move g (w 99) (d 99) (moveN g w d 99 s).2).1,
          (Move g (w 99) (d 99) (moveN g w d 99 s).2).2) := moveN_succ g w d 99 s
  have e : (Move g (w 99) (d 99) (moveN g w d 99 s).2).2.core.fuel
      = s.core.fuel - s.core.attributes.get "jump fuel" := by
    rw [q3, i5, i6]
    push_cast
    ring
  rw [e100]
  dsimp only
  refine ⟨fun k hk => ?_, ?_, q1, q2, e, ?_, ?_⟩
  · obtain ⟨j1, j2, j3, j4, j5, _⟩ := J k hk
    exact ⟨j1, j2, j3, j4, j5⟩
  · rw [i1, m1]
    rfl
  · rw [e]
    linarith
  · intro hj
    exact q4 (by rw [i6]; exact hj)

/-- C6 at a ship with a hyperdrive, fuel 100 and `"jump fuel"` 100 jumping
from system 0 to system 7: after 99 calls it is still in system 0 with one unit
of fuel, after 100 calls it is in system 7 with none. -/
theorem C6_jump_round_trip_witness :
    (moveN flatGeometry (fun _ => {}) (fun _ => {}) 99 (jumpingShip 100 100)).2.core.currentSystem
      = some 0
    ∧ (moveN flatGeometry (fun _ => {}) (fun _ => {}) 99 (jumpingShip 100 100)).2.core.fuel = 1
    ∧ (moveN flatGeometry (fun _ => {}) (fun _ => {}) 100 (jumpingShip 100 100)).1 = true
    ∧ (moveN flatGeometry (fun _ => {}) (fun _ => {}) 100 (jumpingShip 100 100)).2.core.currentSystem
      = some 7
    ∧ (moveN flatGeometry (fun _ => {}) (fun _ => {}) 100 (jumpingShip 100 100)).2.core.fuel = 0 := by
  have hnz : ∀ k : Nat, k < 100 → (jumpingShip 100 100).core.fuel ≠ k := by
    intro k hk h
    have h2 : (100 : ℚ) = k := by simpa [jumpingShip] using h
    have h3 : (k : ℚ) < 100 := by exact_mod_cast hk
    linarith
  obtain ⟨h1, h2, h3, _, h5, _⟩ :=
    C6_jump_round_trip flatGeometry (fun _ => {}) (fun _ => {}) (jumpingShip 100 100) 0 7
      (by simp [jumpingShip]) (by simp [jumpingShip]) (by simp [jumpingShip])
      (by simp [jumpingShip]) (by simp [jumpingShip]) (by simp [jumpingShip])
      (Or.inl (by simp [jumpingShip])) (by simp [jumpingShip]) (by simp [jumpingShip])
      hnz (Or.inl (by simp [jumpingShip]))
  obtain ⟨_, k2, _, _, k5⟩ := h1 99 (le_refl _)
  refine ⟨k2, ?_, h2, h3, ?_⟩
  · rw [k5]
    simp [jumpingShip]
    norm_num
  · rw [h5]
    simp [jumpingShip]

/-- C6 as stated fails: the ship is not destroyed, has a hyperdrive, no
ramscoop and fuel 1 equal to its `"jump fuel"` attribute, and starts a jump
from system 0 to system 7. The first call spends the unit of fuel, the second
call finds the fuel at exactly 0 and cancels the jump (line 420), and
whatever the worlds and the draws, the ship is in system 0 after any number
of calls, and the counter, which is 0 from the second call on, is never
100. -/
theorem C6_counterexample :
    IsDestroyed (jumpingShip 1 1).core = false
    ∧ (jumpingShip 1 1).core.attributes.get "hyperdrive" ≠ 0
    ∧ (jumpingShip 1 1).core.attributes.get "ramscoop" = 0
    ∧ (jumpingShip 1 1).core.attributes.get "jump fuel" ≤ (jumpingShip 1 1).core.fuel
    ∧ (jumpingShip 1 1).core.currentSystem = some 0
    ∧ (jumpingShip 1 1).core.hyperspaceSystem = some 7
    ∧ (jumpingShip 1 1).core.hyperspaceCount = 0
    ∧ ∀ (w : Nat → World) (d : Nat → MoveDraws) (n : Nat),
        (moveN flatGeometry w d n (jumpingShip 1 1)).2.core.currentSystem = some 0
        ∧ (moveN flatGeometry w d n (jumpingShip 1 1)).2.core.hyperspaceCount ≠ 100
        ∧ (2 ≤ n →
            (moveN flatGeometry w d n (jumpingShip 1 1)).2.core.hyperspaceSystem = none
            ∧ (moveN flatGeometry w d n (jumpingShip 1 1)).2.core.hyperspaceCount = 0) := by
  refine ⟨by simp [IsDestroyed, jumpingShip], by simp [jumpingShip], by simp [jumpingShip],
    by simp [jumpingShip], rfl, rfl, rfl, ?_⟩
  intro w d
  -- the first call
  obtain ⟨_, a2, a3, _, a5, a6, a7, _⟩ :=
    Move_jump_tick flatGeometry (w 0) (d 0) (jumpingShip 1 1) 7
      (by simp [jumpingShip]) (by simp [jumpingShip]) (by simp [jumpingShip])
      (by simp [jumpingShip]) (by simp [jumpingShip]) (Or.inl (by simp [jumpingShip]))
      (by simp [jumpingShip]) (by simp [jumpingShip]) (Or.inl (by simp [jumpingShip]))
  obtain ⟨b1, b2, b3, b4⟩ := a7 (by simp [jumpingShip])
  obtain ⟨_, _, _, f4, f5, _⟩ := Move_frame flatGeometry (w 0) (d 0) (jumpingShip 1 1)
  have e1 := moveN_one flatGeometry w d (jumpingShip 1 1)
  -- the second call
  obtain ⟨_, c2, c3, c4, c5⟩ :=
    Move_jump_cancel flatGeometry (w 1) (d 1) (Move flatGeometry (w 0) (d 0) (jumpingShip 1 1)).2
      (by rw [b1]; simp [jumpingShip]) a5 (by rw [a2]; simp [jumpingShip])
      (by rw [a2]; simp [jumpingShip]) (by rw [b4]; simp [jumpingShip])
      (by rw [b3]; simp [jumpingShip]) (by rw [b3]; simp [jumpingShip])
      (Or.inl (by rw [a3]; simp [jumpingShip]))
  obtain ⟨_, _, _, g4, g5, _⟩ :=
    Move_frame flatGeometry (w 1) (d 1) (Move flatGeometry (w 0) (d 0) (jumpingShip 1 1)).2
  have e2 := moveN_two flatGeometry w d (jumpingShip 1 1)
  have c4z : (moveN flatGeometry w d 2 (jumpingShip 1 1)).2.core.hyperspaceCount = 0 := by
    rw [e2]
    rcases c4 with h | h
    · rw [h, b3]
      simp [jumpingShip]
    · exact h
  have two : ∀ m : Nat,
      (moveN flatGeometry w d (2 + m) (jumpingShip 1 1)).2.core.currentSystem = some 0
      ∧ (moveN flatGeometry w d (2 + m) (jumpingShip 1 1)).2.core.hyperspaceSystem = none
      ∧ (moveN flatGeometry w d (2 + m) (jumpingShip 1 1)).2.core.hyperspaceCount = 0 := by
    intro m
    obtain ⟨i1, i2, i3, _⟩ := moveN_idle flatGeometry (fun k => w (2 + k)) (fun k => d (2 + k))
      (moveN flatGeometry w d 2 (jumpingShip 1 1)).2
      (by rw [e2]; exact c3) c4z
      (by rw [e2, c5, a6]; rfl)
      (by rw [e2, g4, f4]; rfl) (by rw [e2, g5, f5]; rfl) m
    rw [moveN_add]
    refine ⟨?_, i2, i3⟩
    rw [i1, e2, c2, b1]
    rfl
  intro n
  rcases Nat.lt_or_ge n 2 with hn | hn
  · have h01 : n = 0 ∨ n = 1 := by omega
    rcases h01 with h | h
    · subst h
      rw [moveN_zero]
      exact ⟨rfl, by simp [jumpingShip], fun h => absurd h (by omega)⟩
    · subst h
      refine ⟨?_, ?_, fun h => absurd h (by omega)⟩
      · rw [e1, b1]
        rfl
      · rw [e1, b3]
        simp [jumpingShip]
  · obtain ⟨m, rfl⟩ := Nat.exists_eq_add_of_le hn
    obtain ⟨t1, t2, t3⟩ := two m
    exact ⟨t1, by rw [t3]; decide, fun _ => ⟨t2, t3⟩⟩

/-! ## C7: the ship with a full tank on a planet -/

theorem Mass_eq (s : Ship) :
    Mass s = carriedMass s.droneBays + carriedMass s.fighterBays + s.core.cargoUsed
      + s.core.attributes.get "mass" := by
  cases s
  simp [Mass]

theorem movePresence_cargoUsed (c : ShipCore) : (movePresence c).2.cargoUsed = c.cargoUsed := by
  simp [movePresence]

theorem moveClamp_cargoUsed (mass : ℚ) (c : ShipCore) :
    (moveClamp mass c).cargoUsed = c.cargoUsed := by
  simp [moveClamp]

theorem moveRegen_cargoUsed (g : Geometry) (c : ShipCore) (fb db : List (Bay Ship)) :
    (moveRegen g c fb db).1.cargoUsed = c.cargoUsed := by
  cases ho : c.isOverheated <;> cases hd : c.isDisabled <;>
    simp [moveRegen, ho, hd, TransferFuel]

/-- A full tank stays full through the regeneration at the top of `Move`: the
ramscoop adds nothing to it. -/
theorem moveTop_fuel_full (g : Geometry) (s : Ship)
    (hfull : s.core.fuel = s.core.attributes.get "fuel capacity")
    (hsq : 0 ≤ g.sqrt (s.core.attributes.get "ramscoop")) :
    (moveTop g s).1.fuel = s.core.fuel := by
  simp only [moveTop]
  cases hd : (moveClamp (Mass s) (movePresence s.core).2).isDisabled with
  | true =>
    rw [(moveRegen_of_disabled g _ _ _ hd).1]
    simp
  | false =>
    rw [(moveRegen_of_enabled g _ _ _ hd).1]
    simp only [moveClamp_attributes, movePresence_attributes, moveClamp_fuel, movePresence_fuel]
    split_ifs
    · rfl
    · rw [hfull, sub_self, max_eq_left (by linarith), sub_zero]

theorem moveTop_hull_ge (g : Geometry) (s : Ship)
    (hrep : 0 ≤ s.core.attributes.get "hull repair rate") :
    min s.core.hull (s.core.attributes.get "hull") ≤ (moveTop g s).1.hull := by
  obtain ⟨_, _, _, p4⟩ := moveClamp_pools (Mass s) (movePresence s.core).2
  simp only [movePresence_attributes, movePresence_hull] at p4
  simp only [moveTop, moveRegen_hull, p4, moveClamp_attributes, movePresence_attributes]
  split_ifs <;> linarith

theorem moveTop_bays_nil (g : Geometry) (s : Ship)
    (hf : s.fighterBays = []) (hd : s.droneBays = []) : (moveTop g s).2 = ([], []) := by
  simp only [moveTop, hf, hd]
  cases hdis : (moveClamp (Mass s) (movePresence s.core).2).isDisabled with
  | true => exact (moveRegen_of_disabled g _ _ _ hdis).2.2.2.2
  | false =>
    cases ho : (moveClamp (Mass s) (movePresence s.core).2).isOverheated <;>
      simp [moveRegen, hdis, ho, rechargeBays]

theorem moveTop_heat_zero (g : Geometry) (s : Ship) (hheat : s.core.heat = 0)
    (hgen : s.core.attributes.get "heat generation" = 0)
    (hcool : s.core.attributes.get "cooling" = 0) : (moveTop g s).1.heat = 0 := by
  obtain ⟨_, p2, _, _⟩ := moveClamp_pools (Mass s) (movePresence s.core).2
  simp only [movePresence_heat, hheat, zero_mul] at p2
  simp only [moveTop]
  cases hd : (moveClamp (Mass s) (movePresence s.core).2).isDisabled with
  | true => rw [(moveRegen_of_disabled g _ _ _ hd).2.2.2.1, p2]
  | false =>
    rw [(moveRegen_of_enabled g _ _ _ hd).2.2.2, p2]
    simp [hgen, hcool]

theorem moveTop_energy_nonneg (g : Geometry) (s : Ship)
    (hd : (moveClamp (Mass s) (movePresence s.core).2).isDisabled = false) :
    0 ≤ (moveTop g s).1.energy := by
  simp only [moveTop]
  rw [(moveRegen_of_enabled g _ _ _ hd).2.1]
  split_ifs <;> linarith

/-- The branch of the landing phase that starts or continues a take-off: no
landing planet, or landed (zoom 0) with a full tank. -/
theorem moveLanding_leave (w : World) (c : ShipCore)
    (h : c.landingPlanet = none
      ∨ (c.zoom = 0 ∧ c.fuel = c.attributes.get "fuel capacity")) :
    (moveLanding w c).1 = true
    ∧ (moveLanding w c).2.zoom = min 1 (c.zoom + 2 / 100)
    ∧ (moveLanding w c).2.landingPlanet = none
    ∧ (moveLanding w c).2.fuel = c.fuel
    ∧ (moveLanding w c).2.currentSystem = c.currentSystem
    ∧ (moveLanding w c).2.cargoUsed = c.cargoUsed := by
  cases hl : c.landingPlanet with
  | none => simp [moveLanding, hl]
  | some p =>
    rcases h with h | ⟨hz, hf⟩
    · rw [hl] at h
      cases h
    · simp [moveLanding, hl, hz, hf]

/-- One tick of a ship with a full tank that is landed (zoom 0, landing
planet set) or taking off (no landing planet, zoom below 1). -/
theorem Move_takeoff_tick (g : Geometry) (w : World) (d : MoveDraws) (s : Ship)
    (hcur : s.core.currentSystem ≠ none)
    (hs : s.core.hyperspaceSystem = none) (hc : s.core.hyperspaceCount = 0)
    (hhull : 0 ≤ s.core.hull) (hH : 0 ≤ s.core.attributes.get "hull")
    (hrep : 0 ≤ s.core.attributes.get "hull repair rate")
    (hfull : s.core.fuel = s.core.attributes.get "fuel capacity")
    (hsq : 0 ≤ g.sqrt (s.core.attributes.get "ramscoop"))
    (hforget : s.core.isSpecial = true ∨ s.core.forget + 1 < 1000)
    (hland : (s.core.landingPlanet = none ∧ s.core.zoom < 1)
      ∨ (s.core.landingPlanet ≠ none ∧ s.core.zoom = 0)) :
    (Move g w d s).1 = true
    ∧ (Move g w d s).2.core.fuel = s.core.fuel
    ∧ (Move g w d s).2.core.landingPlanet = none
    ∧ (Move g w d s).2.core.zoom = min 1 (s.core.zoom + 2 / 100)
    ∧ (Move g w d s).2.core.hyperspaceSystem = none
    ∧ (Move g w d s).2.core.hyperspaceCount = 0
    ∧ (Move g w d s).2.core.currentSystem = s.core.currentSystem
    ∧ (Move g w d s).2.core.attributes = s.core.attributes
    ∧ (Move g w d s).2.core.isSpecial = s.core.isSpecial
    ∧ (Move g w d s).2.core.forget ≤ s.core.forget + 1
    ∧ min s.core.hull (s.core.attributes.get "hull") ≤ (Move g w d s).2.core.hull
    ∧ (Move g w d s).2.core.commands = s.core.commands
    ∧ (Move g w d s).2.core.crew = s.core.crew
    ∧ (Move g w d s).2.core.cargoUsed = s.core.cargoUsed
    ∧ (s.fighterBays = [] → s.droneBays = [] →
        (Move g w d s).2.fighterBays = [] ∧ (Move g w d s).2.droneBays = [])
    ∧ (s.core.heat = 0 → s.core.attributes.get "heat generation" = 0 →
        s.core.attributes.get "cooling" = 0 → (Move g w d s).2.core.heat = 0) := by
  have hp : (movePresence s.core).1 = true := by
    rw [movePresence_ret]
    refine ⟨?_, hcur⟩
    rcases hforget with h | h
    · exact Or.inl h
    · right
      split_ifs <;> linarith
  have hps := movePresence_hyperspaceSystem_none s.core hs
  have hd : IsDestroyed (moveTop g s).1 = false := by
    simp only [IsDestroyed, decide_eq_false_iff_not, not_lt]
    exact moveTop_hull_nonneg g s hhull hH hrep
  have hl : s.core.landingPlanet ≠ none ∨ s.core.zoom < 1 := by
    rcases hland with ⟨_, h⟩ | ⟨h, _⟩
    · exact Or.inr h
    · exact Or.inl h
  have htf := moveTop_fuel_full g s hfull hsq
  have hth := moveTop_hull_ge g s hrep
  have htb := moveTop_bays_nil g s
  have hthe := moveTop_heat_zero g s
  have htl : (moveTop g s).1.landingPlanet = s.core.landingPlanet := by simp [moveTop]
  have htz : (moveTop g s).1.zoom = s.core.zoom := by simp [moveTop]
  have hths : (moveTop g s).1.hyperspaceSystem = none := by
    simp only [moveTop, moveRegen_hyperspaceSystem, moveClamp_hyperspaceSystem]
    exact hps
  have htc : (moveTop g s).1.hyperspaceCount = 0 := by simp [moveTop, hc]
  have htcur : (moveTop g s).1.currentSystem = s.core.currentSystem := by simp [moveTop]
  have hta : (moveTop g s).1.attributes = s.core.attributes := by simp [moveTop]
  have hti : (moveTop g s).1.isSpecial = s.core.isSpecial := by simp [moveTop]
  have htm : (moveTop g s).1.commands = s.core.commands := by simp [moveTop]
  have htcr : (moveTop g s).1.crew = s.core.crew := by simp [moveTop]
  have htcu : (moveTop g s).1.cargoUsed = s.core.cargoUsed := by
    simp only [moveTop, moveRegen_cargoUsed, moveClamp_cargoUsed, movePresence_cargoUsed]
  have hf : (moveTop g s).1.forget ≤ s.core.forget + 1 := by
    simp only [moveTop, moveRegen_forget, moveClamp_forget, movePresence_forget]
    split_ifs <;> linarith
  have hcond : (moveTop g s).1.landingPlanet = none
      ∨ ((moveTop g s).1.zoom = 0
          ∧ (moveTop g s).1.fuel = (moveTop g s).1.attributes.get "fuel capacity") := by
    rcases hland with ⟨h, _⟩ | ⟨_, h⟩
    · left
      rw [htl, h]
    · right
      rw [htz, htf, hta]
      exact ⟨h, hfull⟩
  rw [Move_landing g w d s hp hd hps hc hl]
  clear hd
  generalize moveTop g s = T at *
  obtain ⟨a1, a2, a3, a4, a5, a6⟩ := moveLanding_leave w T.1 hcond
  simp only [core_mk, fighterBays_mk, droneBays_mk, moveLanding_hyperspaceSystem,
    moveLanding_hyperspaceCount, moveLanding_attributes, moveLanding_isSpecial,
    moveLanding_forget, moveLanding_hull, moveLanding_commands, moveLanding_crew,
    moveLanding_heat]
  refine ⟨a1, by rw [a4, htf], a3, by rw [a2, htz], hths, htc, by rw [a5, htcur], hta, hti,
    hf, hth, htm, htcr, by rw [a6, htcu], ?_, hthe⟩
  intro h1 h2
  rw [htb h1 h2]
  exact ⟨rfl, rfl⟩

/-- The take-off of a ship that is landed with a full tank: what holds after
each of the first 50 calls. -/
theorem takeoff_invariant (g : Geometry) (w : Nat → World) (d : Nat → MoveDraws) (s : Ship)
    (hcur : s.core.currentSystem ≠ none)
    (hs : s.core.hyperspaceSystem = none) (hc : s.core.hyperspaceCount = 0)
    (hz : s.core.zoom = 0) (hlp : s.core.landingPlanet ≠ none)
    (hhull : 0 ≤ s.core.hull) (hH : 0 ≤ s.core.attributes.get "hull")
    (hrep : 0 ≤ s.core.attributes.get "hull repair rate")
    (hfull : s.core.fuel = s.core.attributes.get "fuel capacity")
    (hsq : 0 ≤ g.sqrt (s.core.attributes.get "ramscoop"))
    (hforget : s.core.isSpecial = true ∨ s.core.forget < 950) :
    ∀ k : Nat, k + 1 ≤ 50 →
      (moveN g w d (k + 1) s).1 = true
      ∧ (moveN g w d (k + 1) s).2.core.fuel = s.core.fuel
      ∧ (moveN g w d (k + 1) s).2.core.landingPlanet = none
      ∧ (moveN g w d (k + 1) s).2.core.zoom = ((k + 1 : Nat) : ℚ) / 50
      ∧ (moveN g w d (k + 1) s).2.core.hyperspaceSystem = none
      ∧ (moveN g w d (k + 1) s).2.core.hyperspaceCount = 0
      ∧ (moveN g w d (k + 1) s).2.core.currentSystem = s.core.currentSystem
      ∧ (moveN g w d (k + 1) s).2.core.attributes = s.core.attributes
      ∧ (moveN g w d (k + 1) s).2.core.isSpecial = s.core.isSpecial
      ∧ (moveN g w d (k + 1) s).2.core.forget ≤ s.core.forget + ((k + 1 : Nat) : Int)
      ∧ min s.core.hull (s.core.attributes.get "hull") ≤ (moveN g w d (k + 1) s).2.core.hull
      ∧ (moveN g w d (k + 1) s).2.core.commands = s.core.commands
      ∧ (moveN g w d (k + 1) s).2.core.crew = s.core.crew
      ∧ (moveN g w d (k + 1) s).2.core.cargoUsed = s.core.cargoUsed
      ∧ (s.fighterBays = [] → s.droneBays = [] →
          (moveN g w d (k + 1) s).2.fighterBays = []
          ∧ (moveN g w d (k + 1) s).2.droneBays = [])
      ∧ (s.core.heat = 0 → s.core.attributes.get "heat generation" = 0 →
          s.core.attributes.get "cooling" = 0 → (moveN g w d (k + 1) s).2.core.heat = 0) := by
  have hmin : 0 ≤ min s.core.hull (s.core.attributes.get "hull") := le_min hhull hH
  intro k
  induction k with
  | zero =>
    intro _
    obtain ⟨m1, m2, m3, m4, m5, m6, m7, m8, m9, m10, m11, m12, m13, m14, m15, m16⟩ :=
      Move_takeoff_tick g (w 0) (d 0) s hcur hs hc hhull hH hrep hfull hsq
        (by rcases hforget with h | h
            · exact Or.inl h
            · right
              linarith)
        (Or.inr ⟨hlp, hz⟩)
    rw [moveN_succ, moveN_zero]
    dsimp only
    refine ⟨by rw [m1]; rfl, m2, m3, ?_, m5, m6, m7, m8, m9, ?_, m11, m12, m13, m14, m15, m16⟩
    · rw [m4, hz]
      norm_num
    · push_cast
      linarith
  | succ n ih =>
    intro hk
    obtain ⟨i1, i2, i3, i4, i5, i6, i7, i8, i9, i10, i11, i12, i13, i14, i15, i16⟩ :=
      ih (by omega)
    have hn : ((n + 1 : Nat) : ℚ) ≤ 49 := by
      have : n + 1 ≤ 49 := by omega
      exact_mod_cast this
    have hni : ((n + 1 : Nat) : Int) ≤ 49 := by omega
    obtain ⟨m1, m2, m3, m4, m5, m6, m7, m8, m9, m10, m11, m12, m13, m14, m15, m16⟩ :=
      Move_takeoff_tick g (w (n + 1)) (d (n + 1)) (moveN g w d (n + 1) s).2
        (by rw [i7]; exact hcur) i5 i6 (le_trans hmin i11) (by rw [i8]; exact hH)
        (by rw [i8]; exact hrep) (by rw [i2, i8]; exact hfull) (by rw [i8]; exact hsq)
        (by rcases hforget with h | h
            · left
              rw [i9, h]
            · right
              linarith)
        (Or.inl ⟨i3, by rw [i4]; linarith⟩)
    rw [moveN_succ]
    dsimp only
    refine ⟨by rw [i1, m1]; rfl, by rw [m2, i2], m3, ?_, m5, m6, by rw [m7, i7],
      by rw [m8, i8], by rw [m9, i9], ?_, ?_, by rw [m12, i12], by rw [m13, i13],
      by rw [m14, i14], ?_, ?_⟩
    · rw [m4, i4, min_eq_right (by linarith)]
      push_cast
      ring
    · push_cast
      push_cast at i10
      linarith
    · rw [i8] at m11
      exact le_trans (le_min i11 (min_le_right _ _)) m11
    · intro h1 h2
      obtain ⟨b1, b2⟩ := i15 h1 h2
      exact m15 b1 b2
    · intro h1 h2 h3
      exact m16 (i16 h1 h2 h3) (by rw [i8]; exact h2) (by rw [i8]; exact h3)

/-- C7. A ship is landed (zoom 0, landing planet set, with or without
spaceport) in some system, with no jump in progress, a non-negative hull with
non-negative `"hull"` and `"hull repair rate"` attributes, fuel equal to its
`"fuel capacity"` attribute and a square root of the `"ramscoop"` attribute
that is not negative; it is special or has been out of the player's system for
fewer than 950 ticks. The landing branch of `Move` (lines 622-667) runs while
the landing planet is set or zoom is below 1, which is during the first 50
calls. Each of these calls returns true and leaves the fuel unchanged, the
ramscoop bonus included, and the landing planet cleared, and after `k` of
them zoom is `k / 50`: the first call clears the landing planet and starts the
take-off, and no later call of the branch sets the landing planet again or
changes the fuel. -/
theorem C7_full_tank_takeoff (g : Geometry) (w : Nat → World) (d : Nat → MoveDraws) (s : Ship)
    (planet : PlanetId)
    (hcur : s.core.currentSystem ≠ none)
    (hs : s.core.hyperspaceSystem = none) (hc : s.core.hyperspaceCount = 0)
    (hz : s.core.zoom = 0) (hlp : s.core.landingPlanet = some planet)
    (hhull : 0 ≤ s.core.hull) (hH : 0 ≤ s.core.attributes.get "hull")
    (hrep : 0 ≤ s.core.attributes.get "hull repair rate")
    (hfull : s.core.fuel = s.core.attributes.get "fuel capacity")
    (hsq : 0 ≤ g.sqrt (s.core.attributes.get "ramscoop"))
    (hforget : s.core.isSpecial = true ∨ s.core.forget < 950) :
    ∀ k : Nat, 1 ≤ k → k ≤ 50 →
      (moveN g w d k s).1 = true
      ∧ (moveN g w d k s).2.core.fuel = s.core.fuel
      ∧ (moveN g w d k s).2.core.landingPlanet = none
      ∧ (moveN g w d k s).2.core.zoom = (k : ℚ) / 50 := by
  intro k h1 h50
  obtain ⟨n, rfl⟩ : ∃ n, k = n + 1 := ⟨k - 1, by omega⟩
  obtain ⟨i1, i2, i3, i4, _⟩ :=
    takeoff_invariant g w d s hcur hs hc hz (by rw [hlp]; simp) hhull hH hrep hfull hsq
      hforget n h50
  exact ⟨i1, i2, i3, i4⟩

/-- C7 at a special ship landed with 100 of 100 fuel on a planet with a
spaceport: the first call returns true, leaves the fuel at 100, clears the
landing planet and sets zoom to 1/50; after 50 calls the fuel is still 100
and zoom is 1. -/
theorem C7_full_tank_takeoff_witness :
    (moveN flatGeometry (fun _ => spaceportWorld) (fun _ => {}) 1 refuelledShip).1 = true
    ∧ (moveN flatGeometry (fun _ => spaceportWorld) (fun _ => {}) 1 refuelledShip).2.core.fuel
        = 100
    ∧ (moveN flatGeometry (fun _ => spaceportWorld) (fun _ => {}) 1
        refuelledShip).2.core.landingPlanet = none
    ∧ (moveN flatGeometry (fun _ => spaceportWorld) (fun _ => {}) 1 refuelledShip).2.core.zoom
        = 1 / 50
    ∧ (moveN flatGeometry (fun _ => spaceportWorld) (fun _ => {}) 50 refuelledShip).2.core.fuel
        = 100
    ∧ (moveN flatGeometry (fun _ => spaceportWorld) (fun _ => {}) 50 refuelledShip).2.core.zoom
        = 1 := by
  have h := C7_full_tank_takeoff flatGeometry (fun _ => spaceportWorld) (fun _ => {})
    refuelledShip 2 (by simp [refuelledShip]) (by simp [refuelledShip])
    (by simp [refuelledShip]) (by simp [refuelledShip]) (by simp [refuelledShip])
    (by simp [refuelledShip]) (by simp [refuelledShip]) (by simp [refuelledShip])
    (by simp [refuelledShip]) (le_refl _) (Or.inl (by simp [refuelledShip]))
  obtain ⟨a1, a2, a3, a4⟩ := h 1 (le_refl _) (by decide)
  obtain ⟨_, b2, _, b4⟩ := h 50 (by decide) (le_refl _)
  have hf : refuelledShip.core.fuel = 100 := by simp [refuelledShip]
  refine ⟨a1, by rw [a2, hf], a3, ?_, by rw [b2, hf], ?_⟩
  · rw [a4]
    norm_num
  · rw [b4]
    norm_num

theorem flightCloak_cloaking (c : ShipCore) (h1 : c.commands.cloak = true) (h2 : c.zoom = 1)
    (h3 : c.isDisabled = false) (h4 : c.hyperspaceCount = 0)
    (h5 : c.attributes.get "cloak" ≠ 0) (h6 : c.attributes.get "cloaking fuel" ≤ c.fuel)
    (h7 : c.attributes.get "cloaking energy" ≤ c.energy) :
    (flightCloak c).fuel = c.fuel - c.attributes.get "cloaking fuel" := by
  simp [flightCloak, h1, h2, h3, h4, h5, h6, h7]

/-- The disabled flag that `Move` computes is false for a cold ship of
positive mass with crew whose hull, clamped to its capacity, is not below the
minimum hull. -/
theorem moveClamp_enabled (mass : ℚ) (c : ShipCore) (hheat : c.heat = 0) (hmass : 0 < mass)
    (hhull : MinimumHull c ≤ min c.hull (c.attributes.get "hull")) (hcrew : c.crew ≠ 0) :
    (moveClamp mass c).isDisabled = false := by
  obtain ⟨f1, f2⟩ := moveClamp_flags mass c
  obtain ⟨_, _, _, p4⟩ := moveClamp_pools mass c
  have ho : (moveClamp mass c).isOverheated = false := by
    rw [f1, hheat, zero_mul, if_neg (by linarith), if_pos (by linarith)]
  have hm : MinimumHull (moveClamp mass c) = MinimumHull c := by
    simp [MinimumHull]
  rw [f2, ho]
  simp only [IsDisabled, hm, p4, moveClamp_crew, Bool.false_or]
  simp [hcrew, not_lt.mpr hhull]

/-- One tick of normal flight of a cloaking ship that gives no other command:
`Move` returns true and the fuel is down by the `"cloaking fuel"`
attribute. -/
theorem Move_flight_cloak (g : Geometry) (w : World) (d : MoveDraws) (s : Ship)
    (hcur : s.core.currentSystem ≠ none)
    (hs : s.core.hyperspaceSystem = none) (hc : s.core.hyperspaceCount = 0)
    (hlp : s.core.landingPlanet = none) (hz : s.core.zoom = 1)
    (hhull : 0 ≤ s.core.hull) (hH : 0 ≤ s.core.attributes.get "hull")
    (hrep : 0 ≤ s.core.attributes.get "hull repair rate")
    (hdis : (moveClamp (Mass s) (movePresence s.core).2).isDisabled = false)
    (hfull : s.core.fuel = s.core.attributes.get "fuel capacity")
    (hsq : 0 ≤ g.sqrt (s.core.attributes.get "ramscoop"))
    (hforget : s.core.isSpecial = true ∨ s.core.forget + 1 < 1000)
    (hcloak : s.core.commands.cloak = true)
    (hfw : s.core.commands.forward = false) (hbk : s.core.commands.back = false)
    (hab : s.core.commands.afterburner = false) (htn : s.core.commands.turn = 0)
    (hspeed : s.core.attributes.get "cloak" ≠ 0)
    (hcf : s.core.attributes.get "cloaking fuel" ≤ s.core.fuel)
    (hce : s.core.attributes.get "cloaking energy" ≤ 0) :
    (Move g w d s).1 = true
    ∧ (Move g w d s).2.core.fuel = s.core.fuel - s.core.attributes.get "cloaking fuel" := by
  have hp : (movePresence s.core).1 = true := by
    rw [movePresence_ret]
    refine ⟨?_, hcur⟩
    rcases hforget with h | h
    · exact Or.inl h
    · right
      split_ifs <;> linarith
  have hps := movePresence_hyperspaceSystem_none s.core hs
  have hd : IsDestroyed (moveTop g s).1 = false := by
    simp only [IsDestroyed, decide_eq_false_iff_not, not_lt]
    exact moveTop_hull_nonneg g s hhull hH hrep
  have htf := moveTop_fuel_full g s hfull hsq
  have hte := moveTop_energy_nonneg g s hdis
  have htd : (moveTop g s).1.isDisabled = false := by
    simp only [moveTop, moveRegen_isDisabled]
    exact hdis
  have htz : (moveTop g s).1.zoom = 1 := by simp [moveTop, hz]
  have htc : (moveTop g s).1.hyperspaceCount = 0 := by simp [moveTop, hc]
  have hta : (moveTop g s).1.attributes = s.core.attributes := by simp [moveTop]
  have htm : (moveTop g s).1.commands = s.core.commands := by simp [moveTop]
  rw [Move_flight g w d s hp hd hps hc hlp (by rw [hz]; exact lt_irrefl 1)]
  clear hd
  generalize moveTop g s = T at *
  refine ⟨rfl, ?_⟩
  have hcl := flightCloak_cloaking (flightCommands g w (mk T.1 T.2.1 T.2.2))
    (by simp [htm, hcloak]) (by simp [htz]) (by simp [htd]) (by simp [htc])
    (by simp [hta, hspeed]) (by simp [hta, htf, hcf])
    (by simp only [flightCommands_attributes, flightCommands_energy, core_mk, hta]
        exact le_trans hce hte)
  simp only [flightCommands_attributes, flightCommands_fuel, core_mk, hta, htf] at hcl
  obtain ⟨_, s2⟩ := flightSteer_no_commands g (Mass (mk T.1 T.2.1 T.2.2))
    (TurnRate (mk T.1 T.2.1 T.2.2))
    (flightPilot d (flightCloak (flightCommands g w (mk T.1 T.2.1 T.2.2))))
    (by simp [htm, hfw]) (by simp [htm, hbk]) (by simp [htm, hab]) (by simp [htm, htn])
  simp only [core_mk, moveFlight, flightBoard_fuel]
  rw [s2, flightPilot_fuel, hcl]

/-- Past the landing branch: the ship is landed on a planet with a spaceport
(zoom 0), not destroyed, not in hyperspace, and its fuel of 100 equals its
fuel capacity. The 50 calls of the take-off leave the fuel alone; the 51st
call runs the normal flight (lines 668-829), not the landing branch, obeys the
CLOAK command and spends one unit, so the fuel is 99 after it. -/
theorem Move_cloak_after_takeoff :
    refuelledShip.core.zoom = 0
    ∧ refuelledShip.core.landingPlanet = some 2
    ∧ spaceportWorld.planetHasSpaceport 2 = true
    ∧ IsDestroyed refuelledShip.core = false
    ∧ refuelledShip.core.hyperspaceSystem = none
    ∧ refuelledShip.core.hyperspaceCount = 0
    ∧ refuelledShip.core.fuel = refuelledShip.core.attributes.get "fuel capacity"
    ∧ (moveN flatGeometry (fun _ => spaceportWorld) (fun _ => {}) 51 refuelledShip).1 = true
    ∧ (moveN flatGeometry (fun _ => spaceportWorld) (fun _ => {}) 51 refuelledShip).2.core.fuel
        = 99
    ∧ (moveN flatGeometry (fun _ => spaceportWorld) (fun _ => {}) 51 refuelledShip).2.core.fuel
        ≠ refuelledShip.core.fuel := by
  obtain ⟨i1, i2, i3, i4, i5, i6, i7, i8, i9, _, i11, i12, i13, i14, i15, i16⟩ :=
    takeoff_invariant flatGeometry (fun _ => spaceportWorld) (fun _ => {}) refuelledShip
      (by simp [refuelledShip]) (by simp [refuelledShip]) (by simp [refuelledShip])
      (by simp [refuelledShip]) (by simp [refuelledShip]) (by simp [refuelledShip])
      (by simp [refuelledShip]) (by simp [refuelledShip]) (by simp [refuelledShip])
      (le_refl _) (Or.inl (by simp [refuelledShip])) 49 (le_refl _)
  obtain ⟨b1, b2⟩ := i15 (by simp [refuelledShip]) (by simp [refuelledShip])
  have hheat := i16 (by simp [refuelledShip]) (by simp [refuelledShip])
    (by simp [refuelledShip])
  have e51 : moveN flatGeometry (fun _ => spaceportWorld) (fun _ => {}) 51 refuelledShip
      = ((moveN flatGeometry (fun _ => spaceportWorld) (fun _ => {}) 50 refuelledShip).1
          && (Move flatGeometry spaceportWorld {}
              (moveN flatGeometry (fun _ => spaceportWorld) (fun _ => {}) 50
                refuelledShip).2).1,
         (Move flatGeometry spaceportWorld {}
            (moveN flatGeometry (fun _ => spaceportWorld) (fun _ => {}) 50
              refuelledShip).2).2) :=
    moveN_succ flatGeometry (fun _ => spaceportWorld) (fun _ => {}) 50 refuelledShip
  have hf : refuelledShip.core.fuel = 100 := by simp [refuelledShip]
  have hmin : min refuelledShip.core.hull (refuelledShip.core.attributes.get "hull") = 100 := by
    simp [refuelledShip]
  have hH : refuelledShip.core.attributes.get "hull" = 100 := by simp [refuelledShip]
  rw [hmin] at i11
  generalize moveN flatGeometry (fun _ => spaceportWorld) (fun _ => {}) 50 refuelledShip = S
    at *
  have hmass : Mass S.2 = 10 := by
    rw [Mass_eq, b1, b2, i14, i8]
    simp [carriedMass, refuelledShip]
  have hdis : (moveClamp (Mass S.2) (movePresence S.2.core).2).isDisabled = false := by
    apply moveClamp_enabled
    · rw [movePresence_heat, hheat]
    · rw [hmass]
      norm_num
    · simp only [movePresence_attributes, movePresence_hull, MinimumHull, i8, hH]
      rw [min_eq_right i11, max_le_iff]
      exact ⟨by norm_num, le_trans (min_le_left _ _) (by norm_num)⟩
    · rw [movePresence_crew, i13]
      simp [refuelledShip]
  obtain ⟨m1, m2⟩ := Move_flight_cloak flatGeometry spaceportWorld {} S.2
    (by rw [i7]; simp [refuelledShip]) i5 i6 i3 (by rw [i4]; norm_num)
    (le_trans (by norm_num) i11) (by rw [i8]; simp [refuelledShip])
    (by rw [i8]; simp [refuelledShip]) hdis (by rw [i2, i8]; simp [refuelledShip])
    (le_refl _) (Or.inl (by rw [i9]; simp [refuelledShip]))
    (by rw [i12]; simp [refuelledShip]) (by rw [i12]; simp [refuelledShip])
    (by rw [i12]; simp [refuelledShip]) (by rw [i12]; simp [refuelledShip])
    (by rw [i12]; simp [refuelledShip]) (by rw [i8]; simp [refuelledShip])
    (by rw [i2, i8]; simp [refuelledShip]) (by rw [i8]; simp [refuelledShip])
  have h99 : (Move flatGeometry spaceportWorld {} S.2).2.core.fuel = 99 := by
    rw [m2, i2, i8]
    simp [refuelledShip]
    norm_num
  rw [e51]
  dsimp only
  refine ⟨by simp [refuelledShip], by simp [refuelledShip], rfl,
    by simp [IsDestroyed, refuelledShip], by simp [refuelledShip], by simp [refuelledShip],
    by simp [refuelledShip], by rw [i1, m1]; rfl, h99, ?_⟩
  rw [h99, hf]
  norm_num

/-! ## C11: the landing gate -/

/-- `CanLand` spelled out. -/
theorem CanLand_iff (g : Geometry) (w : World) (s : Ship) :
    CanLand g w s = true ↔
      ∃ object, s.core.targetPlanet = some object
        ∧ s.core.isDisabled = false ∧ IsDestroyed s.core = false
        ∧ (∃ p, object.planet = some p ∧ w.planetCanLand p s = true)
        ∧ g.length s.core.velocity < 1
        ∧ g.length (object.position.sub s.core.position) < object.radius := by
  simp only [CanLand]
  cases ht : s.core.targetPlanet with
  | none => simp
  | some object =>
    cases hp : object.planet with
    | none => simp [hp]
    | some p =>
      cases hd : s.core.isDisabled <;> cases hx : IsDestroyed s.core <;> simp [hp]

/-- What normal flight does to the landing planet: it becomes the planet of
the target object when LAND is commanded and `CanLand` holds, and stays as it
is otherwise. -/
theorem moveFlight_landingPlanet (g : Geometry) (w : World) (d : MoveDraws) (s : Ship) :
    (moveFlight g w d s).landingPlanet
      = if s.core.commands.land = true ∧ CanLand g w s = true then
          (match s.core.targetPlanet with
           | some object => object.planet
           | none => none)
        else s.core.landingPlanet := by
  simp only [moveFlight, flightBoard_landingPlanet, flightSteer_landingPlanet,
    flightPilot_landingPlanet, flightCloak_landingPlanet, flightCommands]
  cases hl : s.core.commands.land <;> cases hc : CanLand g w s <;> simp

/-- A destroyed ship cannot land. -/
theorem CanLand_destroyed (g : Geometry) (w : World) (s : Ship)
    (h : IsDestroyed s.core = true) : CanLand g w s = false := by
  cases hc : CanLand g w s with
  | false => rfl
  | true =>
    obtain ⟨_, _, _, h3, _⟩ := (CanLand_iff g w s).mp hc
    rw [h] at h3
    cases h3

/-- C11. `CanLand` is a function of the ship and the world that is true
exactly when a target object is set, the disabled flag is false, the ship is
not destroyed, the target object has a planet whose landing policy accepts the
ship, the speed is below 1 and the distance to the object is below its
radius. The flight code sets the landing planet to the target's planet when
LAND is commanded and `CanLand` holds and leaves it alone otherwise; and a
`Move` call that ends with a landing planet that is neither the one it started
with nor null was a call in normal flight (no landing planet before, zoom not
below 1, jump counter 0) in which LAND was commanded and `CanLand` held for
the ship as it was at line 668. -/
theorem C11_CanLand (g : Geometry) (w : World) (d : MoveDraws) (s : Ship) :
    (CanLand g w s = true ↔
      ∃ object, s.core.targetPlanet = some object
        ∧ s.core.isDisabled = false ∧ IsDestroyed s.core = false
        ∧ (∃ p, object.planet = some p ∧ w.planetCanLand p s = true)
        ∧ g.length s.core.velocity < 1
        ∧ g.length (object.position.sub s.core.position) < object.radius)
    ∧ (moveFlight g w d s).landingPlanet
        = (if s.core.commands.land = true ∧ CanLand g w s = true then
            (match s.core.targetPlanet with
             | some object => object.planet
             | none => none)
          else s.core.landingPlanet)
    ∧ ((Move g w d s).2.core.landingPlanet = s.core.landingPlanet
        ∨ (Move g w d s).2.core.landingPlanet = none
        ∨ (s.core.commands.land = true
            ∧ CanLand g w (mk (moveTop g s).1 (moveTop g s).2.1 (moveTop g s).2.2) = true
            ∧ s.core.landingPlanet = none ∧ ¬ s.core.zoom < 1
            ∧ s.core.hyperspaceCount = 0)) := by
  refine ⟨CanLand_iff g w s, moveFlight_landingPlanet g w d s, ?_⟩
  have htl : (moveTop g s).1.landingPlanet = s.core.landingPlanet := by simp [moveTop]
  have htm : (moveTop g s).1.commands = s.core.commands := by simp [moveTop]
  cases hp : (movePresence s.core).1 with
  | false =>
    left
    rw [Move_forgotten g w d s hp]
    simp
  | true =>
    cases hd : IsDestroyed (moveTop g s).1 with
    | true =>
      left
      rw [Move_destroyed g w d s hp hd]
      generalize moveTop g s = T at *
      cases hq : (moveDestroyed d T.1).1 with
      | some b => simp [htl]
      | none =>
        simp only [core_mk]
        rw [moveFlight_landingPlanet, CanLand_destroyed g w _
          (by simpa [IsDestroyed] using hd)]
        simp [htl]
    | false =>
      by_cases hh : (movePresence s.core).2.hyperspaceSystem ≠ none
          ∨ s.core.hyperspaceCount ≠ 0
      · left
        rw [Move_hyperspace g w d s hp hd hh]
        simp [htl]
      · rw [not_or, not_not, not_not] at hh
        by_cases hl : s.core.landingPlanet ≠ none ∨ s.core.zoom < 1
        · rw [Move_landing g w d s hp hd hh.1 hh.2 hl]
          clear hd
          generalize moveTop g s = T at *
          simp only [core_mk, ← htl]
          simp only [moveLanding]
          cases hlp : T.1.landingPlanet with
          | none => simp
          | some planet =>
            cases ht : T.1.targetPlanet <;> simp <;> split_ifs <;>
              first
              | exact Or.inl hlp
              | simp_all [enterWormhole]
        · rw [not_or, not_not] at hl
          rw [Move_flight g w d s hp hd hh.1 hh.2 hl.1 hl.2]
          simp only [core_mk]
          rw [moveFlight_landingPlanet]
          simp only [core_mk, htm, htl]
          split_ifs with hc
          · right
            right
            exact ⟨hc.1, hc.2, hl.1, hl.2, hh.2⟩
          · left
            rfl

/-- C11 at a ship at rest on top of its target object: with LAND commanded
the flight code sets the landing planet to the target's planet 2, without the
command it leaves the landing planet null. -/
theorem C11_CanLand_witness :
    CanLand stillGeometry {} (landingApproach true) = true
    ∧ (moveFlight stillGeometry {} {} (landingApproach true)).landingPlanet = some 2
    ∧ (moveFlight stillGeometry {} {} (landingApproach false)).landingPlanet = none := by
  have h1 : CanLand stillGeometry {} (landingApproach true) = true := by
    simp [CanLand, landingApproach, stillGeometry, IsDestroyed]
  obtain ⟨_, a, _⟩ := C11_CanLand stillGeometry {} {} (landingApproach true)
  obtain ⟨_, b, _⟩ := C11_CanLand stillGeometry {} {} (landingApproach false)
  refine ⟨h1, ?_, ?_⟩
  · rw [a, if_pos ⟨by simp [landingApproach], h1⟩]
    simp [landingApproach]
  · rw [b, if_neg (by simp [landingApproach])]
    simp [landingApproach]

/-! ## C12: the jump gate -/

/-- C12. `CanHyperspace` is a function of the ship and the world that is true
exactly when `IsDisabled()` is false, a target system is set, the fuel is at
least `"jump fuel"`, the velocity gate passes (with a scram drive the absolute
cross product of the unit direction to the target and the velocity is at most
`"scram drive"`, otherwise the speed is at most `"jump speed"`), and the ship
has a jump drive, or it has a hyperdrive and one turn step of `TurnRate()`,
made to the side that the code picks from the sign of the cross product of
direction and facing, changes that sign. A ship with neither drive cannot
hyperspace. -/
theorem C12_CanHyperspace (g : Geometry) (w : World) (s : Ship) :
    (CanHyperspace g w s = true ↔
      IsDisabled s.core = false
      ∧ s.core.targetSystem ≠ none
      ∧ s.core.attributes.get "jump fuel" ≤ s.core.fuel
      ∧ (if s.core.attributes.get "scram drive" ≠ 0 then
          |g.cross
              (g.unit ((positionOf w s.core.targetSystem).sub
                (positionOf w s.core.currentSystem)))
              s.core.velocity| ≤ s.core.attributes.get "scram drive"
         else g.length s.core.velocity ≤ s.core.attributes.get "jump speed")
      ∧ (s.core.attributes.get "jump drive" ≠ 0
          ∨ (s.core.attributes.get "hyperdrive" ≠ 0
              ∧ decide (g.cross
                    ((positionOf w s.core.targetSystem).sub
                      (positionOf w s.core.currentSystem))
                    (g.angleUnit s.core.angle) < 0)
                ≠ decide (g.cross
                    ((positionOf w s.core.targetSystem).sub
                      (positionOf w s.core.currentSystem))
                    (g.angleUnit (s.core.angle + TurnRate s *
                      (if g.cross
                          ((positionOf w s.core.targetSystem).sub
                            (positionOf w s.core.currentSystem))
                          (g.angleUnit s.core.angle) < 0 then 1 else -1))) < 0))))
    ∧ (s.core.attributes.get "jump drive" = 0 → s.core.attributes.get "hyperdrive" = 0 →
        CanHyperspace g w s = false) := by
  constructor
  · simp only [CanHyperspace]
    cases hd : IsDisabled s.core with
    | true => simp
    | false =>
      cases ht : s.core.targetSystem with
      | none => simp
      | some t =>
        by_cases hf : s.core.fuel < s.core.attributes.get "jump fuel"
        · simp [hf]
        · by_cases hsc : s.core.attributes.get "scram drive" = 0 <;>
            by_cases hj : s.core.attributes.get "jump drive" = 0 <;>
            by_cases hh : s.core.attributes.get "hyperdrive" = 0 <;>
            simp [hf, hsc, hj, hh, not_lt.mp hf]
  · intro hj hh
    simp only [CanHyperspace]
    split_ifs <;> simp_all

/-- C12 at three ships at rest with enough fuel and a target system: the one
with a jump drive can hyperspace, the one with neither drive cannot, and one
without any target system cannot either. -/
theorem C12_CanHyperspace_witness :
    CanHyperspace stillGeometry {} (driveShip 1 0) = true
    ∧ CanHyperspace stillGeometry {} (driveShip 0 0) = false
    ∧ CanHyperspace stillGeometry {} (mk { (driveShip 1 0).core with targetSystem := none }
        [] []) = false := by
  refine ⟨?_, ?_, ?_⟩
  · rw [(C12_CanHyperspace stillGeometry {} (driveShip 1 0)).1]
    simp [driveShip, stillGeometry, IsDisabled, MinimumHull, RequiredCrew, truncInt]
    norm_num
  · exact (C12_CanHyperspace stillGeometry {} (driveShip 0 0)).2 (by simp [driveShip])
      (by simp [driveShip])
  · simp [CanHyperspace]

/-! ## C13, C14: the event bits of a hit -/

theorem ApplyForce_identity (g : Geometry) (m : ℚ) (c : ShipCore) (f : Point) :
    (ApplyForce g m c f).government = c.government
    ∧ (ApplyForce g m c f).personality = c.personality := by
  unfold ApplyForce
  split
  · exact ⟨rfl, rfl⟩
  · dsimp only
    split <;> exact ⟨rfl, rfl⟩

/-- A hit changes neither the government nor the personality of the ship. -/
theorem TakeDamageCore_identity (g : Geometry) (w : World) (m : ℚ) (c : ShipCore)
    (p : Projectile) (b : Bool) :
    (TakeDamageCore g w m c p b).1.government = c.government
    ∧ (TakeDamageCore g w m c p b).1.personality = c.personality := by
  simp only [TakeDamageCore]
  constructor <;> split_ifs <;>
    simp [(ApplyForce_identity _ _ _ _).1, (ApplyForce_identity _ _ _ _).2]

/-- The three bits that `TakeDamage` returns, read off its code. -/
theorem TakeDamageCore_events (g : Geometry) (w : World) (m : ℚ) (c : ShipCore)
    (p : Projectile) (b : Bool) :
    (TakeDamageCore g w m c p b).2
      = ⟨!IsDisabled c && IsDisabled (TakeDamageCore g w m c p b).1,
         !IsDestroyed c && IsDestroyed (TakeDamageCore g w m c p b).1,
         !b
          && (match p.government with
              | some gov => !w.isEnemy gov (TakeDamageCore g w m c p b).1.government
              | none => false)
          && (decide (Shields (TakeDamageCore g w m c p b).1 < 9 / 10)
              || decide (Hull (TakeDamageCore g w m c p b).1 < 9 / 10)
              || !(TakeDamageCore g w m c p b).1.personality.isForbearing)⟩ := by
  rfl

/-- C13. The PROVOKE bit of `TakeDamage` is set exactly when the hit is not a
blast, the projectile has a government, that government is not an enemy of
the ship's government, and, for the ship as the hit leaves it,
`Shields() < 0.9` or `Hull() < 0.9` or the personality is not forbearing. A
forbearing ship whose `Shields()` and `Hull()` are both at least 0.9 after
the hit is not provoked. -/
theorem C13_TakeDamage_provoke (g : Geometry) (w : World) (s : Ship) (p : Projectile)
    (isBlast : Bool) :
    ((TakeDamage g w s p isBlast).2.provoke = true ↔
      isBlast = false
      ∧ (∃ gov, p.government = some gov ∧ w.isEnemy gov s.core.government = false)
      ∧ (Shields (TakeDamage g w s p isBlast).1.core < 9 / 10
          ∨ Hull (TakeDamage g w s p isBlast).1.core < 9 / 10
          ∨ s.core.personality.isForbearing = false))
    ∧ (s.core.personality.isForbearing = true →
        9 / 10 ≤ Shields (TakeDamage g w s p isBlast).1.core →
        9 / 10 ≤ Hull (TakeDamage g w s p isBlast).1.core →
        (TakeDamage g w s p isBlast).2.provoke = false) := by
  obtain ⟨hg, hpers⟩ := TakeDamageCore_identity g w (Mass s) s.core p isBlast
  have hiff : (TakeDamage g w s p isBlast).2.provoke = true ↔
      isBlast = false
      ∧ (∃ gov, p.government = some gov ∧ w.isEnemy gov s.core.government = false)
      ∧ (Shields (TakeDamage g w s p isBlast).1.core < 9 / 10
          ∨ Hull (TakeDamage g w s p isBlast).1.core < 9 / 10
          ∨ s.core.personality.isForbearing = false) := by
    simp only [TakeDamage, core_mk]
    rw [TakeDamageCore_events, hg, hpers]
    generalize (TakeDamageCore g w (Mass s) s.core p isBlast).1 = c
    cases hgov : p.government <;> cases isBlast <;> simp [or_assoc]
  refine ⟨hiff, ?_⟩
  intro hf hs hh
  cases hv : (TakeDamage g w s p isBlast).2.provoke with
  | false => rfl
  | true =>
    obtain ⟨_, _, h3⟩ := hiff.mp hv
    rcases h3 with h | h | h
    · exact absurd h (not_lt.mpr hs)
    · exact absurd h (not_lt.mpr hh)
    · rw [hf] at h
      cases h

/-- C13 at a forbearing ship with shields 100 of 100 and hull 100 of 100:
hit by a projectile of a government that is not its enemy, a shot of 5 shield
damage does not provoke it and a shot of 50 does. -/
theorem C13_TakeDamage_provoke_witness :
    (TakeDamage flatGeometry {} (hitShip 100 100 1 true) (govShot 5 0) false).2.provoke = false
    ∧ (TakeDamage flatGeometry {} (hitShip 100 100 1 true) (govShot 50 0) false).2.provoke
        = true := by
  constructor
  · refine (C13_TakeDamage_provoke flatGeometry {} (hitShip 100 100 1 true) (govShot 5 0)
      false).2 (by simp [hitShip]) ?_ ?_
    · simp [TakeDamage, TakeDamageCore, Shields, hitShip, govShot]
      norm_num
    · simp [TakeDamage, TakeDamageCore, Hull, hitShip, govShot]
      norm_num
  · rw [(C13_TakeDamage_provoke flatGeometry {} (hitShip 100 100 1 true) (govShot 50 0)
      false).1]
    refine ⟨rfl, ⟨2, by simp [govShot], rfl⟩, Or.inl ?_⟩
    simp [TakeDamage, TakeDamageCore, Shields, hitShip, govShot]
    norm_num

/-- C14. The DISABLE bit of `TakeDamage` is set exactly when `IsDisabled()`
was false before the hit and is true after it, and the DESTROY bit exactly
when the hull was at least 0 before the hit and is below 0 after it. A hit on
a ship that is already disabled does not report DISABLE and a hit on a ship
that is already destroyed does not report DESTROY. -/
theorem C14_TakeDamage_transitions (g : Geometry) (w : World) (s : Ship) (p : Projectile)
    (isBlast : Bool) :
    ((TakeDamage g w s p isBlast).2.disable = true ↔
      IsDisabled s.core = false ∧ IsDisabled (TakeDamage g w s p isBlast).1.core = true)
    ∧ ((TakeDamage g w s p isBlast).2.destroy = true ↔
      0 ≤ s.core.hull ∧ (TakeDamage g w s p isBlast).1.core.hull < 0)
    ∧ (IsDisabled s.core = true → (TakeDamage g w s p isBlast).2.disable = false)
    ∧ (s.core.hull < 0 → (TakeDamage g w s p isBlast).2.destroy = false) := by
  simp only [TakeDamage, core_mk]
  rw [TakeDamageCore_events]
  generalize (TakeDamageCore g w (Mass s) s.core p isBlast).1 = c
  simp only [IsDestroyed]
  refine ⟨?_, ?_, ?_, ?_⟩
  · cases IsDisabled s.core <;> simp
  · simp
  · intro h
    simp [h]
  · intro h
    simp [h]

/-- C14 at a ship with no shields and hull 10 of 100 (already disabled): a
shot of 20 hull damage destroys it, reporting DESTROY but not DISABLE; a
second such shot on the destroyed ship reports neither. -/
theorem C14_TakeDamage_transitions_witness :
    (TakeDamage flatGeometry {} (hitShip 0 10 1 false) (govShot 0 20) false).2.destroy = true
    ∧ (TakeDamage flatGeometry {} (hitShip 0 10 1 false) (govShot 0 20) false).2.disable
        = false
    ∧ (TakeDamage flatGeometry {} (hitShip 0 (-10) 1 false) (govShot 0 20) false).2.destroy
        = false := by
  refine ⟨?_, ?_, ?_⟩
  · rw [(C14_TakeDamage_transitions flatGeometry {} (hitShip 0 10 1 false) (govShot 0 20)
      false).2.1]
    simp [TakeDamage, TakeDamageCore, hitShip, govShot]
    norm_num
  · refine (C14_TakeDamage_transitions flatGeometry {} (hitShip 0 10 1 false) (govShot 0 20)
      false).2.2.1 ?_
    simp [IsDisabled, MinimumHull, hitShip]
    norm_num
  · refine (C14_TakeDamage_transitions flatGeometry {} (hitShip 0 (-10) 1 false)
      (govShot 0 20) false).2.2.2 ?_
    simp [hitShip]

/-! ## C15: firing -/

/-- `AddOutfit` leaves the pools alone. -/
theorem AddOutfit_pools (k : Catalogue) (c : ShipCore) (outfit : Option OutfitId)
    (count : Int) :
    (AddOutfit k c outfit count).energy = c.energy
    ∧ (AddOutfit k c outfit count).fuel = c.fuel
    ∧ (AddOutfit k c outfit count).heat = c.heat := by
  cases outfit with
  | none => exact ⟨rfl, rfl, rfl⟩
  | some o =>
    simp only [AddOutfit]
    cases h : c.outfits o <;> split_ifs <;> simp

/-- The count of an installed outfit after `AddOutfit` takes one away. -/
theorem AddOutfit_take_one (k : Catalogue) (c : ShipCore) (a : OutfitId) (n : Int)
    (h : c.outfits a = some n) :
    OutfitCount (AddOutfit k c (some a) (-1)) (some a) = n - 1 := by
  simp only [AddOutfit, OutfitCount, h]
  by_cases h0 : n + -1 = 0
  · simp [h0]
    omega
  · simp [h0]
    omega

/-- C15. `CanFire(outfit)` is true exactly when the outfit is a non-null
weapon, its ammunition outfit, if it has one, is in the `outfits` map with a
count above 0, the energy is at least the firing energy and the fuel at least
the firing fuel. When it is true and the firing costs are not negative,
`ExpendAmmo(outfit)` takes the firing energy and the firing fuel off energy
and fuel, which stay at 0 or above, adds exactly the firing heat to the heat,
and lowers the installed count of the ammunition outfit by exactly 1, to a
value of 0 or more. -/
theorem C15_CanFire_ExpendAmmo (k : Catalogue) (c : ShipCore) (outfit : Option OutfitId) :
    (CanFire k c outfit = true ↔
      ∃ o, outfit = some o ∧ (k.outfit o).isWeapon = true
        ∧ (∀ a, (k.outfit o).ammo = some a → ∃ n, c.outfits a = some n ∧ 0 < n)
        ∧ (k.outfit o).weaponGet "firing energy" ≤ c.energy
        ∧ (k.outfit o).weaponGet "firing fuel" ≤ c.fuel)
    ∧ (∀ o, outfit = some o → CanFire k c outfit = true →
        0 ≤ (k.outfit o).weaponGet "firing energy" →
        0 ≤ (k.outfit o).weaponGet "firing fuel" →
        (ExpendAmmo k c outfit).energy = c.energy - (k.outfit o).weaponGet "firing energy"
        ∧ 0 ≤ (ExpendAmmo k c outfit).energy
        ∧ (ExpendAmmo k c outfit).fuel = c.fuel - (k.outfit o).weaponGet "firing fuel"
        ∧ 0 ≤ (ExpendAmmo k c outfit).fuel
        ∧ (ExpendAmmo k c outfit).heat = c.heat + (k.outfit o).weaponGet "firing heat"
        ∧ (∀ a, (k.outfit o).ammo = some a →
            OutfitCount (ExpendAmmo k c outfit) (some a) = OutfitCount c (some a) - 1
            ∧ 0 ≤ OutfitCount (ExpendAmmo k c outfit) (some a))) := by
  have hiff : CanFire k c outfit = true ↔
      ∃ o, outfit = some o ∧ (k.outfit o).isWeapon = true
        ∧ (∀ a, (k.outfit o).ammo = some a → ∃ n, c.outfits a = some n ∧ 0 < n)
        ∧ (k.outfit o).weaponGet "firing energy" ≤ c.energy
        ∧ (k.outfit o).weaponGet "firing fuel" ≤ c.fuel := by
    cases outfit with
    | none => simp [CanFire]
    | some o =>
      simp only [CanFire]
      cases hw : (k.outfit o).isWeapon with
      | false => simp [hw]
      | true =>
        cases ha : (k.outfit o).ammo with
        | none => simp [hw, ha]
        | some a =>
          cases hn : c.outfits a with
          | none => simp [hw, ha, hn]
          | some n => simp [hw, ha, hn]
  refine ⟨hiff, ?_⟩
  intro o ho hcan he hf
  obtain ⟨o2, ho2, _, hammo, hen, hfu⟩ := hiff.mp hcan
  rw [ho] at ho2
  cases ho2
  subst ho
  have hp := AddOutfit_pools k c (k.outfit o).ammo (-1)
  have e1 : (ExpendAmmo k c (some o)).energy
      = c.energy - (k.outfit o).weaponGet "firing energy" := by
    simp only [ExpendAmmo]
    split_ifs <;> simp [hp.1]
  have e2 : (ExpendAmmo k c (some o)).fuel
      = c.fuel - (k.outfit o).weaponGet "firing fuel" := by
    simp only [ExpendAmmo]
    split_ifs <;> simp [hp.2.1]
  have e3 : (ExpendAmmo k c (some o)).heat
      = c.heat + (k.outfit o).weaponGet "firing heat" := by
    simp only [ExpendAmmo]
    split_ifs <;> simp [hp.2.2]
  refine ⟨e1, by rw [e1]; linarith, e2, by rw [e2]; linarith, e3, ?_⟩
  intro a ha
  obtain ⟨n, hn, hpos⟩ := hammo a ha
  have hc : OutfitCount (ExpendAmmo k c (some o)) (some a) = n - 1 := by
    have := AddOutfit_take_one k c a n hn
    simp only [ExpendAmmo, ha, Option.isSome_some, if_true]
    simpa [OutfitCount] using this
  have h0 : OutfitCount c (some a) = n := by simp [OutfitCount, hn]
  rw [hc, h0]
  exact ⟨rfl, by omega⟩

/-- C15 at a launcher that fires outfit 2 for 3 energy, 1 fuel and 4 heat,
on a ship with energy 10, fuel 5 and one round left: the launcher can fire,
and firing leaves energy 7, fuel 4, heat 4 and no round; without a round it
cannot fire. -/
theorem C15_CanFire_ExpendAmmo_witness :
    CanFire launcherCatalogue (armedShip 1) (some 1) = true
    ∧ (ExpendAmmo launcherCatalogue (armedShip 1) (some 1)).energy = 7
    ∧ (ExpendAmmo launcherCatalogue (armedShip 1) (some 1)).fuel = 4
    ∧ (ExpendAmmo launcherCatalogue (armedShip 1) (some 1)).heat = 4
    ∧ OutfitCount (ExpendAmmo launcherCatalogue (armedShip 1) (some 1)) (some 2) = 0
    ∧ CanFire launcherCatalogue (armedShip 0) (some 1) = false := by
  have hcan : CanFire launcherCatalogue (armedShip 1) (some 1) = true := by
    simp [CanFire, launcherCatalogue, armedShip]
    norm_num
  obtain ⟨e1, _, e2, _, e3, e4⟩ :=
    (C15_CanFire_ExpendAmmo launcherCatalogue (armedShip 1) (some 1)).2 1 rfl hcan
      (by simp [launcherCatalogue]) (by simp [launcherCatalogue])
  obtain ⟨e5, _⟩ := e4 2 (by simp [launcherCatalogue])
  refine ⟨hcan, ?_, ?_, ?_, ?_, ?_⟩
  · rw [e1]
    simp [launcherCatalogue, armedShip]
    norm_num
  · rw [e2]
    simp [launcherCatalogue, armedShip]
    norm_num
  · rw [e3]
    simp [launcherCatalogue, armedShip]
  · rw [e5]
    simp [OutfitCount, armedShip]
  · simp [CanFire, launcherCatalogue, armedShip]

/-! ## C20: the installed counts -/

/-- One `AddOutfit` call that removes no more than is installed keeps every
count in the map above 0. -/
theorem AddOutfit_positive (k : Catalogue) (c : ShipCore) (outfit : Option OutfitId)
    (count : Int) (hinv : ∀ o n, c.outfits o = some n → 0 < n)
    (hcov : 0 ≤ OutfitCount c outfit + count) :
    ∀ o n, (AddOutfit k c outfit count).outfits o = some n → 0 < n := by
  intro x n hx
  cases outfit with
  | none => exact hinv x n hx
  | some o =>
    simp only [AddOutfit] at hx
    by_cases h0 : count = 0
    · simp only [h0, ne_eq, not_true_eq_false, if_false] at hx
      exact hinv x n hx
    · simp only [ne_eq, h0, not_false_eq_true, if_true] at hx
      cases hm : c.outfits o with
      | none =>
        simp only [hm, OutfitCount] at hx hcov
        by_cases hxo : x = o
        · subst hxo
          simp at hx
          omega
        · simp [Function.update, hxo] at hx
          exact hinv x n hx
      | some m =>
        simp only [hm, OutfitCount] at hx hcov
        have hmpos := hinv o m hm
        by_cases hxo : x = o
        · subst hxo
          by_cases hz : m + count = 0
          · simp [hz] at hx
          · simp [hz] at hx
            omega
        · by_cases hz : m + count = 0
          · simp [hz, Function.update, hxo] at hx
            exact hinv x n hx
          · simp [hz, Function.update, hxo] at hx
            exact hinv x n hx

/-- C20, amended. Starting from a ship whose `outfits` map holds only positive
counts, after any sequence of `AddOutfit` calls none of which removes more
than is installed when it is made (`OutfitCount(outfit) + count ≥ 0`), every
entry of the map has a count above 0 and `OutfitCount(o) ≥ 0` for every
outfit `o`. -/
theorem C20_counts_nonneg (k : Catalogue) (calls : List (Option OutfitId × Int))
    (c : ShipCore) (hinv : ∀ o n, c.outfits o = some n → 0 < n)
    (hcov : removalsCovered k c calls = true) :
    (∀ o n, (addOutfits k c calls).outfits o = some n → 0 < n)
    ∧ (∀ o, 0 ≤ OutfitCount (addOutfits k c calls) o) := by
  have main : ∀ o n, (addOutfits k c calls).outfits o = some n → 0 < n := by
    induction calls generalizing c with
    | nil => exact hinv
    | cons call rest ih =>
      simp only [removalsCovered, Bool.and_eq_true, decide_eq_true_eq] at hcov
      exact ih (AddOutfit k c call.1 call.2)
        (AddOutfit_positive k c call.1 call.2 hinv hcov.1) hcov.2
  refine ⟨main, ?_⟩
  intro o
  cases o with
  | none => simp [OutfitCount]
  | some o =>
    cases h : (addOutfits k c calls).outfits o with
    | none => simp [OutfitCount, h]
    | some n =>
      have := main o n h
      simp only [OutfitCount, h]
      omega

/-- C20 at a ship with 2 rounds of outfit 2: adding 3 rounds and then
removing 5 is covered, and leaves no entry and a count of 0. -/
theorem C20_counts_nonneg_witness :
    removalsCovered {} (armedShip 2) [(some 2, 3), (some 2, -5)] = true
    ∧ (∀ o n, (addOutfits {} (armedShip 2) [(some 2, 3), (some 2, -5)]).outfits o = some n →
        0 < n)
    ∧ OutfitCount (addOutfits {} (armedShip 2) [(some 2, 3), (some 2, -5)]) (some 2) = 0 := by
  have hcov : removalsCovered {} (armedShip 2) [(some 2, 3), (some 2, -5)] = true := by
    simp [removalsCovered, AddOutfit, OutfitCount, armedShip]
  have h := C20_counts_nonneg {} [(some 2, 3), (some 2, -5)] (armedShip 2)
    (by
      intro o n hn
      simp only [armedShip] at hn
      split_ifs at hn
      cases hn
      decide)
    hcov
  refine ⟨hcov, h.1, ?_⟩
  simp [addOutfits, AddOutfit, OutfitCount, armedShip]

/-- C20 as stated fails: the ship holds 2 rounds of outfit 2, its only entry,
and one `AddOutfit` call that removes 5 leaves the entry at -3, so
`OutfitCount` is -3. -/
theorem C20_counterexample :
    (∀ o n, (armedShip 2).outfits o = some n → 0 < n)
    ∧ (addOutfits {} (armedShip 2) [(some 2, -5)]).outfits 2 = some (-3)
    ∧ OutfitCount (addOutfits {} (armedShip 2) [(some 2, -5)]) (some 2) = -3
    ∧ ¬ (0 ≤ OutfitCount (addOutfits {} (armedShip 2) [(some 2, -5)]) (some 2)) := by
  have h : (addOutfits {} (armedShip 2) [(some 2, -5)]).outfits 2 = some (-3) := by
    simp [addOutfits, AddOutfit, armedShip]
  refine ⟨?_, h, ?_, ?_⟩
  · intro o n hn
    simp only [armedShip] at hn
    split_ifs at hn
    cases hn
    decide
  · simp [OutfitCount, h]
  · simp [OutfitCount, h]

/-! ## C16: the overheat flag -/

/-- After a `Move` call that got past the early return, the overheat flag is
the one computed at lines 430-434: no later part of the call writes it. -/
theorem Move_isOverheated (g : Geometry) (w : World) (d : MoveDraws) (s : Ship)
    (hp : (movePresence s.core).1 = true) :
    (Move g w d s).2.core.isOverheated
      = (moveClamp (Mass s) (movePresence s.core).2).isOverheated := by
  have hto : (moveTop g s).1.isOverheated
      = (moveClamp (Mass s) (movePresence s.core).2).isOverheated := by simp [moveTop]
  cases hd : IsDestroyed (moveTop g s).1 with
  | true =>
    rw [Move_destroyed g w d s hp hd]
    clear hd
    generalize moveTop g s = T at *
    cases hq : (moveDestroyed d T.1).1 with
    | some b => simp [hto]
    | none => simp [hto]
  | false =>
    by_cases hh : (movePresence s.core).2.hyperspaceSystem ≠ none
        ∨ s.core.hyperspaceCount ≠ 0
    · rw [Move_hyperspace g w d s hp hd hh]
      simp [hto]
    · rw [not_or, not_not, not_not] at hh
      by_cases hl : s.core.landingPlanet ≠ none ∨ s.core.zoom < 1
      · rw [Move_landing g w d s hp hd hh.1 hh.2 hl]
        simp [hto]
      · rw [not_or, not_not] at hl
        rw [Move_flight g w d s hp hd hh.1 hh.2 hl.1 hl.2]
        simp [hto]

/-- C16. In a `Move` call that gets past the early return (the ship has a
current system and is special or forgotten for fewer than 1000 ticks), with
`h` the heat multiplied by the dissipation factor and `M` the mass, the
overheat flag after the call is true if `h > 100 M`, else false if
`h < 90 M`, else what it was before the call. For a mass that is not negative
these are the three cases of the claim: true above `100 M`, false below
`90 M`, unchanged from `90 M` to `100 M`. -/
theorem C16_overheat (g : Geometry) (w : World) (d : MoveDraws) (s : Ship)
    (hcur : s.core.currentSystem ≠ none)
    (hforget : s.core.isSpecial = true
      ∨ s.core.forget + (if s.core.isInSystem then 0 else 1) < 1000) :
    (Move g w d s).2.core.isOverheated
        = (if s.core.heat * s.core.heatDissipation > Mass s * 100 then true
           else if s.core.heat * s.core.heatDissipation < Mass s * 90 then false
           else s.core.isOverheated)
    ∧ (s.core.heat * s.core.heatDissipation > 100 * Mass s →
        (Move g w d s).2.core.isOverheated = true)
    ∧ (0 ≤ Mass s → s.core.heat * s.core.heatDissipation < 90 * Mass s →
        (Move g w d s).2.core.isOverheated = false)
    ∧ (90 * Mass s ≤ s.core.heat * s.core.heatDissipation →
        s.core.heat * s.core.heatDissipation ≤ 100 * Mass s →
        (Move g w d s).2.core.isOverheated = s.core.isOverheated) := by
  have hp : (movePresence s.core).1 = true := (movePresence_ret s.core).mpr ⟨hforget, hcur⟩
  have e : (Move g w d s).2.core.isOverheated
        = (if s.core.heat * s.core.heatDissipation > Mass s * 100 then true
           else if s.core.heat * s.core.heatDissipation < Mass s * 90 then false
           else s.core.isOverheated) := by
    rw [Move_isOverheated g w d s hp, (moveClamp_flags _ _).1]
    simp
  refine ⟨e, ?_, ?_, ?_⟩
  · intro h
    rw [e, if_pos (by linarith)]
  · intro hm h
    rw [e, if_neg (by linarith), if_pos (by linarith)]
  · intro h1 h2
    rw [e, if_neg (by linarith), if_neg (by linarith)]

/-- C16 at ships of mass 10 with heat dissipation factor 0.999: heat 2000
sets the flag, heat 0 clears it, and heat 950 (949.05 after dissipation,
between 900 and 1000) leaves it as it was, set or not. -/
theorem C16_overheat_witness :
    (Move flatGeometry {} {} (hotShip 2000 false)).2.core.isOverheated = true
    ∧ (Move flatGeometry {} {} (hotShip 0 true)).2.core.isOverheated = false
    ∧ (Move flatGeometry {} {} (hotShip 950 true)).2.core.isOverheated = true
    ∧ (Move flatGeometry {} {} (hotShip 950 false)).2.core.isOverheated = false := by
  have hm : ∀ h b, Mass (hotShip h b) = 10 := by
    intro h b
    simp [Mass_eq, carriedMass, hotShip]
  refine ⟨?_, ?_, ?_, ?_⟩
  · rw [(C16_overheat flatGeometry {} {} (hotShip 2000 false) (by simp [hotShip])
      (Or.inr (by simp [hotShip]))).1, hm]
    simp [hotShip]
    norm_num
  · rw [(C16_overheat flatGeometry {} {} (hotShip 0 true) (by simp [hotShip])
      (Or.inr (by simp [hotShip]))).1, hm]
    simp [hotShip]
  · rw [(C16_overheat flatGeometry {} {} (hotShip 950 true) (by simp [hotShip])
      (Or.inr (by simp [hotShip]))).1, hm]
    simp [hotShip]
    norm_num
  · rw [(C16_overheat flatGeometry {} {} (hotShip 950 false) (by simp [hotShip])
      (Or.inr (by simp [hotShip]))).1, hm]
    simp [hotShip]
    norm_num

/-! ## C17: the forget counter -/

/-- C17. `Move` first adds 1 to the forget counter exactly when the ship is
not marked as in-system, a mark that `Fire` sets (resetting the counter) and
that `Move` clears when it goes on. The early return at line 418 is taken
exactly when the ship has no current system or is not special with the
counter, as just updated, at 1000 or more; `Move` then returns false and
changes nothing but the counter: the pools, position, velocity and bays are
as before. A special ship with a current system never takes this return. -/
theorem C17_presence (g : Geometry) (w : World) (d : MoveDraws) (s : Ship) :
    (movePresence s.core).2.forget = s.core.forget + (if s.core.isInSystem then 0 else 1)
    ∧ ((movePresence s.core).1 = false ↔
        (s.core.currentSystem = none
          ∨ (s.core.isSpecial = false
              ∧ 1000 ≤ s.core.forget + (if s.core.isInSystem then 0 else 1))))
    ∧ ((movePresence s.core).1 = false →
        Move g w d s
          = (false,
              mk { s.core with
                    forget := s.core.forget + (if s.core.isInSystem then 0 else 1) }
                s.fighterBays s.droneBays))
    ∧ (s.core.isSpecial = true → s.core.currentSystem ≠ none →
        (movePresence s.core).1 = true)
    ∧ ((movePresence s.core).1 = true → (movePresence s.core).2.isInSystem = false)
    ∧ (movePresence (firePresence s.core)).2.forget = 0 := by
  have hiff : (movePresence s.core).1 = false ↔
        (s.core.currentSystem = none
          ∨ (s.core.isSpecial = false
              ∧ 1000 ≤ s.core.forget + (if s.core.isInSystem then 0 else 1))) := by
    rw [← Bool.not_eq_true, movePresence_ret]
    constructor
    · intro h
      by_cases hc : s.core.currentSystem = none
      · exact Or.inl hc
      · right
        cases hs : s.core.isSpecial with
        | true => exact absurd ⟨Or.inl hs, hc⟩ h
        | false =>
          refine ⟨rfl, ?_⟩
          by_contra hlt
          exact h ⟨Or.inr (not_le.mp hlt), hc⟩
    · rintro (hc | ⟨hs, hf⟩) ⟨h1, h2⟩
      · exact h2 hc
      · rcases h1 with h1 | h1
        · rw [hs] at h1
          cases h1
        · exact absurd hf (not_le.mpr h1)
  refine ⟨movePresence_forget s.core, hiff, ?_, ?_, ?_, ?_⟩
  · intro h
    rw [Move_forgotten g w d s h]
    have h2 : (movePresence s.core).2
        = { s.core with forget := s.core.forget + (if s.core.isInSystem then 0 else 1) } := by
      have h3 := h
      simp only [movePresence] at h3 ⊢
      split_ifs at h3 ⊢ <;> rfl
    rw [h2]
  · intro hs hc
    exact (movePresence_ret s.core).mpr ⟨Or.inl hs, hc⟩
  · intro h
    exact movePresence_isInSystem s.core h
  · simp [movePresence, firePresence]

/-- C17 at ships that were not marked as in-system: a ship that is not
special with counter 999 takes the early return, the counter going to 1000
and energy and fuel staying as they are; a special ship with counter 5000 does
not take it. -/
theorem C17_presence_witness :
    (Move flatGeometry {} {} (strayShip 999 false)).1 = false
    ∧ (Move flatGeometry {} {} (strayShip 999 false)).2.core.forget = 1000
    ∧ (Move flatGeometry {} {} (strayShip 999 false)).2.core.energy = 3
    ∧ (Move flatGeometry {} {} (strayShip 999 false)).2.core.fuel = 4
    ∧ (movePresence (strayShip 5000 true).core).1 = true := by
  obtain ⟨_, hiff, hm, hsp, _⟩ := C17_presence flatGeometry {} {} (strayShip 999 false)
  have h0 : (movePresence (strayShip 999 false).core).1 = false :=
    hiff.mpr (Or.inr ⟨by simp [strayShip], by simp [strayShip]⟩)
  rw [hm h0]
  refine ⟨rfl, by simp [strayShip], by simp [strayShip], by simp [strayShip], ?_⟩
  exact (C17_presence flatGeometry {} {} (strayShip 5000 true)).2.2.2.1
    (by simp [strayShip]) (by simp [strayShip])

/-! ## C18: the death sequence -/

theorem movePresence_more (c : ShipCore) :
    (movePresence c).2.explosionCount = c.explosionCount
    ∧ (movePresence c).2.explosionTotal = c.explosionTotal
    ∧ (movePresence c).2.targetPlanet = c.targetPlanet
    ∧ (movePresence c).2.personality = c.personality := by
  simp [movePresence]

theorem moveClamp_more (mass : ℚ) (c : ShipCore) :
    (moveClamp mass c).explosionCount = c.explosionCount
    ∧ (moveClamp mass c).explosionTotal = c.explosionTotal
    ∧ (moveClamp mass c).targetPlanet = c.targetPlanet
    ∧ (moveClamp mass c).personality = c.personality := by
  simp [moveClamp]

theorem moveRegen_more (g : Geometry) (c : ShipCore) (fb db : List (Bay Ship)) :
    (moveRegen g c fb db).1.explosionCount = c.explosionCount
    ∧ (moveRegen g c fb db).1.explosionTotal = c.explosionTotal
    ∧ (moveRegen g c fb db).1.targetPlanet = c.targetPlanet
    ∧ (moveRegen g c fb db).1.personality = c.personality := by
  cases ho : c.isOverheated <;> cases hd : c.isDisabled <;>
    simp [moveRegen, ho, hd, TransferFuel]

/-- The top of `Move` leaves the explosion counters, the target object and the
personality alone. -/
theorem moveTop_more (g : Geometry) (s : Ship) :
    (moveTop g s).1.explosionCount = s.core.explosionCount
    ∧ (moveTop g s).1.explosionTotal = s.core.explosionTotal
    ∧ (moveTop g s).1.targetPlanet = s.core.targetPlanet
    ∧ (moveTop g s).1.personality = s.core.personality := by
  obtain ⟨a1, a2, a3, a4⟩ := movePresence_more s.core
  obtain ⟨b1, b2, b3, b4⟩ := moveClamp_more (Mass s) (movePresence s.core).2
  obtain ⟨c1, c2, c3, c4⟩ := moveRegen_more g (moveClamp (Mass s) (movePresence s.core).2)
    s.fighterBays s.droneBays
  simp only [moveTop]
  exact ⟨by rw [c1, b1, a1], by rw [c2, b2, a2], by rw [c3, b3, a3], by rw [c4, b4, a4]⟩

/-- The hull after the repair of the tick is at most the hull before it plus
the repair rate, where that is positive. -/
theorem moveTop_hull_le (g : Geometry) (s : Ship) :
    (moveTop g s).1.hull
      ≤ s.core.hull + max 0 (s.core.attributes.get "hull repair rate") := by
  obtain ⟨_, _, _, p4⟩ := moveClamp_pools (Mass s) (movePresence s.core).2
  simp only [movePresence_attributes, movePresence_hull] at p4
  have h1 := min_le_left s.core.hull (s.core.attributes.get "hull")
  have h2 := le_max_left 0 (s.core.attributes.get "hull repair rate")
  have h3 := le_max_right 0 (s.core.attributes.get "hull repair rate")
  simp only [moveTop, moveRegen_hull, p4, moveClamp_attributes, movePresence_attributes]
  split_ifs <;> linarith

/-- The death sequence (lines 512-531): it ends the call with false exactly
when the explosion count equals the total or the forget counter is not 0, and
then energy, heat and fuel are 0; otherwise the call goes on. -/
theorem moveDestroyed_spec (d : MoveDraws) (c : ShipCore) :
    ((moveDestroyed d c).1 = some false ↔
      (c.explosionCount = c.explosionTotal ∨ c.forget ≠ 0))
    ∧ ((moveDestroyed d c).1 ≠ some false → (moveDestroyed d c).1 = none)
    ∧ ((moveDestroyed d c).1 = some false →
        (moveDestroyed d c).2.energy = 0 ∧ (moveDestroyed d c).2.heat = 0
        ∧ (moveDestroyed d c).2.fuel = 0) := by
  simp only [moveDestroyed]
  split_ifs with h <;> simp [h]

/-- The value of a `Move` call on a ship that is destroyed at line 512. -/
theorem Move_destroyed_ret (g : Geometry) (w : World) (d : MoveDraws) (s : Ship)
    (hp : (movePresence s.core).1 = true) (hd : IsDestroyed (moveTop g s).1 = true) :
    ((Move g w d s).1 = false ↔ (moveDestroyed d (moveTop g s).1).1 = some false)
    ∧ ((Move g w d s).1 = false →
        (Move g w d s).2.core = (moveDestroyed d (moveTop g s).1).2) := by
  obtain ⟨_, h2, _⟩ := moveDestroyed_spec d (moveTop g s).1
  rw [Move_destroyed g w d s hp hd]
  clear hd
  generalize moveTop g s = T at *
  cases hq : (moveDestroyed d T.1).1 with
  | none => simp
  | some b =>
    cases b with
    | false => simp
    | true =>
      have := h2 (by rw [hq]; simp)
      rw [hq] at this
      cases this

/-- C18, amended. For a ship with a current system whose hull is below 0 and
stays below 0 after the hull repair of the tick (hull plus the positive part
of `"hull repair rate"` is below 0), `Move` returns false exactly when the
explosion count equals the explosion total or the forget counter, as updated
at the top of the call, is not 0, and true otherwise. When it returns false in
the death sequence (the ship is special or its counter is below 1000), energy,
heat and fuel are 0 after the call, the hull is still below 0, and the shields
are what the top of the call left: the death sequence does not write them. -/
theorem C18_death_sequence (g : Geometry) (w : World) (d : MoveDraws) (s : Ship)
    (hcur : s.core.currentSystem ≠ none)
    (hdead : s.core.hull + max 0 (s.core.attributes.get "hull repair rate") < 0) :
    ((Move g w d s).1 = false ↔
      (s.core.explosionCount = s.core.explosionTotal
        ∨ s.core.forget + (if s.core.isInSystem then 0 else 1) ≠ 0))
    ∧ ((s.core.isSpecial = true
          ∨ s.core.forget + (if s.core.isInSystem then 0 else 1) < 1000) →
        (Move g w d s).1 = false →
        (Move g w d s).2.core.energy = 0 ∧ (Move g w d s).2.core.heat = 0
        ∧ (Move g w d s).2.core.fuel = 0 ∧ (Move g w d s).2.core.hull < 0
        ∧ (Move g w d s).2.core.shields = (moveTop g s).1.shields) := by
  have hd : IsDestroyed (moveTop g s).1 = true := by
    simp only [IsDestroyed, decide_eq_true_eq]
    exact lt_of_le_of_lt (moveTop_hull_le g s) hdead
  have hneg : (moveTop g s).1.hull < 0 := lt_of_le_of_lt (moveTop_hull_le g s) hdead
  obtain ⟨m1, m2, _, _⟩ := moveTop_more g s
  have hf : (moveTop g s).1.forget = s.core.forget + (if s.core.isInSystem then 0 else 1) := by
    simp only [moveTop, moveRegen_forget, moveClamp_forget, movePresence_forget]
  obtain ⟨q1, _, q3⟩ := moveDestroyed_spec d (moveTop g s).1
  rw [m1, m2, hf] at q1
  constructor
  · cases hp : (movePresence s.core).1 with
    | false =>
      rw [Move_forgotten g w d s hp]
      have hn := (movePresence_ret s.core).not.mp (by rw [hp]; simp)
      simp only [true_iff]
      right
      intro h0
      exact hn ⟨Or.inr (by rw [h0]; norm_num), hcur⟩
    | true =>
      rw [(Move_destroyed_ret g w d s hp hd).1]
      exact q1
  · intro hforget hret
    have hp : (movePresence s.core).1 = true := (movePresence_ret s.core).mpr ⟨hforget, hcur⟩
    obtain ⟨r1, r2⟩ := Move_destroyed_ret g w d s hp hd
    obtain ⟨e1, e2, e3⟩ := q3 (r1.mp hret)
    rw [r2 hret]
    refine ⟨e1, e2, e3, ?_, ?_⟩
    · rw [moveDestroyed_hull]
      exact hneg
    · rw [moveDestroyed_shields]

/-- C18 at a destroyed ship in the player's system with energy 7, fuel 3 and
heat 2: with 2 of 5 explosions placed `Move` returns true, with 5 of 5 it
returns false and leaves energy, heat and fuel at 0. -/
theorem C18_death_sequence_witness :
    (Move flatGeometry {} {} (wreck 0 2 5)).1 = true
    ∧ (Move flatGeometry {} {} (wreck 0 5 5)).1 = false
    ∧ (Move flatGeometry {} {} (wreck 0 5 5)).2.core.energy = 0
    ∧ (Move flatGeometry {} {} (wreck 0 5 5)).2.core.heat = 0
    ∧ (Move flatGeometry {} {} (wreck 0 5 5)).2.core.fuel = 0 := by
  obtain ⟨a1, _⟩ := C18_death_sequence flatGeometry {} {} (wreck 0 2 5)
    (by simp [wreck]) (by simp [wreck])
  obtain ⟨b1, b2⟩ := C18_death_sequence flatGeometry {} {} (wreck 0 5 5)
    (by simp [wreck]) (by simp [wreck])
  have hb : (Move flatGeometry {} {} (wreck 0 5 5)).1 = false :=
    b1.mpr (Or.inl (by simp [wreck]))
  obtain ⟨e1, e2, e3, _⟩ := b2 (Or.inr (by simp [wreck])) hb
  refine ⟨?_, hb, e1, e2, e3⟩
  cases h : (Move flatGeometry {} {} (wreck 0 2 5)).1 with
  | true => rfl
  | false =>
    have := a1.mp h
    simp [wreck] at this

/-- C18 as stated fails: the ship is destroyed (hull -10), has a current
system, is in view, and has placed all 5 of its 5 explosions; `Move` returns
false, the final deletion, and the shields are 5 after the call, as before it,
not 0. -/
theorem C18_counterexample :
    (wreck 5 5 5).core.hull < 0
    ∧ (wreck 5 5 5).core.currentSystem = some 0
    ∧ (wreck 5 5 5).core.explosionCount = (wreck 5 5 5).core.explosionTotal
    ∧ (wreck 5 5 5).core.shields = 5
    ∧ (Move flatGeometry {} {} (wreck 5 5 5)).1 = false
    ∧ (Move flatGeometry {} {} (wreck 5 5 5)).2.core.energy = 0
    ∧ (Move flatGeometry {} {} (wreck 5 5 5)).2.core.shields = 5
    ∧ (Move flatGeometry {} {} (wreck 5 5 5)).2.core.shields ≠ 0 := by
  have hp : (movePresence (wreck 5 5 5).core).1 = true :=
    (movePresence_ret _).mpr ⟨Or.inr (by simp [wreck]), by simp [wreck]⟩
  have hd : IsDestroyed (moveTop flatGeometry (wreck 5 5 5)).1 = true := by
    simp only [IsDestroyed, decide_eq_true_eq]
    exact lt_of_le_of_lt (moveTop_hull_le flatGeometry (wreck 5 5 5)) (by simp [wreck])
  obtain ⟨m1, m2, _, _⟩ := moveTop_more flatGeometry (wreck 5 5 5)
  obtain ⟨q1, _, q3⟩ := moveDestroyed_spec {} (moveTop flatGeometry (wreck 5 5 5)).1
  obtain ⟨r1, r2⟩ := Move_destroyed_ret flatGeometry {} {} (wreck 5 5 5) hp hd
  have hfalse : (moveDestroyed {} (moveTop flatGeometry (wreck 5 5 5)).1).1 = some false :=
    q1.mpr (Or.inl (by rw [m1, m2]; simp [wreck]))
  have hret := r1.mpr hfalse
  have hdis : (moveClamp (Mass (wreck 5 5 5)) (movePresence (wreck 5 5 5).core).2).isDisabled
      = true := by
    simp [moveClamp, movePresence, wreck, IsDisabled, MinimumHull]
    norm_num
  have hsh : (moveTop flatGeometry (wreck 5 5 5)).1.shields = 5 := by
    simp only [moveTop]
    rw [(moveRegen_of_disabled _ _ _ _ hdis).2.2.1, (moveClamp_pools _ _).2.2.1]
    simp [wreck]
    norm_num
  have h5 : (Move flatGeometry {} {} (wreck 5 5 5)).2.core.shields = 5 := by
    rw [r2 hret, moveDestroyed_shields, hsh]
  refine ⟨by simp [wreck], by simp [wreck], by simp [wreck], by simp [wreck], hret, ?_, h5,
    ?_⟩
  · rw [r2 hret]
    exact (q3 hfalse).1
  · rw [h5]
    norm_num

/-! ## C19: the end of a landing -/

/-- Going through a wormhole: the system becomes the destination and the
landing planet and the target object are cleared. -/
theorem enterWormhole_travel (w : World) (planet : PlanetId) (c : ShipCore) :
    (enterWormhole w planet c).currentSystem = w.wormholeDestination planet c.currentSystem
    ∧ (enterWormhole w planet c).landingPlanet = none
    ∧ (enterWormhole w planet c).targetPlanet = none := by
  have key : ∀ (l : List StellarObject) (k : ShipCore),
      (l.foldl (fun c object => if object.planet = some planet
          then { c with position := object.position } else c) k).currentSystem
        = k.currentSystem := by
    intro l
    induction l with
    | nil => intro k; rfl
    | cons o l ih =>
      intro k
      simp only [List.foldl_cons]
      rw [ih]
      split_ifs <;> rfl
  simp only [enterWormhole]
  exact ⟨key _ _, trivial, trivial⟩

/-- One tick of the landing branch for a ship that is still shrinking
(landing planet set, zoom not 0). -/
theorem moveLanding_descend (w : World) (c : ShipCore) (p : PlanetId)
    (hl : c.landingPlanet = some p) (hz : c.zoom ≠ 0) :
    (2 / 100 ≤ c.zoom →
      (moveLanding w c).1 = true ∧ (moveLanding w c).2.zoom = c.zoom - 2 / 100
      ∧ (moveLanding w c).2.landingPlanet = some p
      ∧ (moveLanding w c).2.currentSystem = c.currentSystem)
    ∧ (c.zoom < 2 / 100 → w.planetIsWormhole p = true →
      (moveLanding w c).1 = true
      ∧ (moveLanding w c).2.currentSystem = w.wormholeDestination p c.currentSystem
      ∧ (moveLanding w c).2.landingPlanet = none
      ∧ (moveLanding w c).2.targetPlanet = none
      ∧ (moveLanding w c).2.zoom = 0)
    ∧ (c.zoom < 2 / 100 → w.planetIsWormhole p = false →
      (c.isSpecial = false ∨ c.personality.isFleeing = true) →
      (moveLanding w c).1 = false)
    ∧ (c.zoom < 2 / 100 → w.planetIsWormhole p = false →
      c.isSpecial = true → c.personality.isFleeing = false →
      (moveLanding w c).1 = true ∧ (moveLanding w c).2.zoom = 0
      ∧ (moveLanding w c).2.landingPlanet = some p
      ∧ (moveLanding w c).2.currentSystem = c.currentSystem) := by
  refine ⟨?_, ?_, ?_, ?_⟩
  · intro h
    have h2 : ¬ c.zoom - 2 / 100 < 0 := by linarith
    cases ht : c.targetPlanet <;> simp [moveLanding, hl, hz, ht, h2]
  · intro h hw
    have h2 : c.zoom - 2 / 100 < 0 := by linarith
    cases ht : c.targetPlanet <;>
      simp [moveLanding, hl, hz, ht, h2, hw, (enterWormhole_travel w p _).1,
        (enterWormhole_travel w p _).2.1, (enterWormhole_travel w p _).2.2]
  · intro h hw hs
    have h2 : c.zoom - 2 / 100 < 0 := by linarith
    cases ht : c.targetPlanet <;> rcases hs with hs | hs <;>
      simp [moveLanding, hl, hz, ht, h2, hw, hs]
  · intro h hw hs hf
    have h2 : c.zoom - 2 / 100 < 0 := by linarith
    cases ht : c.targetPlanet <;> simp [moveLanding, hl, hz, ht, h2, hw, hs, hf]

/-- The hypotheses under which `Move` runs the landing branch for a ship that
is landing. -/
theorem Move_landing_eq (g : Geometry) (w : World) (d : MoveDraws) (s : Ship) (p : PlanetId)
    (hcur : s.core.currentSystem ≠ none)
    (hs : s.core.hyperspaceSystem = none) (hc : s.core.hyperspaceCount = 0)
    (hlp : s.core.landingPlanet = some p)
    (hhull : 0 ≤ s.core.hull) (hH : 0 ≤ s.core.attributes.get "hull")
    (hrep : 0 ≤ s.core.attributes.get "hull repair rate")
    (hforget : s.core.isSpecial = true
      ∨ s.core.forget + (if s.core.isInSystem then 0 else 1) < 1000) :
    Move g w d s
      = ((moveLanding w (moveTop g s).1).1,
          mk (moveLanding w (moveTop g s).1).2 (moveTop g s).2.1 (moveTop g s).2.2) := by
  have hp : (movePresence s.core).1 = true := (movePresence_ret s.core).mpr ⟨hforget, hcur⟩
  have hd : IsDestroyed (moveTop g s).1 = false := by
    simp only [IsDestroyed, decide_eq_false_iff_not, not_lt]
    exact moveTop_hull_nonneg g s hhull hH hrep
  exact Move_landing g w d s hp hd (movePresence_hyperspaceSystem_none s.core hs) hc
    (Or.inl (by rw [hlp]; simp))

/-- C19, amended. For a landing ship (landing planet set, zoom above 0, a
current system, no jump in progress, hull and the `"hull"` and `"hull repair
rate"` attributes not negative, special or forgotten for fewer than 1000
ticks): a `Move` call with zoom at least 0.02 returns true and lowers zoom by
0.02, still landing. A call with zoom below 0.02, which takes zoom below 0:
on a wormhole it returns true, the current system becomes the wormhole's
destination, and the landing planet and the target object are cleared, with
zoom 0; otherwise it returns false for every ship that is not special or whose
personality is fleeing, and for every special ship that is not fleeing it
returns true with zoom exactly 0 and the landing planet kept, so that the ship
idles and refuels. -/
theorem C19_landing_outcome (g : Geometry) (w : World) (d : MoveDraws) (s : Ship)
    (p : PlanetId)
    (hcur : s.core.currentSystem ≠ none)
    (hs : s.core.hyperspaceSystem = none) (hc : s.core.hyperspaceCount = 0)
    (hlp : s.core.landingPlanet = some p) (hz : 0 < s.core.zoom)
    (hhull : 0 ≤ s.core.hull) (hH : 0 ≤ s.core.attributes.get "hull")
    (hrep : 0 ≤ s.core.attributes.get "hull repair rate")
    (hforget : s.core.isSpecial = true
      ∨ s.core.forget + (if s.core.isInSystem then 0 else 1) < 1000) :
    (2 / 100 ≤ s.core.zoom →
      (Move g w d s).1 = true ∧ (Move g w d s).2.core.zoom = s.core.zoom - 2 / 100
      ∧ (Move g w d s).2.core.landingPlanet = some p
      ∧ (Move g w d s).2.core.currentSystem = s.core.currentSystem)
    ∧ (s.core.zoom < 2 / 100 → w.planetIsWormhole p = true →
      (Move g w d s).1 = true
      ∧ (Move g w d s).2.core.currentSystem = w.wormholeDestination p s.core.currentSystem
      ∧ (Move g w d s).2.core.landingPlanet = none
      ∧ (Move g w d s).2.core.targetPlanet = none
      ∧ (Move g w d s).2.core.zoom = 0)
    ∧ (s.core.zoom < 2 / 100 → w.planetIsWormhole p = false →
      (s.core.isSpecial = false ∨ s.core.personality.isFleeing = true) →
      (Move g w d s).1 = false)
    ∧ (s.core.zoom < 2 / 100 → w.planetIsWormhole p = false →
      s.core.isSpecial = true → s.core.personality.isFleeing = false →
      (Move g w d s).1 = true ∧ (Move g w d s).2.core.zoom = 0
      ∧ (Move g w d s).2.core.landingPlanet = some p
      ∧ (Move g w d s).2.core.currentSystem = s.core.currentSystem) := by
  have htl : (moveTop g s).1.landingPlanet = some p := by simp [moveTop, hlp]
  have htz : (moveTop g s).1.zoom = s.core.zoom := by simp [moveTop]
  have htcur : (moveTop g s).1.currentSystem = s.core.currentSystem := by simp [moveTop]
  have hti : (moveTop g s).1.isSpecial = s.core.isSpecial := by simp [moveTop]
  obtain ⟨_, _, _, htp⟩ := moveTop_more g s
  rw [Move_landing_eq g w d s p hcur hs hc hlp hhull hH hrep hforget]
  generalize moveTop g s = T at *
  obtain ⟨a, b, c, e⟩ := moveLanding_descend w T.1 p htl (by rw [htz]; exact ne_of_gt hz)
  rw [htz, htcur] at a b e
  rw [htz, hti, htp] at c
  rw [hti, htp] at e
  simp only [core_mk]
  exact ⟨a, b, c, e⟩

/-- C19 at ships landing on planet 2 from system 0: at zoom 1/2 the call
returns true and leaves zoom 12/25; at zoom 1/100 a ship that is not special
is deleted, a special one idles at zoom 0, and through a wormhole the ship
arrives in system 9. -/
theorem C19_landing_outcome_witness :
    (Move flatGeometry {} {} (descendingShip (1 / 2) false false)).1 = true
    ∧ (Move flatGeometry {} {} (descendingShip (1 / 2) false false)).2.core.zoom = 12 / 25
    ∧ (Move flatGeometry {} {} (descendingShip (1 / 100) false false)).1 = false
    ∧ (Move flatGeometry {} {} (descendingShip (1 / 100) true false)).1 = true
    ∧ (Move flatGeometry {} {} (descendingShip (1 / 100) true false)).2.core.zoom = 0
    ∧ (Move flatGeometry wormholeWorld {}
        (descendingShip (1 / 100) false false)).2.core.currentSystem = some 9 := by
  obtain ⟨a, _, _, _⟩ := C19_landing_outcome flatGeometry {} {}
    (descendingShip (1 / 2) false false) 2 (by simp [descendingShip])
    (by simp [descendingShip]) (by simp [descendingShip]) (by simp [descendingShip])
    (by simp [descendingShip]) (by simp [descendingShip]) (by simp [descendingShip])
    (by simp [descendingShip]) (Or.inr (by simp [descendingShip]))
  obtain ⟨_, _, b, _⟩ := C19_landing_outcome flatGeometry {} {}
    (descendingShip (1 / 100) false false) 2 (by simp [descendingShip])
    (by simp [descendingShip]) (by simp [descendingShip]) (by simp [descendingShip])
    (by simp [descendingShip]) (by simp [descendingShip]) (by simp [descendingShip])
    (by simp [descendingShip]) (Or.inr (by simp [descendingShip]))
  obtain ⟨_, _, _, c⟩ := C19_landing_outcome flatGeometry {} {}
    (descendingShip (1 / 100) true false) 2 (by simp [descendingShip])
    (by simp [descendingShip]) (by simp [descendingShip]) (by simp [descendingShip])
    (by simp [descendingShip]) (by simp [descendingShip]) (by simp [descendingShip])
    (by simp [descendingShip]) (Or.inr (by simp [descendingShip]))
  obtain ⟨_, e, _, _⟩ := C19_landing_outcome flatGeometry wormholeWorld {}
    (descendingShip (1 / 100) false false) 2 (by simp [descendingShip])
    (by simp [descendingShip]) (by simp [descendingShip]) (by simp [descendingShip])
    (by simp [descendingShip]) (by simp [descendingShip]) (by simp [descendingShip])
    (by simp [descendingShip]) (Or.inr (by simp [descendingShip]))
  obtain ⟨a1, a2, _⟩ := a (by simp [descendingShip]; norm_num)
  have hb := b (by simp [descendingShip]; norm_num) rfl (Or.inl (by simp [descendingShip]))
  obtain ⟨c1, c2, _⟩ := c (by simp [descendingShip]; norm_num) rfl (by simp [descendingShip])
    (by simp [descendingShip])
  obtain ⟨_, e2, _⟩ := e (by simp [descendingShip]; norm_num) (by simp [wormholeWorld])
  refine ⟨a1, ?_, hb, c1, c2, ?_⟩
  · rw [a2]
    simp [descendingShip]
    norm_num
  · rw [e2]
    simp [wormholeWorld]

/-- C19 as stated fails: the ship is special, landing on planet 2 (not a
wormhole) at zoom 1/100, not destroyed and not in hyperspace, and its
personality is fleeing. The call that takes zoom below 0 returns false: the
ship is deleted, where the claim has every special ship idle at zoom 0. -/
theorem C19_counterexample :
    (descendingShip (1 / 100) true true).core.isSpecial = true
    ∧ (descendingShip (1 / 100) true true).core.landingPlanet = some 2
    ∧ 0 < (descendingShip (1 / 100) true true).core.zoom
    ∧ IsDestroyed (descendingShip (1 / 100) true true).core = false
    ∧ (descendingShip (1 / 100) true true).core.hyperspaceSystem = none
    ∧ (descendingShip (1 / 100) true true).core.hyperspaceCount = 0
    ∧ ({} : World).planetIsWormhole 2 = false
    ∧ (Move flatGeometry {} {} (descendingShip (1 / 100) true true)).1 = false := by
  have htl : (moveTop flatGeometry (descendingShip (1 / 100) true true)).1.landingPlanet
      = some 2 := by simp [moveTop, descendingShip]
  have htz : (moveTop flatGeometry (descendingShip (1 / 100) true true)).1.zoom = 1 / 100 := by
    simp [moveTop, descendingShip]
  obtain ⟨_, _, _, htp⟩ := moveTop_more flatGeometry (descendingShip (1 / 100) true true)
  have heq := Move_landing_eq flatGeometry {} {} (descendingShip (1 / 100) true true) 2
    (by simp [descendingShip]) (by simp [descendingShip]) (by simp [descendingShip])
    (by simp [descendingShip]) (by simp [descendingShip]) (by simp [descendingShip])
    (by simp [descendingShip]) (Or.inl (by simp [descendingShip]))
  obtain ⟨_, _, c, _⟩ := moveLanding_descend {}
    (moveTop flatGeometry (descendingShip (1 / 100) true true)).1 2 htl
    (by rw [htz]; norm_num)
  have hret := c (by rw [htz]; norm_num) rfl (Or.inr (by rw [htp]; simp [descendingShip]))
  refine ⟨by simp [descendingShip], by simp [descendingShip],
    by simp [descendingShip], by simp [IsDestroyed, descendingShip],
    by simp [descendingShip], by simp [descendingShip], rfl, ?_⟩
  rw [heq]
  exact hret

/-! ## C21: the bookkeeping of `AddOutfit` -/

/-- The map after `AddOutfit` on a non-null outfit with a non-zero count. -/
theorem AddOutfit_outfits (k : Catalogue) (c : ShipCore) (o : OutfitId) (n : Int)
    (hn : n ≠ 0) :
    (AddOutfit k c (some o) n).outfits
      = Function.update c.outfits o
          (match c.outfits o with
           | none => some n
           | some m => if m + n = 0 then none else some (m + n)) := by
  simp only [AddOutfit, ne_eq, hn, not_false_eq_true, if_true]
  cases h : c.outfits o with
  | none => rfl
  | some m =>
    by_cases hz : m + n = 0
    · simp [hz]
    · simp [hz]

theorem AddOutfit_null (k : Catalogue) (c : ShipCore) (n : Int) :
    AddOutfit k c none n = c := rfl

theorem AddOutfit_zero (k : Catalogue) (c : ShipCore) (outfit : Option OutfitId) :
    AddOutfit k c outfit 0 = c := by
  cases outfit with
  | none => rfl
  | some o => simp [AddOutfit]

/-- The count of the outfit that `AddOutfit` is called with goes up by the
count passed. -/
theorem AddOutfit_count (k : Catalogue) (c : ShipCore) (o : OutfitId) (n : Int) :
    OutfitCount (AddOutfit k c (some o) n) (some o) = OutfitCount c (some o) + n := by
  by_cases hn : n = 0
  · rw [hn, AddOutfit_zero]
    simp
  · simp only [OutfitCount, AddOutfit_outfits k c o n hn, Function.update_same]
    cases h : c.outfits o with
    | none => simp
    | some m =>
      by_cases hz : m + n = 0
      · simp [hz]
      · simp [hz]

/-- The entries of the other outfits are not touched. -/
theorem AddOutfit_other (k : Catalogue) (c : ShipCore) (outfit : Option OutfitId) (n : Int)
    (x : OutfitId) (hx : outfit ≠ some x) :
    (AddOutfit k c outfit n).outfits x = c.outfits x := by
  cases outfit with
  | none => rfl
  | some o =>
    by_cases hn : n = 0
    · rw [hn, AddOutfit_zero]
    · rw [AddOutfit_outfits k c o n hn, Function.update_noteq]
      intro h
      exact hx (by rw [h])

/-- C21, amended. For every outfit `o` and count `n`: `OutfitCount(o)` after
`AddOutfit(o, n)` is `OutfitCount(o)` before plus `n`, and the entries of all
other outfits are unchanged; if the map had no entry with count 0 before the
call it has none after it; with a null outfit or `n = 0` the call changes
nothing; and `AddOutfit(o, n)` followed by `AddOutfit(o, -n)` restores the
count of every outfit, and restores the map itself when the map did not hold
an entry with count 0 for `o`. -/
theorem C21_AddOutfit_bookkeeping (k : Catalogue) (c : ShipCore) (o : OutfitId) (n : Int) :
    OutfitCount (AddOutfit k c (some o) n) (some o) = OutfitCount c (some o) + n
    ∧ (∀ x, x ≠ o → (AddOutfit k c (some o) n).outfits x = c.outfits x)
    ∧ ((∀ x, c.outfits x ≠ some 0) → ∀ x, (AddOutfit k c (some o) n).outfits x ≠ some 0)
    ∧ AddOutfit k c none n = c
    ∧ AddOutfit k c (some o) 0 = c
    ∧ (∀ x, OutfitCount (AddOutfit k (AddOutfit k c (some o) n) (some o) (-n)) x
        = OutfitCount c x)
    ∧ (c.outfits o ≠ some 0 →
        (AddOutfit k (AddOutfit k c (some o) n) (some o) (-n)).outfits = c.outfits) := by
  have hother : ∀ x, x ≠ o → (AddOutfit k c (some o) n).outfits x = c.outfits x := by
    intro x hx
    exact AddOutfit_other k c (some o) n x (by simp [Ne.symm hx])
  have hback : ∀ x, x ≠ o →
      (AddOutfit k (AddOutfit k c (some o) n) (some o) (-n)).outfits x = c.outfits x := by
    intro x hx
    rw [AddOutfit_other k _ (some o) (-n) x (by simp [Ne.symm hx]), hother x hx]
  have hcount : OutfitCount (AddOutfit k (AddOutfit k c (some o) n) (some o) (-n)) (some o)
      = OutfitCount c (some o) := by
    rw [AddOutfit_count, AddOutfit_count]
    ring
  refine ⟨AddOutfit_count k c o n, hother, ?_, rfl, AddOutfit_zero k c (some o), ?_, ?_⟩
  · intro h0 x
    by_cases hx : x = o
    · subst hx
      by_cases hn : n = 0
      · rw [hn, AddOutfit_zero]
        exact h0 x
      · rw [AddOutfit_outfits k c x n hn, Function.update_same]
        cases h : c.outfits x with
        | none => simpa using hn
        | some m =>
          by_cases hz : m + n = 0
          · simp [hz]
          · simp [hz]
    · rw [hother x hx]
      exact h0 x
  · intro x
    cases x with
    | none => rfl
    | some x =>
      by_cases hx : x = o
      · subst hx
        exact hcount
      · simp only [OutfitCount, hback x hx]
  · intro h0
    funext x
    by_cases hx : x = o
    · subst hx
      by_cases hn : n = 0
      · rw [hn]
        simp [AddOutfit_zero]
      · have hn2 : -n ≠ 0 := by omega
        rw [AddOutfit_outfits k _ x (-n) hn2, Function.update_same,
          AddOutfit_outfits k c x n hn, Function.update_same]
        cases h : c.outfits x with
        | none => simp
        | some m =>
          have hm : m ≠ 0 := by
            intro hm
            rw [hm] at h
            exact h0 h
          by_cases hz : m + n = 0
          · have : -n = m := by omega
            simp [hz, this]
          · simp [hz, hm]
    · exact hback x hx

/-- C21 at a ship with 2 rounds of outfit 2: adding 3 gives a count of 5 and
leaves outfit 7 without entry, and taking the 3 away again restores the
map. -/
theorem C21_AddOutfit_bookkeeping_witness :
    OutfitCount (AddOutfit {} (armedShip 2) (some 2) 3) (some 2) = 5
    ∧ (AddOutfit {} (armedShip 2) (some 2) 3).outfits 7 = none
    ∧ (AddOutfit {} (AddOutfit {} (armedShip 2) (some 2) 3) (some 2) (-3)).outfits
        = (armedShip 2).outfits := by
  obtain ⟨h1, h2, _, _, _, _, h7⟩ := C21_AddOutfit_bookkeeping {} (armedShip 2) 2 3
  refine ⟨?_, ?_, h7 (by simp [armedShip])⟩
  · rw [h1]
    simp [OutfitCount, armedShip]
  · rw [h2 7 (by decide)]
    simp [armedShip]

/-- C21 as stated fails: the map holds an entry with count 0 for outfit 2;
`AddOutfit(2, 1)` raises it to 1 and `AddOutfit(2, -1)` then erases the entry,
so the map after the two calls has no entry for outfit 2 and is not the
original map. -/
theorem C21_counterexample :
    strippedShip.outfits 2 = some 0
    ∧ (AddOutfit {} strippedShip (some 2) 1).outfits 2 = some 1
    ∧ (AddOutfit {} (AddOutfit {} strippedShip (some 2) 1) (some 2) (-1)).outfits 2 = none
    ∧ (AddOutfit {} (AddOutfit {} strippedShip (some 2) 1) (some 2) (-1)).outfits
        ≠ strippedShip.outfits := by
  have h1 : (AddOutfit {} strippedShip (some 2) 1).outfits 2 = some 1 := by
    simp [AddOutfit, strippedShip]
  have h2 : (AddOutfit {} (AddOutfit {} strippedShip (some 2) 1) (some 2) (-1)).outfits 2
      = none := by
    rw [AddOutfit_outfits _ _ _ _ (by decide), Function.update_same, h1]
    simp
  refine ⟨by simp [strippedShip], h1, h2, ?_⟩
  intro h
  have h3 := congrFun h 2
  rw [h2] at h3
  simp [strippedShip] at h3

/-! ## C23: the gauges -/

/-- A quotient capped at 1 is not negative when numerator and denominator are
not. -/
theorem min_one_div_nonneg (a b : ℚ) (ha : 0 ≤ a) (hb : 0 ≤ b) : 0 ≤ min 1 (a / b) :=
  le_min zero_le_one (div_nonneg ha hb)

/-- What the gauges do give: each of `Shields()`, `Hull()`, `Fuel()`,
`Energy()` and `Heat()` is at most 1 for every ship state, a zero capacity
included; it is at least 0 when the pool it reads and its capacity (for
`Heat()` the mass) are not negative. -/
theorem gauges_bounds (s : Ship) :
    (Shields s.core ≤ 1 ∧ Hull s.core ≤ 1 ∧ Fuel s.core ≤ 1 ∧ Energy s.core ≤ 1 ∧ Heat s ≤ 1)
    ∧ (0 ≤ s.core.shields → 0 ≤ s.core.attributes.get "shields" → 0 ≤ Shields s.core)
    ∧ (0 ≤ s.core.hull → 0 ≤ s.core.attributes.get "hull" → 0 ≤ Hull s.core)
    ∧ (0 ≤ s.core.fuel → 0 ≤ s.core.attributes.get "fuel capacity" → 0 ≤ Fuel s.core)
    ∧ (0 ≤ s.core.energy → 0 ≤ s.core.attributes.get "energy capacity" → 0 ≤ Energy s.core)
    ∧ (0 ≤ s.core.heat → 0 ≤ Mass s → 0 ≤ Heat s) := by
  refine ⟨⟨?_, ?_, ?_, ?_, ?_⟩, ?_, ?_, ?_, ?_, ?_⟩
  · simp only [Shields]
    split_ifs
    · exact min_le_left _ _
    · exact zero_le_one
  · simp only [Hull]
    split_ifs
    · exact min_le_left _ _
    · exact le_refl _
  · simp only [Fuel]
    split_ifs
    · exact min_le_left _ _
    · exact zero_le_one
  · simp only [Energy]
    split_ifs
    · exact min_le_left _ _
    · exact le_refl _
    · exact zero_le_one
  · simp only [Heat]
    split_ifs
    · exact min_le_left _ _
    · exact le_refl _
  · intro h1 h2
    simp only [Shields]
    split_ifs
    · exact min_one_div_nonneg _ _ h1 h2
    · exact le_refl _
  · intro h1 h2
    simp only [Hull]
    split_ifs
    · exact min_one_div_nonneg _ _ h1 h2
    · exact zero_le_one
  · intro h1 h2
    simp only [Fuel]
    split_ifs
    · exact min_one_div_nonneg _ _ h1 h2
    · exact le_refl _
  · intro h1 h2
    simp only [Energy]
    split_ifs
    · exact min_one_div_nonneg _ _ h1 h2
    · exact zero_le_one
    · exact le_refl _
  · intro h1 h2
    simp only [Heat]
    split_ifs
    · exact min_one_div_nonneg _ _ h1 (mul_nonneg h2 (by norm_num))
    · exact zero_le_one

/-- The gauges of a ship with shields 150 of 100 and hull 100 of 100:
`Shields()` is capped at 1 and `Hull()` is 1. -/
theorem gauges_bounds_capped :
    Shields (hitShip 150 100 1 false).core = 1 ∧ Hull (hitShip 150 100 1 false).core = 1
    ∧ 0 ≤ Shields (hitShip 150 100 1 false).core := by
  obtain ⟨_, h, _⟩ := gauges_bounds (hitShip 150 100 1 false)
  refine ⟨?_, ?_, h (by simp [hitShip]) (by simp [hitShip])⟩
  · simp [Shields, hitShip]
    norm_num
  · simp [Hull, hitShip]

/-- C23, the failing input. The comment at line 1250 of the source announces
each gauge as a fraction between 0 and 1, as the claim does. For the destroyed
ship with hull -10 of 100, `Hull()` is `min(1., hull / maximum)` = -1/10,
below 0: the accessor caps the quotient at 1 and has no lower clamp. -/
theorem C23_destroyed_hull_failing_input :
    (wreck 0 0 0).core.hull = -10
    ∧ (wreck 0 0 0).core.attributes.get "hull" = 100
    ∧ IsDestroyed (wreck 0 0 0).core = true
    ∧ Hull (wreck 0 0 0).core = -1 / 10
    ∧ ¬ (0 ≤ Hull (wreck 0 0 0).core ∧ Hull (wreck 0 0 0).core ≤ 1) := by
  have h : Hull (wreck 0 0 0).core = -1 / 10 := by
    simp [Hull, wreck]
    norm_num
  refine ⟨by simp [wreck], by simp [wreck], by simp [IsDestroyed, wreck], h, ?_⟩
  rw [h]
  norm_num

/-! ## C26: the heat retention factor -/

theorem roundDouble_zero : roundDouble 0 = 0 := by
  simp [roundDouble]

theorem log_two_eq (x : ℚ) (e : ℤ) (h1 : (2 : ℚ) ^ e ≤ x) (h2 : x < (2 : ℚ) ^ (e + 1)) :
    Int.log 2 x = e := by
  have hx : 0 < x := lt_of_lt_of_le (by positivity) h1
  have a : e ≤ Int.log 2 x := by
    rw [← Int.zpow_le_iff_le_log (by norm_num) hx]
    exact_mod_cast h1
  have b : Int.log 2 x < e + 1 := by
    rw [← Int.lt_zpow_iff_log_lt (by norm_num) hx]
    exact_mod_cast h2
  omega

/-- Between 1/2 and 1 the rounding is to the nearest multiple of 2^-53. -/
theorem roundDouble_half_to_one (x : ℚ) (h1 : 1 / 2 ≤ x) (h2 : x < 1) :
    roundDouble x = (round (x * 2 ^ 53) : ℚ) / 2 ^ 53 := by
  have hx : 0 < x := by linarith
  have hl : Int.log 2 |x| = -1 := by
    rw [abs_of_pos hx]
    apply log_two_eq
    · norm_num
      linarith
    · norm_num
      exact h2
  have hq : (2 : ℚ) ^ ((-1 : ℤ) - 52) = 1 / 2 ^ 53 := by
    norm_num [zpow_neg]
  simp only [roundDouble, hl, if_neg (ne_of_gt hx), hq]
  rw [div_div_eq_mul_div, div_one, mul_one_div]

/-- Between 1 and 2 the rounding is to the nearest multiple of 2^-52. -/
theorem roundDouble_one_to_two (x : ℚ) (h1 : 1 ≤ x) (h2 : x < 2) :
    roundDouble x = (round (x * 2 ^ 52) : ℚ) / 2 ^ 52 := by
  have hx : 0 < x := by linarith
  have hl : Int.log 2 |x| = 0 := by
    rw [abs_of_pos hx]
    apply log_two_eq
    · norm_num
      exact h1
    · norm_num
      exact h2
  have hq : (2 : ℚ) ^ ((0 : ℤ) - 52) = 1 / 2 ^ 52 := by
    norm_num [zpow_neg]
  simp only [roundDouble, hl, if_neg (ne_of_gt hx), hq]
  rw [div_div_eq_mul_div, div_one, mul_one_div]

/-- The relative error of the rounding is at most 2^-53. -/
theorem roundDouble_error (x : ℚ) : |roundDouble x - x| ≤ |x| / 2 ^ 53 := by
  by_cases hx : x = 0
  · simp [roundDouble, hx]
  have hpos : 0 < |x| := abs_pos.mpr hx
  have hle : (2 : ℚ) ^ Int.log 2 |x| ≤ |x| := by
    have := Int.zpow_log_le_self (b := 2) (by norm_num) hpos
    exact_mod_cast this
  have hq : (0 : ℚ) < 2 ^ (Int.log 2 |x| - 52) := by positivity
  have hqe : (2 : ℚ) ^ (Int.log 2 |x| - 52) = 2 ^ Int.log 2 |x| / 2 ^ 52 := by
    rw [zpow_sub₀ (by norm_num)]
    norm_num
  simp only [roundDouble, if_neg hx]
  generalize (2 : ℚ) ^ (Int.log 2 |x| - 52) = q at hq hqe
  have hr := abs_sub_round (x / q)
  have e : (round (x / q) : ℚ) * q - x = -((x / q - round (x / q)) * q) := by
    field_simp
    ring
  rw [e, abs_neg, abs_mul, abs_of_pos hq]
  have : |x / q - (round (x / q) : ℚ)| * q ≤ 1 / 2 * q :=
    mul_le_mul_of_nonneg_right hr (le_of_lt hq)
  have h3 : 1 / 2 * q ≤ |x| / 2 ^ 53 := by
    rw [hqe]
    have : (1 : ℚ) / 2 * (2 ^ Int.log 2 |x| / 2 ^ 52) = 2 ^ Int.log 2 |x| / 2 ^ 53 := by
      norm_num
      ring
    rw [this]
    exact div_le_div_of_nonneg_right hle (by positivity)
  linarith

/-- A subtraction from 1 of more than 2^-54 rounds to less than 1. -/
theorem roundDouble_one_sub_lt (p : ℚ) (h : 1 / 2 ^ 54 < p) : roundDouble (1 - p) < 1 := by
  by_cases h1 : 1 / 2 ≤ 1 - p
  · rw [roundDouble_half_to_one (1 - p) h1 (by linarith [show (0 : ℚ) < 1 / 2 ^ 54 by positivity]),
      div_lt_one (by positivity)]
    have hr : round ((1 - p) * 2 ^ 53) < (2 ^ 53 : ℤ) := by
      rw [round_eq, Int.floor_lt]
      push_cast
      linarith
    have : ((round ((1 - p) * 2 ^ 53) : ℤ) : ℚ) < ((2 ^ 53 : ℤ) : ℚ) := by exact_mod_cast hr
    simpa using this
  · have he := roundDouble_error (1 - p)
    have h2 := (abs_le.mp he).2
    have h3 : |1 - p| / 2 ^ 53 ≤ |1 - p| := div_le_self (abs_nonneg _) (by norm_num)
    by_cases h4 : 0 ≤ 1 - p
    · rw [abs_of_nonneg h4] at h2 h3
      have : (1 - p) / 2 ^ 53 ≤ 1 / 2 / 2 ^ 53 :=
        div_le_div_of_nonneg_right (by linarith) (by positivity)
      have : (1 : ℚ) / 2 / 2 ^ 53 < 1 / 2 := by norm_num
      linarith
    · rw [abs_of_neg (by linarith)] at h2 h3
      linarith

/-- An addition to 1 of more than 2^-53 rounds to more than 1. -/
theorem roundDouble_one_add_gt (q : ℚ) (h : 1 / 2 ^ 53 < q) : 1 < roundDouble (1 + q) := by
  have hq : 0 < q := lt_trans (by positivity) h
  by_cases h1 : 1 + q < 2
  · rw [roundDouble_one_to_two (1 + q) (by linarith) h1, lt_div_iff₀ (by positivity)]
    have hr : (2 ^ 52 + 1 : ℤ) ≤ round ((1 + q) * 2 ^ 52) := by
      rw [round_eq, Int.le_floor]
      push_cast
      linarith
    have : ((2 ^ 52 + 1 : ℤ) : ℚ) ≤ ((round ((1 + q) * 2 ^ 52) : ℤ) : ℚ) := by exact_mod_cast hr
    push_cast at this
    linarith
  · have he := roundDouble_error (1 + q)
    have h2 := (abs_le.mp he).1
    rw [abs_of_pos (by linarith)] at h2
    have : (1 + q) / 2 ^ 53 ≤ (1 + q) / 2 := by
      apply div_le_div_of_nonneg_left (by linarith) (by norm_num) (by norm_num)
    linarith

/-- A subtraction from 1 of less than 2^-54 rounds to 1. -/
theorem roundDouble_one_sub_eq (p : ℚ) (h0 : 0 ≤ p) (h : p < 1 / 2 ^ 54) :
    roundDouble (1 - p) = 1 := by
  by_cases hp : p = 0
  · rw [hp, sub_zero, roundDouble_one_to_two 1 (le_refl _) (by norm_num)]
    have : ((1 : ℚ) * 2 ^ 52) = (((2 : ℤ) ^ 52 : ℤ) : ℚ) := by norm_num
    rw [this, round_intCast]
    norm_num
  · have hpos : 0 < p := lt_of_le_of_ne h0 (Ne.symm hp)
    have h54 : (1 : ℚ) / 2 ^ 54 < 1 / 2 := by norm_num
    rw [roundDouble_half_to_one (1 - p) (by linarith) (by linarith)]
    have : round ((1 - p) * 2 ^ 53) = (2 ^ 53 : ℤ) := by
      rw [round_eq, Int.floor_eq_iff]
      have : p * 2 ^ 53 < 1 / 2 := by
        have := mul_lt_mul_of_pos_right h (show (0 : ℚ) < 2 ^ 53 by positivity)
        norm_num at this ⊢
        linarith
      have : 0 < p * 2 ^ 53 := by positivity
      push_cast
      constructor <;> linarith
    rw [this]
    norm_num

/-- The rounding keeps the sign and at least half of a positive value. -/
theorem roundDouble_pos_bounds (x : ℚ) (hx : 0 < x) :
    x * (1 - 1 / 2 ^ 53) ≤ roundDouble x ∧ roundDouble x ≤ x * (1 + 1 / 2 ^ 53) := by
  have he := abs_le.mp (roundDouble_error x)
  rw [abs_of_pos hx] at he
  constructor
  · linarith [he.1]
  · linarith [he.2]

theorem roundDouble_neg_bounds (x : ℚ) (hx : x < 0) :
    x * (1 + 1 / 2 ^ 53) ≤ roundDouble x ∧ roundDouble x ≤ x * (1 - 1 / 2 ^ 53) := by
  have he := abs_le.mp (roundDouble_error x)
  rw [abs_of_neg hx] at he
  constructor
  · linarith [he.1]
  · linarith [he.2]

/-- The rounded product `.001 * s` for `s` of at least 2^-44 exceeds 2^-54. -/
theorem rounded_product_large (s : ℚ) (h : 1 / 2 ^ 44 ≤ s) :
    1 / 2 ^ 54 < roundDouble (roundDouble (1 / 1000) * s) := by
  have hs : 0 < s := lt_of_lt_of_le (by positivity) h
  have a := (roundDouble_pos_bounds (1 / 1000) (by norm_num)).1
  have ha : 0 < roundDouble (1 / 1000) := lt_of_lt_of_le (by norm_num) a
  have b := (roundDouble_pos_bounds (roundDouble (1 / 1000) * s) (mul_pos ha hs)).1
  have c : 1 / 1000 * (1 - 1 / 2 ^ 53) * (1 / 2 ^ 44) ≤ roundDouble (1 / 1000) * s :=
    mul_le_mul a h (by positivity) (le_of_lt ha)
  have d : 1 / 1000 * (1 - 1 / 2 ^ 53) * (1 / 2 ^ 44) * (1 - 1 / 2 ^ 53)
      ≤ roundDouble (1 / 1000) * s * (1 - 1 / 2 ^ 53) :=
    mul_le_mul_of_nonneg_right c (by norm_num)
  have e : (1 : ℚ) / 2 ^ 54 < 1 / 1000 * (1 - 1 / 2 ^ 53) * (1 / 2 ^ 44) * (1 - 1 / 2 ^ 53) := by
    norm_num
  linarith

/-- The rounded product `.001 * s` for `s` of at most -2^-43 is below -2^-53. -/
theorem rounded_product_small (s : ℚ) (h : s ≤ -(1 / 2 ^ 43)) :
    roundDouble (roundDouble (1 / 1000) * s) < -(1 / 2 ^ 53) := by
  have hs : s < 0 := lt_of_le_of_lt h (by norm_num)
  have a := (roundDouble_pos_bounds (1 / 1000) (by norm_num)).1
  have ha : 0 < roundDouble (1 / 1000) := lt_of_lt_of_le (by norm_num) a
  have b := (roundDouble_neg_bounds (roundDouble (1 / 1000) * s)
    (mul_neg_of_pos_of_neg ha hs)).2
  have c : roundDouble (1 / 1000) * s ≤ 1 / 1000 * (1 - 1 / 2 ^ 53) * -(1 / 2 ^ 43) := by
    have : 1 / 1000 * (1 - 1 / 2 ^ 53) * (1 / 2 ^ 43) ≤ roundDouble (1 / 1000) * (-s) :=
      mul_le_mul a (by linarith) (by positivity) (le_of_lt ha)
    linarith
  have d : roundDouble (1 / 1000) * s * (1 - 1 / 2 ^ 53)
      ≤ 1 / 1000 * (1 - 1 / 2 ^ 53) * -(1 / 2 ^ 43) * (1 - 1 / 2 ^ 53) :=
    mul_le_mul_of_nonneg_right c (by norm_num)
  have e : 1 / 1000 * (1 - 1 / 2 ^ 53) * -(1 / 2 ^ 43) * (1 - 1 / 2 ^ 53)
      < -((1 : ℚ) / 2 ^ 53) := by
    norm_num
  linarith

/-- The rounded product `.001 * s` for a positive `s` of at most 2^-45 is
positive and below 2^-54. -/
theorem rounded_product_tiny (s : ℚ) (h0 : 0 < s) (h : s ≤ 1 / 2 ^ 45) :
    0 < roundDouble (roundDouble (1 / 1000) * s)
    ∧ roundDouble (roundDouble (1 / 1000) * s) < 1 / 2 ^ 54 := by
  obtain ⟨a1, a2⟩ := roundDouble_pos_bounds (1 / 1000) (by norm_num)
  have ha : 0 < roundDouble (1 / 1000) := lt_of_lt_of_le (by norm_num) a1
  obtain ⟨b1, b2⟩ := roundDouble_pos_bounds (roundDouble (1 / 1000) * s) (mul_pos ha h0)
  constructor
  · exact lt_of_lt_of_le (mul_pos (mul_pos ha h0) (by norm_num)) b1
  · have c : roundDouble (1 / 1000) * s ≤ 1 / 1000 * (1 + 1 / 2 ^ 53) * (1 / 2 ^ 45) :=
      mul_le_mul a2 h (le_of_lt h0) (by norm_num)
    have d : roundDouble (1 / 1000) * s * (1 + 1 / 2 ^ 53)
        ≤ 1 / 1000 * (1 + 1 / 2 ^ 53) * (1 / 2 ^ 45) * (1 + 1 / 2 ^ 53) :=
      mul_le_mul_of_nonneg_right c (by norm_num)
    have e : 1 / 1000 * (1 + 1 / 2 ^ 53) * (1 / 2 ^ 45) * (1 + 1 / 2 ^ 53)
        < (1 : ℚ) / 2 ^ 54 := by
      norm_num
    linarith

/-- The factor that `double` arithmetic gives for a base stat of 0, the literal
`.999`, is below 1. -/
theorem roundDouble_literal_lt_one : roundDouble (999 / 1000) < 1 := by
  have h := roundDouble_one_sub_lt (1 / 1000) (by norm_num)
  have e : (1 : ℚ) - 1 / 1000 = 999 / 1000 := by norm_num
  rw [e] at h
  exact h

/-- In `double` arithmetic the factor is not 1 when the base stat is 0, at
least 2^-44 or at most -2^-43. -/
theorem loadHeatDissipationRounded_ne_one (c : ShipCore)
    (h : c.baseAttributes.get "heat dissipation" = 0
      ∨ 1 / 2 ^ 44 ≤ c.baseAttributes.get "heat dissipation"
      ∨ c.baseAttributes.get "heat dissipation" ≤ -(1 / 2 ^ 43)) :
    (loadHeatDissipationRounded c).heatDissipation ≠ 1 := by
  rcases h with h | h | h
  · simp only [loadHeatDissipationRounded, h, if_true]
    exact ne_of_lt roundDouble_literal_lt_one
  · have hne : c.baseAttributes.get "heat dissipation" ≠ 0 :=
      ne_of_gt (lt_of_lt_of_le (by positivity) h)
    simp only [loadHeatDissipationRounded, hne, if_false]
    exact ne_of_lt (roundDouble_one_sub_lt _ (rounded_product_large _ h))
  · have hne : c.baseAttributes.get "heat dissipation" ≠ 0 :=
      ne_of_lt (lt_of_le_of_lt h (by norm_num))
    simp only [loadHeatDissipationRounded, hne, if_false]
    have hp := rounded_product_small _ h
    have hg := roundDouble_one_add_gt
      (-roundDouble (roundDouble (1 / 1000) * c.baseAttributes.get "heat dissipation"))
      (by linarith)
    rw [← sub_eq_add_neg] at hg
    exact ne_of_gt hg

/-- In `double` arithmetic the factor is exactly 1 for a positive base stat of
at most 2^-45: the difference `1. - .001 * s` rounds to 1. -/
theorem loadHeatDissipationRounded_eq_one (c : ShipCore)
    (h0 : 0 < c.baseAttributes.get "heat dissipation")
    (h : c.baseAttributes.get "heat dissipation" ≤ 1 / 2 ^ 45) :
    (loadHeatDissipationRounded c).heatDissipation = 1 := by
  obtain ⟨p0, p1⟩ := rounded_product_tiny _ h0 h
  simp only [loadHeatDissipationRounded, ne_of_gt h0, if_false]
  exact roundDouble_one_sub_eq _ (le_of_lt p0) p1

/-- The heat that `Recharge` sets is the excess of heat generation over
cooling divided by `1 - heatDissipation`, whatever set the factor. -/
theorem Recharge_heat (c : ShipCore) (atSpaceport : Bool) (hd : IsDestroyed c = false) :
    (Recharge c atSpaceport).heat
      = max 0 (c.attributes.get "heat generation" - c.attributes.get "cooling")
          / (1 - c.heatDissipation) := by
  simp only [Recharge, hd]
  cases atSpaceport <;> cases hp : c.personality.isDerelict <;> simp [hp]

/-- C26, amended. The heat retention factor that `Load` computes from the base
stat `s = "heat dissipation"` is 0.999 when `s` is 0 and `1 - 0.001 s`
otherwise, in exact arithmetic, and the `double` nearest to these in `double`
arithmetic, where literals, product and difference are rounded. The rounded
factor is not 1 when `s` is 0, at least 2^-44 or at most -2^-43; then
`1 - heatDissipation`, by which `Recharge` divides, is not 0, and the heat
that `Recharge` sets, times that divisor, is the excess of heat generation
over cooling. The first heat update of `Move` (line 430) multiplies the heat
by the factor. -/
theorem C26_heat_factor (c : ShipCore) (atSpaceport : Bool) (mass : ℚ) :
    (c.baseAttributes.get "heat dissipation" = 0 →
      (loadHeatDissipation c).heatDissipation = 999 / 1000
      ∧ (loadHeatDissipationRounded c).heatDissipation = roundDouble (999 / 1000))
    ∧ (c.baseAttributes.get "heat dissipation" ≠ 0 →
      (loadHeatDissipation c).heatDissipation
        = 1 - 1 / 1000 * c.baseAttributes.get "heat dissipation"
      ∧ (loadHeatDissipationRounded c).heatDissipation
        = roundDouble (1 - roundDouble (roundDouble (1 / 1000)
            * c.baseAttributes.get "heat dissipation")))
    ∧ ((c.baseAttributes.get "heat dissipation" = 0
        ∨ 1 / 2 ^ 44 ≤ c.baseAttributes.get "heat dissipation"
        ∨ c.baseAttributes.get "heat dissipation" ≤ -(1 / 2 ^ 43)) →
      (loadHeatDissipationRounded c).heatDissipation ≠ 1
      ∧ 1 - (loadHeatDissipationRounded c).heatDissipation ≠ 0
      ∧ (IsDestroyed c = false →
          (Recharge (loadHeatDissipationRounded c) atSpaceport).heat
              * (1 - (loadHeatDissipationRounded c).heatDissipation)
            = max 0 (c.attributes.get "heat generation" - c.attributes.get "cooling")))
    ∧ (moveClamp mass c).heat = c.heat * c.heatDissipation := by
  refine ⟨?_, ?_, ?_, (moveClamp_pools mass c).2.1⟩
  · intro h
    exact ⟨by simp [loadHeatDissipation, h], by simp [loadHeatDissipationRounded, h]⟩
  · intro h
    exact ⟨by simp [loadHeatDissipation, h], by simp [loadHeatDissipationRounded, h]⟩
  · intro h
    have h3 := loadHeatDissipationRounded_ne_one c h
    have h4 : 1 - (loadHeatDissipationRounded c).heatDissipation ≠ 0 := by
      intro h5
      apply h3
      linarith
    refine ⟨h3, h4, ?_⟩
    intro hd
    have hd2 : IsDestroyed (loadHeatDissipationRounded c) = false := by
      simp only [loadHeatDissipationRounded]
      split_ifs <;> simpa [IsDestroyed] using hd
    have ha : ∀ key, (loadHeatDissipationRounded c).attributes.get key
        = c.attributes.get key := by
      intro key
      simp only [loadHeatDissipationRounded]
      split_ifs <;> rfl
    rw [Recharge_heat _ atSpaceport hd2, ha, ha, div_mul_cancel₀ _ h4]

/-- C26 at a base stat of 2, with heat generation 3 and cooling 1: the rounded
factor is not 1 and `Recharge` sets a heat that, times `1 - heatDissipation`,
is 2; in exact arithmetic the factor is 0.998. -/
theorem C26_heat_factor_witness :
    (loadedShip 2).baseAttributes.get "heat dissipation" = 2
    ∧ (loadHeatDissipation (loadedShip 2)).heatDissipation = 998 / 1000
    ∧ (loadHeatDissipationRounded (loadedShip 2)).heatDissipation ≠ 1
    ∧ (Recharge (loadHeatDissipationRounded (loadedShip 2)) true).heat
        * (1 - (loadHeatDissipationRounded (loadedShip 2)).heatDissipation) = 2 := by
  have hs : (loadedShip 2).baseAttributes.get "heat dissipation" = 2 := by
    simp [loadedShip]
  obtain ⟨_, b2, b3, _⟩ := C26_heat_factor (loadedShip 2) true 0
  obtain ⟨e1, _⟩ := b2 (by rw [hs]; norm_num)
  obtain ⟨f1, _, f3⟩ := b3 (Or.inr (Or.inl (by rw [hs]; norm_num)))
  refine ⟨hs, ?_, f1, ?_⟩
  · rw [e1, hs]
    norm_num
  · rw [f3 (by simp [IsDestroyed, loadedShip])]
    simp [loadedShip]
    norm_num

/-- C26 as stated fails: the base stat 2^-70 is not 0, yet `.001 * s` is so
small that the `double` difference `1. - .001 * s` is exactly 1: the factor is
1 and the divisor `1. - heatDissipation` of `Recharge` is 0. -/
theorem C26_counterexample :
    (loadedShip (1 / 2 ^ 70)).baseAttributes.get "heat dissipation" = 1 / 2 ^ 70
    ∧ (loadedShip (1 / 2 ^ 70)).baseAttributes.get "heat dissipation" ≠ 0
    ∧ (loadHeatDissipationRounded (loadedShip (1 / 2 ^ 70))).heatDissipation = 1
    ∧ 1 - (loadHeatDissipationRounded (loadedShip (1 / 2 ^ 70))).heatDissipation = 0 := by
  have hs : (loadedShip (1 / 2 ^ 70)).baseAttributes.get "heat dissipation" = 1 / 2 ^ 70 := by
    simp [loadedShip]
  have h1 := loadHeatDissipationRounded_eq_one (loadedShip (1 / 2 ^ 70))
    (by rw [hs]; positivity) (by rw [hs]; norm_num)
  refine ⟨hs, ?_, h1, ?_⟩
  · rw [hs]
    norm_num
  · rw [h1]
    norm_num

/-! ## C27: fuel transfer -/

/-- C27, amended. For a source whose fuel lies within `[0, fuel capacity]`,
an optional recipient whose fuel lies within its own bounds, and a requested
amount that is at most the source's fuel and, when a recipient is given, at
least minus the recipient's fuel: `TransferFuel` returns the amount `r` moved,
lowers the source's fuel by `r`, raises the recipient's fuel by `r`, so that
the sum is conserved, and leaves both within `[0, fuel capacity]`. -/
theorem C27_TransferFuel (c : ShipCore) (recipient : Option ShipCore) (amount : ℚ)
    (h0 : 0 ≤ c.fuel) (h1 : c.fuel ≤ c.attributes.get "fuel capacity")
    (hr : ∀ t, recipient = some t →
      0 ≤ t.fuel ∧ t.fuel ≤ t.attributes.get "fuel capacity" ∧ -t.fuel ≤ amount)
    (ha : amount ≤ c.fuel) :
    (TransferFuel c amount recipient).2.1.fuel = c.fuel - (TransferFuel c amount recipient).1
    ∧ 0 ≤ (TransferFuel c amount recipient).2.1.fuel
    ∧ (TransferFuel c amount recipient).2.1.fuel ≤ c.attributes.get "fuel capacity"
    ∧ (recipient = none → (TransferFuel c amount recipient).2.2 = none)
    ∧ (∀ t, recipient = some t →
        ∃ t2, (TransferFuel c amount recipient).2.2 = some t2
          ∧ t2.fuel = t.fuel + (TransferFuel c amount recipient).1
          ∧ t2.fuel + (TransferFuel c amount recipient).2.1.fuel = t.fuel + c.fuel
          ∧ 0 ≤ t2.fuel ∧ t2.fuel ≤ t.attributes.get "fuel capacity") := by
  cases recipient with
  | none =>
    simp only [TransferFuel]
    refine ⟨trivial, ?_, ?_, fun _ => trivial, ?_⟩
    · have := max_le (sub_le_self c.fuel (le_trans h0 h1)) ha
      show 0 ≤ c.fuel - max (c.fuel - c.attributes.get "fuel capacity") amount
      linarith
    · have := le_max_left (c.fuel - c.attributes.get "fuel capacity") amount
      show c.fuel - max (c.fuel - c.attributes.get "fuel capacity") amount
        ≤ c.attributes.get "fuel capacity"
      linarith
    · intro t ht
      cases ht
  | some t =>
    obtain ⟨t0, t1, t2⟩ := hr t rfl
    have hmax := max_le (sub_le_self c.fuel (le_trans h0 h1)) ha
    have hmax2 := le_max_left (c.fuel - c.attributes.get "fuel capacity") amount
    have hmax3 := le_max_right (c.fuel - c.attributes.get "fuel capacity") amount
    have hmin1 := min_le_left (t.attributes.get "fuel capacity" - t.fuel)
      (max (c.fuel - c.attributes.get "fuel capacity") amount)
    have hmin2 := min_le_right (t.attributes.get "fuel capacity" - t.fuel)
      (max (c.fuel - c.attributes.get "fuel capacity") amount)
    have hmin3 : c.fuel - c.attributes.get "fuel capacity"
        ≤ min (t.attributes.get "fuel capacity" - t.fuel)
            (max (c.fuel - c.attributes.get "fuel capacity") amount) :=
      le_min (by linarith) hmax2
    have hmin4 : -t.fuel
        ≤ min (t.attributes.get "fuel capacity" - t.fuel)
            (max (c.fuel - c.attributes.get "fuel capacity") amount) :=
      le_min (by linarith) (le_trans t2 hmax3)
    simp only [TransferFuel]
    refine ⟨trivial, ?_, ?_, ?_, ?_⟩
    · show 0 ≤ c.fuel - min (t.attributes.get "fuel capacity" - t.fuel)
          (max (c.fuel - c.attributes.get "fuel capacity") amount)
      linarith
    · show c.fuel - min (t.attributes.get "fuel capacity" - t.fuel)
          (max (c.fuel - c.attributes.get "fuel capacity") amount)
        ≤ c.attributes.get "fuel capacity"
      linarith
    · intro h
      cases h
    · intro t3 ht3
      cases ht3
      refine ⟨_, rfl, rfl, ?_, ?_, ?_⟩
      · show t.fuel + _ + (c.fuel - _) = t.fuel + c.fuel
        ring
      · show 0 ≤ t.fuel + min (t.attributes.get "fuel capacity" - t.fuel)
            (max (c.fuel - c.attributes.get "fuel capacity") amount)
        linarith
      · show t.fuel + min (t.attributes.get "fuel capacity" - t.fuel)
            (max (c.fuel - c.attributes.get "fuel capacity") amount)
          ≤ t.attributes.get "fuel capacity"
        linarith

/-- C27 at a source with fuel 50 of 100 and a recipient with fuel 80 of 100:
a request of 30 moves 20, leaving 30 and 100. -/
theorem C27_TransferFuel_witness :
    (TransferFuel (tanker 50) 30 (some (tanker 80))).1 = 20
    ∧ (TransferFuel (tanker 50) 30 (some (tanker 80))).2.1.fuel = 30
    ∧ 0 ≤ (TransferFuel (tanker 50) 30 (some (tanker 80))).2.1.fuel := by
  obtain ⟨h1, h2, _⟩ := C27_TransferFuel (tanker 50) (some (tanker 80)) 30
    (by simp [tanker]) (by simp [tanker]; norm_num)
    (by
      intro t ht
      cases ht
      simp [tanker]
      norm_num)
    (by simp [tanker]; norm_num)
  have hr : (TransferFuel (tanker 50) 30 (some (tanker 80))).1 = 20 := by
    simp [TransferFuel, tanker]
    norm_num
  refine ⟨hr, ?_, h2⟩
  rw [h1, hr]
  simp [tanker]
  norm_num

/-- C27 as stated fails: the source has fuel 50 of 100 and no recipient is
given; a request of 1000 is moved in full and leaves the source at -950. -/
theorem C27_counterexample :
    0 ≤ (tanker 50).fuel ∧ (tanker 50).fuel ≤ (tanker 50).attributes.get "fuel capacity"
    ∧ (TransferFuel (tanker 50) 1000 none).1 = 1000
    ∧ (TransferFuel (tanker 50) 1000 none).2.1.fuel = -950
    ∧ ¬ (0 ≤ (TransferFuel (tanker 50) 1000 none).2.1.fuel) := by
  have h : (TransferFuel (tanker 50) 1000 none).2.1.fuel = -950 := by
    simp [TransferFuel, tanker]
    norm_num
  refine ⟨by simp [tanker], by simp [tanker]; norm_num, ?_, h, ?_⟩
  · simp [TransferFuel, tanker]
    norm_num
  · rw [h]
    norm_num

/-! ## C22: the aggregate of the installed outfits -/

/-- A sum over a list without duplicates changes by the change of the one
term that differs. -/
theorem sum_map_single (ids : List OutfitId) (o : OutfitId) (f f2 : OutfitId → ℚ)
    (hn : ids.Nodup) (ho : o ∈ ids) (hf : ∀ x, x ≠ o → f2 x = f x) :
    (ids.map f2).sum = (ids.map f).sum + (f2 o - f o) := by
  induction ids with
  | nil => simp at ho
  | cons a t ih =>
    rw [List.nodup_cons] at hn
    simp only [List.map_cons, List.sum_cons]
    by_cases ha : a = o
    · subst ha
      have e : t.map f2 = t.map f :=
        List.map_congr_left (fun x hx => hf x (fun hxa => hn.1 (hxa ▸ hx)))
      rw [e]
      ring
    · have ho2 : o ∈ t := by
        rcases List.mem_cons.1 ho with h | h
        · exact absurd h.symm ha
        · exact h
      rw [ih hn.2 ho2, hf a ha]
      ring

/-- What `AddOutfit` with a non-zero count does to the aggregate. -/
theorem AddOutfit_attributes (k : Catalogue) (c : ShipCore) (o : OutfitId) (n : Int)
    (hn : n ≠ 0) :
    (AddOutfit k c (some o) n).attributes = k.add c.attributes (k.outfit o) n
    ∧ (AddOutfit k c (some o) n).baseAttributes = c.baseAttributes := by
  simp only [AddOutfit, ne_eq, hn, not_false_eq_true, if_true]
  cases h : c.outfits o with
  | none => exact ⟨rfl, rfl⟩
  | some m =>
    by_cases hz : m + n = 0
    · simp [hz]
    · simp [hz]

/-- `AddOutfit` keeps the aggregate in step with the installed outfits, when
`Outfit::Add` adds the scaled stats of the outfit. -/
theorem AddOutfit_Aggregated (k : Catalogue) (ids : List OutfitId) (c : ShipCore)
    (outfit : Option OutfitId) (n : Int)
    (hk : ∀ a other count key, (k.add a other count).get key = a.get key + other.get key * count)
    (hn : ids.Nodup) (ho : ∀ o, outfit = some o → o ∈ ids) (h : Aggregated k ids c) :
    Aggregated k ids (AddOutfit k c outfit n) := by
  cases outfit with
  | none => exact h
  | some o =>
    by_cases hz : n = 0
    · rw [hz, AddOutfit_zero]
      exact h
    · intro key
      obtain ⟨ea, eb⟩ := AddOutfit_attributes k c o n hz
      rw [ea, eb, hk, h key,
        sum_map_single ids o
          (fun x => (OutfitCount c (some x) : ℚ) * (k.outfit x).get key)
          (fun x => (OutfitCount (AddOutfit k c (some o) n) (some x) : ℚ) * (k.outfit x).get key)
          hn (ho o rfl)
          (fun x hx => by
            have e : OutfitCount (AddOutfit k c (some o) n) (some x) = OutfitCount c (some x) := by
              simp only [OutfitCount]
              rw [AddOutfit_other k c (some o) n x
                (fun hxo => hx (Option.some.inj hxo).symm)]
            show (OutfitCount (AddOutfit k c (some o) n) (some x) : ℚ) * _ = _
            rw [e])]
      show _ = _ + (_ + ((OutfitCount (AddOutfit k c (some o) n) (some o) : ℚ)
          * (k.outfit o).get key - (OutfitCount c (some o) : ℚ) * (k.outfit o).get key))
      rw [AddOutfit_count]
      push_cast
      ring

/-- `ExpendAmmo`, which removes one round through `AddOutfit`, keeps the
aggregate in step as well. -/
theorem ExpendAmmo_Aggregated (k : Catalogue) (ids : List OutfitId) (c : ShipCore)
    (outfit : Option OutfitId)
    (hk : ∀ a other count key, (k.add a other count).get key = a.get key + other.get key * count)
    (hn : ids.Nodup) (ho : ∀ o a, outfit = some o → (k.outfit o).ammo = some a → a ∈ ids)
    (h : Aggregated k ids c) :
    Aggregated k ids (ExpendAmmo k c outfit) := by
  cases outfit with
  | none => exact h
  | some o =>
    have h2 : Aggregated k ids
        (if (k.outfit o).ammo.isSome then AddOutfit k c (k.outfit o).ammo (-1) else c) := by
      split_ifs
      · exact AddOutfit_Aggregated k ids c _ (-1) hk hn (fun a ha => ho o a rfl ha) h
      · exact h
    intro key
    exact h2 key

/-- The aggregate that the loop of `FinishLoading` builds. -/
theorem foldl_add_get (k : Catalogue) (f : OutfitId → Int) (key : String)
    (hk : ∀ a other count key, (k.add a other count).get key = a.get key + other.get key * count)
    (order : List OutfitId) (a : Outfit) :
    (order.foldl (fun a o => k.add a (k.outfit o) (f o)) a).get key
      = a.get key + (order.map (fun o => (f o : ℚ) * (k.outfit o).get key)).sum := by
  induction order generalizing a with
  | nil => simp
  | cons o t ih =>
    simp only [List.foldl_cons, List.map_cons, List.sum_cons]
    rw [ih, hk]
    ring

/-- `Recharge` leaves the outfits, the base stats and the aggregate alone. -/
theorem Recharge_outfits (c : ShipCore) (atSpaceport : Bool) :
    (Recharge c atSpaceport).outfits = c.outfits
    ∧ (Recharge c atSpaceport).attributes = c.attributes
    ∧ (Recharge c atSpaceport).baseAttributes = c.baseAttributes := by
  simp only [Recharge]
  split_ifs <;> exact ⟨rfl, rfl, rfl⟩

/-- `FinishLoading` establishes the invariant over the keys of the map. -/
theorem FinishLoading_Aggregated (k : Catalogue) (w : World) (order : List OutfitId)
    (c : ShipCore)
    (hk : ∀ a other count key, (k.add a other count).get key = a.get key + other.get key * count) :
    Aggregated k order (FinishLoading k w order c) := by
  have key : ∀ c2 : ShipCore, c2.outfits = c.outfits → c2.baseAttributes = c.baseAttributes →
      c2.attributes
        = order.foldl (fun a o => k.add a (k.outfit o) (OutfitCount c (some o))) c.baseAttributes →
      Aggregated k order c2 := by
    intro c2 h1 h2 h3 key
    rw [h3, h2, foldl_add_get k _ key hk]
    simp only [OutfitCount, h1]
  simp only [FinishLoading]
  split_ifs
  · obtain ⟨e1, e2, e3⟩ := Recharge_outfits
      { c with attributes :=
          order.foldl (fun a o => k.add a (k.outfit o) (OutfitCount c (some o))) c.baseAttributes }
      (match c.parent.bind w.ships with
        | none => true
        | some parent => decide (c.currentSystem = parent.core.currentSystem))
    exact key _ e1 e3 e2
  · exact key _ rfl rfl rfl

/-- C22, the failing input. The victim is disabled, has 100 base points of
`"shields"` and one shield generator of 50 installed, aggregate 150, so the
invariant holds for it. After the automatic plunder of `Board`, in which the
boarder's hold accepts the generator, the victim's count of the generator
is 0 and its aggregate `"shields"` is still 150, not 100: the invariant no
longer holds. `AddOutfit(generator, -1)` on the same ship leaves the aggregate
at 100. -/
theorem C22_plunder_failing_input :
    IsDisabled shieldedVictim = true
    ∧ Aggregated shieldCatalogue [2] shieldedVictim
    ∧ OutfitCount (boardPlunder (fun _ => 1) true (tanker 0) shieldedVictim).2 (some 2) = 0
    ∧ (boardPlunder (fun _ => 1) true (tanker 0) shieldedVictim).2.attributes.get "shields" = 150
    ∧ (boardPlunder (fun _ => 1) true (tanker 0) shieldedVictim).2.baseAttributes.get "shields"
        = 100
    ∧ ¬ Aggregated shieldCatalogue [2]
        (boardPlunder (fun _ => 1) true (tanker 0) shieldedVictim).2
    ∧ (AddOutfit shieldCatalogue shieldedVictim (some 2) (-1)).attributes.get "shields" = 100
    ∧ Aggregated shieldCatalogue [2] (AddOutfit shieldCatalogue shieldedVictim (some 2) (-1)) := by
  have hk : ∀ a other count key,
      (shieldCatalogue.add a other count).get key = a.get key + other.get key * count :=
    fun _ _ _ _ => rfl
  have h0 : Aggregated shieldCatalogue [2] shieldedVictim := by
    intro key
    simp only [shieldedVictim, shieldCatalogue, OutfitCount, List.map_cons, List.map_nil,
      List.sum_cons, List.sum_nil]
    by_cases hs : key = "shields"
    · simp [hs]
      norm_num
    · simp [hs]
  have h1 : OutfitCount (boardPlunder (fun _ => 1) true (tanker 0) shieldedVictim).2 (some 2)
      = 0 := by
    simp [boardPlunder, TransferFuel, OutfitCount, shieldedVictim, plunderLoop]
  have h2 : (boardPlunder (fun _ => 1) true (tanker 0) shieldedVictim).2.attributes.get "shields"
      = 150 := by
    simp [boardPlunder, TransferFuel, shieldedVictim]
  have h3 : (boardPlunder (fun _ => 1) true (tanker 0)
      shieldedVictim).2.baseAttributes.get "shields" = 100 := by
    simp [boardPlunder, TransferFuel, shieldedVictim]
  have h4 := AddOutfit_Aggregated shieldCatalogue [2] shieldedVictim (some 2) (-1) hk
    (by simp) (by simp) h0
  refine ⟨?_, h0, h1, h2, h3, ?_, ?_, h4⟩
  · simp [IsDisabled, RequiredCrew, MinimumHull, truncInt, shieldedVictim]
    exact Or.inr (by decide)
  · intro h
    have e := h "shields"
    rw [h2, h3] at e
    simp only [List.map_cons, List.map_nil, List.sum_cons, List.sum_nil, h1] at e
    norm_num at e
  · rw [(AddOutfit_attributes shieldCatalogue shieldedVictim 2 (-1) (by decide)).1]
    show shieldedVictim.attributes.get "shields"
      + (shieldCatalogue.outfit 2).get "shields" * ((-1 : Int) : ℚ) = 100
    simp [shieldedVictim, shieldCatalogue]
    norm_num

/-! ## C29: the crews after a capture -/

/-- The two crews and the hull after `WasCaptured`, in terms of the crew
moved. -/
theorem WasCaptured_crews (c capturer : ShipCore) :
    (WasCaptured c capturer).2.crew
      = capturer.crew
        - (if RequiredCrew capturer + RequiredCrew c > capturer.crew then
            max 1 (Int.tdiv (capturer.crew * RequiredCrew c)
              (RequiredCrew capturer + RequiredCrew c))
           else RequiredCrew c)
    ∧ (WasCaptured c capturer).1.crew
      = c.crew
        + (if RequiredCrew capturer + RequiredCrew c > capturer.crew then
            max 1 (Int.tdiv (capturer.crew * RequiredCrew c)
              (RequiredCrew capturer + RequiredCrew c))
           else RequiredCrew c)
    ∧ (WasCaptured c capturer).1.hull = max c.hull (MinimumHull c)
    ∧ (WasCaptured c capturer).1.attributes = c.attributes :=
  ⟨rfl, rfl, rfl, rfl⟩

/-- C29, amended. For every capturer with crew >= 0 and every captured ship
with crew >= 0, after `WasCaptured` the captured ship's crew is >= 0 and its
`IsDisabled()` is false; the capturer's crew is >= 0 as well when the capturer
had a crew of at least 1, or had no crew and neither ship requires one. -/
theorem C29_capture_crew (c capturer : ShipCore) (hc : 0 ≤ c.crew) (hk : 0 ≤ capturer.crew) :
    0 ≤ (WasCaptured c capturer).1.crew
    ∧ IsDisabled (WasCaptured c capturer).1 = false
    ∧ ((1 ≤ capturer.crew ∨ RequiredCrew capturer + RequiredCrew c = 0) →
        0 ≤ (WasCaptured c capturer).2.crew) := by
  obtain ⟨e2, e1, eh, ea⟩ := WasCaptured_crews c capturer
  have r1 := RequiredCrew_nonneg c
  have r2 := RequiredCrew_nonneg capturer
  have hreq : RequiredCrew (WasCaptured c capturer).1 = RequiredCrew c := by
    simp only [RequiredCrew, ea]
  have hmin : MinimumHull (WasCaptured c capturer).1 = MinimumHull c := by
    simp only [MinimumHull, ea]
  have hT : 0 ≤ (if RequiredCrew capturer + RequiredCrew c > capturer.crew then
            max 1 (Int.tdiv (capturer.crew * RequiredCrew c)
              (RequiredCrew capturer + RequiredCrew c))
           else RequiredCrew c) := by
    split_ifs
    · exact le_trans zero_le_one (le_max_left _ _)
    · exact r1
  have hT0 : (if RequiredCrew capturer + RequiredCrew c > capturer.crew then
            max 1 (Int.tdiv (capturer.crew * RequiredCrew c)
              (RequiredCrew capturer + RequiredCrew c))
           else RequiredCrew c) = 0 → RequiredCrew c = 0 := by
    split_ifs
    · intro h
      have := le_max_left 1 (Int.tdiv (capturer.crew * RequiredCrew c)
        (RequiredCrew capturer + RequiredCrew c))
      omega
    · exact id
  refine ⟨by rw [e1]; exact add_nonneg hc hT, ?_, ?_⟩
  · simp only [IsDisabled, hreq, hmin, eh, e1]
    have h1 : ¬ max c.hull (MinimumHull c) < MinimumHull c := not_lt.2 (le_max_right _ _)
    simp only [h1, decide_False, Bool.false_or, Bool.and_eq_false_imp, decide_eq_true_eq,
      decide_eq_false_iff_not, not_not, ne_eq]
    intro h0
    apply hT0
    omega
  · intro h
    rw [e2]
    split_ifs with hgt
    · rcases h with h | h
      · have hpos : 0 < RequiredCrew capturer + RequiredCrew c := by omega
        have hdiv : Int.tdiv (capturer.crew * RequiredCrew c)
            (RequiredCrew capturer + RequiredCrew c) ≤ capturer.crew := by
          rw [Int.tdiv_eq_ediv (mul_nonneg hk r1) hpos.le]
          apply Int.ediv_le_of_le_mul hpos
          exact mul_le_mul_of_nonneg_left (by omega) hk
        have := max_le h hdiv
        omega
      · omega
    · omega

/-- C29 at a capturer with a crew of 3 that requires 2 and a captured ship
without crew that requires 2: one crew member is moved. -/
theorem C29_capture_crew_witness :
    0 ≤ (WasCaptured (crewShip "" 10 0 100 2) (crewShip "" 100 3 100 2)).1.crew
    ∧ IsDisabled (WasCaptured (crewShip "" 10 0 100 2) (crewShip "" 100 3 100 2)).1 = false
    ∧ 0 ≤ (WasCaptured (crewShip "" 10 0 100 2) (crewShip "" 100 3 100 2)).2.crew := by
  obtain ⟨h1, h2, h3⟩ := C29_capture_crew (crewShip "" 10 0 100 2) (crewShip "" 100 3 100 2)
    (by simp [crewShip]) (by simp [crewShip])
  exact ⟨h1, h2, h3 (Or.inl (by simp [crewShip]))⟩

/-- C29 as stated fails: a capturer without crew (here a ship that requires
a crew of 1), capturing a ship without crew that requires 1, hands over
`max(1, 0) = 1` crew member and is left with a crew of -1. -/
theorem C29_counterexample :
    0 ≤ (crewShip "" 100 0 100 1).crew
    ∧ 0 ≤ (crewShip "" 10 0 100 1).crew
    ∧ (WasCaptured (crewShip "" 10 0 100 1) (crewShip "" 100 0 100 1)).2.crew = -1
    ∧ ¬ (0 ≤ (WasCaptured (crewShip "" 10 0 100 1) (crewShip "" 100 0 100 1)).2.crew) := by
  have h : (WasCaptured (crewShip "" 10 0 100 1) (crewShip "" 100 0 100 1)).2.crew = -1 := by
    rw [(WasCaptured_crews _ _).1]
    have r : ∀ h cr, RequiredCrew (crewShip "" h cr 100 1) = 1 := by
      intro h cr
      simp [RequiredCrew, crewShip, truncInt]
    rw [r, r]
    simp [crewShip]
  refine ⟨by simp [crewShip], by simp [crewShip], h, ?_⟩
  rw [h]
  decide

/-! ## The motion and the targets through the parts of `Move` -/

theorem movePresence_motion (c : ShipCore) :
    ((movePresence c).2).velocity = c.velocity
    ∧ ((movePresence c).2).angle = c.angle
    ∧ ((movePresence c).2).position = c.position
    ∧ ((movePresence c).2).targetSystem = c.targetSystem
    ∧ ((movePresence c).2).targetShip = c.targetShip
    ∧ ((movePresence c).2).parent = c.parent
    ∧ ((movePresence c).2).isBoarding = c.isBoarding := by
  simp [movePresence]

@[simp] theorem movePresence_velocity (c : ShipCore) :
    ((movePresence c).2).velocity = c.velocity :=
  (movePresence_motion c).1

@[simp] theorem movePresence_angle (c : ShipCore) :
    ((movePresence c).2).angle = c.angle :=
  (movePresence_motion c).2.1

@[simp] theorem movePresence_position (c : ShipCore) :
    ((movePresence c).2).position = c.position :=
  (movePresence_motion c).2.2.1

@[simp] theorem movePresence_targetSystem (c : ShipCore) :
    ((movePresence c).2).targetSystem = c.targetSystem :=
  (movePresence_motion c).2.2.2.1

@[simp] theorem movePresence_targetShip (c : ShipCore) :
    ((movePresence c).2).targetShip = c.targetShip :=
  (movePresence_motion c).2.2.2.2.1

@[simp] theorem movePresence_parent (c : ShipCore) :
    ((movePresence c).2).parent = c.parent :=
  (movePresence_motion c).2.2.2.2.2.1

@[simp] theorem movePresence_isBoarding (c : ShipCore) :
    ((movePresence c).2).isBoarding = c.isBoarding :=
  (movePresence_motion c).2.2.2.2.2.2

theorem moveClamp_motion (mass : ℚ) (c : ShipCore) :
    (moveClamp mass c).velocity = c.velocity
    ∧ (moveClamp mass c).angle = c.angle
    ∧ (moveClamp mass c).position = c.position
    ∧ (moveClamp mass c).targetSystem = c.targetSystem
    ∧ (moveClamp mass c).targetShip = c.targetShip
    ∧ (moveClamp mass c).parent = c.parent
    ∧ (moveClamp mass c).isBoarding = c.isBoarding := by
  simp [moveClamp]

@[simp] theorem moveClamp_velocity (mass : ℚ) (c : ShipCore) :
    (moveClamp mass c).velocity = c.velocity :=
  (moveClamp_motion mass c).1

@[simp] theorem moveClamp_angle (mass : ℚ) (c : ShipCore) :
    (moveClamp mass c).angle = c.angle :=
  (moveClamp_motion mass c).2.1

@[simp] theorem moveClamp_position (mass : ℚ) (c : ShipCore) :
    (moveClamp mass c).position = c.position :=
  (moveClamp_motion mass c).2.2.1

@[simp] theorem moveClamp_targetSystem (mass : ℚ) (c : ShipCore) :
    (moveClamp mass c).targetSystem = c.targetSystem :=
  (moveClamp_motion mass c).2.2.2.1

@[simp] theorem moveClamp_targetShip (mass : ℚ) (c : ShipCore) :
    (moveClamp mass c).targetShip = c.targetShip :=
  (moveClamp_motion mass c).2.2.2.2.1

@[simp] theorem moveClamp_parent (mass : ℚ) (c : ShipCore) :
    (moveClamp mass c).parent = c.parent :=
  (moveClamp_motion mass c).2.2.2.2.2.1

@[simp] theorem moveClamp_isBoarding (mass : ℚ) (c : ShipCore) :
    (moveClamp mass c).isBoarding = c.isBoarding :=
  (moveClamp_motion mass c).2.2.2.2.2.2

theorem moveRegen_motion (g : Geometry) (c : ShipCore) (fb db : List (Bay Ship)) :
    ((moveRegen g c fb db).1).velocity = c.velocity
    ∧ ((moveRegen g c fb db).1).angle = c.angle
    ∧ ((moveRegen g c fb db).1).position = c.position
    ∧ ((moveRegen g c fb db).1).targetSystem = c.targetSystem
    ∧ ((moveRegen g c fb db).1).targetShip = c.targetShip
    ∧ ((moveRegen g c fb db).1).parent = c.parent
    ∧ ((moveRegen g c fb db).1).isBoarding = c.isBoarding := by
  cases ho : c.isOverheated <;> cases hd : c.isDisabled <;>
    simp [moveRegen, ho, hd, TransferFuel]

@[simp] theorem moveRegen_velocity (g : Geometry) (c : ShipCore) (fb db : List (Bay Ship)) :
    ((moveRegen g c fb db).1).velocity = c.velocity :=
  (moveRegen_motion g c fb db).1

@[simp] theorem moveRegen_angle (g : Geometry) (c : ShipCore) (fb db : List (Bay Ship)) :
    ((moveRegen g c fb db).1).angle = c.angle :=
  (moveRegen_motion g c fb db).2.1

@[simp] theorem moveRegen_position (g : Geometry) (c : ShipCore) (fb db : List (Bay Ship)) :
    ((moveRegen g c fb db).1).position = c.position :=
  (moveRegen_motion g c fb db).2.2.1

@[simp] theorem moveRegen_targetSystem (g : Geometry) (c : ShipCore) (fb db : List (Bay Ship)) :
    ((moveRegen g c fb db).1).targetSystem = c.targetSystem :=
  (moveRegen_motion g c fb db).2.2.2.1

@[simp] theorem moveRegen_targetShip (g : Geometry) (c : ShipCore) (fb db : List (Bay Ship)) :
    ((moveRegen g c fb db).1).targetShip = c.targetShip :=
  (moveRegen_motion g c fb db).2.2.2.2.1

@[simp] theorem moveRegen_parent (g : Geometry) (c : ShipCore) (fb db : List (Bay Ship)) :
    ((moveRegen g c fb db).1).parent = c.parent :=
  (moveRegen_motion g c fb db).2.2.2.2.2.1

@[simp] theorem moveRegen_isBoarding (g : Geometry) (c : ShipCore) (fb db : List (Bay Ship)) :
    ((moveRegen g c fb db).1).isBoarding = c.isBoarding :=
  (moveRegen_motion g c fb db).2.2.2.2.2.2

theorem flightCommands_motion (g : Geometry) (w : World) (s : Ship) :
    (flightCommands g w s).velocity = s.core.velocity
    ∧ (flightCommands g w s).angle = s.core.angle
    ∧ (flightCommands g w s).position = s.core.position
    ∧ (flightCommands g w s).targetSystem = s.core.targetSystem
    ∧ (flightCommands g w s).targetShip = s.core.targetShip
    ∧ (flightCommands g w s).parent = s.core.parent
    ∧ (flightCommands g w s).isBoarding = s.core.isBoarding := by
  simp only [flightCommands]
  split_ifs <;> simp

@[simp] theorem flightCommands_velocity (g : Geometry) (w : World) (s : Ship) :
    (flightCommands g w s).velocity = s.core.velocity :=
  (flightCommands_motion g w s).1

@[simp] theorem flightCommands_angle (g : Geometry) (w : World) (s : Ship) :
    (flightCommands g w s).angle = s.core.angle :=
  (flightCommands_motion g w s).2.1

@[simp] theorem flightCommands_position (g : Geometry) (w : World) (s : Ship) :
    (flightCommands g w s).position = s.core.position :=
  (flightCommands_motion g w s).2.2.1

@[simp] theorem flightCommands_targetSystem (g : Geometry) (w : World) (s : Ship) :
    (flightCommands g w s).targetSystem = s.core.targetSystem :=
  (flightCommands_motion g w s).2.2.2.1

@[simp] theorem flightCommands_targetShip (g : Geometry) (w : World) (s : Ship) :
    (flightCommands g w s).targetShip = s.core.targetShip :=
  (flightCommands_motion g w s).2.2.2.2.1

@[simp] theorem flightCommands_parent (g : Geometry) (w : World) (s : Ship) :
    (flightCommands g w s).parent = s.core.parent :=
  (flightCommands_motion g w s).2.2.2.2.2.1

@[simp] theorem flightCommands_isBoarding (g : Geometry) (w : World) (s : Ship) :
    (flightCommands g w s).isBoarding = s.core.isBoarding :=
  (flightCommands_motion g w s).2.2.2.2.2.2

theorem flightCloak_motion (c : ShipCore) :
    (flightCloak c).velocity = c.velocity
    ∧ (flightCloak c).angle = c.angle
    ∧ (flightCloak c).position = c.position
    ∧ (flightCloak c).targetSystem = c.targetSystem
    ∧ (flightCloak c).targetShip = c.targetShip
    ∧ (flightCloak c).parent = c.parent
    ∧ (flightCloak c).isBoarding = c.isBoarding := by
  simp only [flightCloak]
  split_ifs <;> simp

@[simp] theorem flightCloak_velocity (c : ShipCore) :
    (flightCloak c).velocity = c.velocity :=
  (flightCloak_motion c).1

@[simp] theorem flightCloak_angle (c : ShipCore) :
    (flightCloak c).angle = c.angle :=
  (flightCloak_motion c).2.1

@[simp] theorem flightCloak_position (c : ShipCore) :
    (flightCloak c).position = c.position :=
  (flightCloak_motion c).2.2.1

@[simp] theorem flightCloak_targetSystem (c : ShipCore) :
    (flightCloak c).targetSystem = c.targetSystem :=
  (flightCloak_motion c).2.2.2.1

@[simp] theorem flightCloak_targetShip (c : ShipCore) :
    (flightCloak c).targetShip = c.targetShip :=
  (flightCloak_motion c).2.2.2.2.1

@[simp] theorem flightCloak_parent (c : ShipCore) :
    (flightCloak c).parent = c.parent :=
  (flightCloak_motion c).2.2.2.2.2.1

@[simp] theorem flightCloak_isBoarding (c : ShipCore) :
    (flightCloak c).isBoarding = c.isBoarding :=
  (flightCloak_motion c).2.2.2.2.2.2

theorem flightPilot_motion (d : MoveDraws) (c : ShipCore) :
    (flightPilot d c).velocity = c.velocity
    ∧ (flightPilot d c).angle = c.angle
    ∧ (flightPilot d c).position = c.position
    ∧ (flightPilot d c).targetSystem = c.targetSystem
    ∧ (flightPilot d c).targetShip = c.targetShip
    ∧ (flightPilot d c).parent = c.parent
    ∧ (flightPilot d c).isBoarding = c.isBoarding := by
  simp only [flightPilot]
  split_ifs <;> simp

@[simp] theorem flightPilot_velocity (d : MoveDraws) (c : ShipCore) :
    (flightPilot d c).velocity = c.velocity :=
  (flightPilot_motion d c).1

@[simp] theorem flightPilot_angle (d : MoveDraws) (c : ShipCore) :
    (flightPilot d c).angle = c.angle :=
  (flightPilot_motion d c).2.1

@[simp] theorem flightPilot_position (d : MoveDraws) (c : ShipCore) :
    (flightPilot d c).position = c.position :=
  (flightPilot_motion d c).2.2.1

@[simp] theorem flightPilot_targetSystem (d : MoveDraws) (c : ShipCore) :
    (flightPilot d c).targetSystem = c.targetSystem :=
  (flightPilot_motion d c).2.2.2.1

@[simp] theorem flightPilot_targetShip (d : MoveDraws) (c : ShipCore) :
    (flightPilot d c).targetShip = c.targetShip :=
  (flightPilot_motion d c).2.2.2.2.1

@[simp] theorem flightPilot_parent (d : MoveDraws) (c : ShipCore) :
    (flightPilot d c).parent = c.parent :=
  (flightPilot_motion d c).2.2.2.2.2.1

@[simp] theorem flightPilot_isBoarding (d : MoveDraws) (c : ShipCore) :
    (flightPilot d c).isBoarding = c.isBoarding :=
  (flightPilot_motion d c).2.2.2.2.2.2

/-! ## C30: pilot error -/

/-- The counters after the pilot step for a ship that has the crew it
requires, or requires none. -/
theorem flightPilot_crewed (d : MoveDraws) (c : ShipCore)
    (h : RequiredCrew c ≤ Crew c ∨ RequiredCrew c = 0) :
    (flightPilot d c).pilotError = (if c.pilotError ≠ 0 then c.pilotError - 1 else 0)
    ∧ (c.pilotError = 0 → c.pilotOkay = 0 → (flightPilot d c).pilotOkay = 30) := by
  have hno : ¬ (RequiredCrew c ≠ 0
      ∧ ((d.pilot % (RequiredCrew c).toNat : Nat) : Int) ≥ Crew c) := by
    rintro ⟨h0, h1⟩
    rcases h with h | h
    · have hr := RequiredCrew_nonneg c
      have ht : ((RequiredCrew c).toNat : Int) = RequiredCrew c := Int.toNat_of_nonneg hr
      have hpos : 0 < (RequiredCrew c).toNat := by omega
      have hlt := Nat.mod_lt d.pilot hpos
      have hlt2 : ((d.pilot % (RequiredCrew c).toNat : Nat) : Int)
          < ((RequiredCrew c).toNat : Int) := by exact_mod_cast hlt
      linarith
    · exact h0 h
  simp only [flightPilot]
  split_ifs with h1 h2
  · exact ⟨rfl, fun h0 => absurd h0 h1⟩
  · exact ⟨by simpa using h1, fun _ h0 => absurd h0 h2⟩
  · exact ⟨by simpa using h1, fun _ _ => rfl⟩

/-- The pilot step of an under-crewed ship whose draw is an error. -/
theorem flightPilot_error (d : MoveDraws) (c : ShipCore)
    (h1 : c.pilotError = 0) (h2 : c.pilotOkay = 0) (h3 : RequiredCrew c ≠ 0)
    (h4 : ((d.pilot % (RequiredCrew c).toNat : Nat) : Int) ≥ Crew c) :
    (flightPilot d c).pilotError = 30 := by
  simp only [flightPilot, h1, h2, ne_eq, not_true_eq_false, if_false]
  rw [if_pos ⟨h3, h4⟩]

/-- While the pilot is in error the steering step applies no command: only
the drag of a disabled ship. -/
theorem flightSteer_locked (g : Geometry) (mass turnRate : ℚ) (c : ShipCore)
    (h : c.pilotError ≠ 0) :
    flightSteer g mass turnRate c
      = if c.isDisabled then
          { c with velocity := c.velocity.scale (1 - c.attributes.get "drag" / mass) }
        else c := by
  simp only [flightSteer, h, if_false]

/-- While the pilot is in error the boarding step moves nothing. -/
theorem flightBoard_locked (g : Geometry) (w : World) (turnRate : ℚ) (c : ShipCore)
    (h : c.pilotError ≠ 0) :
    (flightBoard g w turnRate c).velocity = c.velocity
    ∧ (flightBoard g w turnRate c).angle = c.angle := by
  simp only [flightBoard]
  split <;> simp [h]

/-- The required crew and the crew are those of the ship all through normal
flight. -/
theorem flight_crew (g : Geometry) (w : World) (s : Ship) :
    RequiredCrew (flightCloak (flightCommands g w s)) = RequiredCrew s.core
    ∧ Crew (flightCloak (flightCommands g w s)) = Crew s.core := by
  simp [RequiredCrew, Crew]

/-- The pilot error counter after normal flight is the one the pilot step
leaves. -/
theorem moveFlight_pilotError (g : Geometry) (w : World) (d : MoveDraws) (s : Ship) :
    (moveFlight g w d s).pilotError
      = (flightPilot d (flightCloak (flightCommands g w s))).pilotError
    ∧ (moveFlight g w d s).pilotOkay
      = (flightPilot d (flightCloak (flightCommands g w s))).pilotOkay := by
  simp [moveFlight]

/-- C30, amended. For every ship with `Crew() >= RequiredCrew()`, or with a
required crew of 0 as a Drone can have, and every draw: a `Move` call leaves
`pilotError` unchanged or, when it is running, lowers it by 1; normal flight
leaves it at 0 or one lower, and sets `pilotOkay` to 30 when neither counter is
running. For an under-crewed ship with neither counter running, a draw that is
an error sets `pilotError` to exactly 30. On every tick of normal flight where
`pilotError` is non-zero after the counter update, the facing is unchanged,
energy and fuel are what the cloaking step left, and the velocity is unchanged
for a ship that is not disabled and only scaled by the drag for one that is,
whatever the thrust, afterburner and turn commands. -/
theorem C30_pilot_error (g : Geometry) (w : World) (d : MoveDraws) (s : Ship) :
    ((RequiredCrew s.core ≤ Crew s.core ∨ RequiredCrew s.core = 0) →
      ((Move g w d s).2.core.pilotError = s.core.pilotError
        ∨ (s.core.pilotError ≠ 0
            ∧ (Move g w d s).2.core.pilotError = s.core.pilotError - 1))
      ∧ (moveFlight g w d s).pilotError
          = (if s.core.pilotError ≠ 0 then s.core.pilotError - 1 else 0)
      ∧ (s.core.pilotError = 0 → s.core.pilotOkay = 0 → (moveFlight g w d s).pilotOkay = 30))
    ∧ (s.core.pilotError = 0 → s.core.pilotOkay = 0 → RequiredCrew s.core ≠ 0 →
        ((d.pilot % (RequiredCrew s.core).toNat : Nat) : Int) ≥ Crew s.core →
        (moveFlight g w d s).pilotError = 30)
    ∧ ((moveFlight g w d s).pilotError ≠ 0 →
        (moveFlight g w d s).angle = s.core.angle
        ∧ (moveFlight g w d s).energy = (flightCloak (flightCommands g w s)).energy
        ∧ (moveFlight g w d s).fuel = (flightCloak (flightCommands g w s)).fuel
        ∧ (moveFlight g w d s).velocity
            = (if s.core.isDisabled then
                s.core.velocity.scale (1 - s.core.attributes.get "drag" / Mass s)
               else s.core.velocity)) := by
  have crewed : ∀ s2 : Ship, (RequiredCrew s2.core ≤ Crew s2.core ∨ RequiredCrew s2.core = 0) →
      (moveFlight g w d s2).pilotError
          = (if s2.core.pilotError ≠ 0 then s2.core.pilotError - 1 else 0)
      ∧ (s2.core.pilotError = 0 → s2.core.pilotOkay = 0 →
          (moveFlight g w d s2).pilotOkay = 30) := by
    intro s2 h
    obtain ⟨e1, e2⟩ := flight_crew g w s2
    obtain ⟨p1, p2⟩ := flightPilot_crewed d (flightCloak (flightCommands g w s2))
      (by rw [e1, e2]; exact h)
    simp only [flightCloak_pilotError, flightCommands_pilotError, flightCloak_pilotOkay,
      flightCommands_pilotOkay] at p1 p2
    rw [(moveFlight_pilotError g w d s2).1, (moveFlight_pilotError g w d s2).2]
    exact ⟨p1, p2⟩
  refine ⟨?_, ?_, ?_⟩
  · intro h
    refine ⟨?_, crewed s h⟩
    have htp : (moveTop g s).1.pilotError = s.core.pilotError := by simp [moveTop]
    have hta : (moveTop g s).1.attributes = s.core.attributes := by simp [moveTop]
    have htc : (moveTop g s).1.crew = s.core.crew := by simp [moveTop]
    have flight : ∀ c2 : ShipCore, c2.pilotError = s.core.pilotError →
        c2.attributes = s.core.attributes → c2.crew = s.core.crew →
        ∀ fb db, (moveFlight g w d (mk c2 fb db)).pilotError = s.core.pilotError
          ∨ (s.core.pilotError ≠ 0
              ∧ (moveFlight g w d (mk c2 fb db)).pilotError = s.core.pilotError - 1) := by
      intro c2 a1 a2 a3 fb db
      have hc : RequiredCrew (mk c2 fb db).core ≤ Crew (mk c2 fb db).core
          ∨ RequiredCrew (mk c2 fb db).core = 0 := by
        simp only [core_mk, RequiredCrew, Crew, a2, a3]
        exact h
      have e := (crewed (mk c2 fb db) hc).1
      simp only [core_mk, a1] at e
      rw [e]
      by_cases h0 : s.core.pilotError = 0
      · left
        simp [h0]
      · right
        exact ⟨h0, by simp [h0]⟩
    cases hp : (movePresence s.core).1 with
    | false =>
      rw [Move_forgotten g w d s hp]
      left
      simp
    | true =>
      cases hd : IsDestroyed (moveTop g s).1 with
      | true =>
        rw [Move_destroyed g w d s hp hd]
        clear hd
        generalize moveTop g s = T at *
        cases hq : (moveDestroyed d T.1).1 with
        | some b =>
          left
          simp [htp]
        | none =>
          simp only [core_mk]
          exact flight _ (by simp [htp]) (by simp [hta]) (by simp [htc]) _ _
      | false =>
        by_cases hh : (movePresence s.core).2.hyperspaceSystem ≠ none
            ∨ s.core.hyperspaceCount ≠ 0
        · rw [Move_hyperspace g w d s hp hd hh]
          left
          simp [htp]
        · rw [not_or, not_not, not_not] at hh
          by_cases hl : s.core.landingPlanet ≠ none ∨ s.core.zoom < 1
          · rw [Move_landing g w d s hp hd hh.1 hh.2 hl]
            left
            simp [htp]
          · rw [not_or, not_not] at hl
            rw [Move_flight g w d s hp hd hh.1 hh.2 hl.1 hl.2]
            simp only [core_mk]
            exact flight _ htp hta htc _ _
  · intro h1 h2 h3 h4
    obtain ⟨e1, e2⟩ := flight_crew g w s
    rw [(moveFlight_pilotError g w d s).1]
    exact flightPilot_error d _ (by simpa using h1) (by simpa using h2)
      (by rw [e1]; exact h3) (by rw [e1, e2]; exact h4)
  · intro h
    rw [(moveFlight_pilotError g w d s).1] at h
    have hs := flightSteer_locked g (Mass s) (TurnRate s)
      (flightPilot d (flightCloak (flightCommands g w s))) h
    have hb := flightBoard_locked g w (TurnRate s)
      (flightSteer g (Mass s) (TurnRate s) (flightPilot d (flightCloak (flightCommands g w s))))
      (by simpa using h)
    simp only [moveFlight, flightBoard_energy, flightBoard_fuel, hb.1, hb.2]
    rw [hs]
    cases hdis : s.core.isDisabled <;> simp [hdis]

/-- C30 at a ship with a crew of 3 that requires 2, neither counter running:
normal flight leaves `pilotError` at 0 and sets `pilotOkay` to 30. -/
theorem C30_pilot_error_witness :
    (moveFlight flatGeometry {} {} (mk (crewShip "" 100 3 100 2) [] [])).pilotError = 0
    ∧ (moveFlight flatGeometry {} {} (mk (crewShip "" 100 3 100 2) [] [])).pilotOkay = 30 := by
  obtain ⟨h, _, _⟩ := C30_pilot_error flatGeometry {} {} (mk (crewShip "" 100 3 100 2) [] [])
  obtain ⟨_, h2, h3⟩ := h (Or.inl (by simp [RequiredCrew, Crew, crewShip, truncInt]))
  refine ⟨?_, h3 (by simp [crewShip]) (by simp [crewShip])⟩
  rw [h2]
  simp [crewShip]

/-- A `Move` call of normal flight on a ship with neither pilot counter
running that requires a crew and whose draw is not below its crew: the call
returns true and sets `pilotError` to 30. -/
theorem Move_pilot_error (g : Geometry) (w : World) (d : MoveDraws) (s : Ship)
    (hcur : s.core.currentSystem ≠ none)
    (hforget : s.core.isSpecial = true ∨ s.core.forget + 1 < 1000)
    (hs : s.core.hyperspaceSystem = none) (hc : s.core.hyperspaceCount = 0)
    (hlp : s.core.landingPlanet = none) (hz : s.core.zoom = 1)
    (hhull : 0 ≤ s.core.hull) (hH : 0 ≤ s.core.attributes.get "hull")
    (hrep : 0 ≤ s.core.attributes.get "hull repair rate")
    (h1 : s.core.pilotError = 0) (h2 : s.core.pilotOkay = 0)
    (h3 : RequiredCrew s.core ≠ 0)
    (h4 : ((d.pilot % (RequiredCrew s.core).toNat : Nat) : Int) ≥ Crew s.core) :
    (Move g w d s).1 = true ∧ (Move g w d s).2.core.pilotError = 30 := by
  have hp : (movePresence s.core).1 = true := by
    rw [movePresence_ret]
    refine ⟨?_, hcur⟩
    rcases hforget with h | h
    · exact Or.inl h
    · right
      split_ifs <;> linarith
  have hps := movePresence_hyperspaceSystem_none s.core hs
  have hd : IsDestroyed (moveTop g s).1 = false := by
    simp only [IsDestroyed, decide_eq_false_iff_not, not_lt]
    exact moveTop_hull_nonneg g s hhull hH hrep
  have htp : (moveTop g s).1.pilotError = s.core.pilotError := by simp [moveTop]
  have hto : (moveTop g s).1.pilotOkay = s.core.pilotOkay := by simp [moveTop]
  have hta : (moveTop g s).1.attributes = s.core.attributes := by simp [moveTop]
  have htc : (moveTop g s).1.crew = s.core.crew := by simp [moveTop]
  rw [Move_flight g w d s hp hd hps hc hlp (by rw [hz]; exact lt_irrefl 1)]
  clear hd
  generalize moveTop g s = T at *
  refine ⟨rfl, ?_⟩
  obtain ⟨e1, e2⟩ := flight_crew g w (mk T.1 T.2.1 T.2.2)
  have r1 : RequiredCrew (mk T.1 T.2.1 T.2.2).core = RequiredCrew s.core := by
    simp only [core_mk, RequiredCrew, hta]
  have r2 : Crew (mk T.1 T.2.1 T.2.2).core = Crew s.core := by
    simp only [core_mk, Crew, htc]
  simp only [core_mk]
  rw [(moveFlight_pilotError g w d _).1]
  exact flightPilot_error d _ (by simp [htp, h1]) (by simp [hto, h2])
    (by rw [e1, r1]; exact h3) (by rw [e1, e2, r1, r2]; exact h4)

/-- C30 as stated fails for a Drone: the Drone with a `"required crew"` stat of
5 and no crew has `RequiredCrew()` 5 and `Crew()` 0, and with neither counter
running every draw is an error: the `Move` call sets `pilotError` to 30. -/
theorem C30_counterexample :
    strandedDrone.core.attributes.category = "Drone"
    ∧ RequiredCrew strandedDrone.core = 5
    ∧ Crew strandedDrone.core = 0
    ∧ strandedDrone.core.pilotError = 0
    ∧ strandedDrone.core.pilotOkay = 0
    ∧ ∀ d : MoveDraws,
        (Move flatGeometry {} d strandedDrone).1 = true
        ∧ (Move flatGeometry {} d strandedDrone).2.core.pilotError = 30 := by
  have hr : RequiredCrew strandedDrone.core = 5 := by
    simp [RequiredCrew, strandedDrone, truncInt]
  have hcrew : Crew strandedDrone.core = 0 := by simp [Crew, strandedDrone]
  refine ⟨by simp [strandedDrone], hr, hcrew, by simp [strandedDrone],
    by simp [strandedDrone], ?_⟩
  intro d
  exact Move_pilot_error flatGeometry {} d strandedDrone (by simp [strandedDrone])
    (Or.inl (by simp [strandedDrone])) (by simp [strandedDrone]) (by simp [strandedDrone])
    (by simp [strandedDrone]) (by simp [strandedDrone]) (by simp [strandedDrone])
    (by simp [strandedDrone]) (by simp [strandedDrone]) (by simp [strandedDrone])
    (by simp [strandedDrone]) (by rw [hr]; decide)
    (by rw [hcrew]; exact Int.natCast_nonneg _)

/-! ## The targets and the boarding flag through the steering step -/

theorem flightThrust_motion (g : Geometry) (mass : ℚ) (c : ShipCore) :
    ((flightThrust g mass c).1).angle = c.angle
    ∧ ((flightThrust g mass c).1).position = c.position
    ∧ ((flightThrust g mass c).1).targetSystem = c.targetSystem
    ∧ ((flightThrust g mass c).1).targetShip = c.targetShip
    ∧ ((flightThrust g mass c).1).parent = c.parent
    ∧ ((flightThrust g mass c).1).isBoarding = c.isBoarding := by
  simp only [flightThrust]
  split_ifs <;> simp

@[simp] theorem flightThrust_angle (g : Geometry) (mass : ℚ) (c : ShipCore) :
    ((flightThrust g mass c).1).angle = c.angle :=
  (flightThrust_motion g mass c).1

@[simp] theorem flightThrust_position (g : Geometry) (mass : ℚ) (c : ShipCore) :
    ((flightThrust g mass c).1).position = c.position :=
  (flightThrust_motion g mass c).2.1

@[simp] theorem flightThrust_targetSystem (g : Geometry) (mass : ℚ) (c : ShipCore) :
    ((flightThrust g mass c).1).targetSystem = c.targetSystem :=
  (flightThrust_motion g mass c).2.2.1

@[simp] theorem flightThrust_targetShip (g : Geometry) (mass : ℚ) (c : ShipCore) :
    ((flightThrust g mass c).1).targetShip = c.targetShip :=
  (flightThrust_motion g mass c).2.2.2.1

@[simp] theorem flightThrust_parent (g : Geometry) (mass : ℚ) (c : ShipCore) :
    ((flightThrust g mass c).1).parent = c.parent :=
  (flightThrust_motion g mass c).2.2.2.2.1

@[simp] theorem flightThrust_isBoarding (g : Geometry) (mass : ℚ) (c : ShipCore) :
    ((flightThrust g mass c).1).isBoarding = c.isBoarding :=
  (flightThrust_motion g mass c).2.2.2.2.2

theorem flightAfterburner_motion (g : Geometry) (mass : ℚ) (c : ShipCore) :
    ((flightAfterburner g mass c).1).angle = c.angle
    ∧ ((flightAfterburner g mass c).1).position = c.position
    ∧ ((flightAfterburner g mass c).1).targetSystem = c.targetSystem
    ∧ ((flightAfterburner g mass c).1).targetShip = c.targetShip
    ∧ ((flightAfterburner g mass c).1).parent = c.parent
    ∧ ((flightAfterburner g mass c).1).isBoarding = c.isBoarding := by
  simp only [flightAfterburner]
  split_ifs <;> simp

@[simp] theorem flightAfterburner_angle (g : Geometry) (mass : ℚ) (c : ShipCore) :
    ((flightAfterburner g mass c).1).angle = c.angle :=
  (flightAfterburner_motion g mass c).1

@[simp] theorem flightAfterburner_position (g : Geometry) (mass : ℚ) (c : ShipCore) :
    ((flightAfterburner g mass c).1).position = c.position :=
  (flightAfterburner_motion g mass c).2.1

@[simp] theorem flightAfterburner_targetSystem (g : Geometry) (mass : ℚ) (c : ShipCore) :
    ((flightAfterburner g mass c).1).targetSystem = c.targetSystem :=
  (flightAfterburner_motion g mass c).2.2.1

@[simp] theorem flightAfterburner_targetShip (g : Geometry) (mass : ℚ) (c : ShipCore) :
    ((flightAfterburner g mass c).1).targetShip = c.targetShip :=
  (flightAfterburner_motion g mass c).2.2.2.1

@[simp] theorem flightAfterburner_parent (g : Geometry) (mass : ℚ) (c : ShipCore) :
    ((flightAfterburner g mass c).1).parent = c.parent :=
  (flightAfterburner_motion g mass c).2.2.2.2.1

@[simp] theorem flightAfterburner_isBoarding (g : Geometry) (mass : ℚ) (c : ShipCore) :
    ((flightAfterburner g mass c).1).isBoarding = c.isBoarding :=
  (flightAfterburner_motion g mass c).2.2.2.2.2

theorem flightTurn_motion (turnRate : ℚ) (c : ShipCore) :
    (flightTurn turnRate c).velocity = c.velocity
    ∧ (flightTurn turnRate c).position = c.position
    ∧ (flightTurn turnRate c).targetSystem = c.targetSystem
    ∧ (flightTurn turnRate c).targetShip = c.targetShip
    ∧ (flightTurn turnRate c).parent = c.parent
    ∧ (flightTurn turnRate c).isBoarding = c.isBoarding := by
  simp only [flightTurn]
  split_ifs <;> simp

@[simp] theorem flightTurn_velocity (turnRate : ℚ) (c : ShipCore) :
    (flightTurn turnRate c).velocity = c.velocity :=
  (flightTurn_motion turnRate c).1

@[simp] theorem flightTurn_position (turnRate : ℚ) (c : ShipCore) :
    (flightTurn turnRate c).position = c.position :=
  (flightTurn_motion turnRate c).2.1

@[simp] theorem flightTurn_targetSystem (turnRate : ℚ) (c : ShipCore) :
    (flightTurn turnRate c).targetSystem = c.targetSystem :=
  (flightTurn_motion turnRate c).2.2.1

@[simp] theorem flightTurn_targetShip (turnRate : ℚ) (c : ShipCore) :
    (flightTurn turnRate c).targetShip = c.targetShip :=
  (flightTurn_motion turnRate c).2.2.2.1

@[simp] theorem flightTurn_parent (turnRate : ℚ) (c : ShipCore) :
    (flightTurn turnRate c).parent = c.parent :=
  (flightTurn_motion turnRate c).2.2.2.2.1

@[simp] theorem flightTurn_isBoarding (turnRate : ℚ) (c : ShipCore) :
    (flightTurn turnRate c).isBoarding = c.isBoarding :=
  (flightTurn_motion turnRate c).2.2.2.2.2

theorem flightSteer_motion (g : Geometry) (mass turnRate : ℚ) (c : ShipCore) :
    (flightSteer g mass turnRate c).position = c.position
    ∧ (flightSteer g mass turnRate c).targetSystem = c.targetSystem
    ∧ (flightSteer g mass turnRate c).targetShip = c.targetShip
    ∧ (flightSteer g mass turnRate c).parent = c.parent
    ∧ (flightSteer g mass turnRate c).isBoarding = c.isBoarding := by
  simp only [flightSteer]
  split_ifs <;> simp

@[simp] theorem flightSteer_position (g : Geometry) (mass turnRate : ℚ) (c : ShipCore) :
    (flightSteer g mass turnRate c).position = c.position :=
  (flightSteer_motion g mass turnRate c).1

@[simp] theorem flightSteer_targetSystem (g : Geometry) (mass turnRate : ℚ) (c : ShipCore) :
    (flightSteer g mass turnRate c).targetSystem = c.targetSystem :=
  (flightSteer_motion g mass turnRate c).2.1

@[simp] theorem flightSteer_targetShip (g : Geometry) (mass turnRate : ℚ) (c : ShipCore) :
    (flightSteer g mass turnRate c).targetShip = c.targetShip :=
  (flightSteer_motion g mass turnRate c).2.2.1

@[simp] theorem flightSteer_parent (g : Geometry) (mass turnRate : ℚ) (c : ShipCore) :
    (flightSteer g mass turnRate c).parent = c.parent :=
  (flightSteer_motion g mass turnRate c).2.2.2.1

@[simp] theorem flightSteer_isBoarding (g : Geometry) (mass turnRate : ℚ) (c : ShipCore) :
    (flightSteer g mass turnRate c).isBoarding = c.isBoarding :=
  (flightSteer_motion g mass turnRate c).2.2.2.2

theorem flightBoard_motion (g : Geometry) (w : World) (turnRate : ℚ) (c : ShipCore) :
    (flightBoard g w turnRate c).targetSystem = c.targetSystem
    ∧ (flightBoard g w turnRate c).parent = c.parent := by
  simp only [flightBoard]
  split <;> simp

@[simp] theorem flightBoard_targetSystem (g : Geometry) (w : World) (turnRate : ℚ) (c : ShipCore) :
    (flightBoard g w turnRate c).targetSystem = c.targetSystem :=
  (flightBoard_motion g w turnRate c).1

@[simp] theorem flightBoard_parent (g : Geometry) (w : World) (turnRate : ℚ) (c : ShipCore) :
    (flightBoard g w turnRate c).parent = c.parent :=
  (flightBoard_motion g w turnRate c).2

/-! ## C24: drag -/

/-- A thrust that is not applied changes nothing. -/
theorem flightThrust_idle (g : Geometry) (mass : ℚ) (c : ShipCore)
    (h : (flightThrust g mass c).2 = 0) : (flightThrust g mass c).1 = c := by
  simp only [flightThrust] at h ⊢
  generalize ((if c.commands.forward = true then (1 : ℚ) else 0)
    - (if c.commands.back = true then 1 else 0)) = tc at h ⊢
  by_cases h0 : tc = 0
  · simp [h0]
  · rw [if_pos h0] at h ⊢
    split_ifs at h ⊢
    all_goals first | rfl | exact absurd (show tc = 0 from h) h0

/-- Without a FORWARD or BACK command no thrust is applied. -/
theorem flightThrust_none (g : Geometry) (mass : ℚ) (c : ShipCore)
    (h1 : c.commands.forward = false) (h2 : c.commands.back = false) :
    flightThrust g mass c = (c, 0) := by
  simp [flightThrust, h1, h2]

/-- An afterburner that is not applied changes nothing. -/
theorem flightAfterburner_idle (g : Geometry) (mass : ℚ) (c : ShipCore)
    (h : (flightAfterburner g mass c).2 = false) : (flightAfterburner g mass c).1 = c := by
  simp only [flightAfterburner] at h ⊢
  split_ifs at h ⊢ <;> rfl

/-- Without an AFTERBURNER command no afterburner is applied. -/
theorem flightAfterburner_none (g : Geometry) (mass : ℚ) (c : ShipCore)
    (h : c.commands.afterburner = false) : flightAfterburner g mass c = (c, false) := by
  simp [flightAfterburner, h]

/-- The velocity that the steering step (lines 703-781) leaves. -/
theorem flightSteer_velocity (g : Geometry) (mass turnRate : ℚ) (c : ShipCore) :
    (c.isDisabled = true →
      (flightSteer g mass turnRate c).velocity
        = c.velocity.scale (1 - c.attributes.get "drag" / mass))
    ∧ (c.isDisabled = false → c.pilotError = 0 →
        ((flightThrust g mass c).2 ≠ 0
          ∨ (flightAfterburner g mass (flightThrust g mass c).1).2 = true) →
        (flightSteer g mass turnRate c).velocity
          = (flightAfterburner g mass (flightThrust g mass c).1).1.velocity.scale
              (1 - c.attributes.get "drag" / mass))
    ∧ (c.isDisabled = false →
        (c.pilotError ≠ 0
          ∨ ((flightThrust g mass c).2 = 0
              ∧ (flightAfterburner g mass (flightThrust g mass c).1).2 = false)) →
        (flightSteer g mass turnRate c).velocity = c.velocity) := by
  refine ⟨?_, ?_, ?_⟩
  · intro hd
    simp [flightSteer, hd]
  · intro hd hp ha
    simp only [flightSteer, hd, hp, Bool.false_eq_true, if_false, if_true, ha,
      flightTurn_velocity]
    simp
  · intro hd h
    rcases h with h | ⟨h1, h2⟩
    · simp [flightSteer, hd, h]
    · by_cases hp : c.pilotError = 0
      · have e1 := flightThrust_idle g mass c h1
        have e2 := flightAfterburner_idle g mass _ h2
        simp only [flightSteer, hd, hp, Bool.false_eq_true, if_false, if_true, h1, h2,
          flightTurn_velocity, ne_eq, not_true_eq_false, or_self]
        rw [e2, e1]
      · simp [flightSteer, hd, hp]

/-- The boarding step leaves the velocity alone for a ship that is not
boarding and is not commanded to board. -/
theorem flightBoard_velocity (g : Geometry) (w : World) (turnRate : ℚ) (c : ShipCore)
    (h1 : c.isBoarding = false) (h2 : c.commands.board = false) :
    (flightBoard g w turnRate c).velocity = c.velocity
    ∧ (flightBoard g w turnRate c).angle = c.angle := by
  simp only [flightBoard]
  split <;> simp [h1, h2]

/-- The steering step leaves the boarding flag and the BOARD command alone. -/
theorem flightSteer_boarding (g : Geometry) (mass turnRate : ℚ) (c : ShipCore) :
    (flightSteer g mass turnRate c).isBoarding = c.isBoarding
    ∧ (flightSteer g mass turnRate c).commands.board = c.commands.board := by
  refine ⟨flightSteer_isBoarding g mass turnRate c, ?_⟩
  have ht : ∀ c2 : ShipCore, (flightTurn turnRate c2).commands.board = c2.commands.board := by
    intro c2
    simp only [flightTurn]
    split_ifs <;> rfl
  simp only [flightSteer]
  split_ifs <;> simp [ht]

/-- The members that the steps before the steering leave alone. -/
theorem flightTop_frame (g : Geometry) (w : World) (d : MoveDraws) (s : Ship) :
    (flightTop g w d s).velocity = s.core.velocity
    ∧ (flightTop g w d s).angle = s.core.angle
    ∧ (flightTop g w d s).isDisabled = s.core.isDisabled
    ∧ (flightTop g w d s).attributes = s.core.attributes
    ∧ (flightTop g w d s).commands = s.core.commands
    ∧ (flightTop g w d s).isBoarding = s.core.isBoarding := by
  simp [flightTop]

/-- The velocity and the facing after normal flight are those that the
boarding step leaves. -/
theorem moveFlight_velocity (g : Geometry) (w : World) (d : MoveDraws) (s : Ship) :
    (moveFlight g w d s).velocity
      = (flightBoard g w (TurnRate s)
          (flightSteer g (Mass s) (TurnRate s) (flightTop g w d s))).velocity
    ∧ (moveFlight g w d s).angle
      = (flightBoard g w (TurnRate s)
          (flightSteer g (Mass s) (TurnRate s) (flightTop g w d s))).angle := by
  simp [moveFlight, flightTop]

/-- Normal flight of a ship that is not boarding: the velocity and the facing
are those that the steering step leaves. -/
theorem moveFlight_steer (g : Geometry) (w : World) (d : MoveDraws) (s : Ship)
    (h1 : s.core.isBoarding = false) (h2 : s.core.commands.board = false) :
    (moveFlight g w d s).velocity
      = (flightSteer g (Mass s) (TurnRate s) (flightTop g w d s)).velocity
    ∧ (moveFlight g w d s).angle
      = (flightSteer g (Mass s) (TurnRate s) (flightTop g w d s)).angle := by
  obtain ⟨_, _, _, _, f5, f6⟩ := flightTop_frame g w d s
  obtain ⟨b1, b2⟩ := flightSteer_boarding g (Mass s) (TurnRate s) (flightTop g w d s)
  obtain ⟨e1, e2⟩ := flightBoard_velocity g w (TurnRate s)
    (flightSteer g (Mass s) (TurnRate s) (flightTop g w d s))
    (by rw [b1, f6, h1]) (by rw [b2, f5, h2])
  rw [(moveFlight_velocity g w d s).1, (moveFlight_velocity g w d s).2, e1, e2]
  exact ⟨rfl, rfl⟩

/-- C24, amended. In the normal-flight phase of `Move` the steering step
(lines 703-781) multiplies the velocity by `1 - drag / Mass()` on every tick
in which a thrust or an afterburner is actually applied (after their
increments) and on every tick in which the ship is disabled; on a tick where
the ship is not disabled and neither thrust nor afterburner is applied, a turn
included, no drag is applied and the step leaves the velocity as it was. For
a ship that is not boarding the velocity after normal flight is the one the
steering step leaves. -/
theorem C24_drag (g : Geometry) (w : World) (d : MoveDraws) (s : Ship) :
    (s.core.isDisabled = true →
      (flightSteer g (Mass s) (TurnRate s) (flightTop g w d s)).velocity
        = s.core.velocity.scale (1 - s.core.attributes.get "drag" / Mass s))
    ∧ (s.core.isDisabled = false → (flightTop g w d s).pilotError = 0 →
        ((flightThrust g (Mass s) (flightTop g w d s)).2 ≠ 0
          ∨ (flightAfterburner g (Mass s)
              (flightThrust g (Mass s) (flightTop g w d s)).1).2 = true) →
        (flightSteer g (Mass s) (TurnRate s) (flightTop g w d s)).velocity
          = (flightAfterburner g (Mass s)
              (flightThrust g (Mass s) (flightTop g w d s)).1).1.velocity.scale
              (1 - s.core.attributes.get "drag" / Mass s))
    ∧ (s.core.isDisabled = false →
        ((flightTop g w d s).pilotError ≠ 0
          ∨ ((flightThrust g (Mass s) (flightTop g w d s)).2 = 0
              ∧ (flightAfterburner g (Mass s)
                  (flightThrust g (Mass s) (flightTop g w d s)).1).2 = false)) →
        (flightSteer g (Mass s) (TurnRate s) (flightTop g w d s)).velocity = s.core.velocity)
    ∧ (s.core.isBoarding = false → s.core.commands.board = false →
        (moveFlight g w d s).velocity
          = (flightSteer g (Mass s) (TurnRate s) (flightTop g w d s)).velocity) := by
  obtain ⟨f1, _, f3, f4, _, _⟩ := flightTop_frame g w d s
  obtain ⟨v1, v2, v3⟩ := flightSteer_velocity g (Mass s) (TurnRate s) (flightTop g w d s)
  rw [f1, f3, f4] at v1
  rw [f3, f4] at v2
  rw [f1, f3] at v3
  exact ⟨v1, v2, v3, fun h1 h2 => (moveFlight_steer g w d s h1 h2).1⟩

/-- The turning ship in normal flight: no thrust and no afterburner is
applied, the pilot is not in error and the turn is applied. -/
theorem turningShip_flight :
    turningShip.core.isDisabled = false
    ∧ Mass turningShip = 10
    ∧ (flightThrust stillGeometry (Mass turningShip)
        (flightTop stillGeometry {} {} turningShip)).2 = 0
    ∧ (flightAfterburner stillGeometry (Mass turningShip)
        (flightThrust stillGeometry (Mass turningShip)
          (flightTop stillGeometry {} {} turningShip)).1).2 = false
    ∧ (moveFlight stillGeometry {} {} turningShip).velocity = ⟨3, 4⟩
    ∧ (moveFlight stillGeometry {} {} turningShip).angle = 2
    ∧ (moveFlight stillGeometry {} {} turningShip).energy = 9 := by
  have hm : Mass turningShip = 10 := by
    simp [Mass, carriedMass, turningShip]
  have ht : TurnRate turningShip = 2 := by
    rw [TurnRate, hm]
    simp [turningShip]
    norm_num
  obtain ⟨f1, f2, f3, f4, f5, f6⟩ := flightTop_frame stillGeometry {} {} turningShip
  have hc : (flightTop stillGeometry {} {} turningShip).commands = { turn := 1 } := by
    rw [f5]
    simp [turningShip]
  have hd : (flightTop stillGeometry {} {} turningShip).isDisabled = false := by
    rw [f3]
    simp [turningShip]
  have hpe : (flightTop stillGeometry {} {} turningShip).pilotError = 0 := by
    simp [flightTop, flightPilot, turningShip]
  have hen : (flightTop stillGeometry {} {} turningShip).energy = 10 := by
    have h := (flightCloak_no_cloak (flightCommands stillGeometry {} turningShip)
      (by simp [turningShip])).1
    simp only [flightTop, flightPilot_energy, h, flightCommands_energy]
    simp [turningShip]
  have e1 := flightThrust_none stillGeometry (Mass turningShip)
    (flightTop stillGeometry {} {} turningShip) (by rw [hc]) (by rw [hc])
  have e2 := flightAfterburner_none stillGeometry (Mass turningShip)
    (flightTop stillGeometry {} {} turningShip) (by rw [hc])
  have h3 : (flightThrust stillGeometry (Mass turningShip)
      (flightTop stillGeometry {} {} turningShip)).2 = 0 := by rw [e1]
  have h4 : (flightAfterburner stillGeometry (Mass turningShip)
      (flightThrust stillGeometry (Mass turningShip)
        (flightTop stillGeometry {} {} turningShip)).1).2 = false := by rw [e1, e2]
  obtain ⟨m1, m2⟩ := moveFlight_steer stillGeometry {} {} turningShip
    (by simp [turningShip]) (by simp [turningShip])
  have hs : flightSteer stillGeometry (Mass turningShip) (TurnRate turningShip)
      (flightTop stillGeometry {} {} turningShip)
      = flightTurn (TurnRate turningShip) (flightTop stillGeometry {} {} turningShip) := by
    simp only [flightSteer, hd, hpe, e1, e2]
    simp
  have htn : (flightTop stillGeometry {} {} turningShip).commands.turn = 1 := by rw [hc]
  have hcost : (flightTop stillGeometry {} {} turningShip).attributes.get "turning energy"
      = 1 := by
    rw [f4]
    simp [turningShip]
  refine ⟨by simp [turningShip], hm, h3, h4, ?_, ?_, ?_⟩
  · rw [m1, hs, flightTurn_velocity, f1]
    simp [turningShip]
  · rw [m2, hs]
    simp only [flightTurn, htn, hcost, hen]
    norm_num
    rw [f2, ht]
    simp [turningShip]
  · simp only [moveFlight, flightBoard_energy]
    show (flightSteer stillGeometry (Mass turningShip) (TurnRate turningShip)
      (flightTop stillGeometry {} {} turningShip)).energy = 9
    rw [hs]
    simp only [flightTurn, htn, hcost, hen]
    norm_num

/-- C24 at the turning ship: it is not disabled and applies neither thrust
nor afterburner, so the steering step leaves its velocity at (3, 4). -/
theorem C24_drag_witness :
    (flightSteer stillGeometry (Mass turningShip) (TurnRate turningShip)
      (flightTop stillGeometry {} {} turningShip)).velocity = ⟨3, 4⟩ := by
  obtain ⟨h1, _, h3, h4, _⟩ := turningShip_flight
  have h := (C24_drag stillGeometry {} {} turningShip).2.2.1 h1 (Or.inr ⟨h3, h4⟩)
  rw [h]
  simp [turningShip]

/-- C24 as stated fails: the turning ship is not disabled and its turn is
applied (the facing goes from 0 to 2 and the energy from 10 to 9), yet its
velocity after normal flight is (3, 4) as before and not (3, 4) times
`1 - drag / Mass() = 9/10`. -/
theorem C24_counterexample :
    turningShip.core.isDisabled = false
    ∧ turningShip.core.angle = 0
    ∧ (moveFlight stillGeometry {} {} turningShip).angle = 2
    ∧ (moveFlight stillGeometry {} {} turningShip).energy = 9
    ∧ turningShip.core.velocity = ⟨3, 4⟩
    ∧ (moveFlight stillGeometry {} {} turningShip).velocity = ⟨3, 4⟩
    ∧ (moveFlight stillGeometry {} {} turningShip).velocity
        ≠ turningShip.core.velocity.scale
            (1 - turningShip.core.attributes.get "drag" / Mass turningShip) := by
  obtain ⟨h1, hm, _, _, h5, h6, h7⟩ := turningShip_flight
  refine ⟨h1, by simp [turningShip], h6, h7, by simp [turningShip], h5, ?_⟩
  rw [h5, hm]
  intro h
  have hx := congrArg Point.x h
  simp [turningShip, Point.scale] at hx

/-! ## C25: the jump that is called off -/

/-- One tick of a ship that is leaving hyperspace without a jump target, with
neither LAND nor JUMP commanded: it stays in its system, stays without a jump
target, and its counter stays, goes down by one or is reset to 0. -/
theorem Move_retreat (g : Geometry) (w : World) (d : MoveDraws) (s : Ship)
    (hs : s.core.hyperspaceSystem = none) (hc : s.core.hyperspaceCount ≠ 0)
    (hn : s.core.hyperspaceCount - 1 ≠ 100)
    (hland : s.core.commands.land = false) (hjump : s.core.commands.jump = false) :
    (Move g w d s).2.core.currentSystem = s.core.currentSystem
    ∧ (Move g w d s).2.core.hyperspaceSystem = none
    ∧ ((Move g w d s).2.core.hyperspaceCount = s.core.hyperspaceCount
        ∨ (Move g w d s).2.core.hyperspaceCount = s.core.hyperspaceCount - 1
        ∨ (Move g w d s).2.core.hyperspaceCount = 0)
    ∧ (Move g w d s).2.core.landingPlanet = s.core.landingPlanet := by
  have hps := movePresence_hyperspaceSystem_none s.core hs
  have hts : (moveTop g s).1.hyperspaceSystem = none := by simp [moveTop, hps]
  have htc : (moveTop g s).1.hyperspaceCount = s.core.hyperspaceCount := by simp [moveTop]
  have htl : (moveTop g s).1.landingPlanet = s.core.landingPlanet := by simp [moveTop]
  have htcur : (moveTop g s).1.currentSystem = s.core.currentSystem := by simp [moveTop]
  have htm : (moveTop g s).1.commands = s.core.commands := by simp [moveTop]
  cases hp : (movePresence s.core).1 with
  | false =>
    rw [Move_forgotten g w d s hp]
    simp [hps]
  | true =>
    cases hd : IsDestroyed (moveTop g s).1 with
    | true =>
      rw [Move_destroyed g w d s hp hd]
      clear hd
      generalize moveTop g s = T at *
      cases hq : (moveDestroyed d T.1).1 with
      | some b => simp [hts, htc, htl, htcur]
      | none =>
        obtain ⟨c1, c2⟩ := moveFlight_idle g w d (mk (moveDestroyed d T.1).2 T.2.1 T.2.2)
          (by simp [htm, hland]) (by simp [htm, hjump])
        simp only [core_mk, moveDestroyed_landingPlanet, moveDestroyed_hyperspaceSystem]
          at c1 c2
        simp [hts, htc, htl, htcur, c1, c2]
    | false =>
      rw [Move_hyperspace g w d s hp hd (Or.inr hc)]
      clear hd
      generalize moveTop g s = T at *
      obtain ⟨a1, a2, a3, _⟩ := moveHyperspace_retreat g w T.1 hts (by rw [htc]; exact hn)
      simp only [core_mk, moveHyperspace_landingPlanet]
      rw [a1, a2, htcur, ← htc]
      exact ⟨rfl, rfl, Or.inr a3, htl⟩

/-- A jump whose target has been taken away is never resumed: however many
`Move` calls follow, the ship stays in its system and its counter does not
rise. -/
theorem moveN_retreat (g : Geometry) (w : Nat → World) (d : Nat → MoveDraws) (s : Ship)
    (hs : s.core.hyperspaceSystem = none)
    (hc0 : 0 ≤ s.core.hyperspaceCount) (hc1 : s.core.hyperspaceCount < 100)
    (hlp : s.core.landingPlanet = none)
    (hland : s.core.commands.land = false) (hjump : s.core.commands.jump = false) (n : Nat) :
    (moveN g w d n s).2.core.currentSystem = s.core.currentSystem
    ∧ (moveN g w d n s).2.core.hyperspaceSystem = none
    ∧ 0 ≤ (moveN g w d n s).2.core.hyperspaceCount
    ∧ (moveN g w d n s).2.core.hyperspaceCount ≤ s.core.hyperspaceCount
    ∧ (moveN g w d n s).2.core.landingPlanet = none
    ∧ (moveN g w d n s).2.core.commands.land = false
    ∧ (moveN g w d n s).2.core.commands.jump = false := by
  induction n with
  | zero => exact ⟨rfl, hs, hc0, le_refl _, hlp, hland, hjump⟩
  | succ n ih =>
    obtain ⟨i1, i2, i3, i4, i5, i6, i7⟩ := ih
    obtain ⟨_, _, _, f4, f5, _⟩ := Move_frame g (w n) (d n) (moveN g w d n s).2
    rw [moveN_succ]
    by_cases h0 : (moveN g w d n s).2.core.hyperspaceCount = 0
    · obtain ⟨m1, m2, m3, m4⟩ := Move_idle g (w n) (d n) (moveN g w d n s).2 i2 h0 i5 i6 i7
      exact ⟨by rw [m1, i1], m2, by rw [m3], by rw [m3]; exact hc0, m4, by rw [f4, i6],
        by rw [f5, i7]⟩
    · obtain ⟨m1, m2, m3, m4⟩ := Move_retreat g (w n) (d n) (moveN g w d n s).2 i2 h0
        (by omega) i6 i7
      refine ⟨by rw [m1, i1], m2, ?_, ?_, by rw [m4, i5], by rw [f4, i6], by rw [f5, i7]⟩
      · show 0 ≤ (Move g (w n) (d n) (moveN g w d n s).2).2.core.hyperspaceCount
        rcases m3 with h | h | h <;> omega
      · show (Move g (w n) (d n) (moveN g w d n s).2).2.core.hyperspaceCount
          ≤ s.core.hyperspaceCount
        rcases m3 with h | h | h <;> omega

/-- C25, amended. `SetTargetSystem(nullptr)` clears only `targetSystem`; the
jump in progress is held in `hyperspaceSystem` and the counter, which the call
leaves alone. A jump is called off when `hyperspaceSystem` is cleared, as
`WasCaptured` does: for every ship with `0 < hyperspaceCount < 100` whose
`hyperspaceSystem` is null, that has no landing planet and is commanded neither
to land nor to jump, in the following `Move` calls `hyperspaceCount` never
rises, so it never reaches 100, and the current system never changes. -/
theorem C25_jump_abort (g : Geometry) (w : Nat → World) (d : Nat → MoveDraws) (s : Ship)
    (c capturer : ShipCore) (n : Nat)
    (hs : s.core.hyperspaceSystem = none)
    (hc0 : 0 < s.core.hyperspaceCount) (hc1 : s.core.hyperspaceCount < 100)
    (hlp : s.core.landingPlanet = none)
    (hland : s.core.commands.land = false) (hjump : s.core.commands.jump = false) :
    ((SetTargetSystem c none).targetSystem = none
      ∧ (SetTargetSystem c none).hyperspaceSystem = c.hyperspaceSystem
      ∧ (SetTargetSystem c none).hyperspaceCount = c.hyperspaceCount)
    ∧ ((WasCaptured c capturer).1.hyperspaceSystem = none
      ∧ (WasCaptured c capturer).1.hyperspaceCount = c.hyperspaceCount
      ∧ (WasCaptured c capturer).1.commands.land = false
      ∧ (WasCaptured c capturer).1.commands.jump = false)
    ∧ (moveN g w d n s).2.core.currentSystem = s.core.currentSystem
    ∧ (moveN g w d n s).2.core.hyperspaceCount ≤ s.core.hyperspaceCount
    ∧ (moveN g w d n s).2.core.hyperspaceCount ≠ 100
    ∧ (moveN g w d n s).2.core.hyperspaceSystem = none := by
  obtain ⟨m1, m2, _, m4, _⟩ := moveN_retreat g w d s hs hc0.le hc1 hlp hland hjump n
  exact ⟨⟨rfl, rfl, rfl⟩, ⟨rfl, rfl, rfl, rfl⟩, m1, m4, by omega, m2⟩

/-- C25 at the departing ship after a capture, which clears its
`hyperspaceSystem` in the ninety-ninth tick of the jump: three `Move` calls
later it is still in system 0. -/
theorem C25_jump_abort_witness :
    (moveN stillGeometry (fun _ => {}) (fun _ => {}) 3
      (mk (WasCaptured departingShip.core (crewShip "" 100 3 100 1)).1 [] [])).2.core.currentSystem
      = some 0
    ∧ (moveN stillGeometry (fun _ => {}) (fun _ => {}) 3
      (mk (WasCaptured departingShip.core (crewShip "" 100 3 100 1)).1 [] [])).2.core.hyperspaceCount
      ≠ 100 := by
  obtain ⟨_, _, h1, _, h3, _⟩ := C25_jump_abort stillGeometry (fun _ => {}) (fun _ => {})
    (mk (WasCaptured departingShip.core (crewShip "" 100 3 100 1)).1 [] [])
    departingShip.core (crewShip "" 100 3 100 1) 3
    (by simp [WasCaptured, SetParent, AddCrew])
    (by simp [WasCaptured, SetParent, AddCrew, departingShip])
    (by simp [WasCaptured, SetParent, AddCrew, departingShip])
    (by simp [WasCaptured, SetParent, AddCrew, departingShip])
    (by simp [WasCaptured, SetParent, AddCrew])
    (by simp [WasCaptured, SetParent, AddCrew])
  refine ⟨?_, h3⟩
  rw [h1]
  simp [WasCaptured, SetParent, AddCrew, departingShip]

/-- C25 as stated fails: the departing ship is in the ninety-ninth tick of a
jump to system 7; after `SetTargetSystem(nullptr)` its target is null, yet the
next `Move` call brings the counter to 100 and the ship to system 7. -/
theorem C25_counterexample :
    departingShip.core.hyperspaceCount = 99
    ∧ departingShip.core.targetSystem = some 7
    ∧ departingShip.core.currentSystem = some 0
    ∧ (SetTargetSystem departingShip.core none).targetSystem = none
    ∧ (Move stillGeometry {} {} (mk (SetTargetSystem departingShip.core none) [] [])).1 = true
    ∧ (Move stillGeometry {} {}
        (mk (SetTargetSystem departingShip.core none) [] [])).2.core.hyperspaceCount = 100
    ∧ (Move stillGeometry {} {}
        (mk (SetTargetSystem departingShip.core none) [] [])).2.core.currentSystem = some 7 := by
  obtain ⟨h1, _, _, _, _, _, _, h8⟩ := Move_jump_tick stillGeometry {} {}
    (mk (SetTargetSystem departingShip.core none) [] []) 7
    (by simp [SetTargetSystem, departingShip])
    (by simp [SetTargetSystem, departingShip])
    (by simp [SetTargetSystem, departingShip])
    (by simp [SetTargetSystem, departingShip])
    (by simp [SetTargetSystem, departingShip])
    (Or.inr (by simp [SetTargetSystem, departingShip]))
    (by simp [SetTargetSystem, departingShip])
    (by simp [SetTargetSystem, departingShip])
    (Or.inl (by simp [SetTargetSystem, departingShip]))
  obtain ⟨a1, _, _, a4⟩ := h8 (by simp [SetTargetSystem, departingShip])
  exact ⟨by simp [departingShip], by simp [departingShip], by simp [departingShip], rfl, h1,
    a4 (by simp [SetTargetSystem, departingShip]), a1⟩

/-! ## C28: the jump of an overheated ship -/

/-- What normal flight does to the jump target: it becomes the target system
when JUMP is commanded and `CanHyperspace` holds, unless a landing starts, and
stays as it is otherwise. -/
theorem moveFlight_hyperspaceSystem (g : Geometry) (w : World) (d : MoveDraws) (s : Ship) :
    (moveFlight g w d s).hyperspaceSystem
      = if s.core.commands.land = true ∧ CanLand g w s = true then s.core.hyperspaceSystem
        else if s.core.commands.jump = true ∧ CanHyperspace g w s = true then
          s.core.targetSystem
        else s.core.hyperspaceSystem := by
  simp only [moveFlight, flightBoard_hyperspaceSystem, flightSteer_hyperspaceSystem,
    flightPilot_hyperspaceSystem, flightCloak_hyperspaceSystem, flightCommands]
  cases hl : s.core.commands.land <;> cases hc : CanLand g w s <;>
    cases hj : s.core.commands.jump <;> cases hh : CanHyperspace g w s <;> simp

/-- A ship for which `IsDisabled()` holds cannot hyperspace. -/
theorem CanHyperspace_disabled (g : Geometry) (w : World) (s : Ship)
    (h : IsDisabled s.core = true) : CanHyperspace g w s = false := by
  simp [CanHyperspace, h]

/-- A ship with a jump drive, a target, the fuel and a speed within the jump
speed can hyperspace when `IsDisabled()` is false, whatever its disabled
flag. -/
theorem CanHyperspace_jumpDrive (g : Geometry) (w : World) (s : Ship)
    (h1 : IsDisabled s.core = false) (h2 : s.core.targetSystem ≠ none)
    (h3 : s.core.attributes.get "jump fuel" ≤ s.core.fuel)
    (h4 : s.core.attributes.get "scram drive" = 0)
    (h5 : g.length s.core.velocity ≤ s.core.attributes.get "jump speed")
    (h6 : s.core.attributes.get "jump drive" ≠ 0) : CanHyperspace g w s = true := by
  cases ht : s.core.targetSystem with
  | none => exact absurd ht h2
  | some t => simp [CanHyperspace, h1, ht, not_lt.mpr h3, h4, not_lt.mpr h5, h6]

/-- One tick of an overheated ship that is commanded to jump: the disabled
flag is set at the top of the call, and the jump starts all the same. -/
theorem Move_overheated_jump (g : Geometry) (w : World) (d : MoveDraws) (s : Ship)
    (t : SystemId)
    (hcur : s.core.currentSystem ≠ none)
    (hforget : s.core.isSpecial = true ∨ s.core.forget + 1 < 1000)
    (hs : s.core.hyperspaceSystem = none) (hc : s.core.hyperspaceCount = 0)
    (hlp : s.core.landingPlanet = none) (hz : ¬ s.core.zoom < 1)
    (hheat : s.core.heat * s.core.heatDissipation > Mass s * 100)
    (hhull0 : 0 ≤ s.core.hull) (hhull1 : MinimumHull s.core ≤ s.core.hull)
    (hhull2 : s.core.hull ≤ s.core.attributes.get "hull")
    (hcrew : s.core.crew ≠ 0)
    (hjump : s.core.commands.jump = true) (hland : s.core.commands.land = false)
    (htarget : s.core.targetSystem = some t)
    (hfuel : s.core.attributes.get "jump fuel" ≤ s.core.fuel)
    (hscram : s.core.attributes.get "scram drive" = 0)
    (hspeed : g.length s.core.velocity ≤ s.core.attributes.get "jump speed")
    (hdrive : s.core.attributes.get "jump drive" ≠ 0) :
    (Move g w d s).1 = true
    ∧ (moveClamp (Mass s) (movePresence s.core).2).isOverheated = true
    ∧ (moveClamp (Mass s) (movePresence s.core).2).isDisabled = true
    ∧ (Move g w d s).2.core.isDisabled = true
    ∧ (Move g w d s).2.core.hyperspaceSystem = some t := by
  have hp : (movePresence s.core).1 = true := by
    rw [movePresence_ret]
    refine ⟨?_, hcur⟩
    rcases hforget with h | h
    · exact Or.inl h
    · right
      split_ifs <;> linarith
  have hps := movePresence_hyperspaceSystem_none s.core hs
  obtain ⟨f1, f2⟩ := moveClamp_flags (Mass s) (movePresence s.core).2
  obtain ⟨_, _, _, p4⟩ := moveClamp_pools (Mass s) (movePresence s.core).2
  simp only [movePresence_heat, movePresence_heatDissipation] at f1
  simp only [movePresence_hull, movePresence_attributes] at p4
  have ho : (moveClamp (Mass s) (movePresence s.core).2).isOverheated = true := by
    rw [f1, if_pos hheat]
  have hdis : (moveClamp (Mass s) (movePresence s.core).2).isDisabled = true := by
    rw [f2, ho]
    rfl
  have htd : (moveTop g s).1.isDisabled = true := by
    simp only [moveTop, moveRegen_isDisabled]
    exact hdis
  have hth : (moveTop g s).1.hull = s.core.hull := by
    simp only [moveTop, moveRegen_hull, ho, if_true, p4]
    exact min_eq_left hhull2
  have htf : (moveTop g s).1.fuel = s.core.fuel := by
    simp only [moveTop]
    rw [(moveRegen_of_disabled g _ s.fighterBays s.droneBays hdis).1]
    simp
  have hta : (moveTop g s).1.attributes = s.core.attributes := by simp [moveTop]
  have htc : (moveTop g s).1.crew = s.core.crew := by simp [moveTop]
  have htm : (moveTop g s).1.commands = s.core.commands := by simp [moveTop]
  have htv : (moveTop g s).1.velocity = s.core.velocity := by simp [moveTop]
  have htt : (moveTop g s).1.targetSystem = s.core.targetSystem := by simp [moveTop]
  have hts : (moveTop g s).1.hyperspaceSystem = none := by simp [moveTop, hps]
  have hd : IsDestroyed (moveTop g s).1 = false := by
    simp only [IsDestroyed, decide_eq_false_iff_not, not_lt, hth]
    exact hhull0
  have hen : IsDisabled (moveTop g s).1 = false := by
    have hm : MinimumHull (moveTop g s).1 = MinimumHull s.core := by
      simp only [MinimumHull, hta]
    simp only [IsDisabled, hm, hth, htc]
    simp [hcrew, not_lt.mpr hhull1]
  rw [Move_flight g w d s hp hd hps hc hlp hz]
  clear hd
  generalize moveTop g s = T at *
  have hcan : CanHyperspace g w (mk T.1 T.2.1 T.2.2) = true :=
    CanHyperspace_jumpDrive g w _ (by simpa using hen) (by simp [htt, htarget])
      (by simpa [hta, htf] using hfuel) (by simpa [hta] using hscram)
      (by simpa [hta, htv] using hspeed) (by simpa [hta] using hdrive)
  refine ⟨rfl, ho, hdis, ?_, ?_⟩
  · simp only [core_mk, moveFlight_isDisabled]
    exact htd
  · rw [core_mk, moveFlight_hyperspaceSystem, core_mk, htm, hland, hjump, hcan]
    simp [htt, htarget]

/-- C28, the failing input. The ship is healthy (hull 100 of 100, crew 1), so
`IsDisabled()` is false, but its heat of 2000 is above 100 times its mass of
10: the top of the `Move` call sets the overheat flag and with it the disabled
flag. JUMP is commanded, system 7 is targeted, the fuel suffices and the ship
is at rest: the call returns true with the disabled flag set and
`hyperspaceSystem` set to system 7. -/
theorem C28_overheated_jump_failing_input :
    IsDisabled hotJumper.core = false
    ∧ hotJumper.core.hyperspaceSystem = none
    ∧ (moveClamp (Mass hotJumper) (movePresence hotJumper.core).2).isOverheated = true
    ∧ (moveClamp (Mass hotJumper) (movePresence hotJumper.core).2).isDisabled = true
    ∧ (Move stillGeometry {} {} hotJumper).1 = true
    ∧ (Move stillGeometry {} {} hotJumper).2.core.isDisabled = true
    ∧ (Move stillGeometry {} {} hotJumper).2.core.hyperspaceSystem = some 7 := by
  have hm : Mass hotJumper = 10 := by
    simp [Mass, carriedMass, hotJumper]
  have hmin : MinimumHull hotJumper.core = 50 := by
    simp [MinimumHull, hotJumper]
    norm_num
  obtain ⟨h1, h2, h3, h4, h5⟩ := Move_overheated_jump stillGeometry {} {} hotJumper 7
    (by simp [hotJumper]) (Or.inr (by simp [hotJumper])) (by simp [hotJumper])
    (by simp [hotJumper]) (by simp [hotJumper]) (by simp [hotJumper])
    (by rw [hm]; simp [hotJumper]; norm_num)
    (by simp [hotJumper]) (by rw [hmin]; simp [hotJumper]; norm_num)
    (by simp [hotJumper]) (by simp [hotJumper]) (by simp [hotJumper]) (by simp [hotJumper])
    (by simp [hotJumper]) (by simp [hotJumper]) (by simp [hotJumper])
    (by simp [hotJumper, stillGeometry]) (by simp [hotJumper])
  refine ⟨?_, by simp [hotJumper], h2, h3, h1, h4, h5⟩
  simp only [IsDisabled, hmin]
  simp [hotJumper, RequiredCrew, truncInt]
  norm_num

/-! ## C31: the excess shields -/

/-- One bay, for an excess that is not negative: the code's step is the
specification's step. -/
theorem rechargeBay_share (e : ℚ) (bay : Bay Ship) (ship : Ship) (he : 0 ≤ e)
    (hb : bay.ship = some ship) :
    rechargeBay e bay
      = (e - min (ship.core.attributes.get "shields"
                - min (ship.core.attributes.get "shields")
                    (ship.core.shields + ship.core.attributes.get "shield generation")) e,
         { bay with ship := some (setShields ship
            (min (ship.core.attributes.get "shields")
                (ship.core.shields + ship.core.attributes.get "shield generation")
              + min (ship.core.attributes.get "shields"
                  - min (ship.core.attributes.get "shields")
                      (ship.core.shields + ship.core.attributes.get "shield generation")) e)) }) := by
  have hroom : 0 ≤ ship.core.attributes.get "shields"
      - min (ship.core.attributes.get "shields")
          (ship.core.shields + ship.core.attributes.get "shield generation") := by
    have := min_le_left (ship.core.attributes.get "shields")
      (ship.core.shields + ship.core.attributes.get "shield generation")
    linarith
  simp only [rechargeBay, hb]
  split_ifs with h
  · rfl
  · have hz : min (ship.core.attributes.get "shields"
        - min (ship.core.attributes.get "shields")
            (ship.core.shields + ship.core.attributes.get "shield generation")) e = 0 := by
      rw [not_and_or, not_lt, not_lt] at h
      rcases h with h | h
      · have : e = 0 := le_antisymm h he
        rw [this]
        exact min_eq_right hroom
      · have : ship.core.attributes.get "shields"
            - min (ship.core.attributes.get "shields")
                (ship.core.shields + ship.core.attributes.get "shield generation") = 0 := by
          linarith
        rw [this]
        exact min_eq_left he
    rw [hz]
    simp

/-- The loop over a bay vector is the hand-over that the specification
describes, for an excess that is not negative. -/
theorem rechargeBays_share (bays : List (Bay Ship)) :
    ∀ e : ℚ, 0 ≤ e → rechargeBays e bays = shareExcess e bays := by
  induction bays with
  | nil => intro e _; rfl
  | cons bay rest ih =>
    intro e he
    cases hb : bay.ship with
    | none =>
      simp only [rechargeBays, rechargeBay, shareExcess, hb]
      rw [ih e he]
    | some ship =>
      have h1 := rechargeBay_share e bay ship he hb
      have hle : min (ship.core.attributes.get "shields"
          - min (ship.core.attributes.get "shields")
              (ship.core.shields + ship.core.attributes.get "shield generation")) e ≤ e :=
        min_le_right _ _
      simp only [rechargeBays, shareExcess, hb, h1]
      rw [ih _ (by linarith)]

/-- Every craft docked in the bays after the loop has shields of at most its
own capacity. -/
theorem rechargeBays_capped (bays : List (Bay Ship)) :
    ∀ e : ℚ, ∀ b ∈ (rechargeBays e bays).2, ∀ ship : Ship, b.ship = some ship →
      ship.core.shields ≤ ship.core.attributes.get "shields" := by
  induction bays with
  | nil =>
    intro e b hb
    simp [rechargeBays] at hb
  | cons bay rest ih =>
    intro e b hb ship hs
    simp only [rechargeBays, List.mem_cons] at hb
    rcases hb with hb | hb
    · subst hb
      simp only [rechargeBay] at hs
      cases hbay : bay.ship with
      | none =>
        rw [hbay] at hs
        simp only at hs
        rw [hbay] at hs
        cases hs
      | some craft =>
        rw [hbay] at hs
        simp only at hs
        split_ifs at hs with hc
        · simp only [Option.some.injEq] at hs
          subst hs
          simp only [setShields, core_mk]
          have := min_le_left (craft.core.attributes.get "shields"
            - min (craft.core.attributes.get "shields")
                (craft.core.shields + craft.core.attributes.get "shield generation")) e
          linarith
        · simp only [Option.some.injEq] at hs
          subst hs
          simp only [setShields, core_mk]
          exact min_le_left _ _
    · exact ih _ b hb ship hs

/-- What the craft of a bay vector take, and what is left, add up to the
excess that the loop started with. -/
theorem rechargeBays_conserved (bays : List (Bay Ship)) :
    ∀ e : ℚ, craftShields (rechargeBays e bays).2 - craftOwn bays + (rechargeBays e bays).1
      = e := by
  induction bays with
  | nil =>
    intro e
    simp [rechargeBays, craftShields, craftOwn]
  | cons bay rest ih =>
    intro e
    have h := ih (rechargeBay e bay).1
    simp only [rechargeBays, craftShields, craftOwn]
    cases hbay : bay.ship with
    | none =>
      simp only [rechargeBay, hbay] at h ⊢
      linarith
    | some craft =>
      simp only [rechargeBay, hbay] at h ⊢
      split_ifs at h ⊢ with hc
      · simp only [setShields, core_mk] at h ⊢
        linarith
      · simp only [setShields, core_mk] at h ⊢
        linarith

/-- The bays after the regeneration step of a ship that is not disabled. -/
theorem moveRegen_bays (g : Geometry) (c : ShipCore) (fb db : List (Bay Ship))
    (hd : c.isDisabled = false) :
    (moveRegen g c fb db).2.1
      = (rechargeBays
          (max 0 (c.shields + c.attributes.get "shield generation"
            - c.attributes.get "shields")) fb).2
    ∧ (moveRegen g c fb db).2.2
      = (rechargeBays
          (rechargeBays
            (max 0 (c.shields + c.attributes.get "shield generation"
              - c.attributes.get "shields")) fb).1 db).2 := by
  cases ho : c.isOverheated <;> simp [moveRegen, ho, hd, TransferFuel]

/-- C31. In the regeneration step of a ship that is not disabled, with
`E = max(0, shields + shield generation - shield capacity)`: the fighter bays
after the step are those that the hand-over described in the specification
(`shareExcess`: bay order, own generation capped at own capacity first, then
the smaller of room and remaining excess) makes of them starting from `E`,
and the drone bays those that it makes of them starting from what the fighter
bays left; every docked craft ends with shields of at most its own capacity;
and what the craft took plus what is credited back to the energy of the ship
is `E`. -/
theorem C31_excess_shields (g : Geometry) (c : ShipCore) (fb db : List (Bay Ship))
    (hd : c.isDisabled = false) :
    (moveRegen g c fb db).2.1
      = (shareExcess
          (max 0 (c.shields + c.attributes.get "shield generation"
            - c.attributes.get "shields")) fb).2
    ∧ (moveRegen g c fb db).2.2
      = (shareExcess
          (shareExcess
            (max 0 (c.shields + c.attributes.get "shield generation"
              - c.attributes.get "shields")) fb).1 db).2
    ∧ (∀ b ∈ (moveRegen g c fb db).2.1 ++ (moveRegen g c fb db).2.2, ∀ ship : Ship,
        b.ship = some ship → ship.core.shields ≤ ship.core.attributes.get "shields")
    ∧ (craftShields (moveRegen g c fb db).2.1 - craftOwn fb)
        + (craftShields (moveRegen g c fb db).2.2 - craftOwn db)
        + regenExcess c fb db
      = max 0 (c.shields + c.attributes.get "shield generation" - c.attributes.get "shields")
    ∧ (moveRegen g c fb db).1.energy
      = (if c.energy + c.attributes.get "energy generation"
              - c.attributes.get "shield generation" + regenExcess c fb db < 0 then 0
         else c.energy + c.attributes.get "energy generation"
              - c.attributes.get "shield generation" + regenExcess c fb db) := by
  obtain ⟨b1, b2⟩ := moveRegen_bays g c fb db hd
  have hE : (0 : ℚ) ≤ max 0 (c.shields + c.attributes.get "shield generation"
      - c.attributes.get "shields") := le_max_left _ _
  have hE1 := (rechargeBays_excess fb _ hE).1
  have s1 := rechargeBays_share fb _ hE
  have s2 := rechargeBays_share db _ hE1
  have k1 := rechargeBays_conserved fb
    (max 0 (c.shields + c.attributes.get "shield generation" - c.attributes.get "shields"))
  have k2 := rechargeBays_conserved db
    (rechargeBays
      (max 0 (c.shields + c.attributes.get "shield generation"
        - c.attributes.get "shields")) fb).1
  refine ⟨?_, ?_, ?_, ?_, ?_⟩
  · rw [b1, s1]
  · rw [b2, s2, s1]
  · intro b hb ship hs
    rw [List.mem_append] at hb
    rcases hb with hb | hb
    · rw [b1] at hb
      exact rechargeBays_capped fb _ b hb ship hs
    · rw [b2] at hb
      exact rechargeBays_capped db _ b hb ship hs
  · rw [b1, b2]
    unfold regenExcess
    linarith
  · have h := (moveRegen_of_enabled g c fb db hd).2.1
    unfold regenEnergy at h
    exact h

/-- C31 at a carrier with an excess of 30, a fighter with room for 20 and a
drone with room for 50: the fighter takes 20, the drone the remaining 10, and
nothing is credited back. -/
theorem C31_excess_shields_witness :
    (moveRegen stillGeometry sharingCarrier.core sharingCarrier.fighterBays
        sharingCarrier.droneBays).2.1
      = (shareExcess 30 sharingCarrier.fighterBays).2
    ∧ craftShields (shareExcess 30 sharingCarrier.fighterBays).2 = 20
    ∧ craftShields (shareExcess (shareExcess 30 sharingCarrier.fighterBays).1
        sharingCarrier.droneBays).2 = 10
    ∧ regenExcess sharingCarrier.core sharingCarrier.fighterBays sharingCarrier.droneBays
      = 0 := by
  obtain ⟨h1, h2, _, h4, _⟩ := C31_excess_shields stillGeometry sharingCarrier.core
    sharingCarrier.fighterBays sharingCarrier.droneBays (by simp [sharingCarrier])
  have hE : max 0 (sharingCarrier.core.shields
      + sharingCarrier.core.attributes.get "shield generation"
      - sharingCarrier.core.attributes.get "shields") = 30 := by
    simp [sharingCarrier]
  rw [hE] at h1 h2 h4
  have f1 : craftShields (shareExcess 30 sharingCarrier.fighterBays).2 = 20 := by
    simp [sharingCarrier, shieldCraft, shareExcess, craftShields, setShields]
    norm_num
  have f0 : (shareExcess 30 sharingCarrier.fighterBays).1 = 10 := by
    simp [sharingCarrier, shieldCraft, shareExcess]
    norm_num
  have f2 : craftShields (shareExcess (shareExcess 30 sharingCarrier.fighterBays).1
      sharingCarrier.droneBays).2 = 10 := by
    rw [f0]
    simp [sharingCarrier, shieldCraft, shareExcess, craftShields, setShields]
    norm_num
  refine ⟨h1, f1, f2, ?_⟩
  rw [h1, h2, f1, f2] at h4
  have o1 : craftOwn sharingCarrier.fighterBays = 0 := by
    simp [sharingCarrier, shieldCraft, craftOwn]
  have o2 : craftOwn sharingCarrier.droneBays = 0 := by
    simp [sharingCarrier, shieldCraft, craftOwn]
  rw [o1, o2] at h4
  linarith

/-! ## C32: no regeneration while overheated -/

/-- C32. For every ship that is overheated after the heat update at the top
of the tick (lines 428-439), the regeneration step (lines 441-509) changes
nothing at all, the docked craft included: hull, shields and energy are the
values clamped to capacity, the fuel is unchanged and the heat is the old heat
times the dissipation factor. -/
theorem C32_overheated_regen (g : Geometry) (mass : ℚ) (c : ShipCore)
    (fb db : List (Bay Ship)) (h : (moveClamp mass c).isOverheated = true) :
    moveRegen g (moveClamp mass c) fb db = (moveClamp mass c, fb, db)
    ∧ (moveRegen g (moveClamp mass c) fb db).1.hull = min c.hull (c.attributes.get "hull")
    ∧ (moveRegen g (moveClamp mass c) fb db).1.shields
        = min c.shields (c.attributes.get "shields")
    ∧ (moveRegen g (moveClamp mass c) fb db).1.energy
        = min c.energy (c.attributes.get "energy capacity")
    ∧ (moveRegen g (moveClamp mass c) fb db).1.fuel = c.fuel
    ∧ (moveRegen g (moveClamp mass c) fb db).1.heat = c.heat * c.heatDissipation := by
  obtain ⟨_, f2⟩ := moveClamp_flags mass c
  obtain ⟨p1, p2, p3, p4⟩ := moveClamp_pools mass c
  have hd : (moveClamp mass c).isDisabled = true := by
    rw [f2, h]
    rfl
  have e : moveRegen g (moveClamp mass c) fb db = (moveClamp mass c, fb, db) := by
    generalize moveClamp mass c = k at h hd
    simp [moveRegen, h, hd]
  rw [e]
  exact ⟨rfl, p4, p3, p1, moveClamp_fuel mass c, p2⟩

/-- C32 at a ship of mass 10 whose heat of 2000 overheats it: the step leaves
the heat at 1998 and the bays as they were. -/
theorem C32_overheated_regen_witness :
    (moveRegen stillGeometry (moveClamp 10 (hotShip 2000 false).core) [] []).1.heat = 1998
    ∧ (moveRegen stillGeometry (moveClamp 10 (hotShip 2000 false).core) [] []).2 = ([], []) := by
  have ho : (moveClamp 10 (hotShip 2000 false).core).isOverheated = true := by
    rw [(moveClamp_flags 10 (hotShip 2000 false).core).1]
    simp [hotShip]
    norm_num
  obtain ⟨h1, _, _, _, _, h6⟩ := C32_overheated_regen stillGeometry 10
    (hotShip 2000 false).core [] [] ho
  refine ⟨?_, ?_⟩
  · rw [h6]
    simp [hotShip]
    norm_num
  · rw [h1]

/-! ## C36: the heat that `Recharge` sets -/

/-- C36, amended. For a ship that is not destroyed and whose dissipation
factor is below 1, or is any factor other than 1 when the heat generation does
not exceed the cooling, the heat `h` that `Recharge` sets, `max(0, heat
generation - cooling) / (1 - heatDissipation)`, is a fixed point of the heat
update of a tick: `h = max(0, h * heatDissipation + heat generation -
cooling)`, and the heat after the clamp and regeneration steps of `Move` is
`h` again when the ship is not disabled. -/
theorem C36_heat_equilibrium (g : Geometry) (mass : ℚ) (c : ShipCore) (atSpaceport : Bool)
    (fb db : List (Bay Ship)) (hd : IsDestroyed c = false)
    (hf : c.heatDissipation < 1
      ∨ (c.heatDissipation ≠ 1
          ∧ c.attributes.get "heat generation" ≤ c.attributes.get "cooling")) :
    (Recharge c atSpaceport).heat
      = max 0 (c.attributes.get "heat generation" - c.attributes.get "cooling")
          / (1 - c.heatDissipation)
    ∧ (Recharge c atSpaceport).heat
      = max 0 ((Recharge c atSpaceport).heat * c.heatDissipation
          + c.attributes.get "heat generation" - c.attributes.get "cooling")
    ∧ ((moveClamp mass (Recharge c atSpaceport)).isDisabled = false →
        (moveRegen g (moveClamp mass (Recharge c atSpaceport)) fb db).1.heat
          = (Recharge c atSpaceport).heat) := by
  have hr : (Recharge c atSpaceport).heat
      = max 0 (c.attributes.get "heat generation" - c.attributes.get "cooling")
          / (1 - c.heatDissipation) := by
    simp only [Recharge, hd]
    cases atSpaceport <;> cases hp : c.personality.isDerelict <;> simp [hp]
  have ha : (Recharge c atSpaceport).attributes = c.attributes :=
    (Recharge_outfits c atSpaceport).2.1
  have hdis : (Recharge c atSpaceport).heatDissipation = c.heatDissipation := by
    simp only [Recharge, hd]
    cases atSpaceport <;> cases hp : c.personality.isDerelict <;> simp [hp]
  have hfix : (Recharge c atSpaceport).heat
      = max 0 ((Recharge c atSpaceport).heat * c.heatDissipation
          + c.attributes.get "heat generation" - c.attributes.get "cooling") := by
    rw [hr]
    rcases hf with hlt | ⟨hne, hle⟩
    · have h1 : 0 < 1 - c.heatDissipation := by linarith
      by_cases hG : 0 ≤ c.attributes.get "heat generation" - c.attributes.get "cooling"
      · rw [max_eq_right hG]
        have e : (c.attributes.get "heat generation" - c.attributes.get "cooling")
            / (1 - c.heatDissipation) * c.heatDissipation
            + c.attributes.get "heat generation" - c.attributes.get "cooling"
            = (c.attributes.get "heat generation" - c.attributes.get "cooling")
              / (1 - c.heatDissipation) := by
          field_simp
          ring
        rw [e, max_eq_right (div_nonneg hG h1.le)]
      · rw [max_eq_left (le_of_not_le hG)]
        simp only [zero_div, zero_mul, zero_add]
        rw [max_eq_left (le_of_not_le hG)]
    · rw [max_eq_left (by linarith)]
      simp only [zero_div, zero_mul, zero_add]
      rw [max_eq_left (by linarith)]
  refine ⟨hr, hfix, ?_⟩
  intro hen
  rw [(moveRegen_of_enabled g _ fb db hen).2.2.2, (moveClamp_pools mass _).2.1,
    moveClamp_attributes, ha, hdis]
  exact hfix.symm

/-- C36 at the ship with heat generation 3, cooling 1 and the default factor
0.999: `Recharge` sets the heat to 2000, and 2000 * 0.999 + 3 - 1 is 2000. -/
theorem C36_heat_equilibrium_witness :
    (Recharge (loadedShip 0) true).heat = 2000
    ∧ (Recharge (loadedShip 0) true).heat
      = max 0 ((Recharge (loadedShip 0) true).heat * (999 / 1000) + 3 - 1) := by
  obtain ⟨h1, _, _⟩ := C36_heat_equilibrium stillGeometry 10 (loadedShip 0) true [] []
    (by simp [IsDestroyed, loadedShip]) (Or.inl (by simp [loadedShip]; norm_num))
  have e : (Recharge (loadedShip 0) true).heat = 2000 := by
    rw [h1]
    simp [loadedShip]
    norm_num
  refine ⟨e, ?_⟩
  rw [e]
  norm_num

/-- C36 as stated fails: with the dissipation factor 2 (a base stat of
-1000), heat generation 3 and cooling 1, `Recharge` sets the heat to
`2 / (1 - 2) = -2`, and the heat update of a tick makes 0 of it, not -2. -/
theorem C36_counterexample :
    (loadHeatDissipation (loadedShip (-1000))).heatDissipation = 2
    ∧ (Recharge (loadHeatDissipation (loadedShip (-1000))) true).heat = -2
    ∧ max 0 ((Recharge (loadHeatDissipation (loadedShip (-1000))) true).heat * 2 + 3 - 1) = 0
    ∧ (Recharge (loadHeatDissipation (loadedShip (-1000))) true).heat
        ≠ max 0 ((Recharge (loadHeatDissipation (loadedShip (-1000))) true).heat
            * (loadHeatDissipation (loadedShip (-1000))).heatDissipation
            + (loadedShip (-1000)).attributes.get "heat generation"
            - (loadedShip (-1000)).attributes.get "cooling") := by
  have hd : (loadHeatDissipation (loadedShip (-1000))).heatDissipation = 2 := by
    simp [loadHeatDissipation, loadedShip]
    norm_num
  have hr : (Recharge (loadHeatDissipation (loadedShip (-1000))) true).heat = -2 := by
    simp [Recharge, IsDestroyed, loadHeatDissipation, loadedShip]
    norm_num
  refine ⟨hd, hr, ?_, ?_⟩
  · rw [hr]
    norm_num
  · rw [hr, hd]
    simp [loadedShip]
    norm_num

/-! ## C35: the zoom -/

/-- The landing phase keeps a zoom that starts within `[0, 1]` there when it
returns true, and moves it by at most 0.02. -/
theorem moveLanding_zoom (w : World) (c : ShipCore) (h0 : 0 ≤ c.zoom) (h1 : c.zoom ≤ 1) :
    ((moveLanding w c).1 = true →
      0 ≤ (moveLanding w c).2.zoom ∧ (moveLanding w c).2.zoom ≤ 1)
    ∧ |(moveLanding w c).2.zoom - c.zoom| ≤ 2 / 100 := by
  have hup : 0 ≤ min 1 (c.zoom + 2 / 100) ∧ min 1 (c.zoom + 2 / 100) ≤ 1
      ∧ |min 1 (c.zoom + 2 / 100) - c.zoom| ≤ 2 / 100 := by
    refine ⟨le_min zero_le_one (by linarith), min_le_left _ _, ?_⟩
    rw [abs_le]
    constructor
    · have := le_min h1 (show c.zoom ≤ c.zoom + 2 / 100 by linarith)
      linarith
    · have := min_le_right 1 (c.zoom + 2 / 100)
      linarith
  simp only [moveLanding]
  cases hl : c.landingPlanet with
  | none => exact ⟨fun _ => ⟨hup.1, hup.2.1⟩, hup.2.2⟩
  | some planet =>
    simp only
    split_ifs with a1 a2 a3 a4 a5
    · refine ⟨fun _ => ⟨le_refl _, zero_le_one⟩, ?_⟩
      show |(0 : ℚ) - c.zoom| ≤ 2 / 100
      have a2' : c.zoom - 2 / 100 < 0 := by
        cases ht : c.targetPlanet <;> simpa [ht] using a2
      rw [abs_le]
      constructor <;> linarith
    · refine ⟨fun hr => (by cases hr), ?_⟩
      have e : ∀ k : ShipCore, k.zoom = c.zoom →
          |({ k with zoom := k.zoom - 2 / 100 } : ShipCore).zoom - c.zoom| ≤ 2 / 100 := by
        intro k hk
        show |k.zoom - 2 / 100 - c.zoom| ≤ 2 / 100
        rw [hk, abs_le]
        constructor <;> linarith
      cases ht : c.targetPlanet <;> exact e _ rfl
    · refine ⟨fun _ => ⟨le_refl _, zero_le_one⟩, ?_⟩
      show |(0 : ℚ) - c.zoom| ≤ 2 / 100
      have a2' : c.zoom - 2 / 100 < 0 := by
        cases ht : c.targetPlanet <;> simpa [ht] using a2
      rw [abs_le]
      constructor <;> linarith
    · have a2' : ¬ c.zoom - 2 / 100 < 0 := by
        cases ht : c.targetPlanet <;> simpa [ht] using a2
      have e : ∀ k : ShipCore, k.zoom = c.zoom →
          (0 ≤ ({ k with zoom := k.zoom - 2 / 100 } : ShipCore).zoom
            ∧ ({ k with zoom := k.zoom - 2 / 100 } : ShipCore).zoom ≤ 1)
          ∧ |({ k with zoom := k.zoom - 2 / 100 } : ShipCore).zoom - c.zoom| ≤ 2 / 100 := by
        intro k hk
        show (0 ≤ k.zoom - 2 / 100 ∧ k.zoom - 2 / 100 ≤ 1) ∧ |k.zoom - 2 / 100 - c.zoom| ≤ 2 / 100
        rw [hk, abs_le]
        refine ⟨⟨by linarith, by linarith⟩, by linarith, by linarith⟩
      cases ht : c.targetPlanet
      · exact ⟨fun _ => (e _ rfl).1, (e _ rfl).2⟩
      · exact ⟨fun _ => (e _ rfl).1, (e _ rfl).2⟩
    · exact ⟨fun _ => ⟨hup.1, hup.2.1⟩, hup.2.2⟩
    · refine ⟨fun _ => ⟨h0, h1⟩, ?_⟩
      show |c.zoom - c.zoom| ≤ 2 / 100
      rw [sub_self, abs_zero]
      norm_num

/-- A `Move` call changes the zoom only in the landing phase, where the zoom
is the one that `moveLanding` leaves. -/
theorem Move_zoom (g : Geometry) (w : World) (d : MoveDraws) (s : Ship) :
    (Move g w d s).2.core.zoom = s.core.zoom
    ∨ ((s.core.landingPlanet ≠ none ∨ s.core.zoom < 1)
        ∧ s.core.hyperspaceCount = 0
        ∧ (movePresence s.core).2.hyperspaceSystem = none
        ∧ (Move g w d s).1 = (moveLanding w (moveTop g s).1).1
        ∧ (Move g w d s).2.core.zoom = (moveLanding w (moveTop g s).1).2.zoom) := by
  have htz : (moveTop g s).1.zoom = s.core.zoom := by simp [moveTop]
  cases hp : (movePresence s.core).1 with
  | false =>
    rw [Move_forgotten g w d s hp]
    left
    simp
  | true =>
    cases hd : IsDestroyed (moveTop g s).1 with
    | true =>
      rw [Move_destroyed g w d s hp hd]
      clear hd
      generalize moveTop g s = T at *
      left
      cases hq : (moveDestroyed d T.1).1 with
      | some b => simp [htz]
      | none => simp [htz]
    | false =>
      by_cases hh : (movePresence s.core).2.hyperspaceSystem ≠ none
          ∨ s.core.hyperspaceCount ≠ 0
      · rw [Move_hyperspace g w d s hp hd hh]
        left
        simp [htz]
      · rw [not_or, not_not, not_not] at hh
        by_cases hl : s.core.landingPlanet ≠ none ∨ s.core.zoom < 1
        · rw [Move_landing g w d s hp hd hh.1 hh.2 hl]
          right
          exact ⟨hl, hh.2, hh.1, rfl, by simp⟩
        · rw [not_or, not_not] at hl
          rw [Move_flight g w d s hp hd hh.1 hh.2 hl.1 hl.2]
          left
          simp [htz]

/-- The craft that `UnloadFighters` releases from a bay vector are landed:
their zoom is 0. -/
theorem unloadBays_zoom (c : ShipCore) (bays : List (Bay Ship)) :
    ∀ craft ∈ (unloadBays c bays).2, craft.core.zoom = 0 := by
  induction bays with
  | nil =>
    intro craft h
    simp [unloadBays] at h
  | cons bay rest ih =>
    intro craft h
    simp only [unloadBays] at h
    cases hb : bay.ship with
    | none =>
      rw [hb] at h
      exact ih craft h
    | some k =>
      rw [hb] at h
      simp only [List.mem_cons] at h
      rcases h with h | h
      · rw [h]
        simp [SetPlanet]
      · exact ih craft h

/-- C35. For every ship whose zoom starts within `[0, 1]`: after a `Move`
call that returns true the zoom is within `[0, 1]`; a `Move` call changes the
zoom by at most 0.02, and changes it only in the landing phase (a landing
planet is set or the zoom is below 1, and no jump is in progress). `Place`
leaves the zoom of a landed ship alone and sets it to 1 otherwise, `SetPlanet`
sets it to 0, `AddFighter` leaves the zoom of the carrier alone and sets that
of the craft it docks to 0, and `UnloadFighters` leaves the zoom of the ship
alone and sets that of every craft it releases to 0: all within `[0, 1]`. -/
theorem C35_zoom (g : Geometry) (w : World) (d : MoveDraws) (s : Ship)
    (h0 : 0 ≤ s.core.zoom) (h1 : s.core.zoom ≤ 1) :
    ((Move g w d s).1 = true →
      0 ≤ (Move g w d s).2.core.zoom ∧ (Move g w d s).2.core.zoom ≤ 1)
    ∧ |(Move g w d s).2.core.zoom - s.core.zoom| ≤ 2 / 100
    ∧ ((Move g w d s).2.core.zoom ≠ s.core.zoom →
        (s.core.landingPlanet ≠ none ∨ s.core.zoom < 1)
        ∧ s.core.hyperspaceCount = 0 ∧ (movePresence s.core).2.hyperspaceSystem = none)
    ∧ (∀ position velocity angle,
        0 ≤ (Place s.core position velocity angle).zoom
        ∧ (Place s.core position velocity angle).zoom ≤ 1)
    ∧ (∀ planet, (SetPlanet s.core planet).zoom = 0)
    ∧ (∀ craft : Option Ship,
        (AddFighter s craft).2.1.core.zoom = s.core.zoom
        ∧ ((AddFighter s craft).1 = true →
            ∀ k, (AddFighter s craft).2.2 = some k → k.core.zoom = 0))
    ∧ (UnloadFighters s).1.core.zoom = s.core.zoom
    ∧ (∀ craft ∈ (UnloadFighters s).2, craft.core.zoom = 0) := by
  have htz : (moveTop g s).1.zoom = s.core.zoom := by simp [moveTop]
  obtain ⟨l1, l2⟩ := moveLanding_zoom w (moveTop g s).1 (by rw [htz]; exact h0)
    (by rw [htz]; exact h1)
  rw [htz] at l2
  refine ⟨?_, ?_, ?_, ?_, ?_, ?_, ?_, ?_⟩
  · intro hr
    rcases Move_zoom g w d s with h | ⟨_, _, _, h4, h5⟩
    · rw [h]
      exact ⟨h0, h1⟩
    · rw [h5]
      exact l1 (by rw [← h4]; exact hr)
  · rcases Move_zoom g w d s with h | ⟨_, _, _, _, h5⟩
    · rw [h, sub_self, abs_zero]
      norm_num
    · rw [h5]
      exact l2
  · intro hne
    rcases Move_zoom g w d s with h | ⟨h2, h3, h4, _, _⟩
    · exact absurd h hne
    · exact ⟨h2, h3, h4⟩
  · intro position velocity angle
    simp only [Place]
    cases hl : s.core.landingPlanet with
    | none => simp
    | some p => simpa using ⟨h0, h1⟩
  · intro planet
    rfl
  · intro craft
    cases craft with
    | none => exact ⟨rfl, fun h => by simp [AddFighter] at h⟩
    | some k =>
      simp only [AddFighter]
      split_ifs with c1 c2
      · exact ⟨rfl, fun h => by cases h⟩
      · cases hb : addToBays k s.fighterBays with
        | none => exact ⟨rfl, fun h => by cases h⟩
        | some bays =>
          refine ⟨by simp, fun _ k2 hk => ?_⟩
          simp only [Option.some.injEq] at hk
          rw [← hk]
          simp [dock, SetPlanet]
      · cases hb : addToBays k s.droneBays with
        | none => exact ⟨rfl, fun h => by cases h⟩
        | some bays =>
          refine ⟨by simp, fun _ k2 hk => ?_⟩
          simp only [Option.some.injEq] at hk
          rw [← hk]
          simp [dock, SetPlanet]
  · simp [UnloadFighters]
  · intro craft hc
    simp only [UnloadFighters, List.mem_append] at hc
    rcases hc with hc | hc
    · exact unloadBays_zoom s.core s.fighterBays craft hc
    · exact unloadBays_zoom s.core s.droneBays craft hc

/-- C35 at a ship that is landing with zoom 0.5: after the `Move` call its
zoom is within `[0, 1]` and differs from 0.5 by at most 0.02. -/
theorem C35_zoom_witness :
    |(Move stillGeometry {} {} (descendingShip (1 / 2) true false)).2.core.zoom - 1 / 2|
      ≤ 2 / 100
    ∧ (SetPlanet (descendingShip (1 / 2) true false).core (some 2)).zoom = 0 := by
  obtain ⟨_, h2, _, _, h5, _⟩ := C35_zoom stillGeometry {} {} (descendingShip (1 / 2) true false)
    (by simp [descendingShip]) (by simp [descendingShip]; norm_num)
  have e : (descendingShip (1 / 2) true false).core.zoom = 1 / 2 := by simp [descendingShip]
  rw [e] at h2
  exact ⟨h2, h5 (some 2)⟩

/-! ## C38: the projectile of the death explosion -/

/-- A ship whose explosion counter differs from its explosion total adds no
projectile for its explosion. -/
theorem fireExplosion_none (c : ShipCore) (projectiles : List Projectile)
    (h : c.explosionCount ≠ c.explosionTotal) :
    (fireExplosion c projectiles).2 = projectiles := by
  simp [fireExplosion, firePresence, h]

/-- What `Fire` adds for the explosion depends on the two counters and the
weapon only, not on the hull. -/
theorem fireExplosion_spec (c : ShipCore) (projectiles : List Projectile) (weapon : Outfit)
    (h1 : c.explosionCount = c.explosionTotal) (h2 : c.explosionWeapon = some weapon) :
    (fireExplosion c projectiles).2
      = projectiles ++ [{ weapon := weapon, position := c.position }] := by
  simp [fireExplosion, firePresence, h1, h2]

/-- C38, the failing input. The ship is healthy: hull 100 of 100, so it is
neither destroyed nor disabled. Its model has no `explode` line, so its
explosion total is 0, as is its explosion counter. `Fire`, called with an
empty list, appends the projectile that carries the explosion weapon (500
hull damage) at the position of the ship; and it does so again on the next
call. -/
theorem C38_healthy_explosion_failing_input :
    IsDestroyed plainShip = false
    ∧ IsDisabled plainShip = false
    ∧ plainShip.explosionTotal = 0
    ∧ plainShip.explosionCount = 0
    ∧ (fireExplosion plainShip []).2.length = 1
    ∧ (∀ p ∈ (fireExplosion plainShip []).2,
        p.weapon.weaponGet "hull damage" = 500 ∧ p.position = plainShip.position)
    ∧ (fireExplosion (fireExplosion plainShip []).1 (fireExplosion plainShip []).2).2.length
        = 2 := by
  have e : ∀ ps, (fireExplosion plainShip ps).2
      = ps ++ [{ weapon := { isWeapon := true,
                             weaponGet := fun a => if a = "hull damage" then 500 else 0 },
                 position := plainShip.position }] :=
    fun ps => fireExplosion_spec plainShip ps _ rfl rfl
  have e1 : (fireExplosion plainShip []).1 = firePresence plainShip := by
    simp [fireExplosion, firePresence, plainShip]
  have e2 : ∀ ps, (fireExplosion (firePresence plainShip) ps).2
      = ps ++ [{ weapon := { isWeapon := true,
                             weaponGet := fun a => if a = "hull damage" then 500 else 0 },
                 position := plainShip.position }] :=
    fun ps => fireExplosion_spec (firePresence plainShip) ps _ rfl rfl
  refine ⟨?_, ?_, rfl, rfl, ?_, ?_, ?_⟩
  · simp [IsDestroyed, plainShip]
  · simp [IsDisabled, MinimumHull, RequiredCrew, truncInt, plainShip]
    norm_num
  · rw [e]
    rfl
  · intro p hp
    rw [e] at hp
    simp only [List.nil_append, List.mem_singleton] at hp
    rw [hp]
    exact ⟨by simp, rfl⟩
  · rw [e1, e2, e]
    rfl

/-! ## C33: the knockback -/

/-- The velocity after `ApplyForce`. -/
theorem ApplyForce_velocity (g : Geometry) (m : ℚ) (c : ShipCore) (f : Point) :
    (ApplyForce g m c f).velocity
      = if m = 0 then c.velocity
        else if g.length (c.velocity.add (f.scale (1 / m))) > MaxVelocity c then
          (c.velocity.add (f.scale (1 / m))).scale
            (MaxVelocity c / g.length (c.velocity.add (f.scale (1 / m))))
        else c.velocity.add (f.scale (1 / m)) := by
  simp only [ApplyForce, MaxVelocity]
  split_ifs <;> rfl

/-- `ApplyForce` reads the velocity and the attributes only. -/
theorem ApplyForce_congr (g : Geometry) (m : ℚ) (c k : ShipCore) (f : Point)
    (hv : k.velocity = c.velocity) (ha : k.attributes = c.attributes) :
    (ApplyForce g m k f).velocity = (ApplyForce g m c f).velocity := by
  rw [ApplyForce_velocity, ApplyForce_velocity]
  simp only [MaxVelocity, hv, ha]

/-- The velocity after a hit: the force, if any is applied, is the offset from
the projectile to the ship scaled by the hit force over the distance. -/
theorem TakeDamageCore_velocity (g : Geometry) (w : World) (m : ℚ) (c : ShipCore)
    (p : Projectile) (b : Bool) :
    (TakeDamageCore g w m c p b).1.velocity
      = if p.weapon.weaponGet "hit force" ≠ 0 ∧ g.length (c.position.sub p.position) ≠ 0 then
          (ApplyForce g m c
            ((c.position.sub p.position).scale
              (p.weapon.weaponGet "hit force" / g.length (c.position.sub p.position)))).velocity
        else c.velocity := by
  simp only [TakeDamageCore]
  by_cases hf : p.weapon.weaponGet "hit force" = 0
  · simp only [hf, ne_eq, not_true_eq_false, false_and, if_false]
    split_ifs <;> rfl
  · by_cases hd : g.length (c.position.sub p.position) = 0
    · simp only [hf, ne_eq, not_false_eq_true, true_and, if_true]
      split_ifs <;> simp_all
    · simp only [ne_eq, hf, not_false_eq_true, true_and, if_true]
      split_ifs <;>
        (apply ApplyForce_congr <;> rfl)

/-- C33, amended. For every hit by a weapon with a hit force `f` other than 0
on a ship at a distance other than 0 from the projectile, `TakeDamage` applies
through `ApplyForce` the force `(f / distance) * d`, where `d` is the offset
from the projectile to the ship: a force directed from the projectile toward
the ship whose magnitude, for a length that is not negative and scales with
the vector, is `|f|`, whatever the distance. `ApplyForce` adds
the force divided by the mass to the velocity (and then caps the speed at
`MaxVelocity()`), and does nothing for a ship without mass. At distance 0, or with a hit force of 0, the velocity is
unchanged. -/
theorem C33_knockback (g : Geometry) (w : World) (m : ℚ) (c : ShipCore) (p : Projectile)
    (b : Bool) :
    (p.weapon.weaponGet "hit force" ≠ 0 → g.length (c.position.sub p.position) ≠ 0 →
      (TakeDamageCore g w m c p b).1.velocity
        = (ApplyForce g m c
            ((c.position.sub p.position).scale
              (p.weapon.weaponGet "hit force" / g.length (c.position.sub p.position)))).velocity
      ∧ ((∀ q, 0 ≤ g.length q) → (∀ q k, g.length (q.scale k) = |k| * g.length q) →
          g.length ((c.position.sub p.position).scale
              (p.weapon.weaponGet "hit force" / g.length (c.position.sub p.position)))
            = |p.weapon.weaponGet "hit force"|)
      ∧ (m ≠ 0 →
          g.length (c.velocity.add
            (((c.position.sub p.position).scale
              (p.weapon.weaponGet "hit force" / g.length (c.position.sub p.position))).scale
              (1 / m))) ≤ MaxVelocity c →
          (TakeDamageCore g w m c p b).1.velocity
            = c.velocity.add
                (((c.position.sub p.position).scale
                  (p.weapon.weaponGet "hit force"
                    / g.length (c.position.sub p.position))).scale (1 / m)))
      ∧ (m = 0 → (TakeDamageCore g w m c p b).1.velocity = c.velocity))
    ∧ ((p.weapon.weaponGet "hit force" = 0 ∨ g.length (c.position.sub p.position) = 0) →
        (TakeDamageCore g w m c p b).1.velocity = c.velocity) := by
  have hv := TakeDamageCore_velocity g w m c p b
  constructor
  · intro hf hd
    rw [if_pos ⟨hf, hd⟩] at hv
    refine ⟨hv, ?_, ?_, ?_⟩
    · intro hnn hhom
      have hpos : 0 < g.length (c.position.sub p.position) :=
        lt_of_le_of_ne (hnn _) (Ne.symm hd)
      rw [hhom, abs_div, abs_of_pos hpos, div_mul_cancel₀ _ hd]
    · intro hm hcap
      rw [hv, ApplyForce_velocity, if_neg hm, if_neg (not_lt.mpr hcap)]
    · intro hm
      rw [hv, ApplyForce_velocity, if_pos hm]
  · intro h
    rw [if_neg] at hv
    · exact hv
    · rintro ⟨h1, h2⟩
      rcases h with h | h
      · exact h1 h
      · exact h2 h

/-- The hit of the force shot on the pushed ship at the point `(x, 0)`, for a
positive `x` : the ship is pushed to the velocity `(3, 0)`. -/
theorem pushedShip_hit (x : ℚ) (hx : 0 < x) :
    (TakeDamage axisGeometry {} (pushedShip x) forceShot false).1.core.velocity = ⟨3, 0⟩ := by
  have hm : Mass (pushedShip x) = 2 := by
    simp [Mass, carriedMass, pushedShip]
  have hd : axisGeometry.length ((pushedShip x).core.position.sub forceShot.position) = x := by
    simp [axisGeometry, pushedShip, forceShot, Point.sub, abs_of_pos hx]
  have hf : forceShot.weapon.weaponGet "hit force" = 6 := by simp [forceShot]
  have hF : ((pushedShip x).core.position.sub forceShot.position).scale (6 / x) = ⟨6, 0⟩ := by
    simp [pushedShip, forceShot, Point.sub, Point.scale]
    field_simp
  simp only [TakeDamage, core_mk, hm]
  rw [TakeDamageCore_velocity, hd, hf, if_pos ⟨by norm_num, hx.ne.symm⟩, hF,
    ApplyForce_velocity, if_neg (by norm_num)]
  have hv : (pushedShip x).core.velocity.add ((⟨6, 0⟩ : Point).scale (1 / 2)) = ⟨3, 0⟩ := by
    simp [pushedShip, Point.add, Point.scale]
    norm_num
  rw [hv]
  have hl : axisGeometry.length ⟨3, 0⟩ = 3 := by
    simp [axisGeometry]
  have hmax : MaxVelocity (pushedShip x).core = 100 := by
    simp [MaxVelocity, pushedShip]
  rw [hl, hmax, if_neg (by norm_num)]

/-- C33 at the force shot and the ship at distance 10: the force has
magnitude 6 and the ship, of mass 2, gains the velocity (3, 0). -/
theorem C33_knockback_witness :
    axisGeometry.length
        (((pushedShip 10).core.position.sub forceShot.position).scale
          (forceShot.weapon.weaponGet "hit force"
            / axisGeometry.length ((pushedShip 10).core.position.sub forceShot.position)))
      = 6 := by
  have hd : axisGeometry.length ((pushedShip 10).core.position.sub forceShot.position)
      = 10 := by
    simp [axisGeometry, pushedShip, forceShot, Point.sub]
  have hf : forceShot.weapon.weaponGet "hit force" = 6 := by simp [forceShot]
  obtain ⟨h, _⟩ := C33_knockback axisGeometry {} 2 (pushedShip 10).core forceShot false
  obtain ⟨_, h2, _⟩ := h (by rw [hf]; norm_num) (by rw [hd]; norm_num)
  have h3 := h2
    (by
      intro q
      simp only [axisGeometry]
      positivity)
    (by
      intro q k
      simp only [axisGeometry, Point.scale, abs_mul]
      ring)
  rw [h3, hf]
  norm_num

/-- C33 as stated fails: the same weapon, with hit force 6, pushes the ship of
mass 2 to the same velocity (3, 0) from the distance 10 and from the distance
20: the force has magnitude 6 both times, not 6/10 and 6/20. -/
theorem C33_counterexample :
    axisGeometry.length ((pushedShip 10).core.position.sub forceShot.position) = 10
    ∧ axisGeometry.length ((pushedShip 20).core.position.sub forceShot.position) = 20
    ∧ (TakeDamage axisGeometry {} (pushedShip 10) forceShot false).1.core.velocity = ⟨3, 0⟩
    ∧ (TakeDamage axisGeometry {} (pushedShip 20) forceShot false).1.core.velocity = ⟨3, 0⟩
    ∧ axisGeometry.length
        (((pushedShip 20).core.position.sub forceShot.position).scale
          (forceShot.weapon.weaponGet "hit force"
            / axisGeometry.length ((pushedShip 20).core.position.sub forceShot.position)))
      = 6
    ∧ (6 : ℚ) ≠ 6 / 20 := by
  refine ⟨?_, ?_, pushedShip_hit 10 (by norm_num), pushedShip_hit 20 (by norm_num), ?_, ?_⟩
  · simp [axisGeometry, pushedShip, forceShot, Point.sub]
  · simp [axisGeometry, pushedShip, forceShot, Point.sub]
  · simp [axisGeometry, pushedShip, forceShot, Point.sub, Point.scale]
    norm_num
  · norm_num

/-! ## C37: the speed under thrust -/

/-- A forward thrust that is applied adds the thrust over the mass, along the
facing, to the velocity. -/
theorem flightThrust_forward (g : Geometry) (mass : ℚ) (c : ShipCore)
    (h : (flightThrust g mass c).2 > 0) :
    (flightThrust g mass c).1.velocity
      = c.velocity.add ((g.angleUnit c.angle).scale (c.attributes.get "thrust" / mass)) := by
  cases hf : c.commands.forward <;> cases hb : c.commands.back <;>
    simp only [flightThrust, hf, hb] at h ⊢ <;> norm_num at h ⊢ <;>
    split_ifs at h ⊢ <;> simp_all <;> (exfalso; linarith)

/-- The speed after `ApplyForce` on a ship with mass is at most
`MaxVelocity()`, when that is not negative. -/
theorem ApplyForce_speed (g : Geometry) (m : ℚ) (c : ShipCore) (f : Point)
    (hhom : ∀ q k, g.length (q.scale k) = |k| * g.length q)
    (hm : m ≠ 0) (hmax : 0 ≤ MaxVelocity c) :
    g.length (ApplyForce g m c f).velocity ≤ MaxVelocity c := by
  rw [ApplyForce_velocity, if_neg hm]
  split_ifs with h
  · have hpos : 0 < g.length (c.velocity.add (f.scale (1 / m))) := lt_of_le_of_lt hmax h
    rw [hhom, abs_div, abs_of_nonneg hmax, abs_of_pos hpos, div_mul_cancel₀ _ hpos.ne.symm]
  · exact not_lt.mp h

/-- C37. For a length function that scales with the vector, obeys the
triangle inequality and gives every facing the length 1, and for every ship
with thrust >= 0 and 0 < drag <= mass: if the ship is not disabled, its pilot
is not in error, its speed is at most `MaxVelocity() = thrust / drag`, and a
forward thrust is applied without afterburner, then after the thrust and drag
update of the steering step its speed is still at most `MaxVelocity()`; and
after `ApplyForce` the speed is at most `MaxVelocity()` for every force. -/
theorem C37_MaxVelocity (g : Geometry) (mass turnRate : ℚ) (c : ShipCore)
    (hhom : ∀ q k, g.length (q.scale k) = |k| * g.length q)
    (htri : ∀ p q, g.length (p.add q) ≤ g.length p + g.length q)
    (hunit : ∀ a, g.length (g.angleUnit a) = 1)
    (hT : 0 ≤ c.attributes.get "thrust") (hD : 0 < c.attributes.get "drag")
    (hDm : c.attributes.get "drag" ≤ mass) :
    MaxVelocity c = c.attributes.get "thrust" / c.attributes.get "drag"
    ∧ (c.isDisabled = false → c.pilotError = 0 →
        (flightThrust g mass c).2 > 0 →
        (flightAfterburner g mass (flightThrust g mass c).1).2 = false →
        g.length c.velocity ≤ MaxVelocity c →
        g.length (flightSteer g mass turnRate c).velocity ≤ MaxVelocity c)
    ∧ (∀ force, g.length (ApplyForce g mass c force).velocity ≤ MaxVelocity c) := by
  have hm : 0 < mass := lt_of_lt_of_le hD hDm
  have hmax : 0 ≤ MaxVelocity c := div_nonneg hT hD.le
  refine ⟨rfl, ?_, fun force => ApplyForce_speed g mass c force hhom hm.ne.symm hmax⟩
  intro hd hp ht ha hv
  have e1 := (flightSteer_velocity g mass turnRate c).2.1 hd hp (Or.inl (ne_of_gt ht))
  rw [flightAfterburner_idle g mass _ ha, flightThrust_forward g mass c ht] at e1
  rw [e1, hhom]
  have hfac : 0 ≤ 1 - c.attributes.get "drag" / mass := by
    rw [sub_nonneg, div_le_one hm]
    exact hDm
  have hadd : g.length (c.velocity.add
      ((g.angleUnit c.angle).scale (c.attributes.get "thrust" / mass)))
      ≤ g.length c.velocity + c.attributes.get "thrust" / mass := by
    refine le_trans (htri _ _) ?_
    rw [hhom, hunit, mul_one, abs_of_nonneg (div_nonneg hT hm.le)]
  rw [abs_of_nonneg hfac]
  have hv2 : g.length c.velocity ≤ c.attributes.get "thrust" / c.attributes.get "drag" := hv
  have hk : (1 - c.attributes.get "drag" / mass)
      * (c.attributes.get "thrust" / c.attributes.get "drag" + c.attributes.get "thrust" / mass)
      = c.attributes.get "thrust" / c.attributes.get "drag"
        - c.attributes.get "thrust" * c.attributes.get "drag" / (mass * mass) := by
    field_simp
    ring
  have hpos : 0 ≤ c.attributes.get "thrust" * c.attributes.get "drag" / (mass * mass) :=
    div_nonneg (mul_nonneg hT hD.le) (mul_nonneg hm.le hm.le)
  calc (1 - c.attributes.get "drag" / mass)
        * g.length (c.velocity.add
            ((g.angleUnit c.angle).scale (c.attributes.get "thrust" / mass)))
      ≤ (1 - c.attributes.get "drag" / mass)
        * (c.attributes.get "thrust" / c.attributes.get "drag"
            + c.attributes.get "thrust" / mass) :=
        mul_le_mul_of_nonneg_left (by linarith) hfac
    _ = c.attributes.get "thrust" / c.attributes.get "drag"
        - c.attributes.get "thrust" * c.attributes.get "drag" / (mass * mass) := hk
    _ ≤ MaxVelocity c := by
        show _ ≤ c.attributes.get "thrust" / c.attributes.get "drag"
        linarith

/-- C37 at a ship of mass 10 with thrust 20 and drag 2 that flies at speed 5
of at most 10: after a tick of forward thrust its speed is at most 10, and a
force of 1000 leaves it at most 10 as well. -/
theorem C37_MaxVelocity_witness :
    axisGeometry.length (flightSteer axisGeometry 10 1 (thrustingShip 5)).velocity ≤ 10
    ∧ axisGeometry.length (ApplyForce axisGeometry 10 (thrustingShip 5) ⟨1000, 0⟩).velocity
        ≤ 10 := by
  have hmax : MaxVelocity (thrustingShip 5) = 10 := by
    simp [MaxVelocity, thrustingShip]
    norm_num
  obtain ⟨_, h2, h3⟩ := C37_MaxVelocity axisGeometry 10 1 (thrustingShip 5)
    (by
      intro q k
      simp only [axisGeometry, Point.scale, abs_mul]
      ring)
    (by
      intro p q
      simp only [axisGeometry, Point.add]
      have h1 := abs_add p.x q.x
      have h2 := abs_add p.y q.y
      linarith)
    (by
      intro a
      simp [axisGeometry])
    (by simp [thrustingShip])
    (by simp [thrustingShip])
    (by simp [thrustingShip]; norm_num)
  rw [hmax] at h2 h3
  refine ⟨h2 (by simp [thrustingShip]) (by simp [thrustingShip]) ?_ ?_ ?_, h3 _⟩
  · simp [flightThrust, thrustingShip]
    norm_num
  · simp [flightAfterburner, flightThrust, thrustingShip]
  · simp [axisGeometry, thrustingShip]
    norm_num

/-! ## C34: the jump counter -/

/-- The end of a hyperspace tick leaves the counter alone, or, for a ship
without jump drive and without jump target, resets it to 0. -/
theorem hyperspaceTail_count_cases (g : Geometry) (w : World) (direction : Int) (j : Bool)
    (c : ShipCore) :
    (hyperspaceTail g w direction j c).hyperspaceCount = c.hyperspaceCount
    ∨ (j = false ∧ c.hyperspaceSystem = none
        ∧ (hyperspaceTail g w direction j c).hyperspaceCount = 0) := by
  cases j with
  | true => exact Or.inl (hyperspaceTail_count_jump g w direction c)
  | false =>
    cases hs : c.hyperspaceSystem with
    | some t => exact Or.inl (hyperspaceTail_count g w direction false c (by simp [hs]))
    | none =>
      by_cases hv : g.length (c.velocity.add ((g.angleUnit c.angle).scale (2 * (direction : ℚ))))
          ≤ MaxVelocity c
      · right
        refine ⟨rfl, rfl, ?_⟩
        simp only [hyperspaceTail]
        split <;> simp [hs, hv, MaxVelocity] <;> simp_all [MaxVelocity]
      · left
        simp only [hyperspaceTail]
        split <;> simp [hs, hv, MaxVelocity] <;> simp_all [MaxVelocity]

/-- The counter and the jump target after one tick of the hyperspace phase. -/
theorem moveHyperspace_count (g : Geometry) (w : World) (c : ShipCore) :
    ((moveHyperspace g w c).hyperspaceCount
        = c.hyperspaceCount + (if c.hyperspaceSystem.isSome then 1 else -1)
      ∨ (c.attributes.get "jump drive" = 0
          ∧ (c.hyperspaceCount + (if c.hyperspaceSystem.isSome then 1 else -1) = 100
              ∨ c.hyperspaceSystem = none)
          ∧ (moveHyperspace g w c).hyperspaceCount = 0))
    ∧ (moveHyperspace g w c).hyperspaceSystem
        = (if c.hyperspaceCount + (if c.hyperspaceSystem.isSome then 1 else -1) = 100 then none
           else c.hyperspaceSystem) := by
  simp only [moveHyperspace]
  by_cases hn : c.hyperspaceCount + (if c.hyperspaceSystem.isSome then 1 else -1) = 100
  · rw [if_pos hn, if_pos hn]
    by_cases hj : c.attributes.get "jump drive" = 0
    · simp only [hj, ne_eq, not_true_eq_false, decide_False, Bool.false_eq_true, if_false]
      refine ⟨?_, by simp⟩
      rcases hyperspaceTail_count_cases g w (-1) false
        { c with
          fuel := c.fuel - (if c.hyperspaceSystem.isSome then 1 else 0)
            - (c.attributes.get "jump fuel" - 100)
          hyperspaceCount := c.hyperspaceCount + (if c.hyperspaceSystem.isSome then 1 else -1)
          currentSystem := c.hyperspaceSystem
          hyperspaceSystem := none, targetSystem := none, targetPlanet := none
          position := ((arrivalTarget w
              { c with
                fuel := c.fuel - (if c.hyperspaceSystem.isSome then 1 else 0)
                  - (c.attributes.get "jump fuel" - 100)
                hyperspaceCount :=
                  c.hyperspaceCount + (if c.hyperspaceSystem.isSome then 1 else -1)
                currentSystem := c.hyperspaceSystem
                hyperspaceSystem := none, targetSystem := none, targetPlanet := none }).sub
              ((g.angleUnit c.angle).scale ((100 * 100) * (1 / 2) * 2 + 1000))).add
              c.hyperspaceOffset
          velocity := (g.angleUnit c.angle).scale (g.length c.velocity) } with h | ⟨_, _, h⟩
      · left
        exact h
      · right
        exact ⟨trivial, Or.inl hn, h⟩
    · simp only [hj, ne_eq, not_false_eq_true, decide_True, if_true]
      refine ⟨Or.inl trivial, ?_⟩
      first | rfl | trivial
  · rw [if_neg hn, if_neg hn]
    refine ⟨?_, by simp⟩
    rcases hyperspaceTail_count_cases g w (if c.hyperspaceSystem.isSome then 1 else -1)
      (decide (c.attributes.get "jump drive" ≠ 0))
      { c with
        fuel := c.fuel - (if c.hyperspaceSystem.isSome then 1 else 0)
        hyperspaceCount := c.hyperspaceCount + (if c.hyperspaceSystem.isSome then 1 else -1) }
      with h | ⟨h1, h2, h3⟩
    · left
      exact h
    · right
      refine ⟨by simpa using h1, Or.inr h2, h3⟩

/-- The jump target after line 421 is the one before the call, or null. -/
theorem movePresence_hyperspaceSystem_cases (c : ShipCore) :
    (movePresence c).2.hyperspaceSystem = c.hyperspaceSystem
    ∨ (movePresence c).2.hyperspaceSystem = none := by
  simp only [movePresence]
  split_ifs <;> simp

/-- The threshold below which a ship is disabled is not negative when the
`"hull"` attribute is not. -/
theorem MinimumHull_nonneg (c : ShipCore) (h : 0 ≤ c.attributes.get "hull") :
    0 ≤ MinimumHull c := by
  simp only [MinimumHull]
  exact le_trans (mul_nonneg (by norm_num) h) (le_max_left _ _)

/-- A destroyed ship whose `"hull"` attribute is not negative is disabled. -/
theorem IsDisabled_of_destroyed (c : ShipCore) (h : 0 ≤ c.attributes.get "hull")
    (hd : IsDestroyed c = true) : IsDisabled c = true := by
  have hm := MinimumHull_nonneg c h
  simp only [IsDestroyed, decide_eq_true_eq] at hd
  simp only [IsDisabled, Bool.or_eq_true, decide_eq_true_eq]
  exact Or.inl (lt_of_lt_of_le hd hm)

/-- The counter and the jump target of the hyperspace phase of `Move`: the
counter goes up by one when the jump target is set after line 421, down by one
when it is not, or is reset to 0 for a ship without jump drive, on the
hundredth tick or without jump target. -/
theorem Move_hyperspace_count (g : Geometry) (w : World) (d : MoveDraws) (s : Ship)
    (hp : (movePresence s.core).1 = true) (hd : IsDestroyed (moveTop g s).1 = false)
    (hh : (movePresence s.core).2.hyperspaceSystem ≠ none ∨ s.core.hyperspaceCount ≠ 0) :
    ((Move g w d s).2.core.hyperspaceCount
        = s.core.hyperspaceCount
          + (if (movePresence s.core).2.hyperspaceSystem.isSome then 1 else -1)
      ∨ (s.core.attributes.get "jump drive" = 0
          ∧ (s.core.hyperspaceCount
                + (if (movePresence s.core).2.hyperspaceSystem.isSome then 1 else -1) = 100
              ∨ (movePresence s.core).2.hyperspaceSystem = none)
          ∧ (Move g w d s).2.core.hyperspaceCount = 0))
    ∧ (Move g w d s).2.core.hyperspaceSystem
        = (if s.core.hyperspaceCount
              + (if (movePresence s.core).2.hyperspaceSystem.isSome then 1 else -1) = 100
           then none else (movePresence s.core).2.hyperspaceSystem) := by
  have hts : (moveTop g s).1.hyperspaceSystem = (movePresence s.core).2.hyperspaceSystem := by
    simp [moveTop]
  have htc : (moveTop g s).1.hyperspaceCount = s.core.hyperspaceCount := by simp [moveTop]
  have hta : (moveTop g s).1.attributes = s.core.attributes := by simp [moveTop]
  rw [Move_hyperspace g w d s hp hd hh]
  clear hd
  generalize moveTop g s = T at *
  have h := moveHyperspace_count g w T.1
  rw [hts, htc, hta] at h
  simpa using h

/-- A `Move` call keeps the jump counter invariant, for a ship whose `"hull"`
attribute is not negative. -/
theorem Move_jumpCounterOk (g : Geometry) (w : World) (d : MoveDraws) (s : Ship)
    (hH : 0 ≤ s.core.attributes.get "hull") (h : jumpCounterOk s.core) :
    jumpCounterOk (Move g w d s).2.core := by
  obtain ⟨i0, i1, i2⟩ := h
  have hps := movePresence_hyperspaceSystem_cases s.core
  have hts : (moveTop g s).1.hyperspaceSystem = (movePresence s.core).2.hyperspaceSystem := by
    simp [moveTop]
  have htc : (moveTop g s).1.hyperspaceCount = s.core.hyperspaceCount := by simp [moveTop]
  have hta : (moveTop g s).1.attributes = s.core.attributes := by simp [moveTop]
  have htm : (moveTop g s).1.commands = s.core.commands := by simp [moveTop]
  have keep : ∀ k : ShipCore, k.hyperspaceCount = s.core.hyperspaceCount →
      (k.hyperspaceSystem = s.core.hyperspaceSystem ∨ k.hyperspaceSystem = none) →
      jumpCounterOk k := by
    intro k hk1 hk2
    refine ⟨by rw [hk1]; exact i0, by rw [hk1]; exact i1, ?_⟩
    intro hne
    rw [hk1]
    rcases hk2 with hk2 | hk2
    · exact i2 (by rw [← hk2]; exact hne)
    · exact absurd hk2 hne
  cases hp : (movePresence s.core).1 with
  | false =>
    rw [Move_forgotten g w d s hp]
    exact keep _ (by simp) (by simpa using hps)
  | true =>
    cases hd : IsDestroyed (moveTop g s).1 with
    | true =>
      rw [Move_destroyed g w d s hp hd]
      generalize moveTop g s = T at *
      cases hq : (moveDestroyed d T.1).1 with
      | some b =>
        exact keep _ (by simp [htc]) (by simpa [hts] using hps)
      | none =>
        have hdis : IsDisabled (mk (moveDestroyed d T.1).2 T.2.1 T.2.2).core = true := by
          apply IsDisabled_of_destroyed
          · simp [hta, hH]
          · simpa [IsDestroyed] using hd
        have hcan := CanHyperspace_disabled g w (mk (moveDestroyed d T.1).2 T.2.1 T.2.2) hdis
        have e := moveFlight_hyperspaceSystem g w d (mk (moveDestroyed d T.1).2 T.2.1 T.2.2)
        rw [hcan] at e
        simp only [core_mk, moveDestroyed_hyperspaceSystem, Bool.false_eq_true, and_false,
          if_false] at e
        refine keep _ (by simp [htc]) ?_
        simp only [core_mk, e, hts]
        split_ifs <;> exact hps
    | false =>
      by_cases hh : (movePresence s.core).2.hyperspaceSystem ≠ none
          ∨ s.core.hyperspaceCount ≠ 0
      · obtain ⟨c1, c2⟩ := Move_hyperspace_count g w d s hp hd hh
        cases hx : (movePresence s.core).2.hyperspaceSystem with
        | some t =>
          have hs2 : s.core.hyperspaceSystem = some t := by
            rcases hps with h | h
            · rw [← h, hx]
            · rw [hx] at h
              cases h
          have hlt := i2 (by rw [hs2]; simp)
          rw [hx] at c1 c2
          simp only [Option.isSome_some, if_true] at c1 c2
          refine ⟨?_, ?_, ?_⟩
          · rcases c1 with c1 | ⟨_, _, c1⟩ <;> omega
          · rcases c1 with c1 | ⟨_, _, c1⟩ <;> omega
          · intro hne
            rw [c2] at hne
            split_ifs at hne with h100
            · exact absurd rfl hne
            · rcases c1 with c1 | ⟨_, _, c1⟩ <;> omega
        | none =>
          have hc0 : s.core.hyperspaceCount ≠ 0 := by
            rcases hh with h | h
            · exact absurd hx h
            · exact h
          rw [hx] at c1 c2
          simp only [Option.isSome_none, Bool.false_eq_true, if_false] at c1 c2
          refine ⟨?_, ?_, ?_⟩
          · rcases c1 with c1 | ⟨_, _, c1⟩ <;> omega
          · rcases c1 with c1 | ⟨_, _, c1⟩ <;> omega
          · intro hne
            rw [c2] at hne
            split_ifs at hne <;> exact absurd rfl hne
      · rw [not_or, not_not, not_not] at hh
        by_cases hl : s.core.landingPlanet ≠ none ∨ s.core.zoom < 1
        · rw [Move_landing g w d s hp hd hh.1 hh.2 hl]
          exact keep _ (by simp [htc]) (by simpa [hts] using hps)
        · rw [not_or, not_not] at hl
          rw [Move_flight g w d s hp hd hh.1 hh.2 hl.1 hl.2]
          refine ⟨?_, ?_, ?_⟩
          · simp [htc, hh.2]
          · simp [htc, hh.2]
          · intro _
            simp [htc, hh.2]

/-- `WasCaptured` keeps the jump counter invariant: it clears the jump target
and leaves the counter alone. -/
theorem WasCaptured_jumpCounterOk (c capturer : ShipCore) (h : jumpCounterOk c) :
    jumpCounterOk (WasCaptured c capturer).1 := by
  obtain ⟨i0, i1, _⟩ := h
  exact ⟨i0, i1, fun hne => absurd rfl hne⟩

/-- The invariant holds after every sequence of `Move` and `WasCaptured`
calls. -/
theorem runCalls_jumpCounterOk (g : Geometry) (calls : List ShipCall) :
    ∀ s : Ship, 0 ≤ s.core.attributes.get "hull" → jumpCounterOk s.core →
      jumpCounterOk (runCalls g calls s).core
      ∧ (runCalls g calls s).core.attributes = s.core.attributes := by
  induction calls with
  | nil => intro s _ h; exact ⟨h, rfl⟩
  | cons call rest ih =>
    intro s hH h
    cases call with
    | move w d =>
      have ha := (Move_frame g w d s).1
      obtain ⟨r1, r2⟩ := ih (Move g w d s).2 (by rw [ha]; exact hH)
        (Move_jumpCounterOk g w d s hH h)
      exact ⟨r1, by rw [← ha]; exact r2⟩
    | captured capturer =>
      have ha : (mk (WasCaptured s.core capturer).1 s.fighterBays s.droneBays).core.attributes
          = s.core.attributes := by
        rw [core_mk]
        exact (WasCaptured_crews s.core capturer).2.2.2
      obtain ⟨r1, r2⟩ := ih (mk (WasCaptured s.core capturer).1 s.fighterBays s.droneBays)
        (by rw [ha]; exact hH)
        (by rw [core_mk]; exact WasCaptured_jumpCounterOk s.core capturer h)
      exact ⟨r1, by rw [← ha]; exact r2⟩

/-- C34, amended. For a ship whose `"hull"` attribute is not negative, in
every state reached from `hyperspaceCount = 0` (with a null `hyperspaceSystem`
or any other) by `Move` and `WasCaptured` calls: `0 <= hyperspaceCount <= 100`, and
`hyperspaceSystem` is non-null only while `hyperspaceCount < 100`; and a `Move`
call made in such a state that is in the hyperspace phase changes the counter
by exactly +1 when `hyperspaceSystem` is set (after line 421), except that on
the hundredth tick of a ship without jump drive the counter, having reached
100, may be reset to 0 in the same call, and by -1, or a reset to 0 for a ship
without jump drive, when it is not. -/
theorem C34_jump_counter (g : Geometry) (calls : List ShipCall) (s : Ship)
    (w : World) (d : MoveDraws)
    (hH : 0 ≤ s.core.attributes.get "hull") (hc : s.core.hyperspaceCount = 0) :
    (0 ≤ (runCalls g calls s).core.hyperspaceCount
      ∧ (runCalls g calls s).core.hyperspaceCount ≤ 100
      ∧ ((runCalls g calls s).core.hyperspaceSystem ≠ none →
          (runCalls g calls s).core.hyperspaceCount < 100))
    ∧ ((movePresence (runCalls g calls s).core).1 = true →
        IsDestroyed (moveTop g (runCalls g calls s)).1 = false →
        ((movePresence (runCalls g calls s).core).2.hyperspaceSystem ≠ none
          ∨ (runCalls g calls s).core.hyperspaceCount ≠ 0) →
        ((movePresence (runCalls g calls s).core).2.hyperspaceSystem ≠ none →
          (Move g w d (runCalls g calls s)).2.core.hyperspaceCount
              = (runCalls g calls s).core.hyperspaceCount + 1
            ∨ ((runCalls g calls s).core.attributes.get "jump drive" = 0
                ∧ (runCalls g calls s).core.hyperspaceCount + 1 = 100
                ∧ (Move g w d (runCalls g calls s)).2.core.hyperspaceCount = 0))
        ∧ ((movePresence (runCalls g calls s).core).2.hyperspaceSystem = none →
          (Move g w d (runCalls g calls s)).2.core.hyperspaceCount
              = (runCalls g calls s).core.hyperspaceCount - 1
            ∨ ((runCalls g calls s).core.attributes.get "jump drive" = 0
                ∧ (Move g w d (runCalls g calls s)).2.core.hyperspaceCount = 0))) := by
  have h0 : jumpCounterOk s.core := by
    refine ⟨by rw [hc], by rw [hc]; norm_num, fun _ => by rw [hc]; norm_num⟩
  obtain ⟨⟨i0, i1, i2⟩, _⟩ := runCalls_jumpCounterOk g calls s hH h0
  refine ⟨⟨i0, i1, i2⟩, ?_⟩
  intro hp hd hh
  obtain ⟨c1, _⟩ := Move_hyperspace_count g w d (runCalls g calls s) hp hd hh
  constructor
  · intro hx
    cases hx2 : (movePresence (runCalls g calls s).core).2.hyperspaceSystem with
    | none => exact absurd hx2 hx
    | some t =>
      rw [hx2] at c1
      simp only [Option.isSome_some, if_true] at c1
      rcases c1 with c1 | ⟨a1, a2, a3⟩
      · exact Or.inl c1
      · right
        rcases a2 with a2 | a2
        · exact ⟨a1, a2, a3⟩
        · cases a2
  · intro hx
    rw [hx] at c1
    simp only [Option.isSome_none, Bool.false_eq_true, if_false] at c1
    rcases c1 with c1 | ⟨a1, _, a3⟩
    · left
      rw [c1]
      ring
    · exact Or.inr ⟨a1, a3⟩

/-- The hundredth tick of a jump of a ship without jump drive whose speed,
after the last step of 2 is taken off, is within `MaxVelocity()`: the counter
is reset to 0 in the same call. -/
theorem moveHyperspace_arrive_reset (g : Geometry) (w : World) (c : ShipCore) (t : SystemId)
    (hs : c.hyperspaceSystem = some t) (hn : c.hyperspaceCount + 1 = 100)
    (hj : c.attributes.get "jump drive" = 0)
    (hv : g.length (((g.angleUnit c.angle).scale (g.length c.velocity)).add
        ((g.angleUnit c.angle).scale (2 * ((-1 : Int) : ℚ)))) ≤ MaxVelocity c) :
    (moveHyperspace g w c).hyperspaceCount = 0 := by
  simp only [moveHyperspace, hs, Option.isSome_some, if_true]
  rw [if_pos hn]
  simp only [hj, ne_eq, not_true_eq_false, decide_False, Bool.false_eq_true, if_false]
  simp only [hyperspaceTail]
  split <;> simp [MaxVelocity] <;> simp_all [MaxVelocity]

/-- C34 at a ship at the start of a jump to system 7 (counter 0), after one
`Move` call and a capture: the counter is within `[0, 100]`. -/
theorem C34_jump_counter_witness :
    0 ≤ (runCalls stillGeometry [ShipCall.move {} {}, ShipCall.captured (crewShip "" 100 3 100 1)]
          (mk { departingShip.core with hyperspaceCount := 0 } [] [])).core.hyperspaceCount
    ∧ (runCalls stillGeometry
          [ShipCall.move {} {}, ShipCall.captured (crewShip "" 100 3 100 1)]
          (mk { departingShip.core with hyperspaceCount := 0 } [] [])).core.hyperspaceCount
        ≤ 100 := by
  obtain ⟨⟨h1, h2, _⟩, _⟩ := C34_jump_counter stillGeometry
    [ShipCall.move {} {}, ShipCall.captured (crewShip "" 100 3 100 1)]
    (mk { departingShip.core with hyperspaceCount := 0 } [] []) {} {}
    (by simp [departingShip]) (by simp)
  exact ⟨h1, h2⟩

/-- C34 as stated fails: the fast ship, without jump drive, is in tick 99 of
its jump with the jump target set; the `Move` call brings it to system 7 and
leaves the counter at 0, not at 99 + 1: the speed of 196 that it arrives with
is within its `MaxVelocity()` of 1000, so the counter is reset in the same
call. -/
theorem C34_counterexample :
    fastJumper.core.hyperspaceCount = 99
    ∧ fastJumper.core.hyperspaceSystem = some 7
    ∧ (movePresence fastJumper.core).2.hyperspaceSystem = some 7
    ∧ fastJumper.core.attributes.get "jump drive" = 0
    ∧ (Move axisGeometry {} {} fastJumper).1 = true
    ∧ (Move axisGeometry {} {} fastJumper).2.core.currentSystem = some 7
    ∧ (Move axisGeometry {} {} fastJumper).2.core.hyperspaceCount = 0
    ∧ (Move axisGeometry {} {} fastJumper).2.core.hyperspaceCount
        ≠ fastJumper.core.hyperspaceCount + 1 := by
  have hp : (movePresence fastJumper.core).1 = true := by
    rw [movePresence_ret]
    exact ⟨Or.inl (by simp [fastJumper]), by simp [fastJumper]⟩
  have hps : (movePresence fastJumper.core).2.hyperspaceSystem = some 7 := by
    rw [movePresence_hyperspaceSystem fastJumper.core hp, if_neg]
    · simp [fastJumper]
    · simp [fastJumper]
  have hhn := moveTop_hull_nonneg axisGeometry fastJumper (by simp [fastJumper])
    (by simp [fastJumper]) (by simp [fastJumper])
  have hd : IsDestroyed (moveTop axisGeometry fastJumper).1 = false := by
    simp only [IsDestroyed, decide_eq_false_iff_not, not_lt]
    exact hhn
  have hts : (moveTop axisGeometry fastJumper).1.hyperspaceSystem = some 7 := by
    simp only [moveTop, moveRegen_hyperspaceSystem, moveClamp_hyperspaceSystem]
    exact hps
  have htc : (moveTop axisGeometry fastJumper).1.hyperspaceCount = 99 := by
    simp [moveTop, fastJumper]
  have hta : (moveTop axisGeometry fastJumper).1.attributes = fastJumper.core.attributes := by
    simp [moveTop]
  have htv : (moveTop axisGeometry fastJumper).1.velocity = ⟨198, 0⟩ := by
    simp [moveTop, fastJumper]
  have e := Move_hyperspace axisGeometry {} {} fastJumper hp hd (Or.inl (by rw [hps]; simp))
  have hcount : (moveHyperspace axisGeometry {} (moveTop axisGeometry fastJumper).1).hyperspaceCount
      = 0 := by
    apply moveHyperspace_arrive_reset axisGeometry {} _ 7 hts (by rw [htc]; norm_num)
    · rw [hta]
      simp [fastJumper]
    · simp only [MaxVelocity, hta, htv]
      simp [axisGeometry, fastJumper, Point.scale, Point.add]
      norm_num
  have hcur := (moveHyperspace_arrive axisGeometry {} (moveTop axisGeometry fastJumper).1 7 hts
    (by rw [htc]; norm_num)).1
  refine ⟨by simp [fastJumper], by simp [fastJumper], hps, by simp [fastJumper], ?_, ?_, ?_, ?_⟩
  · rw [e]
  · rw [e, core_mk]
    exact hcur
  · rw [e, core_mk]
    exact hcount
  · rw [e, core_mk, hcount]
    simp [fastJumper]

end Ship

end EndlessSky
